import Mathlib

/-!
# SoAd: a shallow embedding of `source/SoAd.c`

The C module keeps two global status arrays (one entry per socket connection,
one per socket group) and a pointer to an immutable configuration.  Here the
arrays are total maps from the index to the entry, of which the C code only
ever touches the indices below `SOAD_CFG_CONNECTION_COUNT` and
`SOAD_CFG_CONNECTIONGROUP_COUNT`; the configuration is a record of tables and
the two counts are the lengths of its tables.  Every function of the C file
becomes a function from the state before the call to the state after it.

Calls that leave the module (the upper layer callbacks of a route and the
`TcpIp_*` functions) are answered by an `SoAd_Env`, which may look at every
call made so far; each call is appended to the `trace` of the state.
-/

namespace SoAd

/-! ## Values from the headers -/

/-- Modelled from the spec: `Std_Types.h` is not among the sources; `boolean`
is an 8 bit unsigned integer, kept as a natural number. -/
abbrev boolean := Nat

/-- Modelled from the spec: `Std_Types.h` is not among the sources;
`Std_ReturnType` is an 8 bit unsigned integer, kept as a natural number. -/
abbrev Std_ReturnType := Nat

/-- Modelled from the spec: `Std_Types.h` is not among the sources; the
AUTOSAR value of `TRUE`. -/
def TRUE : boolean := 1

/-- Modelled from the spec: `Std_Types.h` is not among the sources; the
AUTOSAR value of `FALSE`. -/
def FALSE : boolean := 0

/-- Modelled from the spec: `Std_Types.h` is not among the sources; the
AUTOSAR value of `E_OK`. -/
def E_OK : Std_ReturnType := 0

/-- Modelled from the spec: `Std_Types.h` is not among the sources; the
AUTOSAR value of `E_NOT_OK`. -/
def E_NOT_OK : Std_ReturnType := 1

/-- Modelled from the spec: `ComStack_Types.h` is not among the sources;
`BufReq_ReturnType` is kept as a natural number. -/
abbrev BufReq_ReturnType := Nat

/-- Modelled from the spec: `ComStack_Types.h` is not among the sources; the
AUTOSAR value of `BUFREQ_OK`. -/
def BUFREQ_OK : BufReq_ReturnType := 0

/-- Modelled from the spec: `ComStack_Types.h` is not among the sources; the
AUTOSAR value of `BUFREQ_E_NOT_OK`. -/
def BUFREQ_E_NOT_OK : BufReq_ReturnType := 1

/-- Modelled from the spec: `ComStack_Types.h` is not among the sources; the
AUTOSAR value of `BUFREQ_E_BUSY`. -/
def BUFREQ_E_BUSY : BufReq_ReturnType := 2

/-- Modelled from the spec: `TcpIp.h` is not among the sources; the address
family of IPv4 (the code only compares a family with it). -/
def TCPIP_AF_INET : Nat := 2

/-- Modelled from the spec: `TcpIp.h` is not among the sources; the address
family of IPv6 (the code only compares a family with it, and it is a `case`
label next to `TCPIP_AF_INET`, hence different from it). -/
def TCPIP_AF_INET6 : Nat := 28

/-- Modelled from the spec: `TcpIp.h` is not among the sources; the
address-any value of IPv4. -/
def TCPIP_IPADDR_ANY : Nat := 0

/-- Modelled from the spec: `TcpIp.h` is not among the sources; the
address-any value of one 32 bit word of an IPv6 address. -/
def TCPIP_IP6ADDR_ANY : Nat := 0

/-- Modelled from the spec: `TcpIp.h` is not among the sources; the port-any
value. -/
def TCPIP_PORT_ANY : Nat := 0

/-- Modelled from the spec: `TcpIp.h` is not among the sources; the sentinel
of a socket id that names no socket. -/
def TCPIP_SOCKETID_INVALID : Nat := 65535

/-- Modelled from the spec: `TcpIp.h` is not among the sources; the protocol
value of TCP (a `case` label next to `TCPIP_IPPROTO_UDP`). -/
def TCPIP_IPPROTO_TCP : Nat := 6

/-- Modelled from the spec: `TcpIp.h` is not among the sources; the protocol
value of UDP. -/
def TCPIP_IPPROTO_UDP : Nat := 17

/-- Modelled from the spec: `SoAd.h` is not among the sources; the sentinel of
a socket route id that names no route. -/
def SOAD_SOCKETROUTEID_INVALID : Nat := 65535

/-- Modelled from the spec: `SoAd.h` is not among the sources; the sentinel of
a PDU header id that names no header. -/
def SOAD_PDUHEADERID_INVALID : Nat := 4294967295

/-! ## Socket addresses -/

/-- Modelled from the spec: `TcpIp.h` is not among the sources.  The union
`TcpIp_SockAddrStorageType` of `base`, `inet` and `inet6`: a family, a port
and room for the four 32 bit words of an IPv6 address.  An IPv4 address uses
`addr0` only (its `addr[0]`). -/
structure TcpIp_SockAddrStorageType where
  domain : Nat
  port : Nat
  addr0 : Nat
  addr1 : Nat
  addr2 : Nat
  addr3 : Nat
  deriving DecidableEq, Repr, Inhabited

/-- The object behind a `const TcpIp_SockAddrType*`, seen through the widest
member of the union; the words past `addr0` are never read for an IPv4
address. -/
abbrev TcpIp_SockAddrType := TcpIp_SockAddrStorageType

/-- The fields of a socket address fit their C types (`uint16` port, `uint32`
address words). -/
def TcpIp_SockAddrType.WellTyped (a : TcpIp_SockAddrType) : Prop :=
  a.port < 65536 ∧ a.addr0 < 4294967296 ∧ a.addr1 < 4294967296 ∧
    a.addr2 < 4294967296 ∧ a.addr3 < 4294967296

instance (a : TcpIp_SockAddrType) : Decidable a.WellTyped := by
  unfold TcpIp_SockAddrType.WellTyped; infer_instance

/-- The four bytes of a `uint32` in memory, lowest byte first. -/
def uint32_bytes (w : Nat) : List Nat :=
  [w % 256, w / 256 % 256, w / 65536 % 256, w / 16777216 % 256]

/-- The sixteen bytes of the `uint32 addr[4]` of an IPv6 address. -/
def addr_bytes (w0 w1 w2 w3 : Nat) : List Nat :=
  uint32_bytes w0 ++ uint32_bytes w1 ++ uint32_bytes w2 ++ uint32_bytes w3

/-- The C library function `memcmp` on two byte sequences and a length: zero
when the first `n` bytes agree, otherwise the difference of the first two
bytes that differ (negative when the left one is smaller). -/
def memcmp : List Nat → List Nat → Nat → Int
  | x :: xs, y :: ys, n + 1 => if x = y then memcmp xs ys n else (x : Int) - (y : Int)
  | _, _, _ => 0

/-- The bytes of the static table `SoAd_Ip6Any`. -/
def SoAd_Ip6Any : List Nat :=
  addr_bytes TCPIP_IP6ADDR_ANY TCPIP_IP6ADDR_ANY TCPIP_IP6ADDR_ANY TCPIP_IP6ADDR_ANY

/-- The bytes of `inet6->addr`. -/
def TcpIp_SockAddrStorageType.inet6_addr (a : TcpIp_SockAddrStorageType) : List Nat :=
  addr_bytes a.addr0 a.addr1 a.addr2 a.addr3

/-- The function `SoAd_SockAddrCopy`: copy the payload of the family of `src`
into the storage `trg`; nothing is written for another family. -/
def SoAd_SockAddrCopy (trg : TcpIp_SockAddrStorageType) (src : TcpIp_SockAddrType) :
    TcpIp_SockAddrStorageType :=
  if src.domain = TCPIP_AF_INET then
    { trg with domain := src.domain, port := src.port, addr0 := src.addr0 }
  else if src.domain = TCPIP_AF_INET6 then
    src
  else
    trg

/-- The function `SoAd_SockAddrWildcard`: does the address contain a wildcard. -/
def SoAd_SockAddrWildcard (addr : TcpIp_SockAddrType) : boolean :=
  if addr.domain = TCPIP_AF_INET then
    let res := FALSE
    let res := if addr.addr0 = TCPIP_IPADDR_ANY then TRUE else res
    let res := if addr.port = TCPIP_PORT_ANY then TRUE else res
    res
  else if addr.domain = TCPIP_AF_INET6 then
    let res := FALSE
    let res := if memcmp addr.inet6_addr SoAd_Ip6Any 16 = 0 then TRUE else res
    let res := if addr.port = TCPIP_PORT_ANY then TRUE else res
    res
  else
    FALSE

/-- The function `SoAd_SockAddrWildcardMatch`: the result the C function
leaves in its `boolean res`.  The result of `memcmp` is compared with
`sizeof(inet_check->addr)`, which is 16. -/
def SoAd_SockAddrWildcardMatch (addr_mask addr_check : TcpIp_SockAddrType) : boolean :=
  if addr_mask.domain = addr_check.domain then
    if addr_mask.domain = TCPIP_AF_INET then
      if addr_mask.addr0 = TCPIP_IPADDR_ANY ∨ addr_mask.addr0 = addr_check.addr0 then
        if addr_mask.port = TCPIP_PORT_ANY ∨ addr_mask.port = addr_check.port then
          TRUE
        else FALSE
      else FALSE
    else if addr_mask.domain = TCPIP_AF_INET6 then
      if memcmp SoAd_Ip6Any addr_check.inet6_addr 16 = 16
          ∨ memcmp addr_mask.inet6_addr addr_check.inet6_addr 16 = 16 then
        if addr_mask.port = TCPIP_PORT_ANY ∨ addr_mask.port = addr_check.port then
          TRUE
        else FALSE
      else FALSE
    else
      E_NOT_OK
  else
    E_NOT_OK

/-! ## Configuration -/

/-- Modelled from the spec: `SoAd.h` is not among the sources.  The
configuration of a socket group, with the fields `SoAd.c` and the test
configuration use; a `boolean` field is only ever tested for being zero. -/
structure SoAd_SoGrpConfigType where
  localport : Nat
  localaddr : Nat
  domain : Nat
  protocol : Nat
  automatic : Bool
  initiate : Bool
  listen_only : Bool
  socket_route_id : Nat
  deriving DecidableEq, Repr, Inhabited

/-- Modelled from the spec: `SoAd.h` is not among the sources.  The
configuration of a socket connection; `remote` is a pointer that may be
null. -/
structure SoAd_SoConConfigType where
  group : Nat
  remote : Option TcpIp_SockAddrType
  socket_route_id : Nat
  deriving DecidableEq, Repr, Inhabited

/-- Modelled from the spec: `SoAd.h` is not among the sources.  The
`destination` of a socket route: `upper` names the table of callbacks
(`start_of_reception`, `copy_rx_data`, `rx_indication`) and `pdu` the PDU they
are called with. -/
structure SoAd_SocketRouteDestination where
  upper : Nat
  pdu : Nat
  deriving DecidableEq, Repr, Inhabited

/-- Modelled from the spec: `SoAd.h` is not among the sources.  A socket
route (rx). -/
structure SoAd_SocketRouteType where
  header_id : Nat
  destination : SoAd_SocketRouteDestination
  deriving DecidableEq, Repr, Inhabited

/-- Modelled from the spec: `SoAd.h` is not among the sources.  The
`destination` of a PDU route. -/
structure SoAd_PduRouteDestination where
  header_id : Nat
  connection : Nat
  deriving DecidableEq, Repr, Inhabited

/-- Modelled from the spec: `SoAd.h` is not among the sources.  A PDU route
(tx); `upper` names the table of callbacks (`copy_tx_data`,
`tx_confirmation`). -/
structure SoAd_PduRouteType where
  pdu_id : Nat
  upper : Nat
  destination : SoAd_PduRouteDestination
  deriving DecidableEq, Repr, Inhabited

/-- Modelled from the spec: `SoAd.h` is not among the sources.  The tables
behind `SoAd_Config`.  `SOAD_CFG_CONNECTION_COUNT`,
`SOAD_CFG_CONNECTIONGROUP_COUNT` and `SOAD_CFG_PDUROUTE_COUNT` are the lengths
of `connections`, `groups` and `pdu_routes`. -/
structure SoAd_ConfigType where
  groups : List SoAd_SoGrpConfigType
  connections : List SoAd_SoConConfigType
  socket_routes : List SoAd_SocketRouteType
  pdu_routes : List SoAd_PduRouteType
  deriving DecidableEq, Repr, Inhabited

/-- The macro `SOAD_CFG_CONNECTION_COUNT`. -/
def SOAD_CFG_CONNECTION_COUNT (cfg : SoAd_ConfigType) : Nat := cfg.connections.length

/-- The macro `SOAD_CFG_CONNECTIONGROUP_COUNT`. -/
def SOAD_CFG_CONNECTIONGROUP_COUNT (cfg : SoAd_ConfigType) : Nat := cfg.groups.length

/-- The macro `SOAD_CFG_PDUROUTE_COUNT`. -/
def SOAD_CFG_PDUROUTE_COUNT (cfg : SoAd_ConfigType) : Nat := cfg.pdu_routes.length

/-- The entry `SoAd_Config->connections[id]`. -/
def SoAd_ConfigType.connection (cfg : SoAd_ConfigType) (id : Nat) : SoAd_SoConConfigType :=
  cfg.connections.getD id default

/-- The entry `SoAd_Config->groups[id]`. -/
def SoAd_ConfigType.group (cfg : SoAd_ConfigType) (id : Nat) : SoAd_SoGrpConfigType :=
  cfg.groups.getD id default

/-- The entry `SoAd_Config->socket_routes[id]`. -/
def SoAd_ConfigType.socket_route (cfg : SoAd_ConfigType) (id : Nat) : SoAd_SocketRouteType :=
  cfg.socket_routes.getD id default

/-- The entry `SoAd_Config->pdu_routes[id]`. -/
def SoAd_ConfigType.pdu_route (cfg : SoAd_ConfigType) (id : Nat) : SoAd_PduRouteType :=
  cfg.pdu_routes.getD id default

/-! ## Status -/

/-- Modelled from the spec: `SoAd.h` is not among the sources.  The three
states of a socket connection. -/
inductive SoAd_SoConStateType where
  | SOAD_SOCON_OFFLINE
  | SOAD_SOCON_RECONNECT
  | SOAD_SOCON_ONLINE
  deriving DecidableEq, Repr, Inhabited

export SoAd_SoConStateType (SOAD_SOCON_OFFLINE SOAD_SOCON_RECONNECT SOAD_SOCON_ONLINE)

/-- The struct `SoAd_SoConStatusType`; a route pointer is the route it points
to, or `none` for the null pointer. -/
structure SoAd_SoConStatusType where
  socket_id : Nat
  remote : TcpIp_SockAddrStorageType
  state : SoAd_SoConStateType
  request_open : Bool
  request_close : Bool
  request_abort : Bool
  rx_route : Option SoAd_SocketRouteType
  tx_route : Option SoAd_PduRouteType
  tx_remain : Nat
  tx_available : Nat
  deriving DecidableEq, Repr, Inhabited

/-- The struct `SoAd_SoGrpStatusType`. -/
structure SoAd_SoGrpStatusType where
  socket_id : Nat
  deriving DecidableEq, Repr, Inhabited

/-- Modelled from the spec: `SoAd.h` is not among the sources.  The service
ids handed to `Det_ReportError`. -/
inductive SoAd_ApiId where
  | SOAD_API_RXINDICATION
  | SOAD_API_TCPIPEVENT
  | SOAD_API_IFTRANSMIT
  | SOAD_API_TPTRANSMIT
  deriving DecidableEq, Repr, Inhabited

export SoAd_ApiId (SOAD_API_RXINDICATION SOAD_API_TCPIPEVENT SOAD_API_IFTRANSMIT
  SOAD_API_TPTRANSMIT)

/-- Modelled from the spec: `SoAd.h` is not among the sources.  The error ids
handed to `Det_ReportError`. -/
inductive SoAd_ErrorId where
  | SOAD_E_NOTINIT
  | SOAD_E_INV_ARG
  | SOAD_E_INV_SOCKETID
  | SOAD_E_INV_PDUID
  deriving DecidableEq, Repr, Inhabited

export SoAd_ErrorId (SOAD_E_NOTINIT SOAD_E_INV_ARG SOAD_E_INV_SOCKETID SOAD_E_INV_PDUID)

/-- Modelled from the spec: `TcpIp.h` is not among the sources.  The events
of `SoAd_TcpIpEvent`; `other` is any value the `switch` sends to
`default`. -/
inductive TcpIp_EventType where
  | TCPIP_TCP_FIN_RECEIVED
  | TCPIP_TCP_RESET
  | TCPIP_TCP_CLOSED
  | TCPIP_UDP_CLOSED
  | other (value : Nat)
  deriving DecidableEq, Repr, Inhabited

export TcpIp_EventType (TCPIP_TCP_FIN_RECEIVED TCPIP_TCP_RESET TCPIP_TCP_CLOSED
  TCPIP_UDP_CLOSED)

/-- Modelled from the spec: `ComStack_Types.h` is not among the sources.  A
`PduInfoType`: the data pointer (`none` for `NULL_PTR`, otherwise the bytes it
points to) and the length. -/
structure PduInfoType where
  SduDataPtr : Option (List Nat)
  SduLength : Nat
  deriving DecidableEq, Repr, Inhabited

/-- Modelled from the spec: `ComStack_Types.h` is not among the sources.  The
number of values of `PduLengthType`, an unsigned 16 bit integer (the tests
write `(PduLengthType)0xffffu`). -/
def PduLengthType_size : Nat := 65536

/-- A call that leaves the module, with the arguments the module chooses.
The first five are callbacks of the upper layer named by `upper`. -/
inductive SoAd_Call where
  | start_of_reception (upper pdu : Nat) (SduLength : Nat) (len : Nat)
  | rx_indication (upper pdu : Nat) (result : Std_ReturnType)
  | copy_rx_data (upper pdu : Nat) (SduDataPtr : Option (List Nat)) (SduLength : Nat)
  | copy_tx_data (upper pdu : Nat) (SduDataPtr : Option (List Nat)) (SduLength : Nat)
  | tx_confirmation (upper pdu : Nat) (result : Std_ReturnType)
  | TcpIp_SoAdGetSocket (domain protocol : Nat)
  | TcpIp_Bind (id localaddr port : Nat)
  | TcpIp_TcpListen (id channels : Nat)
  | TcpIp_TcpConnect (id : Nat) (remote : TcpIp_SockAddrType)
  | TcpIp_Close (id : Nat) (abort : Bool)
  | TcpIp_UdpTransmit (id : Nat) (data : Option (List Nat)) (remote : TcpIp_SockAddrType)
      (len : Nat)
  | TcpIp_TcpTransmit (id : Nat) (data : Option (List Nat)) (len : Nat) (force : Bool)
  | Det_ReportError (api : SoAd_ApiId) (error : SoAd_ErrorId)
  deriving DecidableEq, Repr, Inhabited

/-- The answers of the world outside the module.  Each answer may depend on
the calls made so far (the first argument) and on the arguments of the call.
Where the C function writes through a pointer, the answer is the result
together with the value that is behind the pointer after the call:
`start_of_reception` and `copy_rx_data` the buffer length, `copy_tx_data` the
available length (given the one before the call, its last argument),
`TcpIp_SoAdGetSocket` the socket id. -/
structure SoAd_Env where
  start_of_reception : List SoAd_Call → Nat → Nat → BufReq_ReturnType × Nat
  copy_rx_data : List SoAd_Call → Nat → Nat → Option (List Nat) → Nat →
    BufReq_ReturnType × Nat
  copy_tx_data : List SoAd_Call → Nat → Nat → Option (List Nat) → Nat → Nat →
    BufReq_ReturnType × Nat
  TcpIp_SoAdGetSocket : List SoAd_Call → Nat → Nat → Std_ReturnType × Nat
  TcpIp_Bind : List SoAd_Call → Nat → Nat → Nat → Std_ReturnType
  TcpIp_TcpListen : List SoAd_Call → Nat → Nat → Std_ReturnType
  TcpIp_TcpConnect : List SoAd_Call → Nat → TcpIp_SockAddrType → Std_ReturnType
  TcpIp_UdpTransmit : List SoAd_Call → Nat → Option (List Nat) → TcpIp_SockAddrType →
    Nat → Std_ReturnType
  TcpIp_TcpTransmit : List SoAd_Call → Nat → Option (List Nat) → Nat → Bool →
    Std_ReturnType

/-- The globals `SoAd_SoConStatus` and `SoAd_SoGrpStatus`, and the calls made
out of the module so far (oldest first). -/
structure SoAd_State where
  SoAd_SoConStatus : Nat → SoAd_SoConStatusType
  SoAd_SoGrpStatus : Nat → SoAd_SoGrpStatusType
  trace : List SoAd_Call

/-- Store `status` in `SoAd_SoConStatus[id]`. -/
def SoAd_State.setCon (s : SoAd_State) (id : Nat) (status : SoAd_SoConStatusType) :
    SoAd_State :=
  { s with SoAd_SoConStatus := Function.update s.SoAd_SoConStatus id status }

/-- Store `status` in `SoAd_SoGrpStatus[id]`. -/
def SoAd_State.setGrp (s : SoAd_State) (id : Nat) (status : SoAd_SoGrpStatusType) :
    SoAd_State :=
  { s with SoAd_SoGrpStatus := Function.update s.SoAd_SoGrpStatus id status }

/-- Record a call that leaves the module. -/
def SoAd_State.call (s : SoAd_State) (c : SoAd_Call) : SoAd_State :=
  { s with trace := s.trace ++ [c] }

/-- What `memset(status, 0, sizeof(*status))` leaves in a connection status.
The state it leaves is the enumerator of value zero, which `SoAd_Init_SoCon`
overwrites before anything reads it. -/
def SoAd_SoConStatus_zero : SoAd_SoConStatusType :=
  { socket_id := 0
    remote := { domain := 0, port := 0, addr0 := 0, addr1 := 0, addr2 := 0, addr3 := 0 }
    state := SOAD_SOCON_OFFLINE
    request_open := false
    request_close := false
    request_abort := false
    rx_route := none
    tx_route := none
    tx_remain := 0
    tx_available := 0 }

/-! ## Initialisation -/

/-- The function `SoAd_Init_SoCon` of `SoAd.c`. -/
def SoAd_Init_SoCon (cfg : SoAd_ConfigType) (id : Nat) (s : SoAd_State) : SoAd_State :=
  let config := cfg.connection id
  let status := SoAd_SoConStatus_zero
  let status :=
    match config.remote with
    | some remote => { status with remote := SoAd_SockAddrCopy status.remote remote }
    | none => { status with remote := { status.remote with domain := 0 } }
  let status := { status with socket_id := TCPIP_SOCKETID_INVALID }
  let status := { status with state := SOAD_SOCON_OFFLINE }
  s.setCon id status

/-- The function `SoAd_Init_SoGrp` of `SoAd.c`. -/
def SoAd_Init_SoGrp (_cfg : SoAd_ConfigType) (id : Nat) (s : SoAd_State) : SoAd_State :=
  let status : SoAd_SoGrpStatusType := { socket_id := 0 }
  let status := { status with socket_id := TCPIP_SOCKETID_INVALID }
  s.setGrp id status

/-- The function `SoAd_Init`: the two loops over the connection ids and the
group ids.  The configuration it installs is the `cfg` handed to every later
call. -/
def SoAd_Init (config : SoAd_ConfigType) (s : SoAd_State) : SoAd_State :=
  let s := (List.range (SOAD_CFG_CONNECTION_COUNT config)).foldl
    (fun s id => SoAd_Init_SoCon config id s) s
  (List.range (SOAD_CFG_CONNECTIONGROUP_COUNT config)).foldl
    (fun s id => SoAd_Init_SoGrp config id s) s

/-! ## Lookups -/

/-- The function `SoAd_SoCon_Lookup`: the first connection whose own socket id is
`socket_id`; `none` stands for the result `E_NOT_OK`. -/
def SoAd_SoCon_Lookup (cfg : SoAd_ConfigType) (s : SoAd_State) (socket_id : Nat) :
    Option Nat :=
  (List.range (SOAD_CFG_CONNECTION_COUNT cfg)).find? fun index =>
    decide ((s.SoAd_SoConStatus index).socket_id = socket_id)

/-- The function `SoAd_SoGrp_Lookup`: the first group whose socket id is `socket_id`;
`none` stands for the result `E_NOT_OK`. -/
def SoAd_SoGrp_Lookup (cfg : SoAd_ConfigType) (s : SoAd_State) (socket_id : Nat) :
    Option Nat :=
  (List.range (SOAD_CFG_CONNECTIONGROUP_COUNT cfg)).find? fun index =>
    decide ((s.SoAd_SoGrpStatus index).socket_id = socket_id)

/-- The test of one round of the loop of `SoAd_SoCon_Lookup_FreeSocket`. -/
def SoAd_SoCon_Lookup_FreeSocket_test (cfg : SoAd_ConfigType) (s : SoAd_State)
    (group : Nat) (remote : TcpIp_SockAddrType) (index : Nat) : Bool :=
  let config := cfg.connection index
  let status := s.SoAd_SoConStatus index
  if status.socket_id ≠ TCPIP_SOCKETID_INVALID then
    false
  else if status.state ≠ SOAD_SOCON_OFFLINE then
    if config.group = group then
      decide (SoAd_SockAddrWildcardMatch status.remote remote = TRUE)
    else false
  else false

/-- The function `SoAd_SoCon_Lookup_FreeSocket`: the first connection that
passes the test; `none` stands for the result `E_NOT_OK`. -/
def SoAd_SoCon_Lookup_FreeSocket (cfg : SoAd_ConfigType) (s : SoAd_State)
    (group : Nat) (remote : TcpIp_SockAddrType) : Option Nat :=
  (List.range (SOAD_CFG_CONNECTION_COUNT cfg)).find?
    (SoAd_SoCon_Lookup_FreeSocket_test cfg s group remote)

/-- The function `SoAd_GetSocketRoute`; `none` stands for the result `E_NOT_OK`. -/
def SoAd_GetSocketRoute (cfg : SoAd_ConfigType) (con_id : Nat) (_header_id : Nat) :
    Option Nat :=
  let con_config := cfg.connection con_id
  let grp_config := cfg.group con_config.group
  if con_config.socket_route_id ≠ SOAD_SOCKETROUTEID_INVALID then
    some con_config.socket_route_id
  else if grp_config.socket_route_id < SOAD_SOCKETROUTEID_INVALID then
    some grp_config.socket_route_id
  else
    none

/-- One round of the loop of `SoAd_GetPduRoute`: the new value of `low`
(`high` is never written). -/
def SoAd_GetPduRoute_step (cfg : SoAd_ConfigType) (id : Nat) (high low : Nat) : Nat :=
  let mid := low + ((high - low) >>> 1)
  if (cfg.pdu_route mid).pdu_id < id then mid + 1 else mid

/-- The loop `while (low < high)` of `SoAd_GetPduRoute`, run for at most
`fuel` rounds: the value of `low` when the loop is left, `none` when it is
still running after `fuel` rounds. -/
def SoAd_GetPduRoute_loop (cfg : SoAd_ConfigType) (id : Nat) (high : Nat) :
    Nat → Nat → Option Nat
  | 0, _ => none
  | fuel + 1, low =>
    if low < high then
      SoAd_GetPduRoute_loop cfg id high fuel (SoAd_GetPduRoute_step cfg id high low)
    else
      some low

/-- The function `SoAd_GetPduRoute`, with at most `fuel` rounds of its loop:
`none` when the loop is still running then, otherwise the result and the route
written through `route`.  No value of `PduIdType` wraps as long as the table has at
least one route. -/
def SoAd_GetPduRoute (cfg : SoAd_ConfigType) (fuel : Nat) (id : Nat) :
    Option (Std_ReturnType × Option SoAd_PduRouteType) :=
  let high := SOAD_CFG_PDUROUTE_COUNT cfg - 1
  let low := 0
  match SoAd_GetPduRoute_loop cfg id high fuel low with
  | none => none
  | some low =>
    if (cfg.pdu_route low).pdu_id = id then
      some (E_OK, some (cfg.pdu_route low))
    else
      some (E_NOT_OK, none)

/-! ## State machine -/

/-- The function `SoAd_SoCon_EnterState` of `SoAd.c`. -/
def SoAd_SoCon_EnterState (cfg : SoAd_ConfigType) (env : SoAd_Env) (id : Nat)
    (state : SoAd_SoConStateType) (s : SoAd_State) : SoAd_State :=
  let s :=
    match state with
    | SOAD_SOCON_OFFLINE =>
      let s := s.setCon id { s.SoAd_SoConStatus id with socket_id := TCPIP_SOCKETID_INVALID }
      match (s.SoAd_SoConStatus id).rx_route with
      | some rx_route =>
        let s := s.call
          (SoAd_Call.rx_indication rx_route.destination.upper rx_route.destination.pdu E_OK)
        s.setCon id { s.SoAd_SoConStatus id with rx_route := none }
      | none => s
    | SOAD_SOCON_RECONNECT => s
    | SOAD_SOCON_ONLINE =>
      match SoAd_GetSocketRoute cfg id SOAD_PDUHEADERID_INVALID with
      | some route_id =>
        let route_config := cfg.socket_route route_id
        let res := env.start_of_reception s.trace
          route_config.destination.upper route_config.destination.pdu
        let s := s.call (SoAd_Call.start_of_reception
          route_config.destination.upper route_config.destination.pdu 0 0)
        if res.1 = BUFREQ_OK then
          s.setCon id { s.SoAd_SoConStatus id with rx_route := some route_config }
        else s
      | none => s
  s.setCon id { s.SoAd_SoConStatus id with state := state }

/-! ## Callbacks of the transport -/

/-- The function `SoAd_TcpAccepted`: the result and the state after the call. -/
def SoAd_TcpAccepted (cfg : SoAd_ConfigType) (env : SoAd_Env) (socket_id : Nat)
    (socket_id_connected : Nat) (remote : TcpIp_SockAddrType) (s : SoAd_State) :
    Std_ReturnType × SoAd_State :=
  match SoAd_SoGrp_Lookup cfg s socket_id with
  | some id_group =>
    let group := cfg.group id_group
    if group.initiate = false then
      match SoAd_SoCon_Lookup_FreeSocket cfg s id_group remote with
      | some id_connected =>
        let s := s.setCon id_connected
          { s.SoAd_SoConStatus id_connected with socket_id := socket_id_connected }
        let s := s.setCon id_connected
          { s.SoAd_SoConStatus id_connected with
            remote := SoAd_SockAddrCopy (s.SoAd_SoConStatus id_connected).remote remote }
        (E_OK, SoAd_SoCon_EnterState cfg env id_connected SOAD_SOCON_ONLINE s)
      | none => (E_NOT_OK, s)
    else
      (E_OK, s)
  | none => (E_NOT_OK, s)

/-- The function `SoAd_TcpConnected` of `SoAd.c`. -/
def SoAd_TcpConnected (cfg : SoAd_ConfigType) (env : SoAd_Env) (socket_id : Nat)
    (s : SoAd_State) : SoAd_State :=
  match SoAd_SoCon_Lookup cfg s socket_id with
  | some id =>
    let config := cfg.connection id
    let group := cfg.group config.group
    let status := s.SoAd_SoConStatus id
    if group.initiate then
      if status.state ≠ SOAD_SOCON_ONLINE then
        if group.protocol = TCPIP_IPPROTO_TCP then
          SoAd_SoCon_EnterState cfg env id SOAD_SOCON_ONLINE s
        else s
      else s
    else s
  | none => s

/-! ## Reception -/

/-- The function `SoAd_RxIndication_RemoteOnline`: the state after the call
and the values behind `restore` and `state` (`restore` keeps the value it had
when the remote is not refined). -/
def SoAd_RxIndication_RemoteOnline (cfg : SoAd_ConfigType) (env : SoAd_Env) (con_id : Nat)
    (remote : TcpIp_SockAddrType) (restore : TcpIp_SockAddrStorageType) (s : SoAd_State) :
    SoAd_State × TcpIp_SockAddrStorageType × SoAd_SoConStateType :=
  let con_status := s.SoAd_SoConStatus con_id
  let state := con_status.state
  if con_status.state ≠ SOAD_SOCON_ONLINE then
    let con_config := cfg.connection con_id
    let grp_config := cfg.group con_config.group
    if grp_config.protocol = TCPIP_IPPROTO_UDP then
      if grp_config.listen_only = false then
        if SoAd_SockAddrWildcard con_status.remote = TRUE then
          let restore := con_status.remote
          let s := s.setCon con_id
            { con_status with remote := SoAd_SockAddrCopy con_status.remote remote }
          (SoAd_SoCon_EnterState cfg env con_id SOAD_SOCON_ONLINE s, restore, state)
        else (s, restore, state)
      else (s, restore, state)
    else (s, restore, state)
  else (s, restore, state)

/-- The function `SoAd_RxIndication_RemoteRevert` of `SoAd.c`. -/
def SoAd_RxIndication_RemoteRevert (cfg : SoAd_ConfigType) (env : SoAd_Env) (con_id : Nat)
    (remote : TcpIp_SockAddrStorageType) (state : SoAd_SoConStateType) (s : SoAd_State) :
    SoAd_State :=
  let con_status := s.SoAd_SoConStatus con_id
  if con_status.state ≠ state then
    let s := s.setCon con_id { con_status with remote := remote }
    SoAd_SoCon_EnterState cfg env con_id state s
  else s

/-- The function `SoAd_RxIndication_SoCon`: the result and the state after
the call. -/
def SoAd_RxIndication_SoCon (env : SoAd_Env) (con_id : Nat) (buf : List Nat) (len : Nat)
    (s : SoAd_State) : Std_ReturnType × SoAd_State :=
  let con_sts := s.SoAd_SoConStatus con_id
  match con_sts.rx_route with
  | some rx_route =>
    let probe := env.copy_rx_data s.trace rx_route.destination.upper
      rx_route.destination.pdu none 0
    let s := s.call
      (SoAd_Call.copy_rx_data rx_route.destination.upper rx_route.destination.pdu none 0)
    if probe.1 ≠ BUFREQ_OK then
      (E_NOT_OK, s)
    else if probe.2 < len then
      (E_NOT_OK, s)
    else
      let copy := env.copy_rx_data s.trace rx_route.destination.upper
        rx_route.destination.pdu (some buf) len
      let s := s.call
        (SoAd_Call.copy_rx_data rx_route.destination.upper rx_route.destination.pdu
          (some buf) len)
      if copy.1 ≠ BUFREQ_OK then
        (E_NOT_OK, s)
      else
        (E_OK, s)
  | none => (E_OK, s)

/-- The connection `SoAd_RxIndication` settles on (its `id_con` when `res` is
`E_OK`): the connection that holds the socket, else a free slot of the group
that holds it; `none` when `res` is not `E_OK`. -/
def SoAd_RxIndication_id_con (cfg : SoAd_ConfigType) (s : SoAd_State) (socket_id : Nat)
    (remote : TcpIp_SockAddrType) : Option Nat :=
  match SoAd_SoCon_Lookup cfg s socket_id with
  | some id_con => some id_con
  | none =>
    match SoAd_SoGrp_Lookup cfg s socket_id with
    | some id_grp => SoAd_SoCon_Lookup_FreeSocket cfg s id_grp remote
    | none => none

/-- The function `SoAd_RxIndication`, called on an initialised module with a
remote that is not null.  The local `revert_remote` is not initialised; it is
read only when the state of the connection changed, which is after
`SoAd_RxIndication_RemoteOnline` wrote it. -/
def SoAd_RxIndication (cfg : SoAd_ConfigType) (env : SoAd_Env) (socket_id : Nat)
    (remote : TcpIp_SockAddrType) (buf : List Nat) (len : Nat) (s : SoAd_State) :
    SoAd_State :=
  match SoAd_RxIndication_id_con cfg s socket_id remote with
  | some id_con =>
    let online := SoAd_RxIndication_RemoteOnline cfg env id_con remote default s
    let revert_remote := online.2.1
    let revert_state := online.2.2
    let delivered := SoAd_RxIndication_SoCon env id_con buf len online.1
    if delivered.1 ≠ E_OK then
      SoAd_RxIndication_RemoteRevert cfg env id_con revert_remote revert_state delivered.2
    else
      delivered.2
  | none => s.call (SoAd_Call.Det_ReportError SOAD_API_RXINDICATION SOAD_E_INV_SOCKETID)

/-! ## Transport events -/

/-- The function `SoAd_SoGrp_Close`.  Its local `id_con` is read before it is
written, to index the group configuration and the group status; `id_con` here
is the value the local happens to hold then. -/
def SoAd_SoGrp_Close (cfg : SoAd_ConfigType) (env : SoAd_Env) (id_con : Nat)
    (id_grp : Nat) (s : SoAd_State) : SoAd_State :=
  let s := s.setGrp id_con
    { s.SoAd_SoGrpStatus id_con with socket_id := TCPIP_SOCKETID_INVALID }
  (List.range (SOAD_CFG_CONNECTION_COUNT cfg)).foldl
    (fun s id_con =>
      let config := cfg.connection id_con
      let status := s.SoAd_SoConStatus id_con
      if config.group = id_grp ∧ status.socket_id = TCPIP_SOCKETID_INVALID then
        SoAd_SoCon_EnterState cfg env id_con SOAD_SOCON_OFFLINE s
      else s) s

/-- The function `SoAd_TcpIpEvent`, called on an initialised module.
`id_con` is the value the uninitialised local of `SoAd_SoGrp_Close` holds. -/
def SoAd_TcpIpEvent (cfg : SoAd_ConfigType) (env : SoAd_Env) (id_con : Nat)
    (socket_id : Nat) (event : TcpIp_EventType) (s : SoAd_State) : SoAd_State :=
  match event with
  | TCPIP_TCP_FIN_RECEIVED => s.call (SoAd_Call.TcpIp_Close socket_id false)
  | TcpIp_EventType.other _ =>
    s.call (SoAd_Call.Det_ReportError SOAD_API_TCPIPEVENT SOAD_E_INV_ARG)
  | _ =>
    match SoAd_SoGrp_Lookup cfg s socket_id with
    | some id_grp => SoAd_SoGrp_Close cfg env id_con id_grp s
    | none =>
      match SoAd_SoCon_Lookup cfg s socket_id with
      | some id_con => SoAd_SoCon_EnterState cfg env id_con SOAD_SOCON_OFFLINE s
      | none => s.call (SoAd_Call.Det_ReportError SOAD_API_TCPIPEVENT SOAD_E_INV_SOCKETID)

/-- The function `SoAd_TxConfirmation`: it looks the connection up and does
nothing with it. -/
def SoAd_TxConfirmation (_cfg : SoAd_ConfigType) (_socket_id : Nat) (_len : Nat)
    (s : SoAd_State) : SoAd_State :=
  s

/-! ## Transmission -/

/-- The function `SoAd_CopyTxData`: the result and the state after the call;
`none` when the connection has no `tx_route`, which the C code dereferences.
`tx_remain -= len` is computed in `PduLengthType`. -/
def SoAd_CopyTxData (cfg : SoAd_ConfigType) (env : SoAd_Env) (socket_id : Nat)
    (buf : List Nat) (len : Nat) (s : SoAd_State) :
    Option (BufReq_ReturnType × SoAd_State) :=
  match SoAd_SoCon_Lookup cfg s socket_id with
  | some id_con =>
    let status := s.SoAd_SoConStatus id_con
    match status.tx_route with
    | some tx_route =>
      let res_buf := env.copy_tx_data s.trace tx_route.upper tx_route.pdu_id (some buf) len
        status.tx_available
      let s := s.call (SoAd_Call.copy_tx_data tx_route.upper tx_route.pdu_id (some buf) len)
      let s := s.setCon id_con { s.SoAd_SoConStatus id_con with tx_available := res_buf.2 }
      if res_buf.1 = BUFREQ_OK then
        some (res_buf.1, s.setCon id_con
          { s.SoAd_SoConStatus id_con with
            tx_remain := Int.toNat
              ((((s.SoAd_SoConStatus id_con).tx_remain : Int) - (len : Int))
                % (PduLengthType_size : Int)) })
      else
        some (res_buf.1, s)
    | none => none
  | none => some (BUFREQ_E_NOT_OK, s)

/-- The function `SoAd_IfTransmit`, called on an initialised module, with at
most `fuel` rounds of the loop of `SoAd_GetPduRoute`: `none` when that loop is
still running then.  The development error checks are compiled in (with
`SOAD_CFG_ENABLE_DEVELOPMENT_ERROR` off the macro `SOAD_DET_CHECK_RET_0` takes
two arguments and `SoAd.c` hands it three).  The block that transmits
declares a `res` of its own; the `res` the function returns is the one
`SoAd_GetPduRoute` wrote. -/
def SoAd_IfTransmit (cfg : SoAd_ConfigType) (env : SoAd_Env) (fuel : Nat) (pdu_id : Nat)
    (pdu_info : PduInfoType) (s : SoAd_State) : Option (Std_ReturnType × SoAd_State) :=
  if ¬ pdu_id < SOAD_CFG_PDUROUTE_COUNT cfg then
    some (E_NOT_OK, s.call (SoAd_Call.Det_ReportError SOAD_API_IFTRANSMIT SOAD_E_INV_PDUID))
  else
    match SoAd_GetPduRoute cfg fuel pdu_id with
    | none => none
    | some (res, some route) =>
      if res = E_OK then
        let status := s.SoAd_SoConStatus route.destination.connection
        let config := cfg.connection route.destination.connection
        let group := cfg.group config.group
        let block : Std_ReturnType × SoAd_State :=
          if status.state = SOAD_SOCON_ONLINE then
            if group.protocol = TCPIP_IPPROTO_UDP then
              (env.TcpIp_UdpTransmit s.trace status.socket_id pdu_info.SduDataPtr
                  status.remote pdu_info.SduLength,
                s.call (SoAd_Call.TcpIp_UdpTransmit status.socket_id pdu_info.SduDataPtr
                  status.remote pdu_info.SduLength))
            else if group.protocol = TCPIP_IPPROTO_TCP then
              (env.TcpIp_TcpTransmit s.trace status.socket_id pdu_info.SduDataPtr
                  pdu_info.SduLength true,
                s.call (SoAd_Call.TcpIp_TcpTransmit status.socket_id pdu_info.SduDataPtr
                  pdu_info.SduLength true))
            else (E_NOT_OK, s)
          else (E_NOT_OK, s)
        some (res, block.2)
      else some (res, s)
    | some (res, none) => some (res, s)

/-- The function `SoAd_TpTransmit`, called on an initialised module, with at
most `fuel` rounds of the loop of `SoAd_GetPduRoute`: `none` when that loop is
still running then. -/
def SoAd_TpTransmit (cfg : SoAd_ConfigType) (_env : SoAd_Env) (fuel : Nat) (pdu_id : Nat)
    (_pdu_info : PduInfoType) (s : SoAd_State) : Option (Std_ReturnType × SoAd_State) :=
  if ¬ pdu_id < SOAD_CFG_PDUROUTE_COUNT cfg then
    some (E_NOT_OK, s.call (SoAd_Call.Det_ReportError SOAD_API_TPTRANSMIT SOAD_E_INV_PDUID))
  else
    match SoAd_GetPduRoute cfg fuel pdu_id with
    | none => none
    | some (res, some route) =>
      if res = E_OK then
        some (res, s.setCon route.destination.connection
          { s.SoAd_SoConStatus route.destination.connection with tx_route := some route })
      else some (res, s)
    | some (res, none) => some (res, s)

/-! ## The periodic tick -/

/-- The function `SoAd_SoCon_ProcessClose` of `SoAd.c`. -/
def SoAd_SoCon_ProcessClose (id : Nat) (s : SoAd_State) : SoAd_State :=
  let status := s.SoAd_SoConStatus id
  if status.request_close then
    let s :=
      if status.socket_id ≠ TCPIP_SOCKETID_INVALID then
        s.call (SoAd_Call.TcpIp_Close status.socket_id status.request_abort)
      else s
    s.setCon id { s.SoAd_SoConStatus id with request_close := false }
  else s

/-- The function `SoAd_SoCon_ProcessTransmit` of `SoAd.c`. -/
def SoAd_SoCon_ProcessTransmit (cfg : SoAd_ConfigType) (env : SoAd_Env) (id : Nat)
    (s : SoAd_State) : SoAd_State :=
  let status := s.SoAd_SoConStatus id
  let config := cfg.connection id
  let group := cfg.group config.group
  match status.tx_route with
  | some route =>
    let copied : BufReq_ReturnType × SoAd_State :=
      if status.tx_available = 0 then
        let res_buf := env.copy_tx_data s.trace route.upper route.pdu_id none 0
          status.tx_available
        let s := s.call (SoAd_Call.copy_tx_data route.upper route.pdu_id none 0)
        (res_buf.1, s.setCon id { s.SoAd_SoConStatus id with tx_available := res_buf.2 })
      else (BUFREQ_OK, s)
    let res_buf := copied.1
    let s := copied.2
    let status := s.SoAd_SoConStatus id
    let sent : Std_ReturnType × SoAd_State :=
      if res_buf = BUFREQ_OK then
        if group.protocol = TCPIP_IPPROTO_UDP then
          (env.TcpIp_UdpTransmit s.trace status.socket_id none status.remote
              status.tx_available,
            s.call (SoAd_Call.TcpIp_UdpTransmit status.socket_id none status.remote
              status.tx_available))
        else if group.protocol = TCPIP_IPPROTO_TCP then
          (env.TcpIp_TcpTransmit s.trace status.socket_id none status.tx_available false,
            s.call (SoAd_Call.TcpIp_TcpTransmit status.socket_id none status.tx_available
              false))
        else (E_NOT_OK, s)
      else if res_buf = BUFREQ_E_BUSY then (E_OK, s)
      else (E_NOT_OK, s)
    let res := sent.1
    let s := sent.2
    if (s.SoAd_SoConStatus id).tx_remain = 0 ∨ res ≠ E_OK then
      let s := s.setCon id
        { s.SoAd_SoConStatus id with tx_route := none, tx_remain := 0, tx_available := 0 }
      s.call (SoAd_Call.tx_confirmation route.upper route.pdu_id res)
    else s
  | none => s

/-- The function `SoAd_SoCon_State_Online` of `SoAd.c`. -/
def SoAd_SoCon_State_Online (cfg : SoAd_ConfigType) (env : SoAd_Env) (id : Nat)
    (s : SoAd_State) : SoAd_State :=
  SoAd_SoCon_ProcessTransmit cfg env id (SoAd_SoCon_ProcessClose id s)

/-- The function `SoAd_SoCon_State_Reconnect` of `SoAd.c`. -/
def SoAd_SoCon_State_Reconnect (id : Nat) (s : SoAd_State) : SoAd_State :=
  SoAd_SoCon_ProcessClose id s

/-- The function `SoAd_SoCon_CheckOpen` of `SoAd.c`. -/
def SoAd_SoCon_CheckOpen (cfg : SoAd_ConfigType) (id : Nat) (s : SoAd_State) :
    Std_ReturnType :=
  let config := cfg.connection id
  let config_group := cfg.group config.group
  let status := s.SoAd_SoConStatus id
  if status.socket_id = TCPIP_SOCKETID_INVALID then
    if config_group.automatic ≠ false ∨ status.request_open ≠ false then
      if status.remote.domain ≠ 0 then E_OK else E_NOT_OK
    else E_NOT_OK
  else E_NOT_OK

/-- The value behind the pointer `socket_id` of `SoAd_SoCon_PerformOpen`: the
socket id of the connection for an initiating group, of the group
otherwise. -/
def SoAd_SoCon_PerformOpen_slot (cfg : SoAd_ConfigType) (id : Nat) (s : SoAd_State) : Nat :=
  let config := cfg.connection id
  if (cfg.group config.group).initiate then
    (s.SoAd_SoConStatus id).socket_id
  else
    (s.SoAd_SoGrpStatus config.group).socket_id

/-- A write through the pointer `socket_id` of `SoAd_SoCon_PerformOpen`. -/
def SoAd_SoCon_PerformOpen_store (cfg : SoAd_ConfigType) (id : Nat) (socket_id : Nat)
    (s : SoAd_State) : SoAd_State :=
  let config := cfg.connection id
  if (cfg.group config.group).initiate then
    s.setCon id { s.SoAd_SoConStatus id with socket_id := socket_id }
  else
    s.setGrp config.group { s.SoAd_SoGrpStatus config.group with socket_id := socket_id }

/-- The function `SoAd_SoCon_PerformOpen`: the result and the state after the
call. -/
def SoAd_SoCon_PerformOpen (cfg : SoAd_ConfigType) (env : SoAd_Env) (id : Nat)
    (s : SoAd_State) : Std_ReturnType × SoAd_State :=
  let config := cfg.connection id
  let config_group := cfg.group config.group
  let s := s.setCon id { s.SoAd_SoConStatus id with request_open := false }
  if SoAd_SoCon_PerformOpen_slot cfg id s = TCPIP_SOCKETID_INVALID then
    let got := env.TcpIp_SoAdGetSocket s.trace config_group.domain config_group.protocol
    let s := s.call (SoAd_Call.TcpIp_SoAdGetSocket config_group.domain config_group.protocol)
    let s := SoAd_SoCon_PerformOpen_store cfg id got.2 s
    if got.1 = E_OK then
      let localport := config_group.localport
      let socket_id := SoAd_SoCon_PerformOpen_slot cfg id s
      let res := env.TcpIp_Bind s.trace socket_id config_group.localaddr localport
      let s := s.call (SoAd_Call.TcpIp_Bind socket_id config_group.localaddr localport)
      let opened : Std_ReturnType × SoAd_State :=
        if res = E_OK then
          if config_group.protocol = TCPIP_IPPROTO_TCP then
            if config_group.initiate then
              (env.TcpIp_TcpConnect s.trace socket_id (s.SoAd_SoConStatus id).remote,
                s.call (SoAd_Call.TcpIp_TcpConnect socket_id (s.SoAd_SoConStatus id).remote))
            else
              (env.TcpIp_TcpListen s.trace socket_id (SOAD_CFG_CONNECTION_COUNT cfg),
                s.call (SoAd_Call.TcpIp_TcpListen socket_id (SOAD_CFG_CONNECTION_COUNT cfg)))
          else (res, s)
        else (res, s)
      let res := opened.1
      let s := opened.2
      if res ≠ E_OK then
        let s := s.call (SoAd_Call.TcpIp_Close socket_id true)
        (res, SoAd_SoCon_PerformOpen_store cfg id TCPIP_SOCKETID_INVALID s)
      else (res, s)
    else (got.1, s)
  else (E_OK, s)

/-- The function `SoAd_SoCon_State_Offline` of `SoAd.c`. -/
def SoAd_SoCon_State_Offline (cfg : SoAd_ConfigType) (env : SoAd_Env) (id : Nat)
    (s : SoAd_State) : SoAd_State :=
  let config := cfg.connection id
  let config_group := cfg.group config.group
  if SoAd_SoCon_CheckOpen cfg id s = E_OK then
    let opened := SoAd_SoCon_PerformOpen cfg env id s
    let s := opened.2
    if opened.1 = E_OK then
      if config_group.protocol = TCPIP_IPPROTO_TCP then
        SoAd_SoCon_EnterState cfg env id SOAD_SOCON_RECONNECT s
      else if config_group.protocol = TCPIP_IPPROTO_UDP then
        if SoAd_SockAddrWildcard (s.SoAd_SoConStatus id).remote = TRUE then
          SoAd_SoCon_EnterState cfg env id SOAD_SOCON_RECONNECT s
        else
          SoAd_SoCon_EnterState cfg env id SOAD_SOCON_ONLINE s
      else s
    else s
  else s

/-- The function `SoAd_SoCon_MainFunction` of `SoAd.c`. -/
def SoAd_SoCon_MainFunction (cfg : SoAd_ConfigType) (env : SoAd_Env) (id : Nat)
    (s : SoAd_State) : SoAd_State :=
  match (s.SoAd_SoConStatus id).state with
  | SOAD_SOCON_OFFLINE => SoAd_SoCon_State_Offline cfg env id s
  | SOAD_SOCON_RECONNECT => SoAd_SoCon_State_Reconnect id s
  | SOAD_SOCON_ONLINE => SoAd_SoCon_State_Online cfg env id s

/-- The function `SoAd_MainFunction`: the tick of every connection, in the
order of the connection ids. -/
def SoAd_MainFunction (cfg : SoAd_ConfigType) (env : SoAd_Env) (s : SoAd_State) :
    SoAd_State :=
  (List.range (SOAD_CFG_CONNECTION_COUNT cfg)).foldl
    (fun s id => SoAd_SoCon_MainFunction cfg env id s) s

/-! ## Sequences of calls into the module -/

/-- A call into the module, with its arguments: the operations a state is
reached by after `SoAd_Init`. -/
inductive SoAd_Op where
  | MainFunction
  | RxIndication (socket_id : Nat) (remote : TcpIp_SockAddrType) (buf : List Nat) (len : Nat)
  | TcpAccepted (socket_id socket_id_connected : Nat) (remote : TcpIp_SockAddrType)
  | TcpConnected (socket_id : Nat)
  | TcpIpEvent (id_con : Nat) (socket_id : Nat) (event : TcpIp_EventType)
  | IfTransmit (pdu_id : Nat) (pdu_info : PduInfoType)
  | TpTransmit (pdu_id : Nat) (pdu_info : PduInfoType)
  | CopyTxData (socket_id : Nat) (buf : List Nat) (len : Nat)
  deriving DecidableEq, Repr, Inhabited

/-- The state after one call into the module; `none` when the call does not
return a state (the loop of `SoAd_GetPduRoute` is still running after `fuel`
rounds, or `SoAd_CopyTxData` dereferences a null `tx_route`). -/
def SoAd_Op.run (cfg : SoAd_ConfigType) (env : SoAd_Env) (fuel : Nat) (op : SoAd_Op)
    (s : SoAd_State) : Option SoAd_State :=
  match op with
  | SoAd_Op.MainFunction => some (SoAd_MainFunction cfg env s)
  | SoAd_Op.RxIndication socket_id remote buf len =>
    some (SoAd_RxIndication cfg env socket_id remote buf len s)
  | SoAd_Op.TcpAccepted socket_id socket_id_connected remote =>
    some (SoAd_TcpAccepted cfg env socket_id socket_id_connected remote s).2
  | SoAd_Op.TcpConnected socket_id => some (SoAd_TcpConnected cfg env socket_id s)
  | SoAd_Op.TcpIpEvent id_con socket_id event =>
    some (SoAd_TcpIpEvent cfg env id_con socket_id event s)
  | SoAd_Op.IfTransmit pdu_id pdu_info =>
    (SoAd_IfTransmit cfg env fuel pdu_id pdu_info s).map Prod.snd
  | SoAd_Op.TpTransmit pdu_id pdu_info =>
    (SoAd_TpTransmit cfg env fuel pdu_id pdu_info s).map Prod.snd
  | SoAd_Op.CopyTxData socket_id buf len =>
    (SoAd_CopyTxData cfg env socket_id buf len s).map Prod.snd

/-- The state after a sequence of calls into the module, first call first. -/
def SoAd_run (cfg : SoAd_ConfigType) (env : SoAd_Env) (fuel : Nat) :
    List SoAd_Op → SoAd_State → Option SoAd_State
  | [], s => some s
  | op :: ops, s => (op.run cfg env fuel s).bind (SoAd_run cfg env fuel ops)

/-! ## Properties of calls and of the world outside -/

/-- The call is one of those that open a socket: `TcpIp_SoAdGetSocket`,
`TcpIp_Bind`, `TcpIp_TcpListen` or `TcpIp_TcpConnect`. -/
def SoAd_Call.opens : SoAd_Call → Bool
  | SoAd_Call.TcpIp_SoAdGetSocket _ _ => true
  | SoAd_Call.TcpIp_Bind _ _ _ => true
  | SoAd_Call.TcpIp_TcpListen _ _ => true
  | SoAd_Call.TcpIp_TcpConnect _ _ => true
  | _ => false

/-- The transport answers every call that opens a socket with `E_OK`. -/
def SoAd_Env.opens (env : SoAd_Env) : Prop :=
  (∀ t d p, (env.TcpIp_SoAdGetSocket t d p).1 = E_OK) ∧
    (∀ t i a p, env.TcpIp_Bind t i a p = E_OK) ∧
    (∀ t i n, env.TcpIp_TcpListen t i n = E_OK) ∧
    (∀ t i r, env.TcpIp_TcpConnect t i r = E_OK)

/-- The status of every connection but `id` and of every group but `g`:
what a function that works on connection `id` of group `g` must leave as it
is. -/
def SoAd_State.others (s : SoAd_State) (id g : Nat) :
    (Nat → Option SoAd_SoConStatusType) × (Nat → Option SoAd_SoGrpStatusType) :=
  (fun j => if j = id then none else some (s.SoAd_SoConStatus j),
    fun h => if h = g then none else some (s.SoAd_SoGrpStatus h))

/-- The PDU route table is sorted strictly ascending by `pdu_id`. -/
def SoAd_ConfigType.pdu_routes_sorted (cfg : SoAd_ConfigType) : Prop :=
  cfg.pdu_routes.Pairwise fun a b => a.pdu_id < b.pdu_id

instance (cfg : SoAd_ConfigType) : Decidable cfg.pdu_routes_sorted := by
  unfold SoAd_ConfigType.pdu_routes_sorted; infer_instance

/-! ## Sessions of the transmit pump -/

/-- The call is a `tx_confirmation`. -/
def SoAd_Call.confirms : SoAd_Call → Bool
  | SoAd_Call.tx_confirmation _ _ _ => true
  | _ => false

/-- The call is a `tx_confirmation` for PDU `p`. -/
def SoAd_Call.confirms_pdu (p : Nat) : SoAd_Call → Bool
  | SoAd_Call.tx_confirmation _ pdu _ => decide (pdu = p)
  | _ => false

/-- The number of `tx_confirmation` calls for PDU `p` among the calls `t`. -/
def SoAd_tx_confirmations (p : Nat) (t : List SoAd_Call) : Nat :=
  t.countP (SoAd_Call.confirms_pdu p)

/-- The route pointer is bound to a route of PDU `p`. -/
def SoAd_tx_route_of (p : Nat) : Option SoAd_PduRouteType → Bool
  | some route => decide (route.pdu_id = p)
  | none => false

/-- The `tx_route` of every connection. -/
def SoAd_State.tx_routes (s : SoAd_State) : Nat → Option SoAd_PduRouteType :=
  fun c => (s.SoAd_SoConStatus c).tx_route

/-- The number of connections whose `tx_route` is bound to a route of PDU `p`:
the sessions for `p` that are armed and not ended. -/
def SoAd_tx_sessions (cfg : SoAd_ConfigType) (p : Nat) (s : SoAd_State) : Nat :=
  (List.range (SOAD_CFG_CONNECTION_COUNT cfg)).countP fun c =>
    SoAd_tx_route_of p (s.tx_routes c)

/-- The `tx_route` of every connection together with the number of
`tx_confirmation` calls made so far for every PDU: what only
`SoAd_TpTransmit` and the end of a session change. -/
def SoAd_State.tx (s : SoAd_State) : (Nat → Option SoAd_PduRouteType) × (Nat → Nat) :=
  (s.tx_routes, fun p => SoAd_tx_confirmations p s.trace)

/-- The route a call into the module arms: the route `SoAd_TpTransmit` finds
when it returns `E_OK`; `none` for every other call. -/
def SoAd_Op.arms (cfg : SoAd_ConfigType) (fuel : Nat) : SoAd_Op → Option SoAd_PduRouteType
  | SoAd_Op.TpTransmit pdu_id _ =>
    if pdu_id < SOAD_CFG_PDUROUTE_COUNT cfg then
      match SoAd_GetPduRoute cfg fuel pdu_id with
      | some (res, some route) => if res = E_OK then some route else none
      | _ => none
    else none
  | _ => none

/-- The number of sessions for PDU `p` the calls `ops` arm. -/
def SoAd_tx_armed (cfg : SoAd_ConfigType) (fuel : Nat) (p : Nat) (ops : List SoAd_Op) : Nat :=
  ops.countP fun op => SoAd_tx_route_of p (op.arms cfg fuel)

/-- Every call of the sequence that arms a route finds the connection of
the route without a `tx_route`. -/
def SoAd_run_arms_idle (cfg : SoAd_ConfigType) (env : SoAd_Env) (fuel : Nat) :
    List SoAd_Op → SoAd_State → Bool
  | [], _ => true
  | op :: ops, s =>
    (match op.arms cfg fuel with
      | some route => (s.SoAd_SoConStatus route.destination.connection).tx_route.isNone
      | none => true) &&
    (match op.run cfg env fuel s with
      | some s' => SoAd_run_arms_idle cfg env fuel ops s'
      | none => true)

/-! ## The steps of the transmit pump -/

/-- The first block of `SoAd_SoCon_ProcessTransmit` for a connection whose
`tx_route` is `route`: ask the upper layer how much it has when `tx_available`
is zero; the value of `res_buf` and the state after the block. -/
def SoAd_SoCon_ProcessTransmit_query (env : SoAd_Env) (id : Nat) (route : SoAd_PduRouteType)
    (s : SoAd_State) : BufReq_ReturnType × SoAd_State :=
  let status := s.SoAd_SoConStatus id
  if status.tx_available = 0 then
    let res_buf := env.copy_tx_data s.trace route.upper route.pdu_id none 0
      status.tx_available
    let s := s.call (SoAd_Call.copy_tx_data route.upper route.pdu_id none 0)
    (res_buf.1, s.setCon id { s.SoAd_SoConStatus id with tx_available := res_buf.2 })
  else (BUFREQ_OK, s)

/-- The second block of `SoAd_SoCon_ProcessTransmit`: hand `tx_available`
bytes to the transport when `res_buf` is `BUFREQ_OK`; the value of `res` and
the state after the block. -/
def SoAd_SoCon_ProcessTransmit_send (cfg : SoAd_ConfigType) (env : SoAd_Env) (id : Nat)
    (res_buf : BufReq_ReturnType) (s : SoAd_State) : Std_ReturnType × SoAd_State :=
  let status := s.SoAd_SoConStatus id
  let group := cfg.group (cfg.connection id).group
  if res_buf = BUFREQ_OK then
    if group.protocol = TCPIP_IPPROTO_UDP then
      (env.TcpIp_UdpTransmit s.trace status.socket_id none status.remote
          status.tx_available,
        s.call (SoAd_Call.TcpIp_UdpTransmit status.socket_id none status.remote
          status.tx_available))
    else if group.protocol = TCPIP_IPPROTO_TCP then
      (env.TcpIp_TcpTransmit s.trace status.socket_id none status.tx_available false,
        s.call (SoAd_Call.TcpIp_TcpTransmit status.socket_id none status.tx_available
          false))
    else (E_NOT_OK, s)
  else if res_buf = BUFREQ_E_BUSY then (E_OK, s)
  else (E_NOT_OK, s)

/-- One step of the pump, up to the test that ends the session: the value of
`res` and the state before `if (status->tx_remain == 0u || (res != E_OK))`. -/
def SoAd_SoCon_ProcessTransmit_step (cfg : SoAd_ConfigType) (env : SoAd_Env) (id : Nat)
    (route : SoAd_PduRouteType) (s : SoAd_State) : Std_ReturnType × SoAd_State :=
  SoAd_SoCon_ProcessTransmit_send cfg env id
    (SoAd_SoCon_ProcessTransmit_query env id route s).1
    (SoAd_SoCon_ProcessTransmit_query env id route s).2

/-! ## Free slots -/

/-- The connection `c` is eligible for group `g` and remote `r`: it belongs to
`g`, its own socket id is invalid, its state is not OFFLINE and
`SoAd_SockAddrWildcardMatch` of its effective remote (the one in its status)
and `r` is `TRUE`. -/
def SoAd_SoCon_eligible (cfg : SoAd_ConfigType) (s : SoAd_State) (g : Nat)
    (r : TcpIp_SockAddrType) (c : Nat) : Prop :=
  (cfg.connection c).group = g ∧
    (s.SoAd_SoConStatus c).socket_id = TCPIP_SOCKETID_INVALID ∧
    (s.SoAd_SoConStatus c).state ≠ SOAD_SOCON_OFFLINE ∧
    SoAd_SockAddrWildcardMatch (s.SoAd_SoConStatus c).remote r = TRUE

instance (cfg : SoAd_ConfigType) (s : SoAd_State) (g : Nat) (r : TcpIp_SockAddrType) (c : Nat) :
    Decidable (SoAd_SoCon_eligible cfg s g r c) := by
  unfold SoAd_SoCon_eligible; infer_instance

/-- The four conditions with the remote of the connection configuration in
the place of the effective remote: the connection `c` belongs to `g`, its own
socket id is invalid, its state is not OFFLINE and
`SoAd_SockAddrWildcardMatch` of its configured remote and `r` is `TRUE` (a
connection without a configured remote matches nothing). -/
def SoAd_SoCon_eligible_configured (cfg : SoAd_ConfigType) (s : SoAd_State) (g : Nat)
    (r : TcpIp_SockAddrType) (c : Nat) : Bool :=
  decide ((cfg.connection c).group = g) &&
    decide ((s.SoAd_SoConStatus c).socket_id = TCPIP_SOCKETID_INVALID) &&
    decide ((s.SoAd_SoConStatus c).state ≠ SOAD_SOCON_OFFLINE) &&
    (match (cfg.connection c).remote with
      | some configured => decide (SoAd_SockAddrWildcardMatch configured r = TRUE)
      | none => false)

/-- The call is a `TcpIp_Close`. -/
def SoAd_Call.closes : SoAd_Call → Bool
  | SoAd_Call.TcpIp_Close _ _ => true
  | _ => false

/-! ## Invariants of the states the module reaches -/

/-- The part of the status that the transmit pump, the close latch and the
transmit entry points leave alone: of every connection the state, the own
socket id, the effective remote and the rx route, and every group status. -/
def SoAd_State.link (s : SoAd_State) :
    (Nat → SoAd_SoConStateType × Nat × TcpIp_SockAddrStorageType × Option SoAd_SocketRouteType)
      × (Nat → SoAd_SoGrpStatusType) :=
  (fun c => ((s.SoAd_SoConStatus c).state, (s.SoAd_SoConStatus c).socket_id,
      (s.SoAd_SoConStatus c).remote, (s.SoAd_SoConStatus c).rx_route),
    s.SoAd_SoGrpStatus)

/-- A connection status in OFFLINE has no rx route bound. -/
def SoAd_SoConStatusType.offline_unbound (status : SoAd_SoConStatusType) : Prop :=
  status.state = SOAD_SOCON_OFFLINE → status.rx_route = none

instance (status : SoAd_SoConStatusType) : Decidable status.offline_unbound := by
  unfold SoAd_SoConStatusType.offline_unbound; infer_instance

/-- The effective remote of a connection status has no family (the family
0 that `memset` leaves) or one of the two families `SoAd_SockAddrCopy`
copies. -/
def SoAd_SoConStatusType.remote_family_known (status : SoAd_SoConStatusType) : Prop :=
  status.remote.domain = 0 ∨ status.remote.domain = TCPIP_AF_INET ∨
    status.remote.domain = TCPIP_AF_INET6

instance (status : SoAd_SoConStatusType) : Decidable status.remote_family_known := by
  unfold SoAd_SoConStatusType.remote_family_known; infer_instance

/-- The connection `c` has a socket to work with: its own socket id is valid
or the socket id of its group is. -/
def SoAd_State.has_socket (cfg : SoAd_ConfigType) (s : SoAd_State) (c : Nat) : Prop :=
  (s.SoAd_SoConStatus c).socket_id ≠ TCPIP_SOCKETID_INVALID ∨
    (s.SoAd_SoGrpStatus (cfg.connection c).group).socket_id ≠ TCPIP_SOCKETID_INVALID

instance (cfg : SoAd_ConfigType) (s : SoAd_State) (c : Nat) : Decidable (s.has_socket cfg c) := by
  unfold SoAd_State.has_socket; infer_instance

/-- Every ONLINE connection of the configuration has a valid own socket id
or a group with a valid socket id. -/
def SoAd_State.online_has_socket (cfg : SoAd_ConfigType) (s : SoAd_State) : Prop :=
  ∀ c, c < SOAD_CFG_CONNECTION_COUNT cfg →
    (s.SoAd_SoConStatus c).state = SOAD_SOCON_ONLINE → s.has_socket cfg c

instance (cfg : SoAd_ConfigType) (s : SoAd_State) : Decidable (s.online_has_socket cfg) := by
  unfold SoAd_State.online_has_socket; infer_instance

/-- The socket ids `TcpIp_SoAdGetSocket` hands out with `E_OK` are valid. -/
def SoAd_Env.sockets_valid (env : SoAd_Env) : Prop :=
  ∀ t domain protocol, (env.TcpIp_SoAdGetSocket t domain protocol).1 = E_OK →
    (env.TcpIp_SoAdGetSocket t domain protocol).2 ≠ TCPIP_SOCKETID_INVALID

/-- The call into the module names a socket: the socket id that
`SoAd_RxIndication`, `SoAd_TcpAccepted` (the listen socket) and
`SoAd_TcpConnected` are called with is not `TCPIP_SOCKETID_INVALID`; and when
`SoAd_TcpIpEvent` is called for the socket of a group, the value the
uninitialised local `id_con` of `SoAd_SoGrp_Close` holds is the id of that
group. -/
def SoAd_Op.addressed (cfg : SoAd_ConfigType) (s : SoAd_State) : SoAd_Op → Bool
  | SoAd_Op.RxIndication socket_id _ _ _ => decide (socket_id ≠ TCPIP_SOCKETID_INVALID)
  | SoAd_Op.TcpAccepted socket_id _ _ => decide (socket_id ≠ TCPIP_SOCKETID_INVALID)
  | SoAd_Op.TcpConnected socket_id => decide (socket_id ≠ TCPIP_SOCKETID_INVALID)
  | SoAd_Op.TcpIpEvent id_con socket_id _ =>
    match SoAd_SoGrp_Lookup cfg s socket_id with
    | some id_grp => decide (id_con = id_grp)
    | none => true
  | _ => true

/-- Every call of the sequence names a socket, in the state it is made in. -/
def SoAd_run_addressed (cfg : SoAd_ConfigType) (env : SoAd_Env) (fuel : Nat) :
    List SoAd_Op → SoAd_State → Bool
  | [], _ => true
  | op :: ops, s =>
    op.addressed cfg s &&
    (match op.run cfg env fuel s with
      | some s' => SoAd_run_addressed cfg env fuel ops s'
      | none => true)

/-! ## What a tick calls -/

/-- The call hands data to the transport: `TcpIp_UdpTransmit` or
`TcpIp_TcpTransmit`. -/
def SoAd_Call.transmits : SoAd_Call → Bool
  | SoAd_Call.TcpIp_UdpTransmit _ _ _ _ => true
  | SoAd_Call.TcpIp_TcpTransmit _ _ _ _ => true
  | _ => false

/-! ## What an OFFLINE connection holds -/

/-- A connection status in OFFLINE holds no socket of its own. -/
def SoAd_SoConStatusType.offline_released (status : SoAd_SoConStatusType) : Prop :=
  status.state = SOAD_SOCON_OFFLINE → status.socket_id = TCPIP_SOCKETID_INVALID

instance (status : SoAd_SoConStatusType) : Decidable status.offline_released := by
  unfold SoAd_SoConStatusType.offline_released; infer_instance

/-- A `TcpIp_SoAdGetSocket` that fails writes no socket id: the id behind
its pointer, which is `TCPIP_SOCKETID_INVALID` when `SoAd_SoCon_PerformOpen`
calls it, is `TCPIP_SOCKETID_INVALID` afterwards. -/
def SoAd_Env.sockets_on_success (env : SoAd_Env) : Prop :=
  ∀ t domain protocol, (env.TcpIp_SoAdGetSocket t domain protocol).1 ≠ E_OK →
    (env.TcpIp_SoAdGetSocket t domain protocol).2 = TCPIP_SOCKETID_INVALID

/-- The protocol of every group of the configuration is TCP or UDP, and
every connection of the configuration names a group of the configuration. -/
def SoAd_ConfigType.groups_tcp_or_udp (cfg : SoAd_ConfigType) : Prop :=
  (∀ g, g < SOAD_CFG_CONNECTIONGROUP_COUNT cfg →
    (cfg.group g).protocol = TCPIP_IPPROTO_TCP ∨ (cfg.group g).protocol = TCPIP_IPPROTO_UDP) ∧
    (∀ c, c < SOAD_CFG_CONNECTION_COUNT cfg →
      (cfg.connection c).group < SOAD_CFG_CONNECTIONGROUP_COUNT cfg)

instance (cfg : SoAd_ConfigType) : Decidable cfg.groups_tcp_or_udp := by
  unfold SoAd_ConfigType.groups_tcp_or_udp; infer_instance

/-! ## The configuration of the test suite (`tests/cunit/suite_1/main.c`) -/

namespace suite_1

/-- Modelled from the spec: `TcpIp.h` is not among the sources; the local
address id of the test groups, which the module only hands on to
`TcpIp_Bind`. -/
def TCPIP_LOCALADDRID_ANY : Nat := 0

def socket_remote_any_v4 : TcpIp_SockAddrType :=
  { domain := TCPIP_AF_INET, port := TCPIP_PORT_ANY, addr0 := TCPIP_IPADDR_ANY,
    addr1 := 0, addr2 := 0, addr3 := 0 }

def socket_remote_loopback_v4 : TcpIp_SockAddrType :=
  { domain := TCPIP_AF_INET, port := 8000, addr0 := 0x74000001,
    addr1 := 0, addr2 := 0, addr3 := 0 }

def socket_group_1 : SoAd_SoGrpConfigType :=
  { localport := 8000, localaddr := TCPIP_LOCALADDRID_ANY, domain := TCPIP_AF_INET,
    protocol := TCPIP_IPPROTO_TCP, automatic := true, initiate := false,
    listen_only := false, socket_route_id := SOAD_SOCKETROUTEID_INVALID }

def socket_group_2 : SoAd_SoGrpConfigType :=
  { localport := 8001, localaddr := TCPIP_LOCALADDRID_ANY, domain := TCPIP_AF_INET,
    protocol := TCPIP_IPPROTO_UDP, automatic := true, initiate := false,
    listen_only := false, socket_route_id := SOAD_SOCKETROUTEID_INVALID }

def socket_group_3 : SoAd_SoGrpConfigType :=
  { localport := TCPIP_PORT_ANY, localaddr := TCPIP_LOCALADDRID_ANY,
    domain := TCPIP_AF_INET, protocol := TCPIP_IPPROTO_TCP, automatic := true,
    initiate := true, listen_only := false,
    socket_route_id := SOAD_SOCKETROUTEID_INVALID }

/-- The callback table `suite_tp` is upper layer 0, `suite_if` is upper
layer 1. -/
def socket_route_1 : SoAd_SocketRouteType :=
  { header_id := SOAD_PDUHEADERID_INVALID, destination := { upper := 0, pdu := 0 } }

def socket_route_2 : SoAd_SocketRouteType :=
  { header_id := SOAD_PDUHEADERID_INVALID, destination := { upper := 1, pdu := 1 } }

def socket_route_3 : SoAd_SocketRouteType :=
  { header_id := SOAD_PDUHEADERID_INVALID, destination := { upper := 1, pdu := 2 } }

def socket_group_1_conn_1 : SoAd_SoConConfigType :=
  { group := 0, remote := some socket_remote_any_v4, socket_route_id := 0 }

def socket_group_1_conn_2 : SoAd_SoConConfigType :=
  { group := 0, remote := some socket_remote_any_v4, socket_route_id := 0 }

def socket_group_2_conn_1 : SoAd_SoConConfigType :=
  { group := 1, remote := some socket_remote_any_v4, socket_route_id := 1 }

def socket_group_2_conn_2 : SoAd_SoConConfigType :=
  { group := 1, remote := some socket_remote_any_v4, socket_route_id := 1 }

def socket_group_3_conn_1 : SoAd_SoConConfigType :=
  { group := 2, remote := some socket_remote_loopback_v4, socket_route_id := 1 }

def pdu_route_1 : SoAd_PduRouteType :=
  { pdu_id := 0, upper := 0,
    destination := { header_id := SOAD_PDUHEADERID_INVALID, connection := 0 } }

def config : SoAd_ConfigType :=
  { groups := [socket_group_1, socket_group_2, socket_group_3]
    connections := [socket_group_1_conn_1, socket_group_1_conn_2, socket_group_2_conn_1,
      socket_group_2_conn_2, socket_group_3_conn_1]
    socket_routes := [socket_route_1, socket_route_2, socket_route_3]
    pdu_routes := [pdu_route_1] }

/-- The stubs of the test suite: `start_of_reception` and `copy_rx_data` of
both callback tables answer `BUFREQ_OK` and a length of `0xffff`,
`copy_tx_data` answers `BUFREQ_OK` and writes nothing, `TcpIp_SoAdGetSocket`
hands out the ids 2, 3, 4 and so on (kept below 100, the size of the socket
table of the stubs), and every other `TcpIp_*` stub answers `E_OK`. -/
def env : SoAd_Env :=
  { start_of_reception := fun _ _ _ => (BUFREQ_OK, 65535)
    copy_rx_data := fun _ _ _ _ _ => (BUFREQ_OK, 65535)
    copy_tx_data := fun _ _ _ _ _ available => (BUFREQ_OK, available)
    TcpIp_SoAdGetSocket := fun trace _ _ =>
      (E_OK, 2 + (trace.countP fun c =>
        match c with
        | SoAd_Call.TcpIp_SoAdGetSocket _ _ => true
        | _ => false) % 98)
    TcpIp_Bind := fun _ _ _ _ => E_OK
    TcpIp_TcpListen := fun _ _ _ => E_OK
    TcpIp_TcpConnect := fun _ _ _ => E_OK
    TcpIp_UdpTransmit := fun _ _ _ _ _ => E_OK
    TcpIp_TcpTransmit := fun _ _ _ _ _ => E_OK }

/-- Status arrays with arbitrary contents, as they may be before
`SoAd_Init`. -/
def state_dirty : SoAd_State :=
  { SoAd_SoConStatus := fun id =>
      { socket_id := id + 7
        remote := { domain := 9, port := 9, addr0 := 9, addr1 := 9, addr2 := 9, addr3 := 9 }
        state := SOAD_SOCON_ONLINE
        request_open := true
        request_close := true
        request_abort := true
        rx_route := some socket_route_3
        tx_route := some pdu_route_1
        tx_remain := 11
        tx_available := 12 }
    SoAd_SoGrpStatus := fun id => { socket_id := id + 3 }
    trace := [] }

/-- The state the test `open` checks after the first `SoAd_MainFunction`: the
listening TCP group holds socket 2, the UDP group socket 3, the connection of
the connecting TCP group socket 4, and every connection is in RECONNECT with
its configured remote. -/
def state_open : SoAd_State :=
  { SoAd_SoConStatus := fun id =>
      { (SoAd_Init config state_dirty).SoAd_SoConStatus id with
        socket_id := if id = 4 then 4 else TCPIP_SOCKETID_INVALID
        state := SOAD_SOCON_RECONNECT }
    SoAd_SoGrpStatus := fun id =>
      { socket_id := if id = 0 then 2 else if id = 1 then 3 else TCPIP_SOCKETID_INVALID }
    trace := [] }

/-- The remote `1.0.0.1:1` of the test `accept`. -/
def remote_1 : TcpIp_SockAddrType :=
  { domain := TCPIP_AF_INET, port := 1, addr0 := 1, addr1 := 0, addr2 := 0, addr3 := 0 }

/-- The state after the tests `accept_1` and `accept_2`: both connections of
the listening group were given a socket, 42 and 43. -/
def state_accepted : SoAd_State :=
  (SoAd_TcpAccepted config env 2 43 remote_1
    (SoAd_TcpAccepted config env 2 42 remote_1 state_open).2).2

/-- A configuration like `config` with two PDU routes, of ids 0 and 1. -/
def config_two_routes : SoAd_ConfigType :=
  { config with
    pdu_routes := [pdu_route_1,
      { pdu_id := 1, upper := 0,
        destination := { header_id := SOAD_PDUHEADERID_INVALID, connection := 1 } }] }

/-- A configuration like `config` with three PDU routes, of ids 10, 20
and 30. -/
def config_three_routes : SoAd_ConfigType :=
  { config with
    pdu_routes := [
      { pdu_id := 10, upper := 0,
        destination := { header_id := SOAD_PDUHEADERID_INVALID, connection := 0 } },
      { pdu_id := 20, upper := 0,
        destination := { header_id := SOAD_PDUHEADERID_INVALID, connection := 1 } },
      { pdu_id := 30, upper := 0,
        destination := { header_id := SOAD_PDUHEADERID_INVALID, connection := 2 } }] }

/-- The stubs of the test suite, but with a `TcpIp_TcpTransmit` and a
`TcpIp_UdpTransmit` that fail. -/
def env_transmit_fails : SoAd_Env :=
  { env with
    TcpIp_UdpTransmit := fun _ _ _ _ _ => E_NOT_OK
    TcpIp_TcpTransmit := fun _ _ _ _ _ => E_NOT_OK }

/-- The state right after `SoAd_Init`. -/
def state_init : SoAd_State :=
  { SoAd_Init config state_dirty with trace := [] }

/-- A configuration like `config` whose only PDU route has the id 7. -/
def config_route_7 : SoAd_ConfigType :=
  { config with pdu_routes := [{ pdu_route_1 with pdu_id := 7 }] }

/-- The state `state_accepted` after `SoAd_TpTransmit` for PDU 0: connection
0, which is ONLINE on socket 42, has the route of PDU 0 as its `tx_route`. -/
def state_armed : SoAd_State :=
  state_accepted.setCon 0
    { state_accepted.SoAd_SoConStatus 0 with tx_route := some pdu_route_1 }

/-- The remote `1.0.0.1:2` of the test `receive_udp_1`. -/
def remote_2 : TcpIp_SockAddrType :=
  { domain := TCPIP_AF_INET, port := 2, addr0 := 1, addr1 := 0, addr2 := 0, addr3 := 0 }

/-- The hundred bytes of the test `receive`. -/
def data_100 : List Nat := List.replicate 100 0

/-- The stubs of the test suite, but with a sink that answers the probe and
refuses the copy of the data. -/
def env_copy_fails : SoAd_Env :=
  { env with
    copy_rx_data := fun _ _ _ SduDataPtr _ =>
      match SduDataPtr with
      | some _ => (BUFREQ_E_NOT_OK, 0)
      | none => (BUFREQ_OK, 65535) }

/-- The INET6 remote with the any address and the any port. -/
def socket_remote_any_v6 : TcpIp_SockAddrType :=
  { domain := TCPIP_AF_INET6, port := TCPIP_PORT_ANY, addr0 := TCPIP_IP6ADDR_ANY,
    addr1 := TCPIP_IP6ADDR_ANY, addr2 := TCPIP_IP6ADDR_ANY, addr3 := TCPIP_IP6ADDR_ANY }

/-- An INET6 remote, port 2. -/
def remote_v6 : TcpIp_SockAddrType :=
  { domain := TCPIP_AF_INET6, port := 2, addr0 := 1, addr1 := 0, addr2 := 0, addr3 := 0 }

/-- A configuration like `config` whose UDP group and its two connections are
INET6, the connections with the any address and the any port as remote. -/
def config_udp_v6 : SoAd_ConfigType :=
  { config with
    groups := [socket_group_1, { socket_group_2 with domain := TCPIP_AF_INET6 },
      socket_group_3]
    connections := [socket_group_1_conn_1, socket_group_1_conn_2,
      { socket_group_2_conn_1 with remote := some socket_remote_any_v6 },
      { socket_group_2_conn_2 with remote := some socket_remote_any_v6 },
      socket_group_3_conn_1] }

/-- Calls that arm the route of PDU 0 on connection 0 twice in a row, between
accepting the connection and the next tick. -/
def ops_armed_twice : List SoAd_Op :=
  [SoAd_Op.MainFunction, SoAd_Op.TcpAccepted 2 42 remote_1,
    SoAd_Op.TpTransmit 0 ⟨none, 8⟩, SoAd_Op.TpTransmit 0 ⟨none, 8⟩, SoAd_Op.MainFunction]

/-- Calls that arm the route of PDU 0 on connection 0 twice, with a tick after
each. -/
def ops_armed_in_turn : List SoAd_Op :=
  [SoAd_Op.MainFunction, SoAd_Op.TcpAccepted 2 42 remote_1,
    SoAd_Op.TpTransmit 0 ⟨none, 8⟩, SoAd_Op.MainFunction,
    SoAd_Op.TpTransmit 0 ⟨none, 8⟩, SoAd_Op.MainFunction]

/-- The remote `1.0.0.1:3`, a third peer. -/
def remote_3 : TcpIp_SockAddrType :=
  { domain := TCPIP_AF_INET, port := 3, addr0 := 1, addr1 := 0, addr2 := 0, addr3 := 0 }

/-- The first tick and a datagram on the socket of the UDP group from each of
two peers, as in the tests `receive_udp_1` and `receive_udp_2`. -/
def ops_two_datagrams : List SoAd_Op :=
  [SoAd_Op.MainFunction, SoAd_Op.RxIndication 3 remote_1 data_100 100,
    SoAd_Op.RxIndication 3 remote_2 data_100 100]

/-- The stubs of the test suite, but with a `TcpIp_Bind` that fails. -/
def env_bind_fails : SoAd_Env :=
  { env with TcpIp_Bind := fun _ _ _ _ => E_NOT_OK }

/-- The stubs of the test suite, but with a `TcpIp_SoAdGetSocket` that fails
and leaves the id behind the pointer as it was (invalid). -/
def env_get_socket_fails : SoAd_Env :=
  { env with TcpIp_SoAdGetSocket := fun _ _ _ => (E_NOT_OK, TCPIP_SOCKETID_INVALID) }

/-- A configuration like `config` whose connecting TCP group is not
automatic. -/
def config_manual : SoAd_ConfigType :=
  { config with
    groups := [socket_group_1, socket_group_2, { socket_group_3 with automatic := false }] }

/-- The state right after `SoAd_Init` with the latch `request_open` of
connection 4 set. -/
def state_requested : SoAd_State :=
  state_init.setCon 4 { state_init.SoAd_SoConStatus 4 with request_open := true }

/-- The first tick, a connection accepted on the listen socket, and a reset
of the accepted socket. -/
def ops_accept_reset : List SoAd_Op :=
  [SoAd_Op.MainFunction, SoAd_Op.TcpAccepted 2 42 remote_1,
    SoAd_Op.TcpIpEvent 0 42 TCPIP_TCP_RESET]

/-- A configuration with the connecting TCP group of the test suite and its
connection only. -/
def config_connect : SoAd_ConfigType :=
  { groups := [socket_group_3]
    connections := [{ socket_group_3_conn_1 with group := 0 }]
    socket_routes := [socket_route_1, socket_route_2, socket_route_3]
    pdu_routes := [] }

/-- The state `state_accepted` with the latches `request_close` and
`request_abort` of connection 0 set: connection 0 is ONLINE on socket 42. -/
def state_closing : SoAd_State :=
  state_accepted.setCon 0
    { state_accepted.SoAd_SoConStatus 0 with request_close := true, request_abort := true }

/-- The state `state_open` with the latch `request_close` of connection 0
set: connection 0 is in RECONNECT and has no socket of its own. -/
def state_closing_reconnect : SoAd_State :=
  state_open.setCon 0 { state_open.SoAd_SoConStatus 0 with request_close := true }

/-- The stubs of the test suite, but with sinks whose `start_of_reception`
is not answered `BUFREQ_OK`. -/
def env_reception_refused : SoAd_Env :=
  { env with start_of_reception := fun _ _ _ => (BUFREQ_E_NOT_OK, 0) }

/-- The stubs of the test suite, but with an upper layer whose `copy_tx_data`
answers `BUFREQ_E_BUSY` and writes nothing. -/
def env_busy : SoAd_Env :=
  { env with copy_tx_data := fun _ _ _ _ _ available => (BUFREQ_E_BUSY, available) }

/-- The first tick, a connection accepted on the listen socket, and
`SoAd_TpTransmit` for PDU 0, whose route names the accepted connection. -/
def ops_armed : List SoAd_Op :=
  [SoAd_Op.MainFunction, SoAd_Op.TcpAccepted 2 42 remote_1, SoAd_Op.TpTransmit 0 ⟨none, 8⟩]

/-- The state `state_armed` after `SoAd_CopyTxData` took 10 bytes:
`tx_remain` of connection 0 is 65526. -/
def state_armed_remaining : SoAd_State :=
  state_armed.setCon 0 { state_armed.SoAd_SoConStatus 0 with tx_remain := 65526 }

/-- The stubs of the test suite, but with a `TcpIp_SoAdGetSocket` that writes
the id 7 behind its pointer and fails. -/
def env_get_socket_writes : SoAd_Env :=
  { env with TcpIp_SoAdGetSocket := fun _ _ _ => (E_NOT_OK, 7) }

end suite_1

/-! ## Facts about `memcmp` and the bytes of an address -/

theorem memcmp_self (xs : List Nat) (n : Nat) : memcmp xs xs n = 0 := by
  induction xs generalizing n with
  | nil => simp [memcmp]
  | cons x xs ih =>
    cases n with
    | zero => simp [memcmp]
    | succ n => simp [memcmp, ih]

theorem memcmp_eq_zero_iff (xs ys : List Nat) (n : Nat) (hx : xs.length = n)
    (hy : ys.length = n) : memcmp xs ys n = 0 ↔ xs = ys := by
  induction xs generalizing ys n with
  | nil =>
    subst hx
    have : ys = [] := List.length_eq_zero.mp hy
    subst this
    simp [memcmp]
  | cons x xs ih =>
    cases n with
    | zero => simp at hx
    | succ n =>
      cases ys with
      | nil => simp at hy
      | cons y ys =>
        simp only [List.length_cons, Nat.add_right_cancel_iff] at hx hy
        by_cases hxy : x = y
        · subst hxy
          simp [memcmp, ih ys n hx hy]
        · have hne : (x : Int) - (y : Int) ≠ 0 := by omega
          simp [memcmp, hxy, hne]

theorem memcmp_zeros_nonpos (xs ys : List Nat) (n : Nat) (hx : ∀ x ∈ xs, x = 0) :
    memcmp xs ys n ≤ 0 := by
  induction xs generalizing ys n with
  | nil => simp [memcmp]
  | cons x xs ih =>
    cases n with
    | zero => simp [memcmp]
    | succ n =>
      cases ys with
      | nil => simp [memcmp]
      | cons y ys =>
        have hx0 : x = 0 := hx x (List.mem_cons_self x xs)
        have hxs : ∀ z ∈ xs, z = 0 := fun z hz => hx z (List.mem_cons_of_mem x hz)
        subst hx0
        by_cases hy : 0 = y
        · simp [memcmp, hy, ih ys n hxs]
        · simp only [memcmp, hy, if_false]
          omega

theorem SoAd_Ip6Any_zeros : ∀ x ∈ SoAd_Ip6Any, x = 0 := by
  decide

theorem addr_bytes_length (w0 w1 w2 w3 : Nat) : (addr_bytes w0 w1 w2 w3).length = 16 := by
  simp [addr_bytes, uint32_bytes]

theorem addr_bytes_eq_any_iff (w0 w1 w2 w3 : Nat) (h0 : w0 < 4294967296)
    (h1 : w1 < 4294967296) (h2 : w2 < 4294967296) (h3 : w3 < 4294967296) :
    addr_bytes w0 w1 w2 w3 = SoAd_Ip6Any ↔ w0 = 0 ∧ w1 = 0 ∧ w2 = 0 ∧ w3 = 0 := by
  simp only [SoAd_Ip6Any, TCPIP_IP6ADDR_ANY, addr_bytes, uint32_bytes, List.cons_append,
    List.nil_append, List.cons.injEq, and_true]
  omega

theorem memcmp_any_eq_zero_iff (a : TcpIp_SockAddrType) (h : a.WellTyped) :
    memcmp a.inet6_addr SoAd_Ip6Any 16 = 0 ↔
      a.addr0 = TCPIP_IP6ADDR_ANY ∧ a.addr1 = TCPIP_IP6ADDR_ANY ∧
        a.addr2 = TCPIP_IP6ADDR_ANY ∧ a.addr3 = TCPIP_IP6ADDR_ANY := by
  obtain ⟨_, h0, h1, h2, h3⟩ := h
  have hlen : a.inet6_addr.length = 16 := addr_bytes_length _ _ _ _
  have hany : SoAd_Ip6Any.length = 16 := addr_bytes_length _ _ _ _
  rw [memcmp_eq_zero_iff _ _ 16 hlen hany]
  exact addr_bytes_eq_any_iff _ _ _ _ h0 h1 h2 h3

/-! ## Wildcards -/

/-- C2.  For every socket address whose fields fit their C types,
`SoAd_SockAddrWildcard` is `TRUE` exactly when the family is INET and the
address or the port is any, or the family is INET6 and all four address words
or the port are any; in every other case, and for every other family, it is
`FALSE`. -/
theorem SoAd_SockAddrWildcard_iff (a : TcpIp_SockAddrType) (h : a.WellTyped) :
    (SoAd_SockAddrWildcard a = TRUE ↔
      (a.domain = TCPIP_AF_INET ∧
          (a.addr0 = TCPIP_IPADDR_ANY ∨ a.port = TCPIP_PORT_ANY)) ∨
        (a.domain = TCPIP_AF_INET6 ∧
          ((a.addr0 = TCPIP_IP6ADDR_ANY ∧ a.addr1 = TCPIP_IP6ADDR_ANY ∧
              a.addr2 = TCPIP_IP6ADDR_ANY ∧ a.addr3 = TCPIP_IP6ADDR_ANY) ∨
            a.port = TCPIP_PORT_ANY))) ∧
      (SoAd_SockAddrWildcard a ≠ TRUE → SoAd_SockAddrWildcard a = FALSE) ∧
      (a.domain ≠ TCPIP_AF_INET → a.domain ≠ TCPIP_AF_INET6 →
        SoAd_SockAddrWildcard a = FALSE) := by
  have hm := memcmp_any_eq_zero_iff a h
  have h46 : TCPIP_AF_INET ≠ TCPIP_AF_INET6 := by decide
  have htf : TRUE ≠ FALSE := by decide
  unfold SoAd_SockAddrWildcard
  by_cases h4 : a.domain = TCPIP_AF_INET
  · have h6 : a.domain ≠ TCPIP_AF_INET6 := fun h6 => h46 (h4 ▸ h6)
    simp only [h4, h6, if_true, true_and, false_and, or_false, ne_eq, not_true_eq_false,
      false_implies, and_true]
    by_cases hp : a.port = TCPIP_PORT_ANY <;> by_cases ha : a.addr0 = TCPIP_IPADDR_ANY <;>
      simp [hp, ha, htf.symm, h46]
  · by_cases h6 : a.domain = TCPIP_AF_INET6
    · simp only [h4, h6, h46.symm, if_true, if_false, true_and, false_and, false_or, ne_eq,
        not_true_eq_false, not_false_eq_true, false_implies, true_implies, and_true]
      rw [← hm]
      by_cases hp : a.port = TCPIP_PORT_ANY <;>
        by_cases ha : memcmp a.inet6_addr SoAd_Ip6Any 16 = 0 <;>
        simp [hp, ha, htf.symm]
    · simp [h4, h6, htf.symm]

theorem SoAd_SockAddrWildcard_iff_witness :
    TcpIp_SockAddrType.WellTyped
        { domain := TCPIP_AF_INET6, port := 1, addr0 := 0, addr1 := 0, addr2 := 0, addr3 := 0 } ∧
      SoAd_SockAddrWildcard
        { domain := TCPIP_AF_INET6, port := 1, addr0 := 0, addr1 := 0, addr2 := 0, addr3 := 0 }
        = TRUE := by
  refine ⟨by decide, ?_⟩
  exact (SoAd_SockAddrWildcard_iff
    { domain := TCPIP_AF_INET6, port := 1, addr0 := 0, addr1 := 0, addr2 := 0, addr3 := 0 }
    (by decide)).1.mpr (Or.inr ⟨rfl, Or.inl ⟨rfl, rfl, rfl, rfl⟩⟩)

/-- C3.  For two INET socket addresses, `SoAd_SockAddrWildcardMatch` is `TRUE`
exactly when the address of the mask is any or equal to the one of the probe,
and the port of the mask is any or equal to the one of the probe; it is
`FALSE` otherwise, and every INET address matches itself. -/
theorem SoAd_SockAddrWildcardMatch_inet (mask probe : TcpIp_SockAddrType)
    (hm : mask.domain = TCPIP_AF_INET) (hp : probe.domain = TCPIP_AF_INET) :
    (SoAd_SockAddrWildcardMatch mask probe = TRUE ↔
      (mask.addr0 = TCPIP_IPADDR_ANY ∨ mask.addr0 = probe.addr0) ∧
        (mask.port = TCPIP_PORT_ANY ∨ mask.port = probe.port)) ∧
      (SoAd_SockAddrWildcardMatch mask probe ≠ TRUE →
        SoAd_SockAddrWildcardMatch mask probe = FALSE) ∧
      SoAd_SockAddrWildcardMatch mask mask = TRUE ∧
      SoAd_SockAddrWildcardMatch probe probe = TRUE := by
  have htf : FALSE ≠ TRUE := by decide
  refine ⟨?_, ?_, ?_, ?_⟩
  · unfold SoAd_SockAddrWildcardMatch
    simp only [hm, hp, if_true]
    by_cases ha : mask.addr0 = TCPIP_IPADDR_ANY ∨ mask.addr0 = probe.addr0 <;>
      by_cases hq : mask.port = TCPIP_PORT_ANY ∨ mask.port = probe.port <;>
      simp [ha, hq, htf]
  · unfold SoAd_SockAddrWildcardMatch
    simp only [hm, hp, if_true]
    by_cases ha : mask.addr0 = TCPIP_IPADDR_ANY ∨ mask.addr0 = probe.addr0 <;>
      by_cases hq : mask.port = TCPIP_PORT_ANY ∨ mask.port = probe.port <;>
      simp [ha, hq]
  · simp [SoAd_SockAddrWildcardMatch, hm]
  · simp [SoAd_SockAddrWildcardMatch, hp]

theorem SoAd_SockAddrWildcardMatch_inet_witness :
    SoAd_SockAddrWildcardMatch
        { domain := TCPIP_AF_INET, port := 0, addr0 := 0, addr1 := 0, addr2 := 0, addr3 := 0 }
        { domain := TCPIP_AF_INET, port := 1, addr0 := 1, addr1 := 0, addr2 := 0, addr3 := 0 }
        = TRUE ∧
      SoAd_SockAddrWildcardMatch
        { domain := TCPIP_AF_INET, port := 1, addr0 := 1, addr1 := 0, addr2 := 0, addr3 := 0 }
        { domain := TCPIP_AF_INET, port := 1, addr0 := 1, addr1 := 0, addr2 := 0, addr3 := 0 }
        = TRUE := by
  have h := SoAd_SockAddrWildcardMatch_inet
    { domain := TCPIP_AF_INET, port := 0, addr0 := 0, addr1 := 0, addr2 := 0, addr3 := 0 }
    { domain := TCPIP_AF_INET, port := 1, addr0 := 1, addr1 := 0, addr2 := 0, addr3 := 0 }
    rfl rfl
  exact ⟨h.1.mpr ⟨Or.inl rfl, Or.inl rfl⟩, h.2.2.2⟩

/-- C4.  What the code does where the claim asks for `FALSE`: when the
families of mask and probe differ, and when their common family is neither
INET nor INET6, `SoAd_SockAddrWildcardMatch` leaves `E_NOT_OK` in its
`boolean` result, and that value is `TRUE`. -/
theorem SoAd_SockAddrWildcardMatch_other_family (mask probe : TcpIp_SockAddrType)
    (h : mask.domain ≠ probe.domain ∨
      (mask.domain ≠ TCPIP_AF_INET ∧ mask.domain ≠ TCPIP_AF_INET6)) :
    SoAd_SockAddrWildcardMatch mask probe = E_NOT_OK ∧
      SoAd_SockAddrWildcardMatch mask probe = TRUE := by
  have : SoAd_SockAddrWildcardMatch mask probe = E_NOT_OK := by
    unfold SoAd_SockAddrWildcardMatch
    rcases h with h | ⟨h4, h6⟩
    · simp [h]
    · by_cases hd : mask.domain = probe.domain
      · rw [if_pos hd, if_neg h4, if_neg h6]
      · rw [if_neg hd]
  exact ⟨this, this⟩

theorem SoAd_SockAddrWildcardMatch_other_family_witness :
    SoAd_SockAddrWildcardMatch
        { domain := TCPIP_AF_INET, port := 0, addr0 := 0, addr1 := 0, addr2 := 0, addr3 := 0 }
        { domain := TCPIP_AF_INET6, port := 7, addr0 := 1, addr1 := 2, addr2 := 3, addr3 := 4 }
        = TRUE ∧
      SoAd_SockAddrWildcardMatch
        { domain := 0, port := 5, addr0 := 9, addr1 := 0, addr2 := 0, addr3 := 0 }
        { domain := 0, port := 6, addr0 := 8, addr1 := 0, addr2 := 0, addr3 := 0 }
        = TRUE :=
  ⟨(SoAd_SockAddrWildcardMatch_other_family _ _ (Or.inl (by decide))).2,
    (SoAd_SockAddrWildcardMatch_other_family _ _ (Or.inr ⟨by decide, by decide⟩)).2⟩

/-- C5.  What the code does for INET6: no INET6 address matches itself, and a
mask with the any address and the any port matches no INET6 probe; the result
is `FALSE` in both cases. -/
theorem SoAd_SockAddrWildcardMatch_inet6_self (a : TcpIp_SockAddrType)
    (h : a.domain = TCPIP_AF_INET6) :
    SoAd_SockAddrWildcardMatch a a = FALSE ∧
      SoAd_SockAddrWildcardMatch
        { domain := TCPIP_AF_INET6, port := TCPIP_PORT_ANY, addr0 := TCPIP_IP6ADDR_ANY,
          addr1 := TCPIP_IP6ADDR_ANY, addr2 := TCPIP_IP6ADDR_ANY,
          addr3 := TCPIP_IP6ADDR_ANY } a = FALSE := by
  have h46 : TCPIP_AF_INET6 ≠ TCPIP_AF_INET := by decide
  have h1 : memcmp SoAd_Ip6Any a.inet6_addr 16 ≠ 16 := by
    have := memcmp_zeros_nonpos SoAd_Ip6Any a.inet6_addr 16 SoAd_Ip6Any_zeros
    omega
  have h2 : memcmp a.inet6_addr a.inet6_addr 16 ≠ 16 := by
    rw [memcmp_self]; decide
  constructor
  · unfold SoAd_SockAddrWildcardMatch
    simp [h, h46, h1, h2]
  · unfold SoAd_SockAddrWildcardMatch
    have h3 : TcpIp_SockAddrStorageType.inet6_addr
        { domain := TCPIP_AF_INET6, port := TCPIP_PORT_ANY, addr0 := TCPIP_IP6ADDR_ANY,
          addr1 := TCPIP_IP6ADDR_ANY, addr2 := TCPIP_IP6ADDR_ANY,
          addr3 := TCPIP_IP6ADDR_ANY } = SoAd_Ip6Any := rfl
    simp only [h, if_true, h46, if_false, h3, h1, or_self]

theorem SoAd_SockAddrWildcardMatch_inet6_self_witness :
    SoAd_SockAddrWildcardMatch
        { domain := TCPIP_AF_INET6, port := 0, addr0 := 0, addr1 := 0, addr2 := 0, addr3 := 0 }
        { domain := TCPIP_AF_INET6, port := 0, addr0 := 0, addr1 := 0, addr2 := 0, addr3 := 0 }
        = FALSE :=
  (SoAd_SockAddrWildcardMatch_inet6_self
    { domain := TCPIP_AF_INET6, port := 0, addr0 := 0, addr1 := 0, addr2 := 0, addr3 := 0 }
    rfl).1

/-! ## Initialisation -/

theorem SoAd_Init_SoCon_fold (cfg : SoAd_ConfigType) (n : Nat) (s : SoAd_State) :
    (∀ id, id < n →
        (((List.range n).foldl (fun s id => SoAd_Init_SoCon cfg id s) s).SoAd_SoConStatus id
          = (SoAd_Init_SoCon cfg id s).SoAd_SoConStatus id)) ∧
      ((List.range n).foldl (fun s id => SoAd_Init_SoCon cfg id s) s).SoAd_SoGrpStatus
        = s.SoAd_SoGrpStatus := by
  induction n with
  | zero => simp
  | succ n ih =>
    rw [List.range_succ, List.foldl_append]
    simp only [List.foldl_cons, List.foldl_nil]
    refine ⟨fun id hid => ?_, ?_⟩
    · by_cases h : id = n
      · subst h
        simp [SoAd_Init_SoCon, SoAd_State.setCon]
      · have hlt : id < n := by omega
        have := ih.1 id hlt
        simp only [SoAd_Init_SoCon, SoAd_State.setCon, Function.update_noteq h] at this ⊢
        simpa using this
    · simpa [SoAd_Init_SoCon, SoAd_State.setCon] using ih.2

theorem SoAd_Init_SoGrp_fold (cfg : SoAd_ConfigType) (n : Nat) (s : SoAd_State) :
    (∀ id, id < n →
        (((List.range n).foldl (fun s id => SoAd_Init_SoGrp cfg id s) s).SoAd_SoGrpStatus id
          = { socket_id := TCPIP_SOCKETID_INVALID })) ∧
      ((List.range n).foldl (fun s id => SoAd_Init_SoGrp cfg id s) s).SoAd_SoConStatus
        = s.SoAd_SoConStatus := by
  induction n with
  | zero => simp
  | succ n ih =>
    rw [List.range_succ, List.foldl_append]
    simp only [List.foldl_cons, List.foldl_nil]
    refine ⟨fun id hid => ?_, ?_⟩
    · by_cases h : id = n
      · subst h
        simp [SoAd_Init_SoGrp, SoAd_State.setGrp]
      · have hlt : id < n := by omega
        have := ih.1 id hlt
        simp only [SoAd_Init_SoGrp, SoAd_State.setGrp, Function.update_noteq h] at this ⊢
        simpa using this
    · simpa [SoAd_Init_SoGrp, SoAd_State.setGrp] using ih.2

/-- C1.  After `SoAd_Init`, whatever the status arrays held before: every
connection below `SOAD_CFG_CONNECTION_COUNT` is OFFLINE with an invalid socket
id, no request latched, no rx or tx route bound and `tx_remain` and
`tx_available` zero; every group below `SOAD_CFG_CONNECTIONGROUP_COUNT` has an
invalid socket id. -/
theorem SoAd_Init_resets (config : SoAd_ConfigType) (s : SoAd_State) :
    (∀ id, id < SOAD_CFG_CONNECTION_COUNT config →
      ((SoAd_Init config s).SoAd_SoConStatus id).state = SOAD_SOCON_OFFLINE ∧
      ((SoAd_Init config s).SoAd_SoConStatus id).socket_id = TCPIP_SOCKETID_INVALID ∧
      ((SoAd_Init config s).SoAd_SoConStatus id).request_open = false ∧
      ((SoAd_Init config s).SoAd_SoConStatus id).request_close = false ∧
      ((SoAd_Init config s).SoAd_SoConStatus id).request_abort = false ∧
      ((SoAd_Init config s).SoAd_SoConStatus id).rx_route = none ∧
      ((SoAd_Init config s).SoAd_SoConStatus id).tx_route = none ∧
      ((SoAd_Init config s).SoAd_SoConStatus id).tx_remain = 0 ∧
      ((SoAd_Init config s).SoAd_SoConStatus id).tx_available = 0) ∧
    (∀ id, id < SOAD_CFG_CONNECTIONGROUP_COUNT config →
      ((SoAd_Init config s).SoAd_SoGrpStatus id).socket_id = TCPIP_SOCKETID_INVALID) := by
  constructor
  · intro id hid
    have h1 := (SoAd_Init_SoCon_fold config (SOAD_CFG_CONNECTION_COUNT config) s).1 id hid
    have h2 := (SoAd_Init_SoGrp_fold config (SOAD_CFG_CONNECTIONGROUP_COUNT config)
      ((List.range (SOAD_CFG_CONNECTION_COUNT config)).foldl
        (fun s id => SoAd_Init_SoCon config id s) s)).2
    have h3 : (SoAd_Init config s).SoAd_SoConStatus id
        = (SoAd_Init_SoCon config id s).SoAd_SoConStatus id := by
      unfold SoAd_Init
      simp only [h2, h1]
    rw [h3]
    cases hr : (config.connection id).remote <;>
      simp [SoAd_Init_SoCon, SoAd_State.setCon, SoAd_SoConStatus_zero, hr]
  · intro id hid
    have h := (SoAd_Init_SoGrp_fold config (SOAD_CFG_CONNECTIONGROUP_COUNT config)
      ((List.range (SOAD_CFG_CONNECTION_COUNT config)).foldl
        (fun s id => SoAd_Init_SoCon config id s) s)).1 id hid
    unfold SoAd_Init
    simp only [h]

theorem SoAd_Init_resets_witness :
    ((SoAd_Init suite_1.config suite_1.state_dirty).SoAd_SoConStatus 4).state
        = SOAD_SOCON_OFFLINE ∧
      ((SoAd_Init suite_1.config suite_1.state_dirty).SoAd_SoConStatus 4).socket_id
        = TCPIP_SOCKETID_INVALID ∧
      ((SoAd_Init suite_1.config suite_1.state_dirty).SoAd_SoGrpStatus 2).socket_id
        = TCPIP_SOCKETID_INVALID :=
  ⟨((SoAd_Init_resets suite_1.config suite_1.state_dirty).1 4 (by decide)).1,
    ((SoAd_Init_resets suite_1.config suite_1.state_dirty).1 4 (by decide)).2.1,
    (SoAd_Init_resets suite_1.config suite_1.state_dirty).2 2 (by decide)⟩

/-! ## PDU route lookup -/

theorem SoAd_GetPduRoute_step_lt (cfg : SoAd_ConfigType) (id high low : Nat)
    (hid : id ≤ (cfg.pdu_route (high - 1)).pdu_id) (hlow : low < high) :
    SoAd_GetPduRoute_step cfg id high low < high := by
  unfold SoAd_GetPduRoute_step
  simp only [Nat.shiftRight_eq_div_pow, pow_one]
  have hmid : low + (high - low) / 2 ≤ high - 1 := by omega
  by_cases hlt : (cfg.pdu_route (low + (high - low) / 2)).pdu_id < id
  · rw [if_pos hlt]
    have hne : low + (high - low) / 2 ≠ high - 1 := by
      intro heq
      rw [heq] at hlt
      omega
    omega
  · rw [if_neg hlt]
    omega

theorem SoAd_GetPduRoute_loop_none (cfg : SoAd_ConfigType) (id high : Nat)
    (hid : id ≤ (cfg.pdu_route (high - 1)).pdu_id) :
    ∀ fuel low, low < high → SoAd_GetPduRoute_loop cfg id high fuel low = none := by
  intro fuel
  induction fuel with
  | zero => intro low _; rfl
  | succ fuel ih =>
    intro low hlow
    rw [SoAd_GetPduRoute_loop, if_pos hlow]
    exact ih _ (SoAd_GetPduRoute_step_lt cfg id high low hid hlow)

theorem SoAd_ConfigType.pdu_routes_sorted_le (cfg : SoAd_ConfigType)
    (hsorted : cfg.pdu_routes_sorted) (i j : Nat) (hij : i ≤ j)
    (hj : j < cfg.pdu_routes.length) :
    (cfg.pdu_route i).pdu_id ≤ (cfg.pdu_route j).pdu_id := by
  rcases Nat.eq_or_lt_of_le hij with h | h
  · subst h; exact le_rfl
  · have hi : i < cfg.pdu_routes.length := by omega
    have := (List.pairwise_iff_getElem.mp hsorted) i j hi hj h
    simp only [SoAd_ConfigType.pdu_route, List.getD_eq_getElem _ _ hi,
      List.getD_eq_getElem _ _ hj]
    exact Nat.le_of_lt this

/-- C6.  What the code does for an id that is in the table: for every table
sorted strictly ascending and every entry but the last, `SoAd_GetPduRoute`
called with the `pdu_id` of that entry never returns, however many rounds its
loop is given. -/
theorem SoAd_GetPduRoute_present_never_returns (cfg : SoAd_ConfigType) (k : Nat)
    (hsorted : cfg.pdu_routes_sorted) (hk : k + 1 < SOAD_CFG_PDUROUTE_COUNT cfg)
    (fuel : Nat) :
    SoAd_GetPduRoute cfg fuel (cfg.pdu_route k).pdu_id = none := by
  unfold SOAD_CFG_PDUROUTE_COUNT at hk
  have hle := cfg.pdu_routes_sorted_le hsorted k (cfg.pdu_routes.length - 1 - 1)
    (by omega) (by omega)
  have hloop := SoAd_GetPduRoute_loop_none cfg (cfg.pdu_route k).pdu_id
    (cfg.pdu_routes.length - 1) hle fuel 0 (by omega)
  unfold SoAd_GetPduRoute SOAD_CFG_PDUROUTE_COUNT
  simp only [hloop]

theorem SoAd_GetPduRoute_present_never_returns_witness :
    suite_1.config_two_routes.pdu_routes_sorted ∧
      0 + 1 < SOAD_CFG_PDUROUTE_COUNT suite_1.config_two_routes ∧
      (suite_1.config_two_routes.pdu_route 0).pdu_id = 0 ∧
      SoAd_GetPduRoute suite_1.config_two_routes 1000 0 = none :=
  ⟨by decide, by decide, rfl,
    SoAd_GetPduRoute_present_never_returns suite_1.config_two_routes 0 (by decide)
      (by decide) 1000⟩

/-- C7.  What the loop of `SoAd_GetPduRoute` does once `low + 1 = high` and
the query is not above the `pdu_id` at `low`: a round leaves `low` (and hence
the interval) as it was, and the loop is still running after any number of
rounds. -/
theorem SoAd_GetPduRoute_loop_stuck (cfg : SoAd_ConfigType) (id high low : Nat)
    (hlow : low + 1 = high) (hid : id ≤ (cfg.pdu_route low).pdu_id) (fuel : Nat) :
    SoAd_GetPduRoute_step cfg id high low = low ∧
      SoAd_GetPduRoute_loop cfg id high fuel low = none := by
  subst hlow
  constructor
  · unfold SoAd_GetPduRoute_step
    have h : low + (low + 1 - low) >>> 1 = low := by
      simp [Nat.shiftRight_eq_div_pow]
    rw [h, if_neg (by omega)]
  · exact SoAd_GetPduRoute_loop_none cfg id (low + 1) (by simpa using hid) fuel low
      (by omega)

theorem SoAd_GetPduRoute_loop_stuck_witness :
    suite_1.config_three_routes.pdu_routes_sorted ∧
      SoAd_GetPduRoute_step suite_1.config_three_routes 15 2 0 = 1 ∧
      SoAd_GetPduRoute_step suite_1.config_three_routes 15 2 1 = 1 ∧
      SoAd_GetPduRoute_loop suite_1.config_three_routes 15 2 1000 1 = none :=
  ⟨by decide, by decide,
    (SoAd_GetPduRoute_loop_stuck suite_1.config_three_routes 15 2 1 rfl (by decide) 1000).1,
    (SoAd_GetPduRoute_loop_stuck suite_1.config_three_routes 15 2 1 rfl (by decide) 1000).2⟩

/-! ## Lookups and state changes -/

theorem SoAd_SoCon_Lookup_eq_some (cfg : SoAd_ConfigType) (s : SoAd_State)
    (socket_id id : Nat) :
    SoAd_SoCon_Lookup cfg s socket_id = some id ↔
      id < SOAD_CFG_CONNECTION_COUNT cfg ∧ (s.SoAd_SoConStatus id).socket_id = socket_id ∧
        ∀ i, i < id → (s.SoAd_SoConStatus i).socket_id ≠ socket_id := by
  unfold SoAd_SoCon_Lookup
  rw [List.find?_range_eq_some]
  simp only [decide_eq_true_eq, List.mem_range, Bool.not_eq_true', decide_eq_false_iff_not,
    ne_eq]
  tauto

theorem SoAd_SoGrp_Lookup_eq_none (cfg : SoAd_ConfigType) (s : SoAd_State)
    (socket_id : Nat) :
    SoAd_SoGrp_Lookup cfg s socket_id = none ↔
      ∀ id, id < SOAD_CFG_CONNECTIONGROUP_COUNT cfg →
        (s.SoAd_SoGrpStatus id).socket_id ≠ socket_id := by
  unfold SoAd_SoGrp_Lookup
  rw [List.find?_range_eq_none]
  simp

theorem SoAd_SoCon_EnterState_online (cfg : SoAd_ConfigType) (env : SoAd_Env) (id : Nat)
    (s : SoAd_State) :
    ((SoAd_SoCon_EnterState cfg env id SOAD_SOCON_ONLINE s).SoAd_SoConStatus id).state
        = SOAD_SOCON_ONLINE ∧
      ((SoAd_SoCon_EnterState cfg env id SOAD_SOCON_ONLINE s).SoAd_SoConStatus id).socket_id
        = (s.SoAd_SoConStatus id).socket_id ∧
      ((SoAd_SoCon_EnterState cfg env id SOAD_SOCON_ONLINE s).SoAd_SoConStatus id).remote
        = (s.SoAd_SoConStatus id).remote ∧
      (∀ j, j ≠ id →
        (SoAd_SoCon_EnterState cfg env id SOAD_SOCON_ONLINE s).SoAd_SoConStatus j
          = s.SoAd_SoConStatus j) ∧
      (SoAd_SoCon_EnterState cfg env id SOAD_SOCON_ONLINE s).SoAd_SoGrpStatus
        = s.SoAd_SoGrpStatus := by
  unfold SoAd_SoCon_EnterState
  cases hr : SoAd_GetSocketRoute cfg id SOAD_PDUHEADERID_INVALID with
  | none =>
    simp only [SoAd_State.setCon, Function.update_same, true_and]
    exact ⟨fun j hj => Function.update_noteq hj _ _, trivial⟩
  | some route_id =>
    simp only []
    split
    · simp only [SoAd_State.setCon, SoAd_State.call, Function.update_same, true_and]
      exact ⟨fun j hj => by simp [Function.update_noteq hj], trivial⟩
    · simp only [SoAd_State.setCon, SoAd_State.call, Function.update_same, true_and]
      exact ⟨fun j hj => by simp [Function.update_noteq hj], trivial⟩

/-! ## `SoAd_TcpAccepted` -/

theorem SoAd_TcpAccepted_found (cfg : SoAd_ConfigType) (env : SoAd_Env)
    (socket_id socket_id_connected : Nat) (remote : TcpIp_SockAddrType) (s : SoAd_State)
    (id_group id_connected : Nat)
    (hgrp : SoAd_SoGrp_Lookup cfg s socket_id = some id_group)
    (hinit : (cfg.group id_group).initiate = false)
    (hfree : SoAd_SoCon_Lookup_FreeSocket cfg s id_group remote = some id_connected) :
    SoAd_TcpAccepted cfg env socket_id socket_id_connected remote s =
      (E_OK, SoAd_SoCon_EnterState cfg env id_connected SOAD_SOCON_ONLINE
        (s.setCon id_connected
          { s.SoAd_SoConStatus id_connected with
            socket_id := socket_id_connected
            remote := SoAd_SockAddrCopy (s.SoAd_SoConStatus id_connected).remote remote })) := by
  unfold SoAd_TcpAccepted
  simp only [hgrp, hinit, hfree, if_true, SoAd_State.setCon, Function.update_same,
    Function.update_idem]

/-- C8.  When the group lookup resolves the listen socket to a group that is
not `initiate`, and the free-slot match on that group and the remote finds
connection `id_connected`: `SoAd_TcpAccepted` returns `E_OK`; afterwards that
connection has the new socket id, its remote equals the given remote (family,
port and address for INET, the whole address for INET6) and its state is
ONLINE; every other connection status and every group status is unchanged. -/
theorem SoAd_TcpAccepted_promotes (cfg : SoAd_ConfigType) (env : SoAd_Env)
    (socket_id socket_id_connected : Nat) (remote : TcpIp_SockAddrType) (s : SoAd_State)
    (id_group id_connected : Nat)
    (hgrp : SoAd_SoGrp_Lookup cfg s socket_id = some id_group)
    (hinit : (cfg.group id_group).initiate = false)
    (hfree : SoAd_SoCon_Lookup_FreeSocket cfg s id_group remote = some id_connected) :
    (SoAd_TcpAccepted cfg env socket_id socket_id_connected remote s).1 = E_OK ∧
      ((SoAd_TcpAccepted cfg env socket_id socket_id_connected remote s).2.SoAd_SoConStatus
        id_connected).socket_id = socket_id_connected ∧
      (remote.domain = TCPIP_AF_INET →
        ((SoAd_TcpAccepted cfg env socket_id socket_id_connected remote s).2.SoAd_SoConStatus
            id_connected).remote.domain = remote.domain ∧
          ((SoAd_TcpAccepted cfg env socket_id socket_id_connected remote s).2.SoAd_SoConStatus
            id_connected).remote.port = remote.port ∧
          ((SoAd_TcpAccepted cfg env socket_id socket_id_connected remote s).2.SoAd_SoConStatus
            id_connected).remote.addr0 = remote.addr0) ∧
      (remote.domain = TCPIP_AF_INET6 →
        ((SoAd_TcpAccepted cfg env socket_id socket_id_connected remote s).2.SoAd_SoConStatus
          id_connected).remote = remote) ∧
      ((SoAd_TcpAccepted cfg env socket_id socket_id_connected remote s).2.SoAd_SoConStatus
        id_connected).state = SOAD_SOCON_ONLINE ∧
      (∀ j, j ≠ id_connected →
        (SoAd_TcpAccepted cfg env socket_id socket_id_connected remote s).2.SoAd_SoConStatus j
          = s.SoAd_SoConStatus j) ∧
      (SoAd_TcpAccepted cfg env socket_id socket_id_connected remote s).2.SoAd_SoGrpStatus
        = s.SoAd_SoGrpStatus := by
  rw [SoAd_TcpAccepted_found cfg env socket_id socket_id_connected remote s id_group
    id_connected hgrp hinit hfree]
  obtain ⟨h1, h2, h3, h4, h5⟩ := SoAd_SoCon_EnterState_online cfg env id_connected
    (s.setCon id_connected
      { s.SoAd_SoConStatus id_connected with
        socket_id := socket_id_connected
        remote := SoAd_SockAddrCopy (s.SoAd_SoConStatus id_connected).remote remote })
  have h46 : TCPIP_AF_INET6 ≠ TCPIP_AF_INET := by decide
  refine ⟨rfl, ?_, ?_, ?_, h1, ?_, ?_⟩
  · rw [h2]
    simp only [SoAd_State.setCon, Function.update_same]
  · intro hd
    rw [h3]
    simp only [SoAd_State.setCon, Function.update_same, SoAd_SockAddrCopy, hd, if_true,
      and_self]
  · intro hd
    rw [h3]
    simp only [SoAd_State.setCon, Function.update_same, SoAd_SockAddrCopy, hd, h46,
      if_true, if_false]
  · intro j hj
    rw [h4 j hj]
    simp only [SoAd_State.setCon, Function.update_noteq hj]
  · rw [h5]
    rfl

theorem SoAd_TcpAccepted_promotes_witness :
    SoAd_SoGrp_Lookup suite_1.config suite_1.state_open 2 = some 0 ∧
      (suite_1.config.group 0).initiate = false ∧
      SoAd_SoCon_Lookup_FreeSocket suite_1.config suite_1.state_open 0 suite_1.remote_1
        = some 0 ∧
      (SoAd_TcpAccepted suite_1.config suite_1.env 2 42 suite_1.remote_1
        suite_1.state_open).1 = E_OK ∧
      ((SoAd_TcpAccepted suite_1.config suite_1.env 2 42 suite_1.remote_1
        suite_1.state_open).2.SoAd_SoConStatus 0).socket_id = 42 ∧
      ((SoAd_TcpAccepted suite_1.config suite_1.env 2 42 suite_1.remote_1
        suite_1.state_open).2.SoAd_SoConStatus 0).state = SOAD_SOCON_ONLINE :=
  ⟨by decide, by decide, by decide,
    (SoAd_TcpAccepted_promotes suite_1.config suite_1.env 2 42 suite_1.remote_1
      suite_1.state_open 0 0 (by decide) (by decide) (by decide)).1,
    (SoAd_TcpAccepted_promotes suite_1.config suite_1.env 2 42 suite_1.remote_1
      suite_1.state_open 0 0 (by decide) (by decide) (by decide)).2.1,
    (SoAd_TcpAccepted_promotes suite_1.config suite_1.env 2 42 suite_1.remote_1
      suite_1.state_open 0 0 (by decide) (by decide) (by decide)).2.2.2.2.1⟩

/-- C9.  When no group holds the listen socket, or the group lookup resolves
it to a group that is not `initiate` in which the free-slot match finds no
connection for the remote: `SoAd_TcpAccepted` returns `E_NOT_OK` and the state
after the call is the state before it (every connection status, every group
status, and no call made). -/
theorem SoAd_TcpAccepted_declines (cfg : SoAd_ConfigType) (env : SoAd_Env)
    (socket_id socket_id_connected : Nat) (remote : TcpIp_SockAddrType) (s : SoAd_State)
    (h : (∀ id, id < SOAD_CFG_CONNECTIONGROUP_COUNT cfg →
          (s.SoAd_SoGrpStatus id).socket_id ≠ socket_id) ∨
      ∃ id_group, SoAd_SoGrp_Lookup cfg s socket_id = some id_group ∧
        (cfg.group id_group).initiate = false ∧
        SoAd_SoCon_Lookup_FreeSocket cfg s id_group remote = none) :
    SoAd_TcpAccepted cfg env socket_id socket_id_connected remote s = (E_NOT_OK, s) := by
  rcases h with h | ⟨id_group, hgrp, hinit, hfree⟩
  · have hnone := (SoAd_SoGrp_Lookup_eq_none cfg s socket_id).mpr h
    unfold SoAd_TcpAccepted
    simp only [hnone]
  · unfold SoAd_TcpAccepted
    simp only [hgrp, hinit, hfree, if_true]

theorem SoAd_TcpAccepted_declines_witness :
    (∀ id, id < SOAD_CFG_CONNECTIONGROUP_COUNT suite_1.config →
        (suite_1.state_open.SoAd_SoGrpStatus id).socket_id ≠ 9) ∧
      SoAd_TcpAccepted suite_1.config suite_1.env 9 42 suite_1.remote_1 suite_1.state_open
        = (E_NOT_OK, suite_1.state_open) ∧
      SoAd_SoGrp_Lookup suite_1.config suite_1.state_accepted 2 = some 0 ∧
      (suite_1.config.group 0).initiate = false ∧
      SoAd_SoCon_Lookup_FreeSocket suite_1.config suite_1.state_accepted 0 suite_1.remote_1
        = none ∧
      SoAd_TcpAccepted suite_1.config suite_1.env 2 44 suite_1.remote_1
        suite_1.state_accepted = (E_NOT_OK, suite_1.state_accepted) :=
  ⟨by decide,
    SoAd_TcpAccepted_declines suite_1.config suite_1.env 9 42 suite_1.remote_1
      suite_1.state_open (Or.inl (by decide)),
    by decide, by decide, by decide,
    SoAd_TcpAccepted_declines suite_1.config suite_1.env 2 44 suite_1.remote_1
      suite_1.state_accepted (Or.inr ⟨0, by decide, by decide, by decide⟩)⟩

/-! ## `SoAd_TcpConnected` -/

/-- C10.  `SoAd_TcpConnected` takes connection `j` from a state other than
ONLINE to ONLINE exactly when `j` is the lowest-index connection whose own
socket id is the given one, its group has `initiate` set and protocol TCP, and
its state was not ONLINE; when there is no such connection the state after the
call is the state before it. -/
theorem SoAd_TcpConnected_online_iff (cfg : SoAd_ConfigType) (env : SoAd_Env)
    (socket_id : Nat) (s : SoAd_State) :
    (∀ j,
      ((s.SoAd_SoConStatus j).state ≠ SOAD_SOCON_ONLINE ∧
          ((SoAd_TcpConnected cfg env socket_id s).SoAd_SoConStatus j).state
            = SOAD_SOCON_ONLINE) ↔
        (j < SOAD_CFG_CONNECTION_COUNT cfg ∧
          (s.SoAd_SoConStatus j).socket_id = socket_id ∧
          (∀ i, i < j → (s.SoAd_SoConStatus i).socket_id ≠ socket_id) ∧
          (cfg.group (cfg.connection j).group).initiate = true ∧
          (cfg.group (cfg.connection j).group).protocol = TCPIP_IPPROTO_TCP ∧
          (s.SoAd_SoConStatus j).state ≠ SOAD_SOCON_ONLINE)) ∧
      ((¬ ∃ j, j < SOAD_CFG_CONNECTION_COUNT cfg ∧
          (s.SoAd_SoConStatus j).socket_id = socket_id ∧
          (∀ i, i < j → (s.SoAd_SoConStatus i).socket_id ≠ socket_id) ∧
          (cfg.group (cfg.connection j).group).initiate = true ∧
          (cfg.group (cfg.connection j).group).protocol = TCPIP_IPPROTO_TCP ∧
          (s.SoAd_SoConStatus j).state ≠ SOAD_SOCON_ONLINE) →
        SoAd_TcpConnected cfg env socket_id s = s) := by
  cases hl : SoAd_SoCon_Lookup cfg s socket_id with
  | none =>
    have hs : SoAd_TcpConnected cfg env socket_id s = s := by
      unfold SoAd_TcpConnected
      simp only [hl]
    refine ⟨fun j => ?_, fun _ => hs⟩
    rw [hs]
    constructor
    · rintro ⟨h1, h2⟩
      exact absurd h2 h1
    · rintro ⟨h1, h2, h3, -⟩
      have := (SoAd_SoCon_Lookup_eq_some cfg s socket_id j).mpr ⟨h1, h2, h3⟩
      rw [hl] at this
      exact absurd this (by simp)
  | some id =>
    have hid := (SoAd_SoCon_Lookup_eq_some cfg s socket_id id).mp hl
    have huniq : ∀ j, (j < SOAD_CFG_CONNECTION_COUNT cfg ∧
        (s.SoAd_SoConStatus j).socket_id = socket_id ∧
        (∀ i, i < j → (s.SoAd_SoConStatus i).socket_id ≠ socket_id)) → j = id := by
      intro j hj
      have := (SoAd_SoCon_Lookup_eq_some cfg s socket_id j).mpr hj
      rw [hl] at this
      exact (Option.some.inj this).symm
    by_cases hc : (cfg.group (cfg.connection id).group).initiate = true ∧
        (cfg.group (cfg.connection id).group).protocol = TCPIP_IPPROTO_TCP ∧
        (s.SoAd_SoConStatus id).state ≠ SOAD_SOCON_ONLINE
    · obtain ⟨hi, hp, hst⟩ := hc
      have hs : SoAd_TcpConnected cfg env socket_id s
          = SoAd_SoCon_EnterState cfg env id SOAD_SOCON_ONLINE s := by
        unfold SoAd_TcpConnected
        simp only [hl, hi, hp, hst, if_true, ne_eq, not_false_eq_true]
      obtain ⟨h1, -, -, h4, -⟩ := SoAd_SoCon_EnterState_online cfg env id s
      refine ⟨fun j => ?_, fun hno => absurd ⟨id, hid.1, hid.2.1, hid.2.2, hi, hp, hst⟩ hno⟩
      rw [hs]
      constructor
      · rintro ⟨hj1, hj2⟩
        by_cases hji : j = id
        · subst hji
          exact ⟨hid.1, hid.2.1, hid.2.2, hi, hp, hst⟩
        · rw [h4 j hji] at hj2
          exact absurd hj2 hj1
      · rintro ⟨hj1, hj2, hj3, -, -, hj6⟩
        have hji := huniq j ⟨hj1, hj2, hj3⟩
        subst hji
        exact ⟨hj6, h1⟩
    · have hs : SoAd_TcpConnected cfg env socket_id s = s := by
        unfold SoAd_TcpConnected
        simp only [hl]
        by_cases hi : (cfg.group (cfg.connection id).group).initiate = true
        · by_cases hst : (s.SoAd_SoConStatus id).state ≠ SOAD_SOCON_ONLINE
          · by_cases hp : (cfg.group (cfg.connection id).group).protocol = TCPIP_IPPROTO_TCP
            · exact absurd ⟨hi, hp, hst⟩ hc
            · simp only [hi, hst, hp, if_true, if_false, ne_eq, not_false_eq_true]
          · simp only [hi, hst, if_true, if_false]
        · simp only [hi, if_false, Bool.false_eq_true]
      refine ⟨fun j => ?_, fun _ => hs⟩
      rw [hs]
      constructor
      · rintro ⟨h1, h2⟩
        exact absurd h2 h1
      · rintro ⟨hj1, hj2, hj3, hj4, hj5, hj6⟩
        have hji := huniq j ⟨hj1, hj2, hj3⟩
        subst hji
        exact absurd ⟨hj4, hj5, hj6⟩ hc

theorem SoAd_TcpConnected_online_iff_witness :
    (suite_1.state_open.SoAd_SoConStatus 4).state ≠ SOAD_SOCON_ONLINE ∧
      ((SoAd_TcpConnected suite_1.config suite_1.env 4 suite_1.state_open).SoAd_SoConStatus
        4).state = SOAD_SOCON_ONLINE ∧
      SoAd_TcpConnected suite_1.config suite_1.env 77 suite_1.state_open
        = suite_1.state_open :=
  ⟨((SoAd_TcpConnected_online_iff suite_1.config suite_1.env 4 suite_1.state_open).1 4).mpr
      (by decide) |>.1,
    ((SoAd_TcpConnected_online_iff suite_1.config suite_1.env 4 suite_1.state_open).1 4).mpr
      (by decide) |>.2,
    (SoAd_TcpConnected_online_iff suite_1.config suite_1.env 77 suite_1.state_open).2
      (by decide)⟩

/-! ## Reading a state after a write -/

@[simp] theorem SoAd_State.setCon_con_same (s : SoAd_State) (id : Nat)
    (status : SoAd_SoConStatusType) : (s.setCon id status).SoAd_SoConStatus id = status := by
  simp [SoAd_State.setCon]

theorem SoAd_State.setCon_con_ne (s : SoAd_State) (id j : Nat)
    (status : SoAd_SoConStatusType) (h : j ≠ id) :
    (s.setCon id status).SoAd_SoConStatus j = s.SoAd_SoConStatus j := by
  simp [SoAd_State.setCon, Function.update_noteq h]

@[simp] theorem SoAd_State.setCon_grp (s : SoAd_State) (id : Nat)
    (status : SoAd_SoConStatusType) :
    (s.setCon id status).SoAd_SoGrpStatus = s.SoAd_SoGrpStatus := rfl

@[simp] theorem SoAd_State.setCon_trace (s : SoAd_State) (id : Nat)
    (status : SoAd_SoConStatusType) : (s.setCon id status).trace = s.trace := rfl

@[simp] theorem SoAd_State.setGrp_grp_same (s : SoAd_State) (id : Nat)
    (status : SoAd_SoGrpStatusType) : (s.setGrp id status).SoAd_SoGrpStatus id = status := by
  simp [SoAd_State.setGrp]

theorem SoAd_State.setGrp_grp_ne (s : SoAd_State) (id j : Nat)
    (status : SoAd_SoGrpStatusType) (h : j ≠ id) :
    (s.setGrp id status).SoAd_SoGrpStatus j = s.SoAd_SoGrpStatus j := by
  simp [SoAd_State.setGrp, Function.update_noteq h]

@[simp] theorem SoAd_State.setGrp_con (s : SoAd_State) (id : Nat)
    (status : SoAd_SoGrpStatusType) :
    (s.setGrp id status).SoAd_SoConStatus = s.SoAd_SoConStatus := rfl

@[simp] theorem SoAd_State.setGrp_trace (s : SoAd_State) (id : Nat)
    (status : SoAd_SoGrpStatusType) : (s.setGrp id status).trace = s.trace := rfl

@[simp] theorem SoAd_State.call_con (s : SoAd_State) (c : SoAd_Call) :
    (s.call c).SoAd_SoConStatus = s.SoAd_SoConStatus := rfl

@[simp] theorem SoAd_State.call_grp (s : SoAd_State) (c : SoAd_Call) :
    (s.call c).SoAd_SoGrpStatus = s.SoAd_SoGrpStatus := rfl

@[simp] theorem SoAd_State.call_trace (s : SoAd_State) (c : SoAd_Call) :
    (s.call c).trace = s.trace ++ [c] := rfl

/-! ## Entering a state -/

theorem SoAd_SoCon_EnterState_offline (cfg : SoAd_ConfigType) (env : SoAd_Env) (id : Nat)
    (s : SoAd_State) :
    (SoAd_SoCon_EnterState cfg env id SOAD_SOCON_OFFLINE s).SoAd_SoConStatus id
        = { s.SoAd_SoConStatus id with
            socket_id := TCPIP_SOCKETID_INVALID
            rx_route := none
            state := SOAD_SOCON_OFFLINE } ∧
      (∀ j, j ≠ id →
        (SoAd_SoCon_EnterState cfg env id SOAD_SOCON_OFFLINE s).SoAd_SoConStatus j
          = s.SoAd_SoConStatus j) ∧
      (SoAd_SoCon_EnterState cfg env id SOAD_SOCON_OFFLINE s).SoAd_SoGrpStatus
        = s.SoAd_SoGrpStatus ∧
      (SoAd_SoCon_EnterState cfg env id SOAD_SOCON_OFFLINE s).trace
        = s.trace ++
          (match (s.SoAd_SoConStatus id).rx_route with
            | some rx_route =>
              [SoAd_Call.rx_indication rx_route.destination.upper rx_route.destination.pdu
                E_OK]
            | none => []) := by
  unfold SoAd_SoCon_EnterState
  cases hr : (s.SoAd_SoConStatus id).rx_route with
  | none =>
    simp only [SoAd_State.setCon_con_same, hr, SoAd_State.setCon_grp, SoAd_State.setCon_trace,
      List.append_nil, true_and, and_true]
    intro j hj
    simp only [SoAd_State.setCon_con_ne _ _ _ _ hj]
  | some rx_route =>
    simp only [SoAd_State.setCon_con_same, hr, SoAd_State.setCon_grp, SoAd_State.setCon_trace,
      SoAd_State.call_con, SoAd_State.call_grp, SoAd_State.call_trace, true_and, and_true]
    intro j hj
    simp only [SoAd_State.setCon_con_ne _ _ _ _ hj, SoAd_State.call_con]

theorem SoAd_SoCon_EnterState_reconnect (cfg : SoAd_ConfigType) (env : SoAd_Env) (id : Nat)
    (s : SoAd_State) :
    SoAd_SoCon_EnterState cfg env id SOAD_SOCON_RECONNECT s
      = s.setCon id { s.SoAd_SoConStatus id with state := SOAD_SOCON_RECONNECT } := rfl

/-- Entering any state writes the state, keeps the remote and the tx side of
the connection, and touches no other connection and no group. -/
theorem SoAd_SoCon_EnterState_frame (cfg : SoAd_ConfigType) (env : SoAd_Env) (id : Nat)
    (state : SoAd_SoConStateType) (s : SoAd_State) :
    ((SoAd_SoCon_EnterState cfg env id state s).SoAd_SoConStatus id).state = state ∧
      ((SoAd_SoCon_EnterState cfg env id state s).SoAd_SoConStatus id).remote
        = (s.SoAd_SoConStatus id).remote ∧
      ((SoAd_SoCon_EnterState cfg env id state s).SoAd_SoConStatus id).tx_route
        = (s.SoAd_SoConStatus id).tx_route ∧
      (∀ j, j ≠ id →
        (SoAd_SoCon_EnterState cfg env id state s).SoAd_SoConStatus j
          = s.SoAd_SoConStatus j) ∧
      (SoAd_SoCon_EnterState cfg env id state s).SoAd_SoGrpStatus = s.SoAd_SoGrpStatus := by
  cases state with
  | SOAD_SOCON_OFFLINE =>
    obtain ⟨h1, h2, h3, -⟩ := SoAd_SoCon_EnterState_offline cfg env id s
    rw [h1]
    exact ⟨rfl, rfl, rfl, h2, h3⟩
  | SOAD_SOCON_RECONNECT =>
    rw [SoAd_SoCon_EnterState_reconnect]
    refine ⟨by simp, by simp, by simp, fun j hj => ?_, rfl⟩
    simp only [SoAd_State.setCon_con_ne _ _ _ _ hj]
  | SOAD_SOCON_ONLINE =>
    obtain ⟨h1, -, h3, h4, h5⟩ := SoAd_SoCon_EnterState_online cfg env id s
    refine ⟨h1, h3, ?_, h4, h5⟩
    unfold SoAd_SoCon_EnterState
    cases SoAd_GetSocketRoute cfg id SOAD_PDUHEADERID_INVALID with
    | none => simp
    | some route_id =>
      simp only []
      split <;> simp

/-! ## `SoAd_TcpIpEvent` -/

theorem foldl_invariant {α β : Type} (P : β → Prop) (f : β → α → β) (l : List α) (b : β)
    (h0 : P b) (hstep : ∀ b a, P b → P (f b a)) : P (l.foldl f b) := by
  induction l generalizing b with
  | nil => exact h0
  | cons a l ih => exact ih (f b a) (hstep b a h0)

theorem SoAd_SoGrp_Lookup_eq_some (cfg : SoAd_ConfigType) (s : SoAd_State)
    (socket_id id : Nat) :
    SoAd_SoGrp_Lookup cfg s socket_id = some id ↔
      id < SOAD_CFG_CONNECTIONGROUP_COUNT cfg ∧
        (s.SoAd_SoGrpStatus id).socket_id = socket_id ∧
        ∀ i, i < id → (s.SoAd_SoGrpStatus i).socket_id ≠ socket_id := by
  unfold SoAd_SoGrp_Lookup
  rw [List.find?_range_eq_some]
  simp only [decide_eq_true_eq, List.mem_range, Bool.not_eq_true', decide_eq_false_iff_not,
    ne_eq]
  tauto

theorem SoAd_SoGrp_Close_grp (cfg : SoAd_ConfigType) (env : SoAd_Env) (id_con id_grp : Nat)
    (s : SoAd_State) :
    (SoAd_SoGrp_Close cfg env id_con id_grp s).SoAd_SoGrpStatus
      = Function.update s.SoAd_SoGrpStatus id_con
          { s.SoAd_SoGrpStatus id_con with socket_id := TCPIP_SOCKETID_INVALID } := by
  unfold SoAd_SoGrp_Close
  apply foldl_invariant
    (fun t : SoAd_State => t.SoAd_SoGrpStatus
      = Function.update s.SoAd_SoGrpStatus id_con
          { s.SoAd_SoGrpStatus id_con with socket_id := TCPIP_SOCKETID_INVALID })
  · rfl
  · intro b a hb
    simp only []
    split
    · rw [(SoAd_SoCon_EnterState_frame cfg env a SOAD_SOCON_OFFLINE b).2.2.2.2]
      exact hb
    · exact hb

/-- C14.  What the code does when the socket of a group is lost: the group
status that `SoAd_SoGrp_Close` invalidates is the one at the index its
uninitialised local `id_con` holds.  Whenever that value is not the id of the
group that holds the socket, the group keeps the lost socket id and the group
at that index loses its own. -/
theorem SoAd_TcpIpEvent_group_close_index (cfg : SoAd_ConfigType) (env : SoAd_Env)
    (id_con socket_id : Nat) (event : TcpIp_EventType) (s : SoAd_State) (id_grp : Nat)
    (hev : event = TCPIP_TCP_RESET ∨ event = TCPIP_TCP_CLOSED ∨ event = TCPIP_UDP_CLOSED)
    (hgrp : SoAd_SoGrp_Lookup cfg s socket_id = some id_grp) (hne : id_con ≠ id_grp) :
    ((SoAd_TcpIpEvent cfg env id_con socket_id event s).SoAd_SoGrpStatus id_grp).socket_id
        = socket_id ∧
      ((SoAd_TcpIpEvent cfg env id_con socket_id event s).SoAd_SoGrpStatus id_con).socket_id
        = TCPIP_SOCKETID_INVALID := by
  have hsock := ((SoAd_SoGrp_Lookup_eq_some cfg s socket_id id_grp).mp hgrp).2.1
  have hclose : SoAd_TcpIpEvent cfg env id_con socket_id event s
      = SoAd_SoGrp_Close cfg env id_con id_grp s := by
    rcases hev with h | h | h <;> subst h <;> simp only [SoAd_TcpIpEvent, hgrp]
  rw [hclose, SoAd_SoGrp_Close_grp]
  constructor
  · rw [Function.update_noteq (Ne.symm hne)]
    exact hsock
  · rw [Function.update_same]

theorem SoAd_TcpIpEvent_group_close_index_witness :
    SoAd_SoGrp_Lookup suite_1.config suite_1.state_open 2 = some 0 ∧
      ((SoAd_TcpIpEvent suite_1.config suite_1.env 1 2 TCPIP_TCP_RESET
        suite_1.state_open).SoAd_SoGrpStatus 0).socket_id = 2 ∧
      (suite_1.state_open.SoAd_SoGrpStatus 1).socket_id = 3 ∧
      ((SoAd_TcpIpEvent suite_1.config suite_1.env 1 2 TCPIP_TCP_RESET
        suite_1.state_open).SoAd_SoGrpStatus 1).socket_id = TCPIP_SOCKETID_INVALID :=
  ⟨by decide,
    (SoAd_TcpIpEvent_group_close_index suite_1.config suite_1.env 1 2 TCPIP_TCP_RESET
      suite_1.state_open 0 (Or.inl rfl) (by decide) (by decide)).1,
    by decide,
    (SoAd_TcpIpEvent_group_close_index suite_1.config suite_1.env 1 2 TCPIP_TCP_RESET
      suite_1.state_open 0 (Or.inl rfl) (by decide) (by decide)).2⟩

/-- C15.  When no group holds the socket and connection `c` is the
lowest-index connection whose own socket id is the socket, a reset or closed
event on it leaves `c` OFFLINE with an invalid socket id and no rx route; the
calls made are one `rx_indication(pdu, E_OK)` of the route `c` had bound, or
none when it had none; every other connection status and every group status
is unchanged. -/
theorem SoAd_TcpIpEvent_connection_offline (cfg : SoAd_ConfigType) (env : SoAd_Env)
    (id_con socket_id : Nat) (event : TcpIp_EventType) (s : SoAd_State) (c : Nat)
    (hev : event = TCPIP_TCP_RESET ∨ event = TCPIP_TCP_CLOSED ∨ event = TCPIP_UDP_CLOSED)
    (hgrp : ∀ g, g < SOAD_CFG_CONNECTIONGROUP_COUNT cfg →
      (s.SoAd_SoGrpStatus g).socket_id ≠ socket_id)
    (hc : c < SOAD_CFG_CONNECTION_COUNT cfg)
    (hsock : (s.SoAd_SoConStatus c).socket_id = socket_id)
    (hmin : ∀ i, i < c → (s.SoAd_SoConStatus i).socket_id ≠ socket_id) :
    ((SoAd_TcpIpEvent cfg env id_con socket_id event s).SoAd_SoConStatus c).state
        = SOAD_SOCON_OFFLINE ∧
      ((SoAd_TcpIpEvent cfg env id_con socket_id event s).SoAd_SoConStatus c).socket_id
        = TCPIP_SOCKETID_INVALID ∧
      ((SoAd_TcpIpEvent cfg env id_con socket_id event s).SoAd_SoConStatus c).rx_route
        = none ∧
      (SoAd_TcpIpEvent cfg env id_con socket_id event s).trace
        = s.trace ++
          (match (s.SoAd_SoConStatus c).rx_route with
            | some rx_route =>
              [SoAd_Call.rx_indication rx_route.destination.upper rx_route.destination.pdu
                E_OK]
            | none => []) ∧
      (∀ j, j ≠ c →
        (SoAd_TcpIpEvent cfg env id_con socket_id event s).SoAd_SoConStatus j
          = s.SoAd_SoConStatus j) ∧
      (SoAd_TcpIpEvent cfg env id_con socket_id event s).SoAd_SoGrpStatus
        = s.SoAd_SoGrpStatus := by
  have hg := (SoAd_SoGrp_Lookup_eq_none cfg s socket_id).mpr hgrp
  have hl := (SoAd_SoCon_Lookup_eq_some cfg s socket_id c).mpr ⟨hc, hsock, hmin⟩
  have henter : SoAd_TcpIpEvent cfg env id_con socket_id event s
      = SoAd_SoCon_EnterState cfg env c SOAD_SOCON_OFFLINE s := by
    rcases hev with h | h | h <;> subst h <;> simp only [SoAd_TcpIpEvent, hg, hl]
  obtain ⟨h1, h2, h3, h4⟩ := SoAd_SoCon_EnterState_offline cfg env c s
  rw [henter, h1]
  exact ⟨rfl, rfl, rfl, h4, h2, h3⟩

theorem SoAd_TcpIpEvent_connection_offline_witness :
    (∀ g, g < SOAD_CFG_CONNECTIONGROUP_COUNT suite_1.config →
        (suite_1.state_accepted.SoAd_SoGrpStatus g).socket_id ≠ 42) ∧
      (suite_1.state_accepted.SoAd_SoConStatus 0).socket_id = 42 ∧
      (suite_1.state_accepted.SoAd_SoConStatus 0).rx_route = some suite_1.socket_route_1 ∧
      ((SoAd_TcpIpEvent suite_1.config suite_1.env 0 42 TCPIP_TCP_CLOSED
        suite_1.state_accepted).SoAd_SoConStatus 0).state = SOAD_SOCON_OFFLINE ∧
      (SoAd_TcpIpEvent suite_1.config suite_1.env 0 42 TCPIP_TCP_CLOSED
        suite_1.state_accepted).trace
        = suite_1.state_accepted.trace ++ [SoAd_Call.rx_indication 0 0 E_OK] :=
  ⟨by decide, by decide, by decide,
    (SoAd_TcpIpEvent_connection_offline suite_1.config suite_1.env 0 42 TCPIP_TCP_CLOSED
      suite_1.state_accepted 0 (Or.inr (Or.inl rfl)) (by decide) (by decide) (by decide)
      (by decide)).1,
    (SoAd_TcpIpEvent_connection_offline suite_1.config suite_1.env 0 42 TCPIP_TCP_CLOSED
      suite_1.state_accepted 0 (Or.inr (Or.inl rfl)) (by decide) (by decide) (by decide)
      (by decide)).2.2.2.1⟩

/-! ## `SoAd_IfTransmit`, `SoAd_TpTransmit` and `SoAd_CopyTxData` -/

/-- C16.  What the code returns once the PDU route is found: `E_OK`, whatever
the state of the connection and whatever the transport answers; when the
connection is not ONLINE the call returns `E_OK` and changes nothing. -/
theorem SoAd_IfTransmit_returns_lookup_result (cfg : SoAd_ConfigType) (env : SoAd_Env)
    (fuel pdu_id : Nat) (pdu_info : PduInfoType) (s : SoAd_State) (route : SoAd_PduRouteType)
    (hid : pdu_id < SOAD_CFG_PDUROUTE_COUNT cfg)
    (hroute : SoAd_GetPduRoute cfg fuel pdu_id = some (E_OK, some route)) :
    (SoAd_IfTransmit cfg env fuel pdu_id pdu_info s).map Prod.fst = some E_OK ∧
      ((s.SoAd_SoConStatus route.destination.connection).state ≠ SOAD_SOCON_ONLINE →
        SoAd_IfTransmit cfg env fuel pdu_id pdu_info s = some (E_OK, s)) := by
  unfold SoAd_IfTransmit
  simp only [hid, not_true_eq_false, if_false, hroute, if_true, Option.map_some']
  refine ⟨trivial, fun hst => ?_⟩
  simp only [hst, if_false]

theorem SoAd_IfTransmit_returns_lookup_result_witness :
    SoAd_GetPduRoute suite_1.config 1 0 = some (E_OK, some suite_1.pdu_route_1) ∧
      (suite_1.state_init.SoAd_SoConStatus 0).state = SOAD_SOCON_OFFLINE ∧
      (SoAd_IfTransmit suite_1.config suite_1.env 1 0 ⟨none, 8⟩ suite_1.state_init).map
        Prod.fst = some E_OK ∧
      (suite_1.state_accepted.SoAd_SoConStatus 0).state = SOAD_SOCON_ONLINE ∧
      suite_1.env_transmit_fails.TcpIp_TcpTransmit suite_1.state_accepted.trace 42 none 8 true
        = E_NOT_OK ∧
      (SoAd_IfTransmit suite_1.config suite_1.env_transmit_fails 1 0 ⟨none, 8⟩
        suite_1.state_accepted).map Prod.fst = some E_OK :=
  ⟨by decide, by decide,
    (SoAd_IfTransmit_returns_lookup_result suite_1.config suite_1.env 1 0 ⟨none, 8⟩
      suite_1.state_init suite_1.pdu_route_1 (by decide) (by decide)).1,
    by decide, rfl,
    (SoAd_IfTransmit_returns_lookup_result suite_1.config suite_1.env_transmit_fails 1 0
      ⟨none, 8⟩ suite_1.state_accepted suite_1.pdu_route_1 (by decide) (by decide)).1⟩

/-- C17, as stated, fails: with a single PDU route of id 7 the lookup finds the
route for the id 7, and `SoAd_TpTransmit` returns `E_NOT_OK`, because 7 is not
below `SOAD_CFG_PDUROUTE_COUNT`. -/
theorem SoAd_TpTransmit_found_not_ok :
    SoAd_GetPduRoute suite_1.config_route_7 1 7
        = some (E_OK, some { suite_1.pdu_route_1 with pdu_id := 7 }) ∧
      (SoAd_TpTransmit suite_1.config_route_7 suite_1.env 1 7 ⟨none, 8⟩
        suite_1.state_init).map Prod.fst = some E_NOT_OK := by
  decide

/-- C17, amended.  When `pdu_id` is below `SOAD_CFG_PDUROUTE_COUNT` and the
PDU route lookup finds route `r`, `SoAd_TpTransmit` returns `E_OK` and the
state after it differs from the state before only in the `tx_route` of the
connection `r` names, which is `r`.  When `pdu_id` is below the count and the
lookup fails, it returns `E_NOT_OK` and the state is unchanged.  When `pdu_id`
is not below the count it returns `E_NOT_OK`, no connection or group status
changes, and the one call it makes is the report of `SOAD_E_INV_PDUID` to the
development error tracer. -/
theorem SoAd_TpTransmit_arms (cfg : SoAd_ConfigType) (env : SoAd_Env) (fuel pdu_id : Nat)
    (pdu_info : PduInfoType) (s : SoAd_State) :
    (∀ r, pdu_id < SOAD_CFG_PDUROUTE_COUNT cfg →
      SoAd_GetPduRoute cfg fuel pdu_id = some (E_OK, some r) →
        ∃ s', SoAd_TpTransmit cfg env fuel pdu_id pdu_info s = some (E_OK, s') ∧
          s'.SoAd_SoConStatus r.destination.connection
            = { s.SoAd_SoConStatus r.destination.connection with tx_route := some r } ∧
          (∀ j, j ≠ r.destination.connection →
            s'.SoAd_SoConStatus j = s.SoAd_SoConStatus j) ∧
          s'.SoAd_SoGrpStatus = s.SoAd_SoGrpStatus ∧ s'.trace = s.trace) ∧
      (pdu_id < SOAD_CFG_PDUROUTE_COUNT cfg →
        SoAd_GetPduRoute cfg fuel pdu_id = some (E_NOT_OK, none) →
          SoAd_TpTransmit cfg env fuel pdu_id pdu_info s = some (E_NOT_OK, s)) ∧
      (¬ pdu_id < SOAD_CFG_PDUROUTE_COUNT cfg →
        ∃ s', SoAd_TpTransmit cfg env fuel pdu_id pdu_info s = some (E_NOT_OK, s') ∧
          s'.SoAd_SoConStatus = s.SoAd_SoConStatus ∧
          s'.SoAd_SoGrpStatus = s.SoAd_SoGrpStatus ∧
          s'.trace
            = s.trace ++ [SoAd_Call.Det_ReportError SOAD_API_TPTRANSMIT SOAD_E_INV_PDUID]) := by
  refine ⟨fun r hid hroute => ?_, fun hid hroute => ?_, fun hid => ?_⟩
  · unfold SoAd_TpTransmit
    simp only [hid, not_true_eq_false, if_false, hroute, if_true]
    refine ⟨_, rfl, by simp, fun j hj => ?_, rfl, rfl⟩
    simp only [SoAd_State.setCon_con_ne _ _ _ _ hj]
  · unfold SoAd_TpTransmit
    simp only [hid, not_true_eq_false, if_false, hroute]
  · unfold SoAd_TpTransmit
    simp only [hid, not_false_eq_true, if_true]
    exact ⟨_, rfl, rfl, rfl, rfl⟩

theorem SoAd_TpTransmit_arms_witness :
    0 < SOAD_CFG_PDUROUTE_COUNT suite_1.config ∧
      SoAd_GetPduRoute suite_1.config 1 0 = some (E_OK, some suite_1.pdu_route_1) ∧
      (SoAd_TpTransmit suite_1.config suite_1.env 1 0 ⟨none, 8⟩ suite_1.state_accepted).map
        Prod.fst = some E_OK ∧
      (SoAd_TpTransmit suite_1.config suite_1.env 1 0 ⟨none, 8⟩ suite_1.state_accepted).map
        (fun r => (r.2.SoAd_SoConStatus 0).tx_route) = some (some suite_1.pdu_route_1) ∧
      ¬ 7 < SOAD_CFG_PDUROUTE_COUNT suite_1.config_route_7 ∧
      (SoAd_TpTransmit suite_1.config_route_7 suite_1.env 1 7 ⟨none, 8⟩ suite_1.state_init).map
        (fun r => (r.1, r.2.trace))
        = some (E_NOT_OK,
            [SoAd_Call.Det_ReportError SOAD_API_TPTRANSMIT SOAD_E_INV_PDUID]) := by
  obtain ⟨s', h1, h2, -⟩ := (SoAd_TpTransmit_arms suite_1.config suite_1.env 1 0 ⟨none, 8⟩
    suite_1.state_accepted).1 suite_1.pdu_route_1 (by decide) (by decide)
  obtain ⟨s'', g1, -, -, g4⟩ := (SoAd_TpTransmit_arms suite_1.config_route_7 suite_1.env 1 7
    ⟨none, 8⟩ suite_1.state_init).2.2 (by decide)
  refine ⟨by decide, by decide, ?_, ?_, by decide, ?_⟩
  · rw [h1]; rfl
  · rw [h1]
    simp only [Option.map_some', Option.some.injEq]
    exact congrArg SoAd_SoConStatusType.tx_route h2
  · rw [g1]
    simp only [Option.map_some', Option.some.injEq, Prod.mk.injEq, true_and]
    rw [g4]
    rfl

/-- C18, as stated, fails: on connection 0 of the test suite, ONLINE on socket
42 with the route of PDU 0 armed and `tx_remain` 0, `SoAd_CopyTxData` for 10
bytes, answered `BUFREQ_OK` by the upper layer, leaves `tx_remain` at 65526. -/
theorem SoAd_CopyTxData_tx_remain_grows :
    (suite_1.state_armed.SoAd_SoConStatus 0).tx_remain = 0 ∧
      (SoAd_CopyTxData suite_1.config suite_1.env 42 [0, 0, 0, 0, 0, 0, 0, 0, 0, 0] 10
        suite_1.state_armed).map (fun r => (r.1, (r.2.SoAd_SoConStatus 0).tx_remain))
        = some (BUFREQ_OK, 65526) := by
  decide

/-- C18, amended.  When the socket resolves to connection `c` with `tx_route`
bound: `SoAd_CopyTxData` returns what `copy_tx_data` of the upper layer
returned; if that is `BUFREQ_OK`, `tx_remain` afterwards is the previous
`tx_remain` minus `len` in `PduLengthType`, that is modulo 65536 (the
difference itself when `len` is at most the previous `tx_remain`, 65536 more
otherwise); for any other answer `tx_remain` is unchanged.  When the socket
resolves to no connection the result is `BUFREQ_E_NOT_OK` and the state is
unchanged. -/
theorem SoAd_CopyTxData_tx_remain (cfg : SoAd_ConfigType) (env : SoAd_Env)
    (socket_id : Nat) (buf : List Nat) (len : Nat) (s : SoAd_State) :
    (∀ c r, SoAd_SoCon_Lookup cfg s socket_id = some c →
      (s.SoAd_SoConStatus c).tx_route = some r →
        ∃ s', SoAd_CopyTxData cfg env socket_id buf len s
            = some ((env.copy_tx_data s.trace r.upper r.pdu_id (some buf) len
                (s.SoAd_SoConStatus c).tx_available).1, s') ∧
          ((env.copy_tx_data s.trace r.upper r.pdu_id (some buf) len
              (s.SoAd_SoConStatus c).tx_available).1 = BUFREQ_OK →
            (s'.SoAd_SoConStatus c).tx_remain
                = Int.toNat ((((s.SoAd_SoConStatus c).tx_remain : Int) - (len : Int))
                    % (PduLengthType_size : Int)) ∧
              (len ≤ (s.SoAd_SoConStatus c).tx_remain →
                (s.SoAd_SoConStatus c).tx_remain < PduLengthType_size →
                (s'.SoAd_SoConStatus c).tx_remain = (s.SoAd_SoConStatus c).tx_remain - len) ∧
              ((s.SoAd_SoConStatus c).tx_remain < len → len ≤ PduLengthType_size →
                (s'.SoAd_SoConStatus c).tx_remain
                  = (s.SoAd_SoConStatus c).tx_remain + PduLengthType_size - len)) ∧
          ((env.copy_tx_data s.trace r.upper r.pdu_id (some buf) len
              (s.SoAd_SoConStatus c).tx_available).1 ≠ BUFREQ_OK →
            (s'.SoAd_SoConStatus c).tx_remain = (s.SoAd_SoConStatus c).tx_remain)) ∧
      (SoAd_SoCon_Lookup cfg s socket_id = none →
        SoAd_CopyTxData cfg env socket_id buf len s = some (BUFREQ_E_NOT_OK, s)) := by
  refine ⟨fun c r hl hr => ?_, fun hl => ?_⟩
  · by_cases hok : (env.copy_tx_data s.trace r.upper r.pdu_id (some buf) len
        (s.SoAd_SoConStatus c).tx_available).1 = BUFREQ_OK
    · unfold SoAd_CopyTxData
      simp only [hl, hr, hok, if_true]
      refine ⟨_, rfl, fun _ => ?_, fun h => absurd rfl h⟩
      simp only [SoAd_State.setCon_con_same, SoAd_State.call_con, PduLengthType_size,
        true_and]
      constructor
      · intro h1 h2
        omega
      · intro h1 h2
        omega
    · unfold SoAd_CopyTxData
      simp only [hl, hr, hok, if_false]
      refine ⟨_, rfl, fun h => False.elim h, fun _ => ?_⟩
      simp
  · unfold SoAd_CopyTxData
    simp only [hl]

theorem SoAd_CopyTxData_tx_remain_witness :
    SoAd_SoCon_Lookup suite_1.config suite_1.state_armed 42 = some 0 ∧
      (suite_1.state_armed.SoAd_SoConStatus 0).tx_route = some suite_1.pdu_route_1 ∧
      (SoAd_CopyTxData suite_1.config suite_1.env 42 [] 0 suite_1.state_armed).map
        (fun r => (r.2.SoAd_SoConStatus 0).tx_remain) = some 0 ∧
      SoAd_SoCon_Lookup suite_1.config suite_1.state_armed 9 = none ∧
      (SoAd_CopyTxData suite_1.config suite_1.env 9 [] 0 suite_1.state_armed).map Prod.fst
        = some BUFREQ_E_NOT_OK := by
  obtain ⟨s', h1, h2, -⟩ := (SoAd_CopyTxData_tx_remain suite_1.config suite_1.env 42 [] 0
    suite_1.state_armed).1 0 suite_1.pdu_route_1 (by decide) (by decide)
  have h3 := (SoAd_CopyTxData_tx_remain suite_1.config suite_1.env 9 [] 0
    suite_1.state_armed).2 (by decide)
  refine ⟨by decide, by decide, ?_, by decide, ?_⟩
  · rw [h1]
    simp only [Option.map_some', Option.some.injEq]
    exact (h2 rfl).2.1 (by decide) (by decide)
  · rw [h3]; rfl

/-! ## `SoAd_RxIndication` -/

theorem SoAd_RxIndication_SoCon_frame (env : SoAd_Env) (con_id : Nat) (buf : List Nat)
    (len : Nat) (s : SoAd_State) :
    (SoAd_RxIndication_SoCon env con_id buf len s).2.SoAd_SoConStatus = s.SoAd_SoConStatus ∧
      (SoAd_RxIndication_SoCon env con_id buf len s).2.SoAd_SoGrpStatus
        = s.SoAd_SoGrpStatus := by
  unfold SoAd_RxIndication_SoCon
  cases hr : (s.SoAd_SoConStatus con_id).rx_route with
  | none => simp [hr]
  | some rx_route =>
    simp only [hr]
    split_ifs <;> simp

/-- The two outcomes of `SoAd_RxIndication_RemoteOnline`: the remote was
refined and the connection entered ONLINE from another state, with the old
remote and state saved; or nothing changed. -/
theorem SoAd_RxIndication_RemoteOnline_cases (cfg : SoAd_ConfigType) (env : SoAd_Env)
    (con_id : Nat) (remote : TcpIp_SockAddrType) (restore : TcpIp_SockAddrStorageType)
    (s : SoAd_State) :
    ((s.SoAd_SoConStatus con_id).state ≠ SOAD_SOCON_ONLINE ∧
        SoAd_RxIndication_RemoteOnline cfg env con_id remote restore s
          = (SoAd_SoCon_EnterState cfg env con_id SOAD_SOCON_ONLINE
              (s.setCon con_id
                { s.SoAd_SoConStatus con_id with
                  remote := SoAd_SockAddrCopy (s.SoAd_SoConStatus con_id).remote remote }),
            (s.SoAd_SoConStatus con_id).remote, (s.SoAd_SoConStatus con_id).state)) ∨
      SoAd_RxIndication_RemoteOnline cfg env con_id remote restore s
        = (s, restore, (s.SoAd_SoConStatus con_id).state) := by
  unfold SoAd_RxIndication_RemoteOnline
  simp only []
  by_cases h1 : (s.SoAd_SoConStatus con_id).state ≠ SOAD_SOCON_ONLINE
  · rw [if_pos h1]
    by_cases h2 : (cfg.group (cfg.connection con_id).group).protocol = TCPIP_IPPROTO_UDP
    · rw [if_pos h2]
      by_cases h3 : (cfg.group (cfg.connection con_id).group).listen_only = false
      · rw [if_pos h3]
        by_cases h4 : SoAd_SockAddrWildcard (s.SoAd_SoConStatus con_id).remote = TRUE
        · rw [if_pos h4]
          exact Or.inl ⟨h1, rfl⟩
        · rw [if_neg h4]
          exact Or.inr rfl
      · rw [if_neg h3]
        exact Or.inr rfl
    · rw [if_neg h2]
      exact Or.inr rfl
  · rw [if_neg h1]
    exact Or.inr rfl

/-- C13.  When `SoAd_RxIndication` settles on connection `id_con` and the
delivery to the sink fails (the probe is not answered `BUFREQ_OK`, the
capacity is below `len`, or the copy is not answered `BUFREQ_OK`), the state
and the effective remote of every connection after the call are the ones
before the call: of `id_con` when its remote had been refined and it had
entered ONLINE for this reception, and when it had not. -/
theorem SoAd_RxIndication_failed_delivery (cfg : SoAd_ConfigType) (env : SoAd_Env)
    (socket_id : Nat) (remote : TcpIp_SockAddrType) (buf : List Nat) (len : Nat)
    (s : SoAd_State) (id_con : Nat)
    (hid : SoAd_RxIndication_id_con cfg s socket_id remote = some id_con)
    (hfail : (SoAd_RxIndication_SoCon env id_con buf len
      (SoAd_RxIndication_RemoteOnline cfg env id_con remote default s).1).1 ≠ E_OK) :
    ∀ j,
      ((SoAd_RxIndication cfg env socket_id remote buf len s).SoAd_SoConStatus j).state
          = (s.SoAd_SoConStatus j).state ∧
        ((SoAd_RxIndication cfg env socket_id remote buf len s).SoAd_SoConStatus j).remote
          = (s.SoAd_SoConStatus j).remote := by
  intro j
  have hrx : SoAd_RxIndication cfg env socket_id remote buf len s
      = SoAd_RxIndication_RemoteRevert cfg env id_con
          (SoAd_RxIndication_RemoteOnline cfg env id_con remote default s).2.1
          (SoAd_RxIndication_RemoteOnline cfg env id_con remote default s).2.2
          (SoAd_RxIndication_SoCon env id_con buf len
            (SoAd_RxIndication_RemoteOnline cfg env id_con remote default s).1).2 := by
    unfold SoAd_RxIndication
    simp only [hid, hfail, if_true, ne_eq, not_false_eq_true]
  rw [hrx]
  have hframe := (SoAd_RxIndication_SoCon_frame env id_con buf len
    (SoAd_RxIndication_RemoteOnline cfg env id_con remote default s).1).1
  rcases SoAd_RxIndication_RemoteOnline_cases cfg env id_con remote default s with
    ⟨hst, ho⟩ | ho
  · rw [ho] at hframe ⊢
    simp only [] at hframe ⊢
    obtain ⟨e1, -, -, e4, -⟩ := SoAd_SoCon_EnterState_frame cfg env id_con SOAD_SOCON_ONLINE
      (s.setCon id_con
        { s.SoAd_SoConStatus id_con with
          remote := SoAd_SockAddrCopy (s.SoAd_SoConStatus id_con).remote remote })
    unfold SoAd_RxIndication_RemoteRevert
    have hne : ((SoAd_RxIndication_SoCon env id_con buf len
        (SoAd_SoCon_EnterState cfg env id_con SOAD_SOCON_ONLINE
          (s.setCon id_con
            { s.SoAd_SoConStatus id_con with
              remote := SoAd_SockAddrCopy (s.SoAd_SoConStatus id_con).remote
                remote }))).2.SoAd_SoConStatus id_con).state
        ≠ (s.SoAd_SoConStatus id_con).state := by
      rw [hframe, e1]
      exact fun h => hst h.symm
    simp only [hne, if_true, ne_eq, not_false_eq_true]
    obtain ⟨r1, r2, -, r4, -⟩ := SoAd_SoCon_EnterState_frame cfg env id_con
      (s.SoAd_SoConStatus id_con).state
      ((SoAd_RxIndication_SoCon env id_con buf len
          (SoAd_SoCon_EnterState cfg env id_con SOAD_SOCON_ONLINE
            (s.setCon id_con
              { s.SoAd_SoConStatus id_con with
                remote := SoAd_SockAddrCopy (s.SoAd_SoConStatus id_con).remote
                  remote }))).2.setCon id_con
        { (SoAd_RxIndication_SoCon env id_con buf len
            (SoAd_SoCon_EnterState cfg env id_con SOAD_SOCON_ONLINE
              (s.setCon id_con
                { s.SoAd_SoConStatus id_con with
                  remote := SoAd_SockAddrCopy (s.SoAd_SoConStatus id_con).remote
                    remote }))).2.SoAd_SoConStatus id_con with
          remote := (s.SoAd_SoConStatus id_con).remote })
    by_cases hj : j = id_con
    · subst hj
      rw [r1, r2]
      simp
    · rw [r4 j hj, SoAd_State.setCon_con_ne _ _ _ _ hj, hframe, e4 j hj,
        SoAd_State.setCon_con_ne _ _ _ _ hj]
      exact ⟨rfl, rfl⟩
  · rw [ho] at hframe ⊢
    simp only [] at hframe ⊢
    unfold SoAd_RxIndication_RemoteRevert
    have heq : ((SoAd_RxIndication_SoCon env id_con buf len s).2.SoAd_SoConStatus
        id_con).state = (s.SoAd_SoConStatus id_con).state := by
      rw [hframe]
    simp only [heq, ne_eq, not_true_eq_false, if_false]
    rw [hframe]
    exact ⟨rfl, rfl⟩

theorem SoAd_RxIndication_failed_delivery_witness :
    SoAd_RxIndication_id_con suite_1.config suite_1.state_open 3 suite_1.remote_2 = some 2 ∧
      (SoAd_RxIndication_SoCon suite_1.env_copy_fails 2 suite_1.data_100 100
        (SoAd_RxIndication_RemoteOnline suite_1.config suite_1.env_copy_fails 2
          suite_1.remote_2 default suite_1.state_open).1).1 ≠ E_OK ∧
      ((SoAd_RxIndication_RemoteOnline suite_1.config suite_1.env_copy_fails 2
        suite_1.remote_2 default suite_1.state_open).1.SoAd_SoConStatus 2).state
        = SOAD_SOCON_ONLINE ∧
      (suite_1.state_open.SoAd_SoConStatus 2).state = SOAD_SOCON_RECONNECT ∧
      ((SoAd_RxIndication suite_1.config suite_1.env_copy_fails 3 suite_1.remote_2
        suite_1.data_100 100 suite_1.state_open).SoAd_SoConStatus 2).state
        = SOAD_SOCON_RECONNECT ∧
      ((SoAd_RxIndication suite_1.config suite_1.env_copy_fails 3 suite_1.remote_2
        suite_1.data_100 100 suite_1.state_open).SoAd_SoConStatus 2).remote
        = suite_1.socket_remote_any_v4 := by
  have h := SoAd_RxIndication_failed_delivery suite_1.config suite_1.env_copy_fails 3
    suite_1.remote_2 suite_1.data_100 100 suite_1.state_open 2 (by decide) (by decide) 2
  refine ⟨by decide, by decide, by decide, by decide, ?_, ?_⟩
  · rw [h.1]; decide
  · rw [h.2]; decide

/-- C12.  What the code does for an INET6 peer: the UDP group of the test
suite, made INET6 with the any address and the any port as remote of its
connections, holds socket 3 after the first tick and connection 2 is in
RECONNECT with an invalid own socket and a wildcard remote; a datagram from
an INET6 peer on socket 3 is then resolved to no connection: connection 2
stays in RECONNECT with its wildcard remote and no rx route, and the only
call made is the development error report. -/
theorem SoAd_RxIndication_inet6_not_promoted :
    ((SoAd_MainFunction suite_1.config_udp_v6 suite_1.env
        (SoAd_Init suite_1.config_udp_v6 suite_1.state_dirty)).SoAd_SoGrpStatus 1).socket_id
        = 3 ∧
      (SoAd_MainFunction suite_1.config_udp_v6 suite_1.env
        (SoAd_Init suite_1.config_udp_v6 suite_1.state_dirty)).SoAd_SoConStatus 2
        = { SoAd_SoConStatus_zero with
            socket_id := TCPIP_SOCKETID_INVALID
            remote := suite_1.socket_remote_any_v6
            state := SOAD_SOCON_RECONNECT } ∧
      SoAd_SockAddrWildcard suite_1.socket_remote_any_v6 = TRUE ∧
      SoAd_GetSocketRoute suite_1.config_udp_v6 2 SOAD_PDUHEADERID_INVALID = some 1 ∧
      (SoAd_run suite_1.config_udp_v6 suite_1.env 1
        [SoAd_Op.MainFunction, SoAd_Op.RxIndication 3 suite_1.remote_v6 suite_1.data_100 100]
        (SoAd_Init suite_1.config_udp_v6 suite_1.state_dirty)).map
          (fun s => (s.SoAd_SoConStatus 2, s.trace))
        = some
          ({ SoAd_SoConStatus_zero with
              socket_id := TCPIP_SOCKETID_INVALID
              remote := suite_1.socket_remote_any_v6
              state := SOAD_SOCON_RECONNECT },
            (SoAd_MainFunction suite_1.config_udp_v6 suite_1.env
              (SoAd_Init suite_1.config_udp_v6 suite_1.state_dirty)).trace
              ++ [SoAd_Call.Det_ReportError SOAD_API_RXINDICATION SOAD_E_INV_SOCKETID]) := by
  decide

/-- C20.  A state the code reaches with an rx route bound outside ONLINE: in
the test suite, with a sink that refuses the copy of the data, the first tick
followed by a datagram on the socket of the UDP group leaves connection 2 in
RECONNECT with the rx route it bound when it was moved to ONLINE for the
datagram. -/
theorem SoAd_run_rx_route_bound_in_reconnect :
    (SoAd_run suite_1.config suite_1.env_copy_fails 1
      [SoAd_Op.MainFunction, SoAd_Op.RxIndication 3 suite_1.remote_2 suite_1.data_100 100]
      (SoAd_Init suite_1.config suite_1.state_dirty)).map
        (fun s => ((s.SoAd_SoConStatus 2).state, (s.SoAd_SoConStatus 2).rx_route))
      = some (SOAD_SOCON_RECONNECT, some suite_1.socket_route_2) := by
  decide

/-! ## What a tick leaves alone -/

theorem SoAd_State.others_eq_iff (s s' : SoAd_State) (id g : Nat) :
    s'.others id g = s.others id g ↔
      (∀ j, j ≠ id → s'.SoAd_SoConStatus j = s.SoAd_SoConStatus j) ∧
        (∀ h, h ≠ g → s'.SoAd_SoGrpStatus h = s.SoAd_SoGrpStatus h) := by
  unfold SoAd_State.others
  constructor
  · intro h
    have h1 := congrArg Prod.fst h
    have h2 := congrArg Prod.snd h
    simp only [] at h1 h2
    constructor
    · intro j hj
      have := congrFun h1 j
      simpa [hj] using this
    · intro k hk
      have := congrFun h2 k
      simpa [hk] using this
  · rintro ⟨h1, h2⟩
    refine Prod.ext (funext fun j => ?_) (funext fun k => ?_)
    · by_cases hj : j = id
      · simp [hj]
      · simp [hj, h1 j hj]
    · by_cases hk : k = g
      · simp [hk]
      · simp [hk, h2 k hk]

@[simp] theorem SoAd_State.others_setCon (s : SoAd_State) (id g : Nat)
    (status : SoAd_SoConStatusType) : (s.setCon id status).others id g = s.others id g := by
  rw [SoAd_State.others_eq_iff]
  exact ⟨fun j hj => SoAd_State.setCon_con_ne _ _ _ _ hj, fun _ _ => rfl⟩

@[simp] theorem SoAd_State.others_setGrp (s : SoAd_State) (id g : Nat)
    (status : SoAd_SoGrpStatusType) : (s.setGrp g status).others id g = s.others id g := by
  rw [SoAd_State.others_eq_iff]
  exact ⟨fun _ _ => rfl, fun h hh => SoAd_State.setGrp_grp_ne _ _ _ _ hh⟩

@[simp] theorem SoAd_State.others_call (s : SoAd_State) (id g : Nat) (c : SoAd_Call) :
    (s.call c).others id g = s.others id g := rfl

@[simp] theorem SoAd_SoCon_EnterState_others (cfg : SoAd_ConfigType) (env : SoAd_Env)
    (id g : Nat) (state : SoAd_SoConStateType) (s : SoAd_State) :
    (SoAd_SoCon_EnterState cfg env id state s).others id g = s.others id g := by
  rw [SoAd_State.others_eq_iff]
  obtain ⟨-, -, -, h4, h5⟩ := SoAd_SoCon_EnterState_frame cfg env id state s
  exact ⟨h4, fun h _ => by rw [h5]⟩

@[simp] theorem SoAd_SoCon_PerformOpen_store_others (cfg : SoAd_ConfigType) (id : Nat)
    (socket_id : Nat) (s : SoAd_State) :
    (SoAd_SoCon_PerformOpen_store cfg id socket_id s).others id (cfg.connection id).group
      = s.others id (cfg.connection id).group := by
  unfold SoAd_SoCon_PerformOpen_store
  simp only []
  split_ifs <;> simp

theorem SoAd_SoCon_PerformOpen_others (cfg : SoAd_ConfigType) (env : SoAd_Env) (id : Nat)
    (s : SoAd_State) :
    (SoAd_SoCon_PerformOpen cfg env id s).2.others id (cfg.connection id).group
      = s.others id (cfg.connection id).group := by
  unfold SoAd_SoCon_PerformOpen
  simp only []
  split_ifs <;> simp

@[simp] theorem SoAd_SoCon_ProcessClose_others (id g : Nat) (s : SoAd_State) :
    (SoAd_SoCon_ProcessClose id s).others id g = s.others id g := by
  unfold SoAd_SoCon_ProcessClose
  simp only []
  split_ifs <;> simp

@[simp] theorem SoAd_SoCon_ProcessTransmit_others (cfg : SoAd_ConfigType) (env : SoAd_Env)
    (id g : Nat) (s : SoAd_State) :
    (SoAd_SoCon_ProcessTransmit cfg env id s).others id g = s.others id g := by
  unfold SoAd_SoCon_ProcessTransmit
  cases hr : (s.SoAd_SoConStatus id).tx_route with
  | none => simp [hr]
  | some route =>
    simp only [hr]
    split_ifs <;> simp

theorem SoAd_SoCon_MainFunction_others (cfg : SoAd_ConfigType) (env : SoAd_Env) (id : Nat)
    (s : SoAd_State) :
    (SoAd_SoCon_MainFunction cfg env id s).others id (cfg.connection id).group
      = s.others id (cfg.connection id).group := by
  unfold SoAd_SoCon_MainFunction
  cases hst : (s.SoAd_SoConStatus id).state with
  | SOAD_SOCON_OFFLINE =>
    simp only []
    unfold SoAd_SoCon_State_Offline
    simp only []
    split_ifs <;> simp [SoAd_SoCon_PerformOpen_others]
  | SOAD_SOCON_RECONNECT =>
    simp [SoAd_SoCon_State_Reconnect]
  | SOAD_SOCON_ONLINE =>
    simp [SoAd_SoCon_State_Online]

/-! ## Opening a socket -/

theorem SoAd_SoCon_CheckOpen_eq_ok (cfg : SoAd_ConfigType) (id : Nat) (s : SoAd_State) :
    SoAd_SoCon_CheckOpen cfg id s = E_OK ↔
      (s.SoAd_SoConStatus id).socket_id = TCPIP_SOCKETID_INVALID ∧
        ((cfg.group (cfg.connection id).group).automatic = true ∨
          (s.SoAd_SoConStatus id).request_open = true) ∧
        (s.SoAd_SoConStatus id).remote.domain ≠ 0 := by
  have hne : (E_NOT_OK : Std_ReturnType) ≠ E_OK := by decide
  unfold SoAd_SoCon_CheckOpen
  simp only []
  split_ifs with h1 h2 h3 <;> simp_all


theorem SoAd_SoCon_PerformOpen_skip (cfg : SoAd_ConfigType) (env : SoAd_Env) (id : Nat)
    (s : SoAd_State) (hslot : SoAd_SoCon_PerformOpen_slot cfg id s ≠ TCPIP_SOCKETID_INVALID) :
    SoAd_SoCon_PerformOpen cfg env id s
      = (E_OK, s.setCon id { s.SoAd_SoConStatus id with request_open := false }) := by
  have h : SoAd_SoCon_PerformOpen_slot cfg id
      (s.setCon id { s.SoAd_SoConStatus id with request_open := false })
      = SoAd_SoCon_PerformOpen_slot cfg id s := by
    unfold SoAd_SoCon_PerformOpen_slot
    simp
  unfold SoAd_SoCon_PerformOpen
  simp only [h, hslot, if_false]

theorem SoAd_SoCon_PerformOpen_passive (cfg : SoAd_ConfigType) (env : SoAd_Env)
    (henv : env.opens) (id : Nat) (s : SoAd_State)
    (hinit : (cfg.group (cfg.connection id).group).initiate = false)
    (hslot : (s.SoAd_SoGrpStatus (cfg.connection id).group).socket_id = TCPIP_SOCKETID_INVALID) :
    SoAd_SoCon_PerformOpen cfg env id s
      = (E_OK,
          if (cfg.group (cfg.connection id).group).protocol = TCPIP_IPPROTO_TCP then
            (((((s.setCon id { s.SoAd_SoConStatus id with request_open := false }).call
              (SoAd_Call.TcpIp_SoAdGetSocket (cfg.group (cfg.connection id).group).domain
                (cfg.group (cfg.connection id).group).protocol)).setGrp
              (cfg.connection id).group
              { socket_id := (env.TcpIp_SoAdGetSocket s.trace
                  (cfg.group (cfg.connection id).group).domain
                  (cfg.group (cfg.connection id).group).protocol).2 }).call
              (SoAd_Call.TcpIp_Bind
                (env.TcpIp_SoAdGetSocket s.trace (cfg.group (cfg.connection id).group).domain
                  (cfg.group (cfg.connection id).group).protocol).2
                (cfg.group (cfg.connection id).group).localaddr
                (cfg.group (cfg.connection id).group).localport)).call
              (SoAd_Call.TcpIp_TcpListen
                (env.TcpIp_SoAdGetSocket s.trace (cfg.group (cfg.connection id).group).domain
                  (cfg.group (cfg.connection id).group).protocol).2
                (SOAD_CFG_CONNECTION_COUNT cfg)))
          else
            ((((s.setCon id { s.SoAd_SoConStatus id with request_open := false }).call
              (SoAd_Call.TcpIp_SoAdGetSocket (cfg.group (cfg.connection id).group).domain
                (cfg.group (cfg.connection id).group).protocol)).setGrp
              (cfg.connection id).group
              { socket_id := (env.TcpIp_SoAdGetSocket s.trace
                  (cfg.group (cfg.connection id).group).domain
                  (cfg.group (cfg.connection id).group).protocol).2 }).call
              (SoAd_Call.TcpIp_Bind
                (env.TcpIp_SoAdGetSocket s.trace (cfg.group (cfg.connection id).group).domain
                  (cfg.group (cfg.connection id).group).protocol).2
                (cfg.group (cfg.connection id).group).localaddr
                (cfg.group (cfg.connection id).group).localport))) := by
  obtain ⟨h1, h2, h3, h4⟩ := henv
  unfold SoAd_SoCon_PerformOpen SoAd_SoCon_PerformOpen_slot SoAd_SoCon_PerformOpen_store
  simp only [hinit, hslot, h1, h2, h3, h4, if_true, if_false, SoAd_State.setCon_grp,
    SoAd_State.setCon_trace, SoAd_State.call_grp, SoAd_State.call_trace,
    SoAd_State.setGrp_grp_same, SoAd_State.setGrp_trace, Bool.false_eq_true]
  by_cases hp : (cfg.group (cfg.connection id).group).protocol = TCPIP_IPPROTO_TCP
  · simp only [hp, if_true, ne_eq, not_true_eq_false, if_false]
  · simp only [hp, if_false, ne_eq, not_true_eq_false]

theorem SoAd_SoCon_PerformOpen_initiate (cfg : SoAd_ConfigType) (env : SoAd_Env)
    (henv : env.opens) (id : Nat) (s : SoAd_State)
    (hinit : (cfg.group (cfg.connection id).group).initiate = true)
    (hslot : (s.SoAd_SoConStatus id).socket_id = TCPIP_SOCKETID_INVALID) :
    (SoAd_SoCon_PerformOpen cfg env id s).1 = E_OK ∧
      ((SoAd_SoCon_PerformOpen cfg env id s).2.SoAd_SoConStatus id).socket_id
        = (env.TcpIp_SoAdGetSocket s.trace (cfg.group (cfg.connection id).group).domain
            (cfg.group (cfg.connection id).group).protocol).2 ∧
      (SoAd_SoCon_PerformOpen cfg env id s).2.SoAd_SoGrpStatus = s.SoAd_SoGrpStatus := by
  obtain ⟨h1, h2, h3, h4⟩ := henv
  unfold SoAd_SoCon_PerformOpen SoAd_SoCon_PerformOpen_slot SoAd_SoCon_PerformOpen_store
  simp only [hinit, hslot, h1, h2, h3, h4, if_true, SoAd_State.setCon_con_same,
    SoAd_State.call_con, SoAd_State.call_trace, SoAd_State.setCon_trace]
  by_cases hp : (cfg.group (cfg.connection id).group).protocol = TCPIP_IPPROTO_TCP
  · simp [hp]
  · simp [hp]

theorem SoAd_SoCon_EnterState_keeps_socket (cfg : SoAd_ConfigType) (env : SoAd_Env) (id : Nat)
    (state : SoAd_SoConStateType) (s : SoAd_State) (hstate : state ≠ SOAD_SOCON_OFFLINE) :
    ((SoAd_SoCon_EnterState cfg env id state s).SoAd_SoConStatus id).socket_id
        = (s.SoAd_SoConStatus id).socket_id ∧
      ∃ rest, (SoAd_SoCon_EnterState cfg env id state s).trace = s.trace ++ rest ∧
        ∀ c ∈ rest, c.opens = false := by
  cases state with
  | SOAD_SOCON_OFFLINE => exact absurd rfl hstate
  | SOAD_SOCON_RECONNECT =>
    rw [SoAd_SoCon_EnterState_reconnect]
    exact ⟨by simp, [], by simp, by simp⟩
  | SOAD_SOCON_ONLINE =>
    refine ⟨(SoAd_SoCon_EnterState_online cfg env id s).2.1, ?_⟩
    unfold SoAd_SoCon_EnterState
    cases SoAd_GetSocketRoute cfg id SOAD_PDUHEADERID_INVALID with
    | none => exact ⟨[], by simp, by simp⟩
    | some route_id =>
      simp only []
      split <;>
        exact ⟨[SoAd_Call.start_of_reception (cfg.socket_route route_id).destination.upper
          (cfg.socket_route route_id).destination.pdu 0 0], rfl, by simp [SoAd_Call.opens]⟩

theorem SoAd_SoCon_State_Offline_opened (cfg : SoAd_ConfigType) (env : SoAd_Env) (id : Nat)
    (s : SoAd_State) (hcheck : SoAd_SoCon_CheckOpen cfg id s = E_OK)
    (hok : (SoAd_SoCon_PerformOpen cfg env id s).1 = E_OK) :
    ((SoAd_SoCon_State_Offline cfg env id s).SoAd_SoConStatus id).socket_id
        = ((SoAd_SoCon_PerformOpen cfg env id s).2.SoAd_SoConStatus id).socket_id ∧
      (SoAd_SoCon_State_Offline cfg env id s).SoAd_SoGrpStatus
        = (SoAd_SoCon_PerformOpen cfg env id s).2.SoAd_SoGrpStatus ∧
      (∃ rest, (SoAd_SoCon_State_Offline cfg env id s).trace
          = (SoAd_SoCon_PerformOpen cfg env id s).2.trace ++ rest ∧
        ∀ c ∈ rest, c.opens = false) ∧
      ((cfg.group (cfg.connection id).group).protocol = TCPIP_IPPROTO_TCP →
        SoAd_SoCon_State_Offline cfg env id s
          = (SoAd_SoCon_PerformOpen cfg env id s).2.setCon id
              { (SoAd_SoCon_PerformOpen cfg env id s).2.SoAd_SoConStatus id with
                state := SOAD_SOCON_RECONNECT }) := by
  have hr : SOAD_SOCON_RECONNECT ≠ SOAD_SOCON_OFFLINE := by decide
  have ho : SOAD_SOCON_ONLINE ≠ SOAD_SOCON_OFFLINE := by decide
  unfold SoAd_SoCon_State_Offline
  simp only [hcheck, hok, if_true]
  split_ifs with h1 h2 h3
  · obtain ⟨e1, e2⟩ := SoAd_SoCon_EnterState_keeps_socket cfg env id SOAD_SOCON_RECONNECT
      (SoAd_SoCon_PerformOpen cfg env id s).2 hr
    exact ⟨e1, (SoAd_SoCon_EnterState_frame cfg env id _ _).2.2.2.2, e2, fun _ => rfl⟩
  · obtain ⟨e1, e2⟩ := SoAd_SoCon_EnterState_keeps_socket cfg env id SOAD_SOCON_RECONNECT
      (SoAd_SoCon_PerformOpen cfg env id s).2 hr
    exact ⟨e1, (SoAd_SoCon_EnterState_frame cfg env id _ _).2.2.2.2, e2,
      fun h => absurd h h1⟩
  · obtain ⟨e1, e2⟩ := SoAd_SoCon_EnterState_keeps_socket cfg env id SOAD_SOCON_ONLINE
      (SoAd_SoCon_PerformOpen cfg env id s).2 ho
    exact ⟨e1, (SoAd_SoCon_EnterState_frame cfg env id _ _).2.2.2.2, e2,
      fun h => absurd h h1⟩
  · exact ⟨rfl, rfl, ⟨[], by simp, by simp⟩, fun h => absurd h h1⟩


theorem SoAd_SoCon_MainFunction_offline (cfg : SoAd_ConfigType) (env : SoAd_Env) (id : Nat)
    (s : SoAd_State) (hst : (s.SoAd_SoConStatus id).state = SOAD_SOCON_OFFLINE) :
    SoAd_SoCon_MainFunction cfg env id s = SoAd_SoCon_State_Offline cfg env id s := by
  unfold SoAd_SoCon_MainFunction
  rw [hst]

/-- One tick on an OFFLINE connection of an initiating group. -/
theorem SoAd_SoCon_MainFunction_open_initiate (cfg : SoAd_ConfigType) (env : SoAd_Env)
    (henv : env.opens) (id : Nat) (s : SoAd_State)
    (hst : (s.SoAd_SoConStatus id).state = SOAD_SOCON_OFFLINE)
    (hcheck : SoAd_SoCon_CheckOpen cfg id s = E_OK)
    (hinit : (cfg.group (cfg.connection id).group).initiate = true) :
    ((SoAd_SoCon_MainFunction cfg env id s).SoAd_SoConStatus id).socket_id
        = (env.TcpIp_SoAdGetSocket s.trace (cfg.group (cfg.connection id).group).domain
            (cfg.group (cfg.connection id).group).protocol).2 ∧
      (SoAd_SoCon_MainFunction cfg env id s).SoAd_SoGrpStatus = s.SoAd_SoGrpStatus := by
  obtain ⟨hsock, -, -⟩ := (SoAd_SoCon_CheckOpen_eq_ok cfg id s).mp hcheck
  obtain ⟨p1, p2, p3⟩ := SoAd_SoCon_PerformOpen_initiate cfg env henv id s hinit hsock
  obtain ⟨o1, o2, -, -⟩ := SoAd_SoCon_State_Offline_opened cfg env id s hcheck p1
  rw [SoAd_SoCon_MainFunction_offline cfg env id s hst, o1, o2, p2, p3]
  exact ⟨rfl, rfl⟩

/-- One tick on an OFFLINE connection of a group that does not initiate. -/
theorem SoAd_SoCon_MainFunction_open_passive (cfg : SoAd_ConfigType) (env : SoAd_Env)
    (henv : env.opens) (id : Nat) (s : SoAd_State)
    (hst : (s.SoAd_SoConStatus id).state = SOAD_SOCON_OFFLINE)
    (hcheck : SoAd_SoCon_CheckOpen cfg id s = E_OK)
    (hinit : (cfg.group (cfg.connection id).group).initiate = false) :
    ((SoAd_SoCon_MainFunction cfg env id s).SoAd_SoConStatus id).socket_id
        = TCPIP_SOCKETID_INVALID ∧
      ((s.SoAd_SoGrpStatus (cfg.connection id).group).socket_id = TCPIP_SOCKETID_INVALID →
        ((SoAd_SoCon_MainFunction cfg env id s).SoAd_SoGrpStatus
            (cfg.connection id).group).socket_id
          = (env.TcpIp_SoAdGetSocket s.trace (cfg.group (cfg.connection id).group).domain
              (cfg.group (cfg.connection id).group).protocol).2) ∧
      ((s.SoAd_SoGrpStatus (cfg.connection id).group).socket_id ≠ TCPIP_SOCKETID_INVALID →
        (SoAd_SoCon_MainFunction cfg env id s).SoAd_SoGrpStatus = s.SoAd_SoGrpStatus ∧
          ∃ rest, (SoAd_SoCon_MainFunction cfg env id s).trace = s.trace ++ rest ∧
            ∀ c ∈ rest, c.opens = false) := by
  obtain ⟨hsock, -, -⟩ := (SoAd_SoCon_CheckOpen_eq_ok cfg id s).mp hcheck
  rw [SoAd_SoCon_MainFunction_offline cfg env id s hst]
  by_cases hslot : (s.SoAd_SoGrpStatus (cfg.connection id).group).socket_id
      = TCPIP_SOCKETID_INVALID
  · have hpo := SoAd_SoCon_PerformOpen_passive cfg env henv id s hinit hslot
    have hok : (SoAd_SoCon_PerformOpen cfg env id s).1 = E_OK := by rw [hpo]
    obtain ⟨o1, o2, -, -⟩ := SoAd_SoCon_State_Offline_opened cfg env id s hcheck hok
    rw [o1, o2, hpo]
    refine ⟨?_, fun _ => ?_, fun h => absurd hslot h⟩
    · simp only []
      split_ifs <;> simpa using hsock
    · simp only []
      split_ifs <;> simp
  · have hslot' : SoAd_SoCon_PerformOpen_slot cfg id s ≠ TCPIP_SOCKETID_INVALID := by
      unfold SoAd_SoCon_PerformOpen_slot
      simpa [hinit] using hslot
    have hpo := SoAd_SoCon_PerformOpen_skip cfg env id s hslot'
    have hok : (SoAd_SoCon_PerformOpen cfg env id s).1 = E_OK := by rw [hpo]
    obtain ⟨o1, o2, o3, -⟩ := SoAd_SoCon_State_Offline_opened cfg env id s hcheck hok
    rw [o1, o2]
    rw [hpo] at o3 ⊢
    refine ⟨by simpa using hsock, fun h => absurd h hslot, fun _ => ⟨rfl, ?_⟩⟩
    simpa using o3


theorem SoAd_SoCon_CheckOpen_congr (cfg : SoAd_ConfigType) (id : Nat) (s t : SoAd_State)
    (h : t.SoAd_SoConStatus id = s.SoAd_SoConStatus id) :
    SoAd_SoCon_CheckOpen cfg id t = SoAd_SoCon_CheckOpen cfg id s := by
  unfold SoAd_SoCon_CheckOpen
  rw [h]

/-- One tick on an OFFLINE connection of a TCP group that does not initiate:
the connection ends in RECONNECT without a socket of its own; the socket of
the group is acquired, bound and listened on when the group has none, and no
call is made when it has one. -/
theorem SoAd_SoCon_MainFunction_passive_tcp (cfg : SoAd_ConfigType) (env : SoAd_Env)
    (henv : env.opens) (id : Nat) (s : SoAd_State)
    (hst : (s.SoAd_SoConStatus id).state = SOAD_SOCON_OFFLINE)
    (hcheck : SoAd_SoCon_CheckOpen cfg id s = E_OK)
    (hinit : (cfg.group (cfg.connection id).group).initiate = false)
    (hp : (cfg.group (cfg.connection id).group).protocol = TCPIP_IPPROTO_TCP) :
    ((SoAd_SoCon_MainFunction cfg env id s).SoAd_SoConStatus id).state
        = SOAD_SOCON_RECONNECT ∧
      ((SoAd_SoCon_MainFunction cfg env id s).SoAd_SoConStatus id).socket_id
        = TCPIP_SOCKETID_INVALID ∧
      ((s.SoAd_SoGrpStatus (cfg.connection id).group).socket_id = TCPIP_SOCKETID_INVALID →
        ((SoAd_SoCon_MainFunction cfg env id s).SoAd_SoGrpStatus
            (cfg.connection id).group).socket_id
          = (env.TcpIp_SoAdGetSocket s.trace (cfg.group (cfg.connection id).group).domain
              (cfg.group (cfg.connection id).group).protocol).2 ∧
        (SoAd_SoCon_MainFunction cfg env id s).trace
          = s.trace ++
            [SoAd_Call.TcpIp_SoAdGetSocket (cfg.group (cfg.connection id).group).domain
                (cfg.group (cfg.connection id).group).protocol,
              SoAd_Call.TcpIp_Bind
                (env.TcpIp_SoAdGetSocket s.trace (cfg.group (cfg.connection id).group).domain
                  (cfg.group (cfg.connection id).group).protocol).2
                (cfg.group (cfg.connection id).group).localaddr
                (cfg.group (cfg.connection id).group).localport,
              SoAd_Call.TcpIp_TcpListen
                (env.TcpIp_SoAdGetSocket s.trace (cfg.group (cfg.connection id).group).domain
                  (cfg.group (cfg.connection id).group).protocol).2
                (SOAD_CFG_CONNECTION_COUNT cfg)]) ∧
      ((s.SoAd_SoGrpStatus (cfg.connection id).group).socket_id ≠ TCPIP_SOCKETID_INVALID →
        (SoAd_SoCon_MainFunction cfg env id s).SoAd_SoGrpStatus = s.SoAd_SoGrpStatus ∧
          (SoAd_SoCon_MainFunction cfg env id s).trace = s.trace) := by
  obtain ⟨hsock, -, -⟩ := (SoAd_SoCon_CheckOpen_eq_ok cfg id s).mp hcheck
  rw [SoAd_SoCon_MainFunction_offline cfg env id s hst]
  by_cases hslot : (s.SoAd_SoGrpStatus (cfg.connection id).group).socket_id
      = TCPIP_SOCKETID_INVALID
  · have hpo := SoAd_SoCon_PerformOpen_passive cfg env henv id s hinit hslot
    have hok : (SoAd_SoCon_PerformOpen cfg env id s).1 = E_OK := by rw [hpo]
    rw [(SoAd_SoCon_State_Offline_opened cfg env id s hcheck hok).2.2.2 hp, hpo]
    simp only [hp, if_true]
    refine ⟨by simp, by simpa using hsock, fun _ => ⟨by simp, by simp⟩,
      fun h => absurd hslot h⟩
  · have hslot' : SoAd_SoCon_PerformOpen_slot cfg id s ≠ TCPIP_SOCKETID_INVALID := by
      unfold SoAd_SoCon_PerformOpen_slot
      simpa [hinit] using hslot
    have hpo := SoAd_SoCon_PerformOpen_skip cfg env id s hslot'
    have hok : (SoAd_SoCon_PerformOpen cfg env id s).1 = E_OK := by rw [hpo]
    rw [(SoAd_SoCon_State_Offline_opened cfg env id s hcheck hok).2.2.2 hp, hpo]
    refine ⟨by simp, by simpa using hsock, fun h => absurd h hslot, fun _ => ⟨rfl, rfl⟩⟩

/-- The ticks of the first `n` connections, seen from a TCP group `g` that does
not initiate, has no socket, and whose connections are all OFFLINE and due to
open. -/
theorem SoAd_MainFunction_passive_prefix (cfg : SoAd_ConfigType) (env : SoAd_Env)
    (henv : env.opens)
    (hvalid : ∀ t d p, (env.TcpIp_SoAdGetSocket t d p).2 ≠ TCPIP_SOCKETID_INVALID)
    (s : SoAd_State) (g : Nat) (hinit : (cfg.group g).initiate = false)
    (hp : (cfg.group g).protocol = TCPIP_IPPROTO_TCP)
    (hslot : (s.SoAd_SoGrpStatus g).socket_id = TCPIP_SOCKETID_INVALID)
    (hchildren : ∀ c, c < SOAD_CFG_CONNECTION_COUNT cfg → (cfg.connection c).group = g →
      (s.SoAd_SoConStatus c).state = SOAD_SOCON_OFFLINE ∧
        SoAd_SoCon_CheckOpen cfg c s = E_OK)
    (n : Nat) (hn : n ≤ SOAD_CFG_CONNECTION_COUNT cfg) :
    (∀ c, n ≤ c →
        ((List.range n).foldl (fun s id => SoAd_SoCon_MainFunction cfg env id s)
          s).SoAd_SoConStatus c = s.SoAd_SoConStatus c) ∧
      (∀ c, c < n → (cfg.connection c).group = g →
        (((List.range n).foldl (fun s id => SoAd_SoCon_MainFunction cfg env id s)
            s).SoAd_SoConStatus c).state = SOAD_SOCON_RECONNECT ∧
          (((List.range n).foldl (fun s id => SoAd_SoCon_MainFunction cfg env id s)
            s).SoAd_SoConStatus c).socket_id = TCPIP_SOCKETID_INVALID) ∧
      ((∃ i, i < n ∧ (cfg.connection i).group = g) →
        (((List.range n).foldl (fun s id => SoAd_SoCon_MainFunction cfg env id s)
          s).SoAd_SoGrpStatus g).socket_id ≠ TCPIP_SOCKETID_INVALID) ∧
      ((∀ i, i < n → (cfg.connection i).group ≠ g) →
        (((List.range n).foldl (fun s id => SoAd_SoCon_MainFunction cfg env id s)
          s).SoAd_SoGrpStatus g).socket_id = TCPIP_SOCKETID_INVALID) := by
  induction n with
  | zero =>
    refine ⟨fun c _ => rfl, fun c hc => absurd hc (Nat.not_lt_zero c), ?_, fun _ => hslot⟩
    rintro ⟨i, hi, -⟩
    exact absurd hi (Nat.not_lt_zero i)
  | succ n ih =>
    obtain ⟨i1, i2, i3, i4⟩ := ih (Nat.le_of_succ_le hn)
    rw [List.range_succ, List.foldl_append]
    simp only [List.foldl_cons, List.foldl_nil]
    generalize hst : (List.range n).foldl (fun s id => SoAd_SoCon_MainFunction cfg env id s) s
      = st at i1 i2 i3 i4 ⊢
    obtain ⟨f1, f2⟩ := (SoAd_State.others_eq_iff st (SoAd_SoCon_MainFunction cfg env n st) n
      (cfg.connection n).group).mp (SoAd_SoCon_MainFunction_others cfg env n st)
    have hnlt : n < SOAD_CFG_CONNECTION_COUNT cfg := hn
    by_cases hg : (cfg.connection n).group = g
    · obtain ⟨c1, c2⟩ := hchildren n hnlt hg
      have hcon : st.SoAd_SoConStatus n = s.SoAd_SoConStatus n := i1 n (Nat.le_refl n)
      have hst' : (st.SoAd_SoConStatus n).state = SOAD_SOCON_OFFLINE := by rw [hcon]; exact c1
      have hcheck : SoAd_SoCon_CheckOpen cfg n st = E_OK := by
        rw [SoAd_SoCon_CheckOpen_congr cfg n s st hcon]; exact c2
      obtain ⟨t1, t2, t3, t4⟩ := SoAd_SoCon_MainFunction_passive_tcp cfg env henv n st hst'
        hcheck (by rw [hg]; exact hinit) (by rw [hg]; exact hp)
      rw [hg] at t3 t4
      refine ⟨fun c hc => ?_, fun c hc hcg => ?_, fun _ => ?_, fun h => ?_⟩
      · rw [f1 c (by omega), i1 c (by omega)]
      · by_cases hcn : c = n
        · subst hcn
          exact ⟨t1, t2⟩
        · rw [f1 c hcn]
          exact i2 c (by omega) hcg
      · by_cases hsl : (st.SoAd_SoGrpStatus g).socket_id = TCPIP_SOCKETID_INVALID
        · rw [(t3 hsl).1]
          exact hvalid _ _ _
        · rw [(t4 hsl).1]
          exact hsl
      · exact absurd hg (h n (Nat.lt_succ_self n))
    · have hgrp : (SoAd_SoCon_MainFunction cfg env n st).SoAd_SoGrpStatus g
          = st.SoAd_SoGrpStatus g := f2 g (fun h => hg h.symm)
      refine ⟨fun c hc => ?_, fun c hc hcg => ?_, ?_, fun h => ?_⟩
      · rw [f1 c (by omega), i1 c (by omega)]
      · have hcn : c ≠ n := fun h => hg (h ▸ hcg)
        rw [f1 c hcn]
        exact i2 c (by omega) hcg
      · rintro ⟨i, hi, hig⟩
        rw [hgrp]
        have hin : i ≠ n := fun h => hg (h ▸ hig)
        exact i3 ⟨i, by omega, hig⟩
      · rw [hgrp]
        exact i4 fun i hi => h i (by omega)

/-- C11.  With a transport that answers every call that opens a socket with
`E_OK`, a tick on an OFFLINE connection whose open requirements hold stores the
socket id obtained from `TcpIp_SoAdGetSocket` in the connection and leaves
every group status as it is when the group initiates; when the group does not
initiate, the own socket id of the connection stays invalid, the id is stored
in the group when the group has none, and when the group has one its status
stays as it is and no `TcpIp_SoAdGetSocket`, `TcpIp_Bind`, `TcpIp_TcpListen`
or `TcpIp_TcpConnect` is called.  Hence, in one `SoAd_MainFunction` on a TCP
group that does not initiate, has no socket and whose connections are all
OFFLINE with their open requirements met (the socket ids handed out being
valid): the tick of the first connection of the group makes exactly the calls
get socket, bind, listen, the tick of every other connection of the group
makes no call, every connection of the group ends in RECONNECT with an invalid
own socket id, and the group ends with a valid socket id. -/
theorem SoAd_MainFunction_opens_socket (cfg : SoAd_ConfigType) (env : SoAd_Env)
    (henv : env.opens) :
    (∀ s id, (s.SoAd_SoConStatus id).state = SOAD_SOCON_OFFLINE →
      SoAd_SoCon_CheckOpen cfg id s = E_OK →
      (cfg.group (cfg.connection id).group).initiate = true →
        ((SoAd_SoCon_MainFunction cfg env id s).SoAd_SoConStatus id).socket_id
            = (env.TcpIp_SoAdGetSocket s.trace (cfg.group (cfg.connection id).group).domain
                (cfg.group (cfg.connection id).group).protocol).2 ∧
          (SoAd_SoCon_MainFunction cfg env id s).SoAd_SoGrpStatus = s.SoAd_SoGrpStatus) ∧
    (∀ s id, (s.SoAd_SoConStatus id).state = SOAD_SOCON_OFFLINE →
      SoAd_SoCon_CheckOpen cfg id s = E_OK →
      (cfg.group (cfg.connection id).group).initiate = false →
        ((SoAd_SoCon_MainFunction cfg env id s).SoAd_SoConStatus id).socket_id
            = TCPIP_SOCKETID_INVALID ∧
          ((s.SoAd_SoGrpStatus (cfg.connection id).group).socket_id
              = TCPIP_SOCKETID_INVALID →
            ((SoAd_SoCon_MainFunction cfg env id s).SoAd_SoGrpStatus
                (cfg.connection id).group).socket_id
              = (env.TcpIp_SoAdGetSocket s.trace
                  (cfg.group (cfg.connection id).group).domain
                  (cfg.group (cfg.connection id).group).protocol).2) ∧
          ((s.SoAd_SoGrpStatus (cfg.connection id).group).socket_id
              ≠ TCPIP_SOCKETID_INVALID →
            (SoAd_SoCon_MainFunction cfg env id s).SoAd_SoGrpStatus = s.SoAd_SoGrpStatus ∧
              ∃ rest, (SoAd_SoCon_MainFunction cfg env id s).trace = s.trace ++ rest ∧
                ∀ c ∈ rest, c.opens = false)) ∧
    (∀ s g, (∀ t d p, (env.TcpIp_SoAdGetSocket t d p).2 ≠ TCPIP_SOCKETID_INVALID) →
      (cfg.group g).initiate = false → (cfg.group g).protocol = TCPIP_IPPROTO_TCP →
      (s.SoAd_SoGrpStatus g).socket_id = TCPIP_SOCKETID_INVALID →
      (∀ c, c < SOAD_CFG_CONNECTION_COUNT cfg → (cfg.connection c).group = g →
        (s.SoAd_SoConStatus c).state = SOAD_SOCON_OFFLINE ∧
          SoAd_SoCon_CheckOpen cfg c s = E_OK) →
      ∀ c, c < SOAD_CFG_CONNECTION_COUNT cfg → (cfg.connection c).group = g →
        ((∀ i, i < c → (cfg.connection i).group ≠ g) →
          (SoAd_SoCon_MainFunction cfg env c
              ((List.range c).foldl (fun s id => SoAd_SoCon_MainFunction cfg env id s)
                s)).trace
            = ((List.range c).foldl (fun s id => SoAd_SoCon_MainFunction cfg env id s)
                s).trace ++
              [SoAd_Call.TcpIp_SoAdGetSocket (cfg.group g).domain (cfg.group g).protocol,
                SoAd_Call.TcpIp_Bind
                  (env.TcpIp_SoAdGetSocket
                    ((List.range c).foldl (fun s id => SoAd_SoCon_MainFunction cfg env id s)
                      s).trace (cfg.group g).domain (cfg.group g).protocol).2
                  (cfg.group g).localaddr (cfg.group g).localport,
                SoAd_Call.TcpIp_TcpListen
                  (env.TcpIp_SoAdGetSocket
                    ((List.range c).foldl (fun s id => SoAd_SoCon_MainFunction cfg env id s)
                      s).trace (cfg.group g).domain (cfg.group g).protocol).2
                  (SOAD_CFG_CONNECTION_COUNT cfg)]) ∧
        ((∃ i, i < c ∧ (cfg.connection i).group = g) →
          (SoAd_SoCon_MainFunction cfg env c
              ((List.range c).foldl (fun s id => SoAd_SoCon_MainFunction cfg env id s)
                s)).trace
            = ((List.range c).foldl (fun s id => SoAd_SoCon_MainFunction cfg env id s)
                s).trace) ∧
        ((SoAd_MainFunction cfg env s).SoAd_SoConStatus c).state = SOAD_SOCON_RECONNECT ∧
        ((SoAd_MainFunction cfg env s).SoAd_SoConStatus c).socket_id
          = TCPIP_SOCKETID_INVALID ∧
        ((SoAd_MainFunction cfg env s).SoAd_SoGrpStatus g).socket_id
          ≠ TCPIP_SOCKETID_INVALID) := by
  refine ⟨fun s id hst hcheck hinit =>
      SoAd_SoCon_MainFunction_open_initiate cfg env henv id s hst hcheck hinit,
    fun s id hst hcheck hinit =>
      SoAd_SoCon_MainFunction_open_passive cfg env henv id s hst hcheck hinit, ?_⟩
  intro s g hvalid hinit hp hslot hchildren c hc hcg
  obtain ⟨i1, -, i3, i4⟩ := SoAd_MainFunction_passive_prefix cfg env henv hvalid s g hinit hp
    hslot hchildren c (Nat.le_of_lt hc)
  obtain ⟨-, j2, j3, -⟩ := SoAd_MainFunction_passive_prefix cfg env henv hvalid s g hinit hp
    hslot hchildren (SOAD_CFG_CONNECTION_COUNT cfg) (Nat.le_refl _)
  obtain ⟨c1, c2⟩ := hchildren c hc hcg
  have hcon := i1 c (Nat.le_refl c)
  obtain ⟨-, -, t3, t4⟩ := SoAd_SoCon_MainFunction_passive_tcp cfg env henv c
    ((List.range c).foldl (fun s id => SoAd_SoCon_MainFunction cfg env id s) s)
    (by rw [hcon]; exact c1)
    (by rw [SoAd_SoCon_CheckOpen_congr cfg c s _ hcon]; exact c2)
    (by rw [hcg]; exact hinit) (by rw [hcg]; exact hp)
  rw [hcg] at t3 t4
  refine ⟨fun hfirst => (t3 (i4 hfirst)).2, fun hnext => (t4 (i3 hnext)).2, ?_, ?_, ?_⟩
  · exact (j2 c hc hcg).1
  · exact (j2 c hc hcg).2
  · exact j3 ⟨c, hc, hcg⟩

theorem suite_1_env_opens : suite_1.env.opens :=
  ⟨fun _ _ _ => rfl, fun _ _ _ _ => rfl, fun _ _ _ => rfl, fun _ _ _ => rfl⟩

theorem SoAd_MainFunction_opens_socket_witness :
    ((SoAd_SoCon_MainFunction suite_1.config suite_1.env 4
        suite_1.state_init).SoAd_SoConStatus 4).socket_id = 2 ∧
      (SoAd_SoCon_MainFunction suite_1.config suite_1.env 1
          ((List.range 1).foldl
            (fun s id => SoAd_SoCon_MainFunction suite_1.config suite_1.env id s)
            suite_1.state_init)).trace
        = [SoAd_Call.TcpIp_SoAdGetSocket TCPIP_AF_INET TCPIP_IPPROTO_TCP,
            SoAd_Call.TcpIp_Bind 2 0 8000, SoAd_Call.TcpIp_TcpListen 2 5] ∧
      ((SoAd_MainFunction suite_1.config suite_1.env suite_1.state_init).SoAd_SoConStatus
        1).state = SOAD_SOCON_RECONNECT ∧
      ((SoAd_MainFunction suite_1.config suite_1.env suite_1.state_init).SoAd_SoConStatus
        1).socket_id = TCPIP_SOCKETID_INVALID ∧
      ((SoAd_MainFunction suite_1.config suite_1.env suite_1.state_init).SoAd_SoGrpStatus
        0).socket_id ≠ TCPIP_SOCKETID_INVALID := by
  have h1 := (SoAd_MainFunction_opens_socket suite_1.config suite_1.env
    suite_1_env_opens).1 suite_1.state_init 4 (by decide) (by decide) (by decide)
  have h3 := (SoAd_MainFunction_opens_socket suite_1.config suite_1.env
    suite_1_env_opens).2.2 suite_1.state_init 0
    (fun t d p => by
      show 2 + _ % 98 ≠ 65535
      omega)
    (by decide) (by decide) (by decide) (by decide) 1 (by decide) (by decide)
  refine ⟨?_, ?_, h3.2.2.1, h3.2.2.2.1, h3.2.2.2.2⟩
  · rw [h1.1]; decide
  · rw [h3.2.1 ⟨0, by decide, by decide⟩]; decide

/-! ## Sessions of the transmit pump: armed and confirmed -/

theorem SoAd_State.tx_setCon (s : SoAd_State) (id : Nat) (status : SoAd_SoConStatusType)
    (h : status.tx_route = (s.SoAd_SoConStatus id).tx_route) :
    (s.setCon id status).tx = s.tx := by
  unfold SoAd_State.tx SoAd_State.tx_routes
  refine Prod.ext (funext fun c => ?_) rfl
  by_cases hc : c = id
  · subst hc; simpa using h
  · simp [SoAd_State.setCon_con_ne _ _ _ _ hc]

@[simp] theorem SoAd_State.tx_setGrp (s : SoAd_State) (id : Nat)
    (status : SoAd_SoGrpStatusType) : (s.setGrp id status).tx = s.tx := rfl

theorem SoAd_State.tx_call (s : SoAd_State) (c : SoAd_Call) (h : c.confirms = false) :
    (s.call c).tx = s.tx := by
  unfold SoAd_State.tx
  refine Prod.ext rfl (funext fun p => ?_)
  have hp : SoAd_Call.confirms_pdu p c = false := by
    cases c <;> simp_all [SoAd_Call.confirms, SoAd_Call.confirms_pdu]
  simp [SoAd_tx_confirmations, List.countP_append, hp]

theorem SoAd_SoCon_EnterState_tx (cfg : SoAd_ConfigType) (env : SoAd_Env) (id : Nat)
    (state : SoAd_SoConStateType) (s : SoAd_State) :
    (SoAd_SoCon_EnterState cfg env id state s).tx = s.tx := by
  unfold SoAd_SoCon_EnterState
  cases state with
  | SOAD_SOCON_OFFLINE =>
    simp only []
    cases hr : (s.SoAd_SoConStatus id).rx_route with
    | none => simp [hr, SoAd_State.tx_setCon]
    | some r => simp [hr, SoAd_State.tx_setCon, SoAd_State.tx_call, SoAd_Call.confirms]
  | SOAD_SOCON_RECONNECT => simp [SoAd_State.tx_setCon]
  | SOAD_SOCON_ONLINE =>
    simp only []
    cases SoAd_GetSocketRoute cfg id SOAD_PDUHEADERID_INVALID with
    | none => simp [SoAd_State.tx_setCon]
    | some route_id =>
      simp only []
      split <;> simp [SoAd_State.tx_setCon, SoAd_State.tx_call, SoAd_Call.confirms]

theorem SoAd_TcpAccepted_tx (cfg : SoAd_ConfigType) (env : SoAd_Env)
    (socket_id socket_id_connected : Nat) (remote : TcpIp_SockAddrType) (s : SoAd_State) :
    (SoAd_TcpAccepted cfg env socket_id socket_id_connected remote s).2.tx = s.tx := by
  unfold SoAd_TcpAccepted
  cases SoAd_SoGrp_Lookup cfg s socket_id with
  | none => rfl
  | some id_group =>
    simp only []
    split_ifs
    · cases SoAd_SoCon_Lookup_FreeSocket cfg s id_group remote with
      | none => rfl
      | some id_connected => simp [SoAd_SoCon_EnterState_tx, SoAd_State.tx_setCon]
    · rfl

theorem SoAd_TcpConnected_tx (cfg : SoAd_ConfigType) (env : SoAd_Env) (socket_id : Nat)
    (s : SoAd_State) : (SoAd_TcpConnected cfg env socket_id s).tx = s.tx := by
  unfold SoAd_TcpConnected
  cases SoAd_SoCon_Lookup cfg s socket_id with
  | none => rfl
  | some id =>
    simp only []
    split_ifs <;> simp [SoAd_SoCon_EnterState_tx]

theorem SoAd_RxIndication_tx (cfg : SoAd_ConfigType) (env : SoAd_Env) (socket_id : Nat)
    (remote : TcpIp_SockAddrType) (buf : List Nat) (len : Nat) (s : SoAd_State) :
    (SoAd_RxIndication cfg env socket_id remote buf len s).tx = s.tx := by
  have honline : ∀ con_id restore (t : SoAd_State),
      (SoAd_RxIndication_RemoteOnline cfg env con_id remote restore t).1.tx = t.tx := by
    intro con_id restore t
    unfold SoAd_RxIndication_RemoteOnline
    simp only []
    split_ifs <;> simp [SoAd_SoCon_EnterState_tx, SoAd_State.tx_setCon]
  have hsocon : ∀ con_id (t : SoAd_State),
      (SoAd_RxIndication_SoCon env con_id buf len t).2.tx = t.tx := by
    intro con_id t
    unfold SoAd_RxIndication_SoCon
    simp only []
    cases (t.SoAd_SoConStatus con_id).rx_route with
    | none => rfl
    | some r =>
      simp only []
      split_ifs <;> simp [SoAd_State.tx_call, SoAd_Call.confirms]
  have hrevert : ∀ con_id r st (t : SoAd_State),
      (SoAd_RxIndication_RemoteRevert cfg env con_id r st t).tx = t.tx := by
    intro con_id r st t
    unfold SoAd_RxIndication_RemoteRevert
    simp only []
    split_ifs <;> simp [SoAd_SoCon_EnterState_tx, SoAd_State.tx_setCon]
  unfold SoAd_RxIndication
  cases SoAd_RxIndication_id_con cfg s socket_id remote with
  | none => simp [SoAd_State.tx_call, SoAd_Call.confirms]
  | some id_con =>
    simp only []
    split_ifs
    · rw [hrevert, hsocon, honline]
    · rw [hsocon, honline]

theorem SoAd_TcpIpEvent_tx (cfg : SoAd_ConfigType) (env : SoAd_Env) (id_con socket_id : Nat)
    (event : TcpIp_EventType) (s : SoAd_State) :
    (SoAd_TcpIpEvent cfg env id_con socket_id event s).tx = s.tx := by
  have hclose : ∀ id_grp, (SoAd_SoGrp_Close cfg env id_con id_grp s).tx = s.tx := by
    intro id_grp
    unfold SoAd_SoGrp_Close
    simp only []
    apply foldl_invariant (fun t : SoAd_State => t.tx = s.tx)
    · simp
    · intro t c ht
      show SoAd_State.tx (if _ then _ else _) = _
      split_ifs
      · rw [SoAd_SoCon_EnterState_tx]; exact ht
      · exact ht
  have hrest : (match SoAd_SoGrp_Lookup cfg s socket_id with
      | some id_grp => SoAd_SoGrp_Close cfg env id_con id_grp s
      | none =>
        match SoAd_SoCon_Lookup cfg s socket_id with
        | some id_con => SoAd_SoCon_EnterState cfg env id_con SOAD_SOCON_OFFLINE s
        | none => s.call
            (SoAd_Call.Det_ReportError SOAD_API_TCPIPEVENT SOAD_E_INV_SOCKETID)).tx = s.tx := by
    cases SoAd_SoGrp_Lookup cfg s socket_id with
    | some id_grp => exact hclose id_grp
    | none =>
      simp only []
      cases SoAd_SoCon_Lookup cfg s socket_id with
      | some c => exact SoAd_SoCon_EnterState_tx cfg env c _ s
      | none => simp [SoAd_State.tx_call, SoAd_Call.confirms]
  unfold SoAd_TcpIpEvent
  cases event with
  | TCPIP_TCP_FIN_RECEIVED => simp [SoAd_State.tx_call, SoAd_Call.confirms]
  | other v => simp [SoAd_State.tx_call, SoAd_Call.confirms]
  | TCPIP_TCP_RESET => exact hrest
  | TCPIP_TCP_CLOSED => exact hrest
  | TCPIP_UDP_CLOSED => exact hrest

theorem SoAd_IfTransmit_tx (cfg : SoAd_ConfigType) (env : SoAd_Env) (fuel pdu_id : Nat)
    (pdu_info : PduInfoType) (s : SoAd_State) (res : Std_ReturnType) (s' : SoAd_State)
    (h : SoAd_IfTransmit cfg env fuel pdu_id pdu_info s = some (res, s')) : s'.tx = s.tx := by
  unfold SoAd_IfTransmit at h
  split_ifs at h with hlt
  swap
  · simp only [Option.some.injEq, Prod.mk.injEq] at h
    rw [← h.2]; simp [SoAd_State.tx_call, SoAd_Call.confirms]
  · cases hr : SoAd_GetPduRoute cfg fuel pdu_id with
    | none => simp [hr] at h
    | some v =>
      obtain ⟨r, route⟩ := v
      cases route with
      | none =>
        simp only [hr, Option.some.injEq, Prod.mk.injEq] at h
        rw [← h.2]
      | some route =>
        simp only [hr] at h
        split_ifs at h <;> simp only [Option.some.injEq, Prod.mk.injEq] at h <;>
          rw [← h.2] <;> simp [SoAd_State.tx_call, SoAd_Call.confirms]

theorem SoAd_CopyTxData_tx (cfg : SoAd_ConfigType) (env : SoAd_Env) (socket_id : Nat)
    (buf : List Nat) (len : Nat) (s : SoAd_State) (res : BufReq_ReturnType) (s' : SoAd_State)
    (h : SoAd_CopyTxData cfg env socket_id buf len s = some (res, s')) : s'.tx = s.tx := by
  unfold SoAd_CopyTxData at h
  cases hl : SoAd_SoCon_Lookup cfg s socket_id with
  | none =>
    simp only [hl, Option.some.injEq, Prod.mk.injEq] at h
    rw [← h.2]
  | some id_con =>
    simp only [hl] at h
    cases ht : (s.SoAd_SoConStatus id_con).tx_route with
    | none => simp [ht] at h
    | some route =>
      simp only [ht] at h
      split_ifs at h <;> simp only [Option.some.injEq, Prod.mk.injEq] at h <;>
        rw [← h.2] <;> simp [SoAd_State.tx_setCon, SoAd_State.tx_call, SoAd_Call.confirms, ht]

theorem SoAd_SoCon_PerformOpen_store_tx (cfg : SoAd_ConfigType) (id socket_id : Nat)
    (s : SoAd_State) : (SoAd_SoCon_PerformOpen_store cfg id socket_id s).tx = s.tx := by
  unfold SoAd_SoCon_PerformOpen_store
  simp only []
  split_ifs <;> simp [SoAd_State.tx_setCon]

theorem SoAd_SoCon_PerformOpen_tx (cfg : SoAd_ConfigType) (env : SoAd_Env) (id : Nat)
    (s : SoAd_State) : (SoAd_SoCon_PerformOpen cfg env id s).2.tx = s.tx := by
  unfold SoAd_SoCon_PerformOpen
  simp only []
  split_ifs <;>
    simp [SoAd_SoCon_PerformOpen_store_tx, SoAd_State.tx_setCon, SoAd_State.tx_call,
      SoAd_Call.confirms]

theorem SoAd_SoCon_ProcessClose_tx (id : Nat) (s : SoAd_State) :
    (SoAd_SoCon_ProcessClose id s).tx = s.tx := by
  unfold SoAd_SoCon_ProcessClose
  simp only []
  split_ifs <;> simp [SoAd_State.tx_setCon, SoAd_State.tx_call, SoAd_Call.confirms]

theorem SoAd_SoCon_State_Offline_tx (cfg : SoAd_ConfigType) (env : SoAd_Env) (id : Nat)
    (s : SoAd_State) : (SoAd_SoCon_State_Offline cfg env id s).tx = s.tx := by
  unfold SoAd_SoCon_State_Offline
  simp only []
  split_ifs <;> simp [SoAd_SoCon_EnterState_tx, SoAd_SoCon_PerformOpen_tx]

/-- What `SoAd_SoCon_ProcessTransmit` does to the sessions: nothing, or it
ends the session of the connection with one `tx_confirmation` for its PDU. -/
theorem SoAd_SoCon_ProcessTransmit_tx (cfg : SoAd_ConfigType) (env : SoAd_Env) (id : Nat)
    (s : SoAd_State) :
    (SoAd_SoCon_ProcessTransmit cfg env id s).tx = s.tx ∨
      ∃ route, s.tx_routes id = some route ∧
        (SoAd_SoCon_ProcessTransmit cfg env id s).tx_routes
          = Function.update s.tx_routes id none ∧
        ∀ p, SoAd_tx_confirmations p (SoAd_SoCon_ProcessTransmit cfg env id s).trace
          = SoAd_tx_confirmations p s.trace + if route.pdu_id = p then 1 else 0 := by
  unfold SoAd_SoCon_ProcessTransmit
  simp only []
  cases ht : (s.SoAd_SoConStatus id).tx_route with
  | none => exact Or.inl rfl
  | some route =>
    simp only []
    generalize hc : (if (s.SoAd_SoConStatus id).tx_available = 0 then
        ((env.copy_tx_data s.trace route.upper route.pdu_id none 0
            (s.SoAd_SoConStatus id).tx_available).1,
          (s.call (SoAd_Call.copy_tx_data route.upper route.pdu_id none 0)).setCon id
            { (s.call (SoAd_Call.copy_tx_data route.upper route.pdu_id none
                0)).SoAd_SoConStatus id with
              tx_available := (env.copy_tx_data s.trace route.upper route.pdu_id none 0
                (s.SoAd_SoConStatus id).tx_available).2 })
      else (BUFREQ_OK, s)) = copied
    have h1 : copied.2.tx = s.tx := by
      rw [← hc]
      split_ifs <;> simp [SoAd_State.tx_setCon, SoAd_State.tx_call, SoAd_Call.confirms]
    generalize hs : (if copied.1 = BUFREQ_OK then
        if (cfg.group (cfg.connection id).group).protocol = TCPIP_IPPROTO_UDP then
          (env.TcpIp_UdpTransmit copied.2.trace (copied.2.SoAd_SoConStatus id).socket_id none
              (copied.2.SoAd_SoConStatus id).remote (copied.2.SoAd_SoConStatus id).tx_available,
            copied.2.call (SoAd_Call.TcpIp_UdpTransmit (copied.2.SoAd_SoConStatus id).socket_id
              none (copied.2.SoAd_SoConStatus id).remote
              (copied.2.SoAd_SoConStatus id).tx_available))
        else if (cfg.group (cfg.connection id).group).protocol = TCPIP_IPPROTO_TCP then
          (env.TcpIp_TcpTransmit copied.2.trace (copied.2.SoAd_SoConStatus id).socket_id none
              (copied.2.SoAd_SoConStatus id).tx_available false,
            copied.2.call (SoAd_Call.TcpIp_TcpTransmit (copied.2.SoAd_SoConStatus id).socket_id
              none (copied.2.SoAd_SoConStatus id).tx_available false))
        else (E_NOT_OK, copied.2)
      else if copied.1 = BUFREQ_E_BUSY then (E_OK, copied.2)
      else (E_NOT_OK, copied.2)) = sent
    have h2 : sent.2.tx = s.tx := by
      rw [← hs, ← h1]
      split_ifs <;> simp [SoAd_State.tx_call, SoAd_Call.confirms]
    split_ifs
    · refine Or.inr ⟨route, ht, ?_, fun p => ?_⟩
      · have h3 : sent.2.tx_routes = s.tx_routes := congrArg Prod.fst h2
        rw [← h3]
        funext c
        by_cases hcid : c = id
        · subst hcid; simp [SoAd_State.tx_routes]
        · simp [SoAd_State.tx_routes, SoAd_State.setCon_con_ne _ _ _ _ hcid,
            Function.update_noteq hcid]
      · have h3 : SoAd_tx_confirmations p sent.2.trace = SoAd_tx_confirmations p s.trace :=
          congrFun (congrArg Prod.snd h2) p
        rw [← h3]
        by_cases hp : route.pdu_id = p <;>
          simp [SoAd_tx_confirmations, SoAd_State.call, SoAd_State.setCon, List.countP_append,
            List.countP_cons, SoAd_Call.confirms_pdu, hp]
    · exact Or.inl h2

theorem countP_range_update {α : Type} (q : α → Bool) (f : Nat → α) (c : Nat) (v : α)
    (n : Nat) (hc : c < n) :
    (List.range n).countP (fun i => q (Function.update f c v i)) + (if q (f c) then 1 else 0)
      = (List.range n).countP (fun i => q (f i)) + (if q v then 1 else 0) := by
  have hbelow : ∀ m, m ≤ c →
      (List.range m).countP (fun i => q (Function.update f c v i))
        = (List.range m).countP (fun i => q (f i)) := by
    intro m hm
    apply List.countP_congr
    intro i hi
    have : i ≠ c := by
      have := List.mem_range.mp hi
      omega
    simp [Function.update_noteq this]
  induction n with
  | zero => omega
  | succ n ih =>
    rw [List.range_succ, List.countP_append, List.countP_append]
    by_cases hcn : c = n
    · subst hcn
      rw [hbelow c le_rfl]
      simp only [List.countP_cons, List.countP_nil, Function.update_same]
      split_ifs <;> simp
    · have hlt : c < n := by omega
      have := ih hlt
      simp only [List.countP_cons, List.countP_nil, Function.update_noteq (Ne.symm hcn)]
      omega

/-- The sessions in progress and the confirmations made, for PDU `p`. -/
theorem SoAd_tx_sessions_of_tx (cfg : SoAd_ConfigType) (p : Nat) (s s' : SoAd_State)
    (h : s'.tx = s.tx) :
    SoAd_tx_confirmations p s'.trace + SoAd_tx_sessions cfg p s'
      = SoAd_tx_confirmations p s.trace + SoAd_tx_sessions cfg p s := by
  have h1 : s'.tx_routes = s.tx_routes := congrArg Prod.fst h
  have h2 : SoAd_tx_confirmations p s'.trace = SoAd_tx_confirmations p s.trace :=
    congrFun (congrArg Prod.snd h) p
  unfold SoAd_tx_sessions
  rw [h1, h2]

theorem SoAd_SoCon_MainFunction_sessions (cfg : SoAd_ConfigType) (env : SoAd_Env) (id : Nat)
    (hid : id < SOAD_CFG_CONNECTION_COUNT cfg) (p : Nat) (s : SoAd_State) :
    SoAd_tx_confirmations p (SoAd_SoCon_MainFunction cfg env id s).trace
        + SoAd_tx_sessions cfg p (SoAd_SoCon_MainFunction cfg env id s)
      = SoAd_tx_confirmations p s.trace + SoAd_tx_sessions cfg p s := by
  unfold SoAd_SoCon_MainFunction
  cases (s.SoAd_SoConStatus id).state with
  | SOAD_SOCON_OFFLINE =>
    exact SoAd_tx_sessions_of_tx cfg p _ _ (SoAd_SoCon_State_Offline_tx cfg env id s)
  | SOAD_SOCON_RECONNECT =>
    exact SoAd_tx_sessions_of_tx cfg p _ _ (SoAd_SoCon_ProcessClose_tx id s)
  | SOAD_SOCON_ONLINE =>
    simp only [SoAd_SoCon_State_Online]
    rw [← SoAd_tx_sessions_of_tx cfg p _ _ (SoAd_SoCon_ProcessClose_tx id s)]
    generalize SoAd_SoCon_ProcessClose id s = t
    rcases SoAd_SoCon_ProcessTransmit_tx cfg env id t with h | ⟨route, h1, h2, h3⟩
    · exact SoAd_tx_sessions_of_tx cfg p _ _ h
    · unfold SoAd_tx_sessions
      rw [h2, h3 p]
      have := countP_range_update (SoAd_tx_route_of p) t.tx_routes id none _ hid
      have e1 : SoAd_tx_route_of p (some route) = decide (route.pdu_id = p) := rfl
      have e2 : SoAd_tx_route_of p none = false := rfl
      rw [h1, e1, e2] at this
      simp only [decide_eq_true_eq, Bool.false_eq_true, if_false] at this
      omega

theorem SoAd_MainFunction_sessions (cfg : SoAd_ConfigType) (env : SoAd_Env) (p : Nat)
    (s : SoAd_State) :
    SoAd_tx_confirmations p (SoAd_MainFunction cfg env s).trace
        + SoAd_tx_sessions cfg p (SoAd_MainFunction cfg env s)
      = SoAd_tx_confirmations p s.trace + SoAd_tx_sessions cfg p s := by
  have hfold : ∀ n, n ≤ SOAD_CFG_CONNECTION_COUNT cfg →
      SoAd_tx_confirmations p
          ((List.range n).foldl (fun s id => SoAd_SoCon_MainFunction cfg env id s) s).trace
        + SoAd_tx_sessions cfg p
          ((List.range n).foldl (fun s id => SoAd_SoCon_MainFunction cfg env id s) s)
        = SoAd_tx_confirmations p s.trace + SoAd_tx_sessions cfg p s := by
    intro n
    induction n with
    | zero => intro _; rfl
    | succ n ih =>
      intro hn
      rw [List.range_succ, List.foldl_append]
      simp only [List.foldl_cons, List.foldl_nil]
      rw [SoAd_SoCon_MainFunction_sessions cfg env n (by omega) p]
      exact ih (by omega)
  exact hfold _ le_rfl

theorem SoAd_GetPduRoute_loop_le (cfg : SoAd_ConfigType) (id high : Nat) :
    ∀ fuel low l, low ≤ high → SoAd_GetPduRoute_loop cfg id high fuel low = some l →
      l ≤ high := by
  intro fuel
  induction fuel with
  | zero => intro low l _ h; simp [SoAd_GetPduRoute_loop] at h
  | succ fuel ih =>
    intro low l hlow h
    rw [SoAd_GetPduRoute_loop] at h
    by_cases hlt : low < high
    · rw [if_pos hlt] at h
      refine ih _ l ?_ h
      unfold SoAd_GetPduRoute_step
      simp only [Nat.shiftRight_eq_div_pow, pow_one]
      split_ifs <;> omega
    · rw [if_neg hlt] at h
      simp only [Option.some.injEq] at h
      omega

theorem SoAd_GetPduRoute_mem (cfg : SoAd_ConfigType) (fuel id : Nat)
    (hcount : 0 < SOAD_CFG_PDUROUTE_COUNT cfg) (res : Std_ReturnType)
    (route : SoAd_PduRouteType)
    (h : SoAd_GetPduRoute cfg fuel id = some (res, some route)) :
    route ∈ cfg.pdu_routes := by
  unfold SoAd_GetPduRoute at h
  simp only [] at h
  cases hl : SoAd_GetPduRoute_loop cfg id (SOAD_CFG_PDUROUTE_COUNT cfg - 1) fuel 0 with
  | none => simp [hl] at h
  | some low =>
    simp only [hl] at h
    have hle := SoAd_GetPduRoute_loop_le cfg id _ fuel 0 low (Nat.zero_le _) hl
    have hlow : low < cfg.pdu_routes.length := by
      unfold SOAD_CFG_PDUROUTE_COUNT at hle hcount
      omega
    split_ifs at h
    · simp only [Option.some.injEq, Prod.mk.injEq] at h
      rw [← h.2]
      unfold SoAd_ConfigType.pdu_route
      rw [List.getD_eq_getElem _ _ hlow]
      exact List.getElem_mem hlow
    · simp at h

theorem Option.map_snd_eq_some {α β : Type} (o : Option (α × β)) (b : β)
    (h : o.map Prod.snd = some b) : ∃ a, o = some (a, b) := by
  cases o with
  | none => simp at h
  | some v =>
    obtain ⟨a, b'⟩ := v
    simp only [Option.map_some', Option.some.injEq] at h
    exact ⟨a, by rw [h]⟩

/-- What one call into the module does to the sessions of PDU `p`. -/
theorem SoAd_Op_run_sessions (cfg : SoAd_ConfigType) (env : SoAd_Env) (fuel : Nat)
    (hwf : ∀ route ∈ cfg.pdu_routes,
      route.destination.connection < SOAD_CFG_CONNECTION_COUNT cfg)
    (op : SoAd_Op) (s s' : SoAd_State) (hrun : op.run cfg env fuel s = some s')
    (hidle : ∀ route, op.arms cfg fuel = some route →
      (s.SoAd_SoConStatus route.destination.connection).tx_route = none) (p : Nat) :
    SoAd_tx_confirmations p s'.trace + SoAd_tx_sessions cfg p s'
      = SoAd_tx_confirmations p s.trace + SoAd_tx_sessions cfg p s
        + if SoAd_tx_route_of p (op.arms cfg fuel) = true then 1 else 0 := by
  have hquiet : ∀ t : SoAd_State, t.tx = s.tx →
      SoAd_tx_confirmations p t.trace + SoAd_tx_sessions cfg p t
        = SoAd_tx_confirmations p s.trace + SoAd_tx_sessions cfg p s
          + if SoAd_tx_route_of p (none : Option SoAd_PduRouteType) = true then 1 else 0 := by
    intro t ht
    rw [SoAd_tx_sessions_of_tx cfg p s t ht]
    simp [SoAd_tx_route_of]
  cases op with
  | MainFunction =>
    simp only [SoAd_Op.run, Option.some.injEq] at hrun
    rw [← hrun, SoAd_MainFunction_sessions]
    simp [SoAd_Op.arms, SoAd_tx_route_of]
  | RxIndication socket_id remote buf len =>
    simp only [SoAd_Op.run, Option.some.injEq] at hrun
    rw [← hrun]
    exact hquiet _ (SoAd_RxIndication_tx cfg env socket_id remote buf len s)
  | TcpAccepted socket_id socket_id_connected remote =>
    simp only [SoAd_Op.run, Option.some.injEq] at hrun
    rw [← hrun]
    exact hquiet _ (SoAd_TcpAccepted_tx cfg env socket_id socket_id_connected remote s)
  | TcpConnected socket_id =>
    simp only [SoAd_Op.run, Option.some.injEq] at hrun
    rw [← hrun]
    exact hquiet _ (SoAd_TcpConnected_tx cfg env socket_id s)
  | TcpIpEvent id_con socket_id event =>
    simp only [SoAd_Op.run, Option.some.injEq] at hrun
    rw [← hrun]
    exact hquiet _ (SoAd_TcpIpEvent_tx cfg env id_con socket_id event s)
  | IfTransmit pdu_id pdu_info =>
    obtain ⟨res, hres⟩ := Option.map_snd_eq_some _ _ hrun
    exact hquiet _ (SoAd_IfTransmit_tx cfg env fuel pdu_id pdu_info s res s' hres)
  | CopyTxData socket_id buf len =>
    obtain ⟨res, hres⟩ := Option.map_snd_eq_some _ _ hrun
    exact hquiet _ (SoAd_CopyTxData_tx cfg env socket_id buf len s res s' hres)
  | TpTransmit pdu_id pdu_info =>
    obtain ⟨res, hres⟩ := Option.map_snd_eq_some _ _ hrun
    unfold SoAd_TpTransmit at hres
    by_cases hlt : pdu_id < SOAD_CFG_PDUROUTE_COUNT cfg
    · rw [if_neg (not_not.mpr hlt)] at hres
      cases hr : SoAd_GetPduRoute cfg fuel pdu_id with
      | none => simp [hr] at hres
      | some v =>
        obtain ⟨r, route⟩ := v
        cases route with
        | none =>
          have harms : (SoAd_Op.TpTransmit pdu_id pdu_info).arms cfg fuel = none := by
            simp [SoAd_Op.arms, hr]
          simp only [hr, Option.some.injEq, Prod.mk.injEq] at hres
          rw [← hres.2, harms]
          exact hquiet s rfl
        | some route =>
          simp only [hr] at hres
          by_cases hok : r = E_OK
          · have harms : (SoAd_Op.TpTransmit pdu_id pdu_info).arms cfg fuel = some route := by
              simp [SoAd_Op.arms, hlt, hr, hok]
            rw [if_pos hok] at hres
            simp only [Option.some.injEq, Prod.mk.injEq] at hres
            have hnone := hidle route harms
            have hc := hwf route
              (SoAd_GetPduRoute_mem cfg fuel pdu_id (by omega) r route hr)
            have hroutes : s'.tx_routes
                = Function.update s.tx_routes route.destination.connection (some route) := by
              rw [← hres.2]
              funext c
              by_cases hcc : c = route.destination.connection
              · subst hcc; simp [SoAd_State.tx_routes]
              · simp [SoAd_State.tx_routes, SoAd_State.setCon_con_ne _ _ _ _ hcc,
                  Function.update_noteq hcc]
            have htrace : s'.trace = s.trace := by rw [← hres.2]; rfl
            have := countP_range_update (SoAd_tx_route_of p) s.tx_routes
              route.destination.connection (some route) _ hc
            have e0 : s.tx_routes route.destination.connection = none := hnone
            have e2 : SoAd_tx_route_of p none = false := rfl
            rw [e0, e2] at this
            simp only [Bool.false_eq_true, if_false] at this
            rw [harms]
            unfold SoAd_tx_sessions
            rw [hroutes, htrace]
            omega
          · have harms : (SoAd_Op.TpTransmit pdu_id pdu_info).arms cfg fuel = none := by
              simp [SoAd_Op.arms, hr, hok]
            rw [if_neg hok] at hres
            simp only [Option.some.injEq, Prod.mk.injEq] at hres
            rw [← hres.2, harms]
            exact hquiet s rfl
    · have harms : (SoAd_Op.TpTransmit pdu_id pdu_info).arms cfg fuel = none := by
        simp [SoAd_Op.arms, hlt]
      rw [if_pos hlt] at hres
      simp only [Option.some.injEq, Prod.mk.injEq] at hres
      rw [← hres.2, harms]
      exact hquiet _ (by simp [SoAd_State.tx_call, SoAd_Call.confirms])

/-- C19, as stated, fails: on the test suite, after `SoAd_Init`, a tick and
`SoAd_TcpAccepted` for connection 0, two calls of `SoAd_TpTransmit` for PDU 0
each return `E_OK` and arm a session; the second finds `tx_route` bound and
binds it again with no `tx_confirmation` made; the next tick ends the session
with the only `tx_confirmation` for PDU 0.  Two sessions armed, one confirmed,
none left in progress. -/
theorem SoAd_run_session_rearmed_unconfirmed :
    (SoAd_run suite_1.config suite_1.env 1 (suite_1.ops_armed_twice.take 3)
        suite_1.state_init).map
      (fun s => ((s.SoAd_SoConStatus 0).tx_route, SoAd_tx_confirmations 0 s.trace))
      = some (some suite_1.pdu_route_1, 0) ∧
    (SoAd_run suite_1.config suite_1.env 1 (suite_1.ops_armed_twice.take 4)
        suite_1.state_init).map
      (fun s => ((s.SoAd_SoConStatus 0).tx_route, SoAd_tx_confirmations 0 s.trace))
      = some (some suite_1.pdu_route_1, 0) ∧
    (SoAd_run suite_1.config suite_1.env 1 suite_1.ops_armed_twice suite_1.state_init).map
      (fun s => (SoAd_tx_confirmations 0 s.trace, SoAd_tx_sessions suite_1.config 0 s))
      = some (1, 0) ∧
    SoAd_tx_armed suite_1.config 1 0 suite_1.ops_armed_twice = 2 := by
  decide

/-- C19, amended: over every sequence of calls into the module (ticks,
transport events and callbacks, `SoAd_IfTransmit`, `SoAd_TpTransmit`,
`SoAd_CopyTxData`) that returns and in which `SoAd_TpTransmit` arms a route
only on a connection whose `tx_route` is not bound, for every PDU id the
`tx_confirmation` calls made for it plus the connections whose `tx_route` is
still bound to it grow by exactly the number of sessions armed for it: no
bound `tx_route` is dropped or replaced without one `tx_confirmation`, and
none is confirmed twice.  The routes of the configuration name connections of
the configuration. -/
theorem SoAd_run_session_confirmed_once (cfg : SoAd_ConfigType) (env : SoAd_Env)
    (fuel : Nat)
    (hwf : ∀ route ∈ cfg.pdu_routes,
      route.destination.connection < SOAD_CFG_CONNECTION_COUNT cfg)
    (ops : List SoAd_Op) (s final : SoAd_State)
    (hrun : SoAd_run cfg env fuel ops s = some final)
    (hidle : SoAd_run_arms_idle cfg env fuel ops s = true) (p : Nat) :
    SoAd_tx_confirmations p final.trace + SoAd_tx_sessions cfg p final
      = SoAd_tx_confirmations p s.trace + SoAd_tx_sessions cfg p s
        + SoAd_tx_armed cfg fuel p ops := by
  induction ops generalizing s with
  | nil =>
    simp only [SoAd_run, Option.some.injEq] at hrun
    rw [← hrun]
    simp [SoAd_tx_armed]
  | cons op ops ih =>
    rw [SoAd_run] at hrun
    rw [SoAd_run_arms_idle] at hidle
    cases hop : op.run cfg env fuel s with
    | none => simp [hop] at hrun
    | some s1 =>
      rw [hop] at hrun
      simp only [hop, Bool.and_eq_true] at hidle
      obtain ⟨h1, h2⟩ := hidle
      have hstep := SoAd_Op_run_sessions cfg env fuel hwf op s s1 hop
        (fun route hr => by rw [hr] at h1; simpa using h1) p
      have hrest := ih s1 hrun h2
      rw [hrest, hstep]
      unfold SoAd_tx_armed
      rw [List.countP_cons]
      omega

theorem SoAd_run_session_confirmed_once_witness :
    (∀ route ∈ suite_1.config.pdu_routes,
        route.destination.connection < SOAD_CFG_CONNECTION_COUNT suite_1.config) ∧
      SoAd_run_arms_idle suite_1.config suite_1.env 1 suite_1.ops_armed_in_turn
        suite_1.state_init = true ∧
      SoAd_tx_armed suite_1.config 1 0 suite_1.ops_armed_in_turn = 2 ∧
      (SoAd_run suite_1.config suite_1.env 1 suite_1.ops_armed_in_turn
          suite_1.state_init).map
        (fun s => (SoAd_tx_confirmations 0 s.trace, SoAd_tx_sessions suite_1.config 0 s))
        = some (2, 0) ∧
      ∃ final, SoAd_run suite_1.config suite_1.env 1 suite_1.ops_armed_in_turn
          suite_1.state_init = some final ∧
        SoAd_tx_confirmations 0 final.trace + SoAd_tx_sessions suite_1.config 0 final
          = SoAd_tx_confirmations 0 suite_1.state_init.trace
            + SoAd_tx_sessions suite_1.config 0 suite_1.state_init
            + SoAd_tx_armed suite_1.config 1 0 suite_1.ops_armed_in_turn := by
  refine ⟨by decide, by decide, by decide, by decide, ?_⟩
  cases h : SoAd_run suite_1.config suite_1.env 1 suite_1.ops_armed_in_turn
      suite_1.state_init with
  | none =>
    have hsome : (SoAd_run suite_1.config suite_1.env 1 suite_1.ops_armed_in_turn
        suite_1.state_init).isSome = true := by decide
    rw [h] at hsome
    exact absurd hsome (by decide)
  | some final =>
    exact ⟨final, rfl, SoAd_run_session_confirmed_once suite_1.config suite_1.env 1
      (by decide) suite_1.ops_armed_in_turn suite_1.state_init final h (by decide) 0⟩

/-! ## Probe, then copy -/

/-- C29.  For a connection with the rx route `route` bound,
`SoAd_RxIndication_SoCon` first calls `copy_rx_data` of the sink with a null
buffer and length 0; it calls `copy_rx_data` a second time, with `buf` and
`len`, exactly when the probe was answered `BUFREQ_OK` with a capacity that is
not below `len`; it makes no other call.  It returns `E_OK` exactly when both
calls were made and both were answered `BUFREQ_OK`, and `E_NOT_OK` otherwise.
No connection status and no group status changes. -/
theorem SoAd_RxIndication_SoCon_probe_then_copy (env : SoAd_Env) (con_id : Nat)
    (buf : List Nat) (len : Nat) (s : SoAd_State) (route : SoAd_SocketRouteType)
    (hroute : (s.SoAd_SoConStatus con_id).rx_route = some route) :
    (SoAd_RxIndication_SoCon env con_id buf len s).2.trace
        = s.trace
          ++ SoAd_Call.copy_rx_data route.destination.upper route.destination.pdu none 0
            :: (if (env.copy_rx_data s.trace route.destination.upper route.destination.pdu
                    none 0).1 = BUFREQ_OK
                  ∧ len ≤ (env.copy_rx_data s.trace route.destination.upper
                    route.destination.pdu none 0).2 then
                [SoAd_Call.copy_rx_data route.destination.upper route.destination.pdu
                  (some buf) len]
              else []) ∧
      ((SoAd_RxIndication_SoCon env con_id buf len s).1 = E_OK ↔
        (env.copy_rx_data s.trace route.destination.upper route.destination.pdu
            none 0).1 = BUFREQ_OK ∧
          len ≤ (env.copy_rx_data s.trace route.destination.upper route.destination.pdu
            none 0).2 ∧
          (env.copy_rx_data
            (s.trace ++ [SoAd_Call.copy_rx_data route.destination.upper
              route.destination.pdu none 0])
            route.destination.upper route.destination.pdu (some buf) len).1 = BUFREQ_OK) ∧
      ((SoAd_RxIndication_SoCon env con_id buf len s).1 ≠ E_OK →
        (SoAd_RxIndication_SoCon env con_id buf len s).1 = E_NOT_OK) ∧
      (SoAd_RxIndication_SoCon env con_id buf len s).2.SoAd_SoConStatus
        = s.SoAd_SoConStatus ∧
      (SoAd_RxIndication_SoCon env con_id buf len s).2.SoAd_SoGrpStatus
        = s.SoAd_SoGrpStatus := by
  refine ⟨?_, ?_, ?_, (SoAd_RxIndication_SoCon_frame env con_id buf len s).1,
    (SoAd_RxIndication_SoCon_frame env con_id buf len s).2⟩
  · unfold SoAd_RxIndication_SoCon
    simp only [hroute]
    by_cases h1 : (env.copy_rx_data s.trace route.destination.upper route.destination.pdu
        none 0).1 = BUFREQ_OK
    · by_cases h2 : (env.copy_rx_data s.trace route.destination.upper
          route.destination.pdu none 0).2 < len
      · simp [h1, h2, SoAd_State.call]
      · have h2' : len ≤ (env.copy_rx_data s.trace route.destination.upper
            route.destination.pdu none 0).2 := by omega
        simp only [h1, h2, h2', ne_eq, not_true_eq_false, if_false, and_self, if_true]
        split_ifs <;> simp [SoAd_State.call]
    · simp [h1, SoAd_State.call]
  · unfold SoAd_RxIndication_SoCon
    simp only [hroute]
    by_cases h1 : (env.copy_rx_data s.trace route.destination.upper route.destination.pdu
        none 0).1 = BUFREQ_OK
    · by_cases h2 : (env.copy_rx_data s.trace route.destination.upper
          route.destination.pdu none 0).2 < len
      · have h2' : ¬ len ≤ (env.copy_rx_data s.trace route.destination.upper
            route.destination.pdu none 0).2 := by omega
        simp [h1, h2, h2', E_OK, E_NOT_OK]
      · have h2' : len ≤ (env.copy_rx_data s.trace route.destination.upper
            route.destination.pdu none 0).2 := by omega
        simp only [h1, h2, h2', ne_eq, not_true_eq_false, if_false, true_and]
        by_cases h3 : (env.copy_rx_data
            (s.call (SoAd_Call.copy_rx_data route.destination.upper route.destination.pdu
              none 0)).trace
            route.destination.upper route.destination.pdu (some buf) len).1 = BUFREQ_OK
        · have h3' := h3
          simp only [SoAd_State.call] at h3'
          simp [h3, h3']
        · have h3' := h3
          simp only [SoAd_State.call] at h3'
          simp [h3, h3', E_OK, E_NOT_OK]
    · simp [h1, E_OK, E_NOT_OK]
  · unfold SoAd_RxIndication_SoCon
    simp only [hroute]
    split_ifs <;> simp

theorem SoAd_RxIndication_SoCon_probe_then_copy_witness :
    (suite_1.state_accepted.SoAd_SoConStatus 0).rx_route = some suite_1.socket_route_1 ∧
      (SoAd_RxIndication_SoCon suite_1.env 0 suite_1.data_100 100 suite_1.state_accepted).1
        = E_OK ∧
      (SoAd_RxIndication_SoCon suite_1.env 0 suite_1.data_100 100
          suite_1.state_accepted).2.trace
        = suite_1.state_accepted.trace
          ++ [SoAd_Call.copy_rx_data 0 0 none 0,
            SoAd_Call.copy_rx_data 0 0 (some suite_1.data_100) 100] ∧
      (SoAd_RxIndication_SoCon suite_1.env_copy_fails 0 suite_1.data_100 100
          suite_1.state_accepted).1 = E_NOT_OK := by
  have h := SoAd_RxIndication_SoCon_probe_then_copy suite_1.env 0 suite_1.data_100 100
    suite_1.state_accepted suite_1.socket_route_1 (by decide)
  refine ⟨by decide, h.2.1.mpr ⟨by decide, by decide, by decide⟩, ?_, by decide⟩
  rw [h.1]
  decide

/-! ## The end of a session -/

theorem SoAd_SoCon_ProcessTransmit_eq_step (cfg : SoAd_ConfigType) (env : SoAd_Env)
    (id : Nat) (s : SoAd_State) (route : SoAd_PduRouteType)
    (hroute : (s.SoAd_SoConStatus id).tx_route = some route) :
    SoAd_SoCon_ProcessTransmit cfg env id s
      = if ((SoAd_SoCon_ProcessTransmit_step cfg env id route s).2.SoAd_SoConStatus
              id).tx_remain = 0
            ∨ (SoAd_SoCon_ProcessTransmit_step cfg env id route s).1 ≠ E_OK then
          ((SoAd_SoCon_ProcessTransmit_step cfg env id route s).2.setCon id
            { (SoAd_SoCon_ProcessTransmit_step cfg env id route s).2.SoAd_SoConStatus id with
              tx_route := none, tx_remain := 0, tx_available := 0 }).call
            (SoAd_Call.tx_confirmation route.upper route.pdu_id
              (SoAd_SoCon_ProcessTransmit_step cfg env id route s).1)
        else (SoAd_SoCon_ProcessTransmit_step cfg env id route s).2 := by
  unfold SoAd_SoCon_ProcessTransmit
  simp only [hroute]
  rfl

/-- What a step of the pump leaves alone: every connection status but the
`tx_available` of the connection, every group status; the calls it adds are
not `tx_confirmation`. -/
theorem SoAd_SoCon_ProcessTransmit_step_frame (cfg : SoAd_ConfigType) (env : SoAd_Env)
    (id : Nat) (route : SoAd_PduRouteType) (s : SoAd_State) :
    (∃ available, (SoAd_SoCon_ProcessTransmit_step cfg env id route s).2.SoAd_SoConStatus
        = Function.update s.SoAd_SoConStatus id
            { s.SoAd_SoConStatus id with tx_available := available }) ∧
      (SoAd_SoCon_ProcessTransmit_step cfg env id route s).2.SoAd_SoGrpStatus
        = s.SoAd_SoGrpStatus ∧
      s.trace <+: (SoAd_SoCon_ProcessTransmit_step cfg env id route s).2.trace ∧
      (SoAd_SoCon_ProcessTransmit_step cfg env id route s).2.trace.countP SoAd_Call.confirms
        = s.trace.countP SoAd_Call.confirms := by
  unfold SoAd_SoCon_ProcessTransmit_step SoAd_SoCon_ProcessTransmit_send
    SoAd_SoCon_ProcessTransmit_query
  simp only []
  by_cases h0 : (s.SoAd_SoConStatus id).tx_available = 0
  · simp only [h0, if_true]
    refine ⟨⟨(env.copy_tx_data s.trace route.upper route.pdu_id none 0 0).2, ?_⟩, ?_, ?_, ?_⟩ <;>
      split_ifs <;>
      simp [SoAd_State.setCon, SoAd_State.call, h0, List.countP_append, SoAd_Call.confirms]
  · simp only [h0, if_false, if_true]
    refine ⟨⟨(s.SoAd_SoConStatus id).tx_available, ?_⟩, ?_, ?_, ?_⟩ <;>
      split_ifs <;>
      simp [SoAd_State.setCon, SoAd_State.call, List.countP_append, SoAd_Call.confirms]

/-- C30.  For a connection whose `tx_route` is `route`, let `res` be the result
of the step of the pump and `t` the state it leaves (`tx_remain` is the one
before the step).  `res` is `E_OK` when the upper layer answered
`BUFREQ_E_BUSY`, `E_NOT_OK` when it answered neither `BUFREQ_OK` nor
`BUFREQ_E_BUSY`, and what `TcpIp_UdpTransmit` or `TcpIp_TcpTransmit` (with
force `FALSE`) answered when it answered `BUFREQ_OK`.  The pump ends the
session exactly when `tx_remain` is 0 or `res` is not `E_OK`: then `tx_route`
is unbound, `tx_remain` and `tx_available` are 0, and the one call added to
those of the step is `tx_confirmation(route.pdu_id, res)`; otherwise the
state is the one the step left, `tx_route` is still `route` and no
`tx_confirmation` was called. -/
theorem SoAd_SoCon_ProcessTransmit_ends_session (cfg : SoAd_ConfigType) (env : SoAd_Env)
    (id : Nat) (s : SoAd_State) (route : SoAd_PduRouteType)
    (hroute : (s.SoAd_SoConStatus id).tx_route = some route)
    (res : Std_ReturnType) (t : SoAd_State)
    (hstep : SoAd_SoCon_ProcessTransmit_step cfg env id route s = (res, t)) :
    (t.SoAd_SoConStatus id).tx_remain = (s.SoAd_SoConStatus id).tx_remain ∧
      (((SoAd_SoCon_ProcessTransmit cfg env id s).SoAd_SoConStatus id).tx_route = none ↔
        (t.SoAd_SoConStatus id).tx_remain = 0 ∨ res ≠ E_OK) ∧
      ((t.SoAd_SoConStatus id).tx_remain = 0 ∨ res ≠ E_OK →
        (SoAd_SoCon_ProcessTransmit cfg env id s).SoAd_SoConStatus id
            = { t.SoAd_SoConStatus id with
                tx_route := none, tx_remain := 0, tx_available := 0 } ∧
          (SoAd_SoCon_ProcessTransmit cfg env id s).trace
            = t.trace ++ [SoAd_Call.tx_confirmation route.upper route.pdu_id res] ∧
          (SoAd_SoCon_ProcessTransmit cfg env id s).trace.countP SoAd_Call.confirms
            = s.trace.countP SoAd_Call.confirms + 1) ∧
      (¬ ((t.SoAd_SoConStatus id).tx_remain = 0 ∨ res ≠ E_OK) →
        SoAd_SoCon_ProcessTransmit cfg env id s = t ∧
          ((SoAd_SoCon_ProcessTransmit cfg env id s).SoAd_SoConStatus id).tx_route
            = some route ∧
          (SoAd_SoCon_ProcessTransmit cfg env id s).trace.countP SoAd_Call.confirms
            = s.trace.countP SoAd_Call.confirms) ∧
      ((SoAd_SoCon_ProcessTransmit_query env id route s).1 = BUFREQ_E_BUSY → res = E_OK) ∧
      ((SoAd_SoCon_ProcessTransmit_query env id route s).1 ≠ BUFREQ_OK →
        (SoAd_SoCon_ProcessTransmit_query env id route s).1 ≠ BUFREQ_E_BUSY →
          res = E_NOT_OK) ∧
      ((SoAd_SoCon_ProcessTransmit_query env id route s).1 = BUFREQ_OK →
        ((cfg.group (cfg.connection id).group).protocol = TCPIP_IPPROTO_UDP →
          res = env.TcpIp_UdpTransmit (SoAd_SoCon_ProcessTransmit_query env id route s).2.trace
            (s.SoAd_SoConStatus id).socket_id none (s.SoAd_SoConStatus id).remote
            ((SoAd_SoCon_ProcessTransmit_query env id route s).2.SoAd_SoConStatus
              id).tx_available) ∧
        ((cfg.group (cfg.connection id).group).protocol = TCPIP_IPPROTO_TCP →
          res = env.TcpIp_TcpTransmit (SoAd_SoCon_ProcessTransmit_query env id route s).2.trace
            (s.SoAd_SoConStatus id).socket_id none
            ((SoAd_SoCon_ProcessTransmit_query env id route s).2.SoAd_SoConStatus
              id).tx_available false) ∧
        ((cfg.group (cfg.connection id).group).protocol ≠ TCPIP_IPPROTO_UDP →
          (cfg.group (cfg.connection id).group).protocol ≠ TCPIP_IPPROTO_TCP →
            res = E_NOT_OK)) := by
  have heq := SoAd_SoCon_ProcessTransmit_eq_step cfg env id s route hroute
  obtain ⟨⟨available, hcon⟩, -, -, hcount⟩ :=
    SoAd_SoCon_ProcessTransmit_step_frame cfg env id route s
  rw [hstep] at heq hcon hcount
  simp only [] at heq hcon hcount
  have hremain : (t.SoAd_SoConStatus id).tx_remain = (s.SoAd_SoConStatus id).tx_remain := by
    rw [hcon]; simp
  have htx : (t.SoAd_SoConStatus id).tx_route = some route := by
    rw [hcon]; simpa using hroute
  have hres : res = (SoAd_SoCon_ProcessTransmit_send cfg env id
      (SoAd_SoCon_ProcessTransmit_query env id route s).1
      (SoAd_SoCon_ProcessTransmit_query env id route s).2).1 := by
    have := congrArg Prod.fst hstep
    exact this.symm
  have hq : ((SoAd_SoCon_ProcessTransmit_query env id route s).2.SoAd_SoConStatus id).socket_id
        = (s.SoAd_SoConStatus id).socket_id ∧
      ((SoAd_SoCon_ProcessTransmit_query env id route s).2.SoAd_SoConStatus id).remote
        = (s.SoAd_SoConStatus id).remote := by
    unfold SoAd_SoCon_ProcessTransmit_query
    simp only []
    split_ifs <;> simp
  refine ⟨hremain, ?_, ?_, ?_, ?_, ?_, ?_⟩
  · by_cases hend : (t.SoAd_SoConStatus id).tx_remain = 0 ∨ res ≠ E_OK
    · rw [heq, if_pos hend]
      simp [hend]
    · rw [heq, if_neg hend, htx]
      simp [hend]
  · intro hend
    rw [heq, if_pos hend]
    refine ⟨by simp, by simp [SoAd_State.call], ?_⟩
    simp [SoAd_State.call, List.countP_append, SoAd_Call.confirms, hcount]
  · intro hend
    rw [heq, if_neg hend]
    exact ⟨rfl, htx, hcount⟩
  · intro hbusy
    rw [hres]
    unfold SoAd_SoCon_ProcessTransmit_send
    simp [hbusy, BUFREQ_E_BUSY, BUFREQ_OK]
  · intro h1 h2
    rw [hres]
    unfold SoAd_SoCon_ProcessTransmit_send
    simp [h1, h2]
  · intro hok
    refine ⟨fun hudp => ?_, fun htcp => ?_, fun h1 h2 => ?_⟩
    · rw [hres]
      unfold SoAd_SoCon_ProcessTransmit_send
      simp [hok, hudp, hq.1, hq.2]
    · rw [hres]
      unfold SoAd_SoCon_ProcessTransmit_send
      have hne : TCPIP_IPPROTO_TCP ≠ TCPIP_IPPROTO_UDP := by decide
      simp [hok, htcp, hne, hq.1]
    · rw [hres]
      unfold SoAd_SoCon_ProcessTransmit_send
      simp [hok, h1, h2]

theorem SoAd_SoCon_ProcessTransmit_ends_session_witness :
    (suite_1.state_armed.SoAd_SoConStatus 0).tx_route = some suite_1.pdu_route_1 ∧
      (SoAd_SoCon_ProcessTransmit_step suite_1.config suite_1.env_transmit_fails 0
        suite_1.pdu_route_1 suite_1.state_armed).1 = E_NOT_OK ∧
      ((SoAd_SoCon_ProcessTransmit suite_1.config suite_1.env_transmit_fails 0
          suite_1.state_armed).SoAd_SoConStatus 0).tx_route = none ∧
      (SoAd_SoCon_ProcessTransmit suite_1.config suite_1.env_transmit_fails 0
          suite_1.state_armed).trace.countP SoAd_Call.confirms
        = suite_1.state_armed.trace.countP SoAd_Call.confirms + 1 := by
  have h := SoAd_SoCon_ProcessTransmit_ends_session suite_1.config
    suite_1.env_transmit_fails 0 suite_1.state_armed suite_1.pdu_route_1 (by decide)
    (SoAd_SoCon_ProcessTransmit_step suite_1.config suite_1.env_transmit_fails 0
      suite_1.pdu_route_1 suite_1.state_armed).1
    (SoAd_SoCon_ProcessTransmit_step suite_1.config suite_1.env_transmit_fails 0
      suite_1.pdu_route_1 suite_1.state_armed).2 rfl
  have hres : (SoAd_SoCon_ProcessTransmit_step suite_1.config suite_1.env_transmit_fails 0
      suite_1.pdu_route_1 suite_1.state_armed).1 = E_NOT_OK := by decide
  have hend : ((SoAd_SoCon_ProcessTransmit_step suite_1.config suite_1.env_transmit_fails 0
        suite_1.pdu_route_1 suite_1.state_armed).2.SoAd_SoConStatus 0).tx_remain = 0
      ∨ (SoAd_SoCon_ProcessTransmit_step suite_1.config suite_1.env_transmit_fails 0
        suite_1.pdu_route_1 suite_1.state_armed).1 ≠ E_OK := by
    right; rw [hres]; decide
  exact ⟨by decide, hres, h.2.1.mpr hend, (h.2.2.1 hend).2.2⟩

/-! ## The free-slot match -/

theorem SoAd_SoCon_Lookup_FreeSocket_test_iff (cfg : SoAd_ConfigType) (s : SoAd_State)
    (g : Nat) (r : TcpIp_SockAddrType) (c : Nat) :
    SoAd_SoCon_Lookup_FreeSocket_test cfg s g r c = true ↔ SoAd_SoCon_eligible cfg s g r c := by
  unfold SoAd_SoCon_Lookup_FreeSocket_test SoAd_SoCon_eligible
  simp only []
  split_ifs <;> simp_all

theorem SoAd_SoCon_Lookup_FreeSocket_eq_some (cfg : SoAd_ConfigType) (s : SoAd_State)
    (g : Nat) (r : TcpIp_SockAddrType) (c : Nat) :
    SoAd_SoCon_Lookup_FreeSocket cfg s g r = some c ↔
      c < SOAD_CFG_CONNECTION_COUNT cfg ∧ SoAd_SoCon_eligible cfg s g r c ∧
        ∀ i, i < c → ¬ SoAd_SoCon_eligible cfg s g r i := by
  unfold SoAd_SoCon_Lookup_FreeSocket
  rw [List.find?_range_eq_some]
  simp only [SoAd_SoCon_Lookup_FreeSocket_test_iff, List.mem_range, Bool.not_eq_true',
    ← Bool.not_eq_true]
  tauto

theorem SoAd_SoCon_Lookup_FreeSocket_eq_none (cfg : SoAd_ConfigType) (s : SoAd_State)
    (g : Nat) (r : TcpIp_SockAddrType) :
    SoAd_SoCon_Lookup_FreeSocket cfg s g r = none ↔
      ∀ c, c < SOAD_CFG_CONNECTION_COUNT cfg → ¬ SoAd_SoCon_eligible cfg s g r c := by
  unfold SoAd_SoCon_Lookup_FreeSocket
  rw [List.find?_eq_none]
  simp only [List.mem_range, SoAd_SoCon_Lookup_FreeSocket_test_iff]

/-- C23, as stated, fails: in the test suite, after the first tick and a
datagram from each of two peers, both connections of the UDP group are ONLINE
with the remote of their peer.  For a third peer the free-slot match on the
group fails, although connection 2 belongs to the group, has an invalid own
socket id, is not OFFLINE and its configured remote, the any address with the
any port, matches the peer. -/
theorem SoAd_SoCon_Lookup_FreeSocket_configured_remote :
    (SoAd_run suite_1.config suite_1.env 1 suite_1.ops_two_datagrams suite_1.state_init).map
        (fun s =>
          (SoAd_SoCon_Lookup_FreeSocket suite_1.config s 1 suite_1.remote_3,
            SoAd_SoCon_eligible_configured suite_1.config s 1 suite_1.remote_3 2,
            (s.SoAd_SoConStatus 2).remote, (s.SoAd_SoConStatus 3).remote))
      = some (none, true, suite_1.remote_1, suite_1.remote_2) := by
  decide

/-- C23, amended.  When `SoAd_SoCon_Lookup_FreeSocket(g, r)` returns `E_OK`
with connection `c`, then `c` is a connection of the configuration that
belongs to `g`, its own socket id is invalid, its state is not OFFLINE and its
effective remote, the one in its status, matches `r` under
`SoAd_SockAddrWildcardMatch`; when it returns `E_NOT_OK`, no connection of the
configuration satisfies those four conditions. -/
theorem SoAd_SoCon_Lookup_FreeSocket_sound (cfg : SoAd_ConfigType) (s : SoAd_State)
    (g : Nat) (r : TcpIp_SockAddrType) :
    (∀ c, SoAd_SoCon_Lookup_FreeSocket cfg s g r = some c →
      c < SOAD_CFG_CONNECTION_COUNT cfg ∧ (cfg.connection c).group = g ∧
        (s.SoAd_SoConStatus c).socket_id = TCPIP_SOCKETID_INVALID ∧
        (s.SoAd_SoConStatus c).state ≠ SOAD_SOCON_OFFLINE ∧
        SoAd_SockAddrWildcardMatch (s.SoAd_SoConStatus c).remote r = TRUE) ∧
      (SoAd_SoCon_Lookup_FreeSocket cfg s g r = none →
        ∀ c, c < SOAD_CFG_CONNECTION_COUNT cfg →
          ¬ ((cfg.connection c).group = g ∧
            (s.SoAd_SoConStatus c).socket_id = TCPIP_SOCKETID_INVALID ∧
            (s.SoAd_SoConStatus c).state ≠ SOAD_SOCON_OFFLINE ∧
            SoAd_SockAddrWildcardMatch (s.SoAd_SoConStatus c).remote r = TRUE)) := by
  constructor
  · intro c h
    obtain ⟨hc, he, -⟩ := (SoAd_SoCon_Lookup_FreeSocket_eq_some cfg s g r c).mp h
    exact ⟨hc, he⟩
  · intro h c hc
    exact (SoAd_SoCon_Lookup_FreeSocket_eq_none cfg s g r).mp h c hc

theorem SoAd_SoCon_Lookup_FreeSocket_sound_witness :
    SoAd_SoCon_Lookup_FreeSocket suite_1.config suite_1.state_open 1 suite_1.remote_2
        = some 2 ∧
      SoAd_SoCon_Lookup_FreeSocket suite_1.config suite_1.state_init 1 suite_1.remote_2
        = none ∧
      (2 < SOAD_CFG_CONNECTION_COUNT suite_1.config ∧
        (suite_1.config.connection 2).group = 1 ∧
        (suite_1.state_open.SoAd_SoConStatus 2).socket_id = TCPIP_SOCKETID_INVALID ∧
        (suite_1.state_open.SoAd_SoConStatus 2).state ≠ SOAD_SOCON_OFFLINE ∧
        SoAd_SockAddrWildcardMatch (suite_1.state_open.SoAd_SoConStatus 2).remote
          suite_1.remote_2 = TRUE) ∧
      ¬ ((suite_1.config.connection 2).group = 1 ∧
        (suite_1.state_init.SoAd_SoConStatus 2).socket_id = TCPIP_SOCKETID_INVALID ∧
        (suite_1.state_init.SoAd_SoConStatus 2).state ≠ SOAD_SOCON_OFFLINE ∧
        SoAd_SockAddrWildcardMatch (suite_1.state_init.SoAd_SoConStatus 2).remote
          suite_1.remote_2 = TRUE) :=
  ⟨by decide, by decide,
    (SoAd_SoCon_Lookup_FreeSocket_sound suite_1.config suite_1.state_open 1
      suite_1.remote_2).1 2 (by decide),
    (SoAd_SoCon_Lookup_FreeSocket_sound suite_1.config suite_1.state_init 1
      suite_1.remote_2).2 (by decide) 2 (by decide)⟩

/-! ## What entering a state writes -/

/-- The status of the connection after `SoAd_SoCon_EnterState`: the state is
the one entered; the own socket id is invalidated on the way to OFFLINE and
kept otherwise; the rx route is unbound on the way to OFFLINE, kept on the way
to RECONNECT, and on the way to ONLINE kept or bound; nothing else is
written. -/
theorem SoAd_SoCon_EnterState_status (cfg : SoAd_ConfigType) (env : SoAd_Env) (id : Nat)
    (state : SoAd_SoConStateType) (s : SoAd_State) :
    ∃ rx_route,
      (SoAd_SoCon_EnterState cfg env id state s).SoAd_SoConStatus id
          = { s.SoAd_SoConStatus id with
              socket_id := if state = SOAD_SOCON_OFFLINE then TCPIP_SOCKETID_INVALID
                else (s.SoAd_SoConStatus id).socket_id
              rx_route := rx_route
              state := state } ∧
        (state = SOAD_SOCON_OFFLINE → rx_route = none) ∧
        (state = SOAD_SOCON_RECONNECT → rx_route = (s.SoAd_SoConStatus id).rx_route) := by
  unfold SoAd_SoCon_EnterState
  cases state with
  | SOAD_SOCON_OFFLINE =>
    simp only []
    cases hr : (s.SoAd_SoConStatus id).rx_route with
    | none => exact ⟨none, by simp [hr], fun _ => rfl, fun h => by simp at h⟩
    | some r => exact ⟨none, by simp [hr], fun _ => rfl, fun h => by simp at h⟩
  | SOAD_SOCON_RECONNECT =>
    exact ⟨(s.SoAd_SoConStatus id).rx_route, by simp, fun h => by simp at h, fun _ => rfl⟩
  | SOAD_SOCON_ONLINE =>
    simp only []
    cases SoAd_GetSocketRoute cfg id SOAD_PDUHEADERID_INVALID with
    | none =>
      exact ⟨(s.SoAd_SoConStatus id).rx_route, by simp, fun h => by simp at h,
        fun h => by simp at h⟩
    | some route_id =>
      simp only []
      split
      · exact ⟨some (cfg.socket_route route_id), by simp, fun h => by simp at h,
          fun h => by simp at h⟩
      · exact ⟨(s.SoAd_SoConStatus id).rx_route, by simp, fun h => by simp at h,
          fun h => by simp at h⟩

theorem SoAd_SoCon_EnterState_other (cfg : SoAd_ConfigType) (env : SoAd_Env) (id : Nat)
    (state : SoAd_SoConStateType) (s : SoAd_State) (j : Nat) (hj : j ≠ id) :
    (SoAd_SoCon_EnterState cfg env id state s).SoAd_SoConStatus j = s.SoAd_SoConStatus j :=
  (SoAd_SoCon_EnterState_frame cfg env id state s).2.2.2.1 j hj

theorem SoAd_SoCon_EnterState_grp (cfg : SoAd_ConfigType) (env : SoAd_Env) (id : Nat)
    (state : SoAd_SoConStateType) (s : SoAd_State) :
    (SoAd_SoCon_EnterState cfg env id state s).SoAd_SoGrpStatus = s.SoAd_SoGrpStatus :=
  (SoAd_SoCon_EnterState_frame cfg env id state s).2.2.2.2

@[simp] theorem SoAd_SoCon_PerformOpen_store_trace (cfg : SoAd_ConfigType) (id v : Nat)
    (s : SoAd_State) : (SoAd_SoCon_PerformOpen_store cfg id v s).trace = s.trace := by
  unfold SoAd_SoCon_PerformOpen_store
  simp only []
  split_ifs <;> rfl

@[simp] theorem SoAd_SoCon_PerformOpen_slot_store (cfg : SoAd_ConfigType) (id v : Nat)
    (s : SoAd_State) :
    SoAd_SoCon_PerformOpen_slot cfg id (SoAd_SoCon_PerformOpen_store cfg id v s) = v := by
  unfold SoAd_SoCon_PerformOpen_slot SoAd_SoCon_PerformOpen_store
  simp only []
  split_ifs <;> simp

@[simp] theorem SoAd_SoCon_PerformOpen_slot_call (cfg : SoAd_ConfigType) (id : Nat)
    (s : SoAd_State) (c : SoAd_Call) :
    SoAd_SoCon_PerformOpen_slot cfg id (s.call c) = SoAd_SoCon_PerformOpen_slot cfg id s := rfl

theorem SoAd_SoCon_PerformOpen_slot_latch (cfg : SoAd_ConfigType) (id : Nat)
    (s : SoAd_State) :
    SoAd_SoCon_PerformOpen_slot cfg id
        (s.setCon id { s.SoAd_SoConStatus id with request_open := false })
      = SoAd_SoCon_PerformOpen_slot cfg id s := by
  unfold SoAd_SoCon_PerformOpen_slot
  simp

@[simp] theorem SoAd_SoCon_PerformOpen_store_remote (cfg : SoAd_ConfigType) (id v : Nat)
    (s : SoAd_State) :
    ((SoAd_SoCon_PerformOpen_store cfg id v s).SoAd_SoConStatus id).remote
      = (s.SoAd_SoConStatus id).remote := by
  unfold SoAd_SoCon_PerformOpen_store
  simp only []
  split_ifs <;> simp

/-- The outcomes of `SoAd_SoCon_PerformOpen` when the slot holds no socket:
the result, the calls and the slot afterwards, by the answers of the
transport (`got` of `TcpIp_SoAdGetSocket`, `bind` of `TcpIp_Bind`, `third` of
`TcpIp_TcpConnect` or `TcpIp_TcpListen`). -/
theorem SoAd_SoCon_PerformOpen_acquire (cfg : SoAd_ConfigType) (env : SoAd_Env) (id : Nat)
    (s : SoAd_State) (hslot : SoAd_SoCon_PerformOpen_slot cfg id s = TCPIP_SOCKETID_INVALID)
    (got : Std_ReturnType × Nat) (bind third : Std_ReturnType) (get_socket bound : SoAd_Call)
    (hgot : env.TcpIp_SoAdGetSocket s.trace (cfg.group (cfg.connection id).group).domain
      (cfg.group (cfg.connection id).group).protocol = got)
    (hget_socket : SoAd_Call.TcpIp_SoAdGetSocket (cfg.group (cfg.connection id).group).domain
      (cfg.group (cfg.connection id).group).protocol = get_socket)
    (hbind : env.TcpIp_Bind (s.trace ++ [get_socket]) got.2
      (cfg.group (cfg.connection id).group).localaddr
      (cfg.group (cfg.connection id).group).localport = bind)
    (hbound : SoAd_Call.TcpIp_Bind got.2 (cfg.group (cfg.connection id).group).localaddr
      (cfg.group (cfg.connection id).group).localport = bound)
    (hthird : (if (cfg.group (cfg.connection id).group).initiate = true then
        env.TcpIp_TcpConnect (s.trace ++ [get_socket, bound]) got.2
          (s.SoAd_SoConStatus id).remote
      else
        env.TcpIp_TcpListen (s.trace ++ [get_socket, bound]) got.2
          (SOAD_CFG_CONNECTION_COUNT cfg)) = third) :
    (got.1 ≠ E_OK →
      (SoAd_SoCon_PerformOpen cfg env id s).1 = got.1 ∧
        (SoAd_SoCon_PerformOpen cfg env id s).2.trace = s.trace ++ [get_socket] ∧
        SoAd_SoCon_PerformOpen_slot cfg id (SoAd_SoCon_PerformOpen cfg env id s).2 = got.2) ∧
      (got.1 = E_OK → bind ≠ E_OK →
        (SoAd_SoCon_PerformOpen cfg env id s).1 = bind ∧
          (SoAd_SoCon_PerformOpen cfg env id s).2.trace
            = s.trace ++ [get_socket, bound, SoAd_Call.TcpIp_Close got.2 true] ∧
          SoAd_SoCon_PerformOpen_slot cfg id (SoAd_SoCon_PerformOpen cfg env id s).2
            = TCPIP_SOCKETID_INVALID) ∧
      (got.1 = E_OK → bind = E_OK →
        (cfg.group (cfg.connection id).group).protocol ≠ TCPIP_IPPROTO_TCP →
          (SoAd_SoCon_PerformOpen cfg env id s).1 = E_OK ∧
            (SoAd_SoCon_PerformOpen cfg env id s).2.trace = s.trace ++ [get_socket, bound] ∧
            SoAd_SoCon_PerformOpen_slot cfg id (SoAd_SoCon_PerformOpen cfg env id s).2
              = got.2) ∧
      (got.1 = E_OK → bind = E_OK →
        (cfg.group (cfg.connection id).group).protocol = TCPIP_IPPROTO_TCP →
          (SoAd_SoCon_PerformOpen cfg env id s).1 = third ∧
            (SoAd_SoCon_PerformOpen cfg env id s).2.trace
              = s.trace ++ [get_socket, bound,
                  if (cfg.group (cfg.connection id).group).initiate = true then
                    SoAd_Call.TcpIp_TcpConnect got.2 (s.SoAd_SoConStatus id).remote
                  else SoAd_Call.TcpIp_TcpListen got.2 (SOAD_CFG_CONNECTION_COUNT cfg)]
                ++ (if third = E_OK then [] else [SoAd_Call.TcpIp_Close got.2 true]) ∧
            SoAd_SoCon_PerformOpen_slot cfg id (SoAd_SoCon_PerformOpen cfg env id s).2
              = if third = E_OK then got.2 else TCPIP_SOCKETID_INVALID) := by
  subst hgot hget_socket hbind hbound hthird
  have hlatch := SoAd_SoCon_PerformOpen_slot_latch cfg id s
  have hne : E_NOT_OK ≠ E_OK := by decide
  refine ⟨fun h1 => ?_, fun h1 h2 => ?_, fun h1 h2 h3 => ?_, fun h1 h2 h3 => ?_⟩
  · unfold SoAd_SoCon_PerformOpen
    simp [hlatch, hslot, h1]
  · unfold SoAd_SoCon_PerformOpen
    simp [hlatch, hslot, h1, h2]
  · unfold SoAd_SoCon_PerformOpen
    simp [hlatch, hslot, h1, h2, h3]
  · unfold SoAd_SoCon_PerformOpen
    by_cases hi : (cfg.group (cfg.connection id).group).initiate = true
    · by_cases h4 : env.TcpIp_TcpConnect
          (s.trace ++ [SoAd_Call.TcpIp_SoAdGetSocket
              (cfg.group (cfg.connection id).group).domain
              (cfg.group (cfg.connection id).group).protocol,
            SoAd_Call.TcpIp_Bind
              (env.TcpIp_SoAdGetSocket s.trace (cfg.group (cfg.connection id).group).domain
                (cfg.group (cfg.connection id).group).protocol).2
              (cfg.group (cfg.connection id).group).localaddr
              (cfg.group (cfg.connection id).group).localport])
          (env.TcpIp_SoAdGetSocket s.trace (cfg.group (cfg.connection id).group).domain
            (cfg.group (cfg.connection id).group).protocol).2
          (s.SoAd_SoConStatus id).remote = E_OK
      · simp [hlatch, hslot, h1, h2, eq_true h3, h4, hi]
      · simp [hlatch, hslot, h1, h2, eq_true h3, h4, hi]
    · by_cases h4 : env.TcpIp_TcpListen
          (s.trace ++ [SoAd_Call.TcpIp_SoAdGetSocket
              (cfg.group (cfg.connection id).group).domain
              (cfg.group (cfg.connection id).group).protocol,
            SoAd_Call.TcpIp_Bind
              (env.TcpIp_SoAdGetSocket s.trace (cfg.group (cfg.connection id).group).domain
                (cfg.group (cfg.connection id).group).protocol).2
              (cfg.group (cfg.connection id).group).localaddr
              (cfg.group (cfg.connection id).group).localport])
          (env.TcpIp_SoAdGetSocket s.trace (cfg.group (cfg.connection id).group).domain
            (cfg.group (cfg.connection id).group).protocol).2
          (SOAD_CFG_CONNECTION_COUNT cfg) = E_OK
      · simp [hlatch, hslot, h1, h2, eq_true h3, h4, hi]
      · simp [hlatch, hslot, h1, h2, eq_true h3, h4, hi]

theorem SoAd_SoCon_PerformOpen_store_status (cfg : SoAd_ConfigType) (id v : Nat)
    (s : SoAd_State) :
    (SoAd_SoCon_PerformOpen_store cfg id v s).SoAd_SoConStatus id
      = { s.SoAd_SoConStatus id with
          socket_id := if (cfg.group (cfg.connection id).group).initiate = true then v
            else (s.SoAd_SoConStatus id).socket_id } := by
  unfold SoAd_SoCon_PerformOpen_store
  simp only []
  split_ifs <;> simp

/-- What `SoAd_SoCon_PerformOpen` writes in the status of its connection: the
latch `request_open` and, for a group that initiates, the socket id. -/
theorem SoAd_SoCon_PerformOpen_status (cfg : SoAd_ConfigType) (env : SoAd_Env) (id : Nat)
    (s : SoAd_State) :
    (SoAd_SoCon_PerformOpen cfg env id s).2.SoAd_SoConStatus id
        = { s.SoAd_SoConStatus id with
            request_open := false
            socket_id := ((SoAd_SoCon_PerformOpen cfg env id s).2.SoAd_SoConStatus
              id).socket_id } ∧
      ((cfg.group (cfg.connection id).group).initiate = false →
        ((SoAd_SoCon_PerformOpen cfg env id s).2.SoAd_SoConStatus id).socket_id
          = (s.SoAd_SoConStatus id).socket_id) ∧
      ((cfg.group (cfg.connection id).group).initiate = true →
        ((SoAd_SoCon_PerformOpen cfg env id s).2.SoAd_SoConStatus id).socket_id
          = SoAd_SoCon_PerformOpen_slot cfg id (SoAd_SoCon_PerformOpen cfg env id s).2) := by
  refine ⟨?_, fun hi => ?_, fun hi => ?_⟩
  · unfold SoAd_SoCon_PerformOpen
    simp only []
    split_ifs <;> simp [SoAd_SoCon_PerformOpen_store_status]
  · unfold SoAd_SoCon_PerformOpen
    simp only []
    split_ifs <;> simp [SoAd_SoCon_PerformOpen_store_status, hi]
  · unfold SoAd_SoCon_PerformOpen_slot
    simp [hi]

/-- C26.  For an OFFLINE connection whose open requirements hold and whose
`SoAd_SoCon_PerformOpen` returns `E_OK`: after the tick the state is ONLINE
for a UDP group when the effective remote is not a wildcard, RECONNECT for a
TCP group, and RECONNECT for a UDP group when the effective remote is a
wildcard.  When the slot already held a socket `SoAd_SoCon_PerformOpen` makes
no call.  When it held none, the calls of `SoAd_SoCon_PerformOpen` are get
socket, bind and, for a TCP group, one more: connect to the effective remote
when the group initiates, listen when it does not; for a UDP group there is
no third call.  What the tick calls after `SoAd_SoCon_PerformOpen` opens
nothing. -/
theorem SoAd_SoCon_MainFunction_opened (cfg : SoAd_ConfigType) (env : SoAd_Env) (id : Nat)
    (s : SoAd_State) (hst : (s.SoAd_SoConStatus id).state = SOAD_SOCON_OFFLINE)
    (hcheck : SoAd_SoCon_CheckOpen cfg id s = E_OK)
    (hok : (SoAd_SoCon_PerformOpen cfg env id s).1 = E_OK) :
    ((cfg.group (cfg.connection id).group).protocol = TCPIP_IPPROTO_UDP →
      SoAd_SockAddrWildcard (s.SoAd_SoConStatus id).remote ≠ TRUE →
        ((SoAd_SoCon_MainFunction cfg env id s).SoAd_SoConStatus id).state
          = SOAD_SOCON_ONLINE) ∧
      ((cfg.group (cfg.connection id).group).protocol = TCPIP_IPPROTO_TCP →
        ((SoAd_SoCon_MainFunction cfg env id s).SoAd_SoConStatus id).state
          = SOAD_SOCON_RECONNECT) ∧
      ((cfg.group (cfg.connection id).group).protocol = TCPIP_IPPROTO_UDP →
        SoAd_SockAddrWildcard (s.SoAd_SoConStatus id).remote = TRUE →
          ((SoAd_SoCon_MainFunction cfg env id s).SoAd_SoConStatus id).state
            = SOAD_SOCON_RECONNECT) ∧
      (SoAd_SoCon_PerformOpen_slot cfg id s ≠ TCPIP_SOCKETID_INVALID →
        (SoAd_SoCon_PerformOpen cfg env id s).2.trace = s.trace) ∧
      (SoAd_SoCon_PerformOpen_slot cfg id s = TCPIP_SOCKETID_INVALID →
        (cfg.group (cfg.connection id).group).protocol = TCPIP_IPPROTO_TCP →
          (SoAd_SoCon_PerformOpen cfg env id s).2.trace
            = s.trace ++
              [SoAd_Call.TcpIp_SoAdGetSocket (cfg.group (cfg.connection id).group).domain
                  (cfg.group (cfg.connection id).group).protocol,
                SoAd_Call.TcpIp_Bind
                  (env.TcpIp_SoAdGetSocket s.trace (cfg.group (cfg.connection id).group).domain
                    (cfg.group (cfg.connection id).group).protocol).2
                  (cfg.group (cfg.connection id).group).localaddr
                  (cfg.group (cfg.connection id).group).localport,
                if (cfg.group (cfg.connection id).group).initiate = true then
                  SoAd_Call.TcpIp_TcpConnect
                    (env.TcpIp_SoAdGetSocket s.trace
                      (cfg.group (cfg.connection id).group).domain
                      (cfg.group (cfg.connection id).group).protocol).2
                    (s.SoAd_SoConStatus id).remote
                else
                  SoAd_Call.TcpIp_TcpListen
                    (env.TcpIp_SoAdGetSocket s.trace
                      (cfg.group (cfg.connection id).group).domain
                      (cfg.group (cfg.connection id).group).protocol).2
                    (SOAD_CFG_CONNECTION_COUNT cfg)]) ∧
      (SoAd_SoCon_PerformOpen_slot cfg id s = TCPIP_SOCKETID_INVALID →
        (cfg.group (cfg.connection id).group).protocol = TCPIP_IPPROTO_UDP →
          (SoAd_SoCon_PerformOpen cfg env id s).2.trace
            = s.trace ++
              [SoAd_Call.TcpIp_SoAdGetSocket (cfg.group (cfg.connection id).group).domain
                  (cfg.group (cfg.connection id).group).protocol,
                SoAd_Call.TcpIp_Bind
                  (env.TcpIp_SoAdGetSocket s.trace (cfg.group (cfg.connection id).group).domain
                    (cfg.group (cfg.connection id).group).protocol).2
                  (cfg.group (cfg.connection id).group).localaddr
                  (cfg.group (cfg.connection id).group).localport]) ∧
      ∃ rest, (SoAd_SoCon_MainFunction cfg env id s).trace
          = (SoAd_SoCon_PerformOpen cfg env id s).2.trace ++ rest ∧
        ∀ c ∈ rest, c.opens = false := by
  have hmain := SoAd_SoCon_MainFunction_offline cfg env id s hst
  have hudp_ne : TCPIP_IPPROTO_UDP ≠ TCPIP_IPPROTO_TCP := by decide
  have hremote : ((SoAd_SoCon_PerformOpen cfg env id s).2.SoAd_SoConStatus id).remote
      = (s.SoAd_SoConStatus id).remote := by
    rw [(SoAd_SoCon_PerformOpen_status cfg env id s).1]
  have hacq := fun hslot => SoAd_SoCon_PerformOpen_acquire cfg env id s hslot _ _ _ _ _
    rfl rfl rfl rfl rfl
  refine ⟨fun hudp hw => ?_, fun htcp => ?_, fun hudp hw => ?_, fun hslot => ?_,
    fun hslot htcp => ?_, fun hslot hudp => ?_, ?_⟩
  · rw [hmain]
    unfold SoAd_SoCon_State_Offline
    simp only [hcheck, hok, hudp, hudp_ne, hremote, hw, if_true, if_false]
    exact (SoAd_SoCon_EnterState_frame cfg env id _ _).1
  · rw [hmain]
    unfold SoAd_SoCon_State_Offline
    simp only [hcheck, hok, htcp, if_true]
    exact (SoAd_SoCon_EnterState_frame cfg env id _ _).1
  · rw [hmain]
    unfold SoAd_SoCon_State_Offline
    simp only [hcheck, hok, hudp, hudp_ne, hremote, hw, if_true, if_false]
    exact (SoAd_SoCon_EnterState_frame cfg env id _ _).1
  · rw [SoAd_SoCon_PerformOpen_skip cfg env id s hslot]
    rfl
  · obtain ⟨h1, h2, -, h4⟩ := hacq hslot
    by_cases hg : (env.TcpIp_SoAdGetSocket s.trace (cfg.group (cfg.connection id).group).domain
        (cfg.group (cfg.connection id).group).protocol).1 = E_OK
    · by_cases hb : env.TcpIp_Bind
          (s.trace ++ [SoAd_Call.TcpIp_SoAdGetSocket
            (cfg.group (cfg.connection id).group).domain
            (cfg.group (cfg.connection id).group).protocol])
          (env.TcpIp_SoAdGetSocket s.trace (cfg.group (cfg.connection id).group).domain
            (cfg.group (cfg.connection id).group).protocol).2
          (cfg.group (cfg.connection id).group).localaddr
          (cfg.group (cfg.connection id).group).localport = E_OK
      · obtain ⟨h5, h6, -⟩ := h4 hg hb htcp
        rw [h5] at hok
        rw [h6, if_pos hok]
        simp
      · exact absurd ((h2 hg hb).1 ▸ hok) hb
    · exact absurd ((h1 hg).1 ▸ hok) hg
  · obtain ⟨h1, h2, h3, -⟩ := hacq hslot
    by_cases hg : (env.TcpIp_SoAdGetSocket s.trace (cfg.group (cfg.connection id).group).domain
        (cfg.group (cfg.connection id).group).protocol).1 = E_OK
    · by_cases hb : env.TcpIp_Bind
          (s.trace ++ [SoAd_Call.TcpIp_SoAdGetSocket
            (cfg.group (cfg.connection id).group).domain
            (cfg.group (cfg.connection id).group).protocol])
          (env.TcpIp_SoAdGetSocket s.trace (cfg.group (cfg.connection id).group).domain
            (cfg.group (cfg.connection id).group).protocol).2
          (cfg.group (cfg.connection id).group).localaddr
          (cfg.group (cfg.connection id).group).localport = E_OK
      · exact (h3 hg hb (by rw [hudp]; exact hudp_ne)).2.1
      · exact absurd ((h2 hg hb).1 ▸ hok) hb
    · exact absurd ((h1 hg).1 ▸ hok) hg
  · rw [hmain]
    exact (SoAd_SoCon_State_Offline_opened cfg env id s hcheck hok).2.2.1

theorem SoAd_SoCon_MainFunction_opened_witness :
    (suite_1.state_init.SoAd_SoConStatus 4).state = SOAD_SOCON_OFFLINE ∧
      SoAd_SoCon_CheckOpen suite_1.config 4 suite_1.state_init = E_OK ∧
      (SoAd_SoCon_PerformOpen suite_1.config suite_1.env 4 suite_1.state_init).1 = E_OK ∧
      ((SoAd_SoCon_MainFunction suite_1.config suite_1.env 4
        suite_1.state_init).SoAd_SoConStatus 4).state = SOAD_SOCON_RECONNECT ∧
      (SoAd_SoCon_PerformOpen suite_1.config suite_1.env 4 suite_1.state_init).2.trace
        = [SoAd_Call.TcpIp_SoAdGetSocket TCPIP_AF_INET TCPIP_IPPROTO_TCP,
            SoAd_Call.TcpIp_Bind 2 0 0,
            SoAd_Call.TcpIp_TcpConnect 2 suite_1.socket_remote_loopback_v4] ∧
      ((SoAd_SoCon_MainFunction suite_1.config suite_1.env 2
        suite_1.state_init).SoAd_SoConStatus 2).state = SOAD_SOCON_RECONNECT :=
  ⟨by decide, by decide, by decide,
    (SoAd_SoCon_MainFunction_opened suite_1.config suite_1.env 4 suite_1.state_init
      (by decide) (by decide) (by decide)).2.1 (by decide),
    by decide,
    (SoAd_SoCon_MainFunction_opened suite_1.config suite_1.env 2 suite_1.state_init
      (by decide) (by decide) (by decide)).2.2.1 (by decide) (by decide)⟩

/-- C27, as stated, fails: in the test suite with a transport whose
`TcpIp_SoAdGetSocket` writes the id 7 behind its pointer and fails,
`SoAd_SoCon_PerformOpen` on connection 4, whose slot holds no socket, returns
`E_NOT_OK` after that one call, and the slot holds 7 afterwards: it does not
stay invalid. -/
theorem SoAd_SoCon_PerformOpen_get_socket_leaves_id :
    SoAd_SoCon_PerformOpen_slot suite_1.config 4 suite_1.state_init
        = TCPIP_SOCKETID_INVALID ∧
      (SoAd_SoCon_PerformOpen suite_1.config suite_1.env_get_socket_writes 4
        suite_1.state_init).1 = E_NOT_OK ∧
      (SoAd_SoCon_PerformOpen suite_1.config suite_1.env_get_socket_writes 4
        suite_1.state_init).2.trace
        = [SoAd_Call.TcpIp_SoAdGetSocket TCPIP_AF_INET TCPIP_IPPROTO_TCP] ∧
      SoAd_SoCon_PerformOpen_slot suite_1.config 4
        (SoAd_SoCon_PerformOpen suite_1.config suite_1.env_get_socket_writes 4
          suite_1.state_init).2 = 7 ∧
      ((SoAd_SoCon_PerformOpen suite_1.config suite_1.env_get_socket_writes 4
        suite_1.state_init).2.SoAd_SoConStatus 4).socket_id = 7 := by
  decide

/-- C27, amended.  For `SoAd_SoCon_PerformOpen` on a slot that holds no socket.  When
`TcpIp_SoAdGetSocket` succeeds and a later step (bind, connect or listen)
fails, so that the result is not `E_OK`: the calls start with get socket, the
last call is `TcpIp_Close` of the acquired socket with abort, it is the only
`TcpIp_Close` among the calls made, and the slot is
`TCPIP_SOCKETID_INVALID` afterwards.  When `TcpIp_SoAdGetSocket` fails: its
result is returned, it is the only call made, and the slot holds what
`TcpIp_SoAdGetSocket` left behind the pointer, which is the invalid id when
the transport writes an id only on success.  In both cases the tick on the
OFFLINE connection ends with the state `SoAd_SoCon_PerformOpen` left, and the
connection is OFFLINE. -/
theorem SoAd_SoCon_PerformOpen_failure (cfg : SoAd_ConfigType) (env : SoAd_Env) (id : Nat)
    (s : SoAd_State) (hslot : SoAd_SoCon_PerformOpen_slot cfg id s = TCPIP_SOCKETID_INVALID)
    (got : Std_ReturnType × Nat)
    (hgot : env.TcpIp_SoAdGetSocket s.trace (cfg.group (cfg.connection id).group).domain
      (cfg.group (cfg.connection id).group).protocol = got) :
    (got.1 = E_OK → (SoAd_SoCon_PerformOpen cfg env id s).1 ≠ E_OK →
      s.trace ++ [SoAd_Call.TcpIp_SoAdGetSocket (cfg.group (cfg.connection id).group).domain
          (cfg.group (cfg.connection id).group).protocol]
          <+: (SoAd_SoCon_PerformOpen cfg env id s).2.trace ∧
        (SoAd_SoCon_PerformOpen cfg env id s).2.trace.getLast?
          = some (SoAd_Call.TcpIp_Close got.2 true) ∧
        (SoAd_SoCon_PerformOpen cfg env id s).2.trace.countP SoAd_Call.closes
          = s.trace.countP SoAd_Call.closes + 1 ∧
        SoAd_SoCon_PerformOpen_slot cfg id (SoAd_SoCon_PerformOpen cfg env id s).2
          = TCPIP_SOCKETID_INVALID) ∧
      (got.1 ≠ E_OK →
        (SoAd_SoCon_PerformOpen cfg env id s).1 = got.1 ∧
          (SoAd_SoCon_PerformOpen cfg env id s).2.trace
            = s.trace ++ [SoAd_Call.TcpIp_SoAdGetSocket
                (cfg.group (cfg.connection id).group).domain
                (cfg.group (cfg.connection id).group).protocol] ∧
          SoAd_SoCon_PerformOpen_slot cfg id (SoAd_SoCon_PerformOpen cfg env id s).2
            = got.2 ∧
          (got.2 = TCPIP_SOCKETID_INVALID →
            SoAd_SoCon_PerformOpen_slot cfg id (SoAd_SoCon_PerformOpen cfg env id s).2
              = TCPIP_SOCKETID_INVALID)) ∧
      ((SoAd_SoCon_PerformOpen cfg env id s).1 ≠ E_OK →
        (s.SoAd_SoConStatus id).state = SOAD_SOCON_OFFLINE →
        SoAd_SoCon_CheckOpen cfg id s = E_OK →
          SoAd_SoCon_MainFunction cfg env id s = (SoAd_SoCon_PerformOpen cfg env id s).2 ∧
            ((SoAd_SoCon_MainFunction cfg env id s).SoAd_SoConStatus id).state
              = SOAD_SOCON_OFFLINE) := by
  obtain ⟨h1, h2, h3, h4⟩ := SoAd_SoCon_PerformOpen_acquire cfg env id s hslot got _ _ _ _
    hgot rfl rfl rfl rfl
  refine ⟨fun hg hfail => ?_, fun hg => ?_, fun hfail hst hcheck => ?_⟩
  · by_cases hb : env.TcpIp_Bind
        (s.trace ++ [SoAd_Call.TcpIp_SoAdGetSocket
          (cfg.group (cfg.connection id).group).domain
          (cfg.group (cfg.connection id).group).protocol]) got.2
        (cfg.group (cfg.connection id).group).localaddr
        (cfg.group (cfg.connection id).group).localport = E_OK
    · by_cases htcp : (cfg.group (cfg.connection id).group).protocol = TCPIP_IPPROTO_TCP
      · obtain ⟨h5, h6, h7⟩ := h4 hg hb htcp
        rw [h5] at hfail
        rw [h6, h7, if_neg hfail, if_neg hfail]
        refine ⟨?_, by simp, ?_, rfl⟩
        · rw [List.append_assoc]
          exact (List.prefix_append_right_inj _).mpr ⟨_, rfl⟩
        · split_ifs <;> simp [List.countP_append, List.countP_cons, SoAd_Call.closes]
      · exact absurd (h3 hg hb htcp).1 hfail
    · obtain ⟨-, h6, h7⟩ := h2 hg hb
      rw [h6, h7]
      refine ⟨(List.prefix_append_right_inj _).mpr ⟨_, rfl⟩, by simp, ?_, rfl⟩
      simp [List.countP_append, List.countP_cons, SoAd_Call.closes]
  · obtain ⟨h5, h6, h7⟩ := h1 hg
    exact ⟨h5, h6, h7, fun h => by rw [h7, h]⟩
  · rw [SoAd_SoCon_MainFunction_offline cfg env id s hst]
    have : SoAd_SoCon_State_Offline cfg env id s = (SoAd_SoCon_PerformOpen cfg env id s).2 := by
      unfold SoAd_SoCon_State_Offline
      simp only [hcheck, hfail, if_true, if_false]
    rw [this, (SoAd_SoCon_PerformOpen_status cfg env id s).1]
    exact ⟨rfl, hst⟩

theorem SoAd_SoCon_PerformOpen_failure_witness :
    SoAd_SoCon_PerformOpen_slot suite_1.config 4 suite_1.state_init
        = TCPIP_SOCKETID_INVALID ∧
      (SoAd_SoCon_PerformOpen suite_1.config suite_1.env_bind_fails 4
        suite_1.state_init).1 = E_NOT_OK ∧
      (SoAd_SoCon_PerformOpen suite_1.config suite_1.env_bind_fails 4
        suite_1.state_init).2.trace
        = [SoAd_Call.TcpIp_SoAdGetSocket TCPIP_AF_INET TCPIP_IPPROTO_TCP,
            SoAd_Call.TcpIp_Bind 2 0 0, SoAd_Call.TcpIp_Close 2 true] ∧
      SoAd_SoCon_PerformOpen_slot suite_1.config 4
        (SoAd_SoCon_PerformOpen suite_1.config suite_1.env_bind_fails 4
          suite_1.state_init).2 = TCPIP_SOCKETID_INVALID ∧
      (SoAd_SoCon_PerformOpen suite_1.config suite_1.env_get_socket_fails 4
        suite_1.state_init).2.trace
        = [SoAd_Call.TcpIp_SoAdGetSocket TCPIP_AF_INET TCPIP_IPPROTO_TCP] ∧
      SoAd_SoCon_PerformOpen_slot suite_1.config 4
        (SoAd_SoCon_PerformOpen suite_1.config suite_1.env_get_socket_fails 4
          suite_1.state_init).2 = TCPIP_SOCKETID_INVALID :=
  ⟨by decide, by decide, by decide,
    ((SoAd_SoCon_PerformOpen_failure suite_1.config suite_1.env_bind_fails 4
      suite_1.state_init (by decide) (E_OK, 2) (by decide)).1 (by decide) (by decide)).2.2.2,
    by decide,
    ((SoAd_SoCon_PerformOpen_failure suite_1.config suite_1.env_get_socket_fails 4
      suite_1.state_init (by decide) (E_NOT_OK, TCPIP_SOCKETID_INVALID) (by decide)).2.1
      (by decide)).2.2.2 (by decide)⟩

/-- After a `SoAd_SoCon_PerformOpen` that fails, the slot holds no socket (as
before the call), when the transport writes a socket id only on success. -/
theorem SoAd_SoCon_PerformOpen_failed_slot (cfg : SoAd_ConfigType) (env : SoAd_Env)
    (id : Nat) (s : SoAd_State)
    (hfail : (SoAd_SoCon_PerformOpen cfg env id s).1 ≠ E_OK)
    (hleft : (env.TcpIp_SoAdGetSocket s.trace (cfg.group (cfg.connection id).group).domain
        (cfg.group (cfg.connection id).group).protocol).1 ≠ E_OK →
      (env.TcpIp_SoAdGetSocket s.trace (cfg.group (cfg.connection id).group).domain
        (cfg.group (cfg.connection id).group).protocol).2 = TCPIP_SOCKETID_INVALID) :
    SoAd_SoCon_PerformOpen_slot cfg id s = TCPIP_SOCKETID_INVALID ∧
      SoAd_SoCon_PerformOpen_slot cfg id (SoAd_SoCon_PerformOpen cfg env id s).2
        = TCPIP_SOCKETID_INVALID := by
  have hslot : SoAd_SoCon_PerformOpen_slot cfg id s = TCPIP_SOCKETID_INVALID := by
    by_contra h
    rw [SoAd_SoCon_PerformOpen_skip cfg env id s h] at hfail
    exact hfail rfl
  refine ⟨hslot, ?_⟩
  obtain ⟨h1, h2, h3, h4⟩ := SoAd_SoCon_PerformOpen_acquire cfg env id s hslot _ _ _ _ _
    rfl rfl rfl rfl rfl
  by_cases hg : (env.TcpIp_SoAdGetSocket s.trace (cfg.group (cfg.connection id).group).domain
      (cfg.group (cfg.connection id).group).protocol).1 = E_OK
  · by_cases hb : env.TcpIp_Bind
        (s.trace ++ [SoAd_Call.TcpIp_SoAdGetSocket
          (cfg.group (cfg.connection id).group).domain
          (cfg.group (cfg.connection id).group).protocol])
        (env.TcpIp_SoAdGetSocket s.trace (cfg.group (cfg.connection id).group).domain
          (cfg.group (cfg.connection id).group).protocol).2
        (cfg.group (cfg.connection id).group).localaddr
        (cfg.group (cfg.connection id).group).localport = E_OK
    · by_cases htcp : (cfg.group (cfg.connection id).group).protocol = TCPIP_IPPROTO_TCP
      · obtain ⟨h5, -, h7⟩ := h4 hg hb htcp
        rw [h5] at hfail
        rw [h7, if_neg hfail]
      · exact absurd (h3 hg hb htcp).1 hfail
    · exact (h2 hg hb).2.2
  · rw [(h1 hg).2.2]
    exact hleft hg

/-- C28, as stated, fails: in the test suite with a connecting TCP group that
is not automatic, the open of connection 4 requested through the latch
`request_open`, and a transport whose `TcpIp_Bind` fails, the tick attempts
the open, the open fails, and afterwards the open requirements do not hold:
the attempt has cleared the latch. -/
theorem SoAd_SoCon_MainFunction_latch_consumed :
    (suite_1.state_requested.SoAd_SoConStatus 4).state = SOAD_SOCON_OFFLINE ∧
      SoAd_SoCon_CheckOpen suite_1.config_manual 4 suite_1.state_requested = E_OK ∧
      (SoAd_SoCon_PerformOpen suite_1.config_manual suite_1.env_bind_fails 4
        suite_1.state_requested).1 = E_NOT_OK ∧
      SoAd_SoCon_CheckOpen suite_1.config_manual 4
        (SoAd_SoCon_MainFunction suite_1.config_manual suite_1.env_bind_fails 4
          suite_1.state_requested) = E_NOT_OK ∧
      ((SoAd_SoCon_MainFunction suite_1.config_manual suite_1.env_bind_fails 4
        suite_1.state_requested).SoAd_SoConStatus 4).request_open = false := by
  decide

/-- C28, amended.  For an OFFLINE connection on which a tick attempted an
open that failed, with a transport that writes a socket id only on success:
the connection is still OFFLINE and its latch `request_open` is cleared.  For
a connection of an automatic group the open requirements still hold, so the
next tick attempts the open again; for a connection of a group that is not
automatic they do not hold any more: the attempt consumed the latch. -/
theorem SoAd_SoCon_MainFunction_open_failed (cfg : SoAd_ConfigType) (env : SoAd_Env)
    (id : Nat) (s : SoAd_State)
    (hst : (s.SoAd_SoConStatus id).state = SOAD_SOCON_OFFLINE)
    (hcheck : SoAd_SoCon_CheckOpen cfg id s = E_OK)
    (hfail : (SoAd_SoCon_PerformOpen cfg env id s).1 ≠ E_OK)
    (hleft : (env.TcpIp_SoAdGetSocket s.trace (cfg.group (cfg.connection id).group).domain
        (cfg.group (cfg.connection id).group).protocol).1 ≠ E_OK →
      (env.TcpIp_SoAdGetSocket s.trace (cfg.group (cfg.connection id).group).domain
        (cfg.group (cfg.connection id).group).protocol).2 = TCPIP_SOCKETID_INVALID) :
    ((SoAd_SoCon_MainFunction cfg env id s).SoAd_SoConStatus id).state = SOAD_SOCON_OFFLINE ∧
      ((SoAd_SoCon_MainFunction cfg env id s).SoAd_SoConStatus id).request_open = false ∧
      ((cfg.group (cfg.connection id).group).automatic = true →
        SoAd_SoCon_CheckOpen cfg id (SoAd_SoCon_MainFunction cfg env id s) = E_OK) ∧
      ((cfg.group (cfg.connection id).group).automatic = false →
        SoAd_SoCon_CheckOpen cfg id (SoAd_SoCon_MainFunction cfg env id s) = E_NOT_OK) := by
  have hmain : SoAd_SoCon_MainFunction cfg env id s
      = (SoAd_SoCon_PerformOpen cfg env id s).2 := by
    rw [SoAd_SoCon_MainFunction_offline cfg env id s hst]
    unfold SoAd_SoCon_State_Offline
    simp only [hcheck, hfail, if_true, if_false]
  obtain ⟨hstatus, hpassive, hinitiate⟩ := SoAd_SoCon_PerformOpen_status cfg env id s
  obtain ⟨-, hslot'⟩ := SoAd_SoCon_PerformOpen_failed_slot cfg env id s hfail hleft
  obtain ⟨hsock, -, hdomain⟩ := (SoAd_SoCon_CheckOpen_eq_ok cfg id s).mp hcheck
  have hsock' : ((SoAd_SoCon_PerformOpen cfg env id s).2.SoAd_SoConStatus id).socket_id
      = TCPIP_SOCKETID_INVALID := by
    by_cases hi : (cfg.group (cfg.connection id).group).initiate = true
    · rw [hinitiate hi, hslot']
    · rw [hpassive (by simpa using hi), hsock]
  have hlatch : ((SoAd_SoCon_PerformOpen cfg env id s).2.SoAd_SoConStatus id).request_open
      = false := by rw [hstatus]
  have hremote : ((SoAd_SoCon_PerformOpen cfg env id s).2.SoAd_SoConStatus id).remote
      = (s.SoAd_SoConStatus id).remote := by rw [hstatus]
  rw [hmain]
  refine ⟨by rw [hstatus]; exact hst, hlatch, fun hauto => ?_, fun hauto => ?_⟩
  · rw [SoAd_SoCon_CheckOpen_eq_ok]
    exact ⟨hsock', Or.inl hauto, by rw [hremote]; exact hdomain⟩
  · unfold SoAd_SoCon_CheckOpen
    simp [hsock', hauto, hlatch]

theorem SoAd_SoCon_MainFunction_open_failed_witness :
    (suite_1.state_init.SoAd_SoConStatus 4).state = SOAD_SOCON_OFFLINE ∧
      SoAd_SoCon_CheckOpen suite_1.config 4 suite_1.state_init = E_OK ∧
      (SoAd_SoCon_PerformOpen suite_1.config suite_1.env_bind_fails 4
        suite_1.state_init).1 ≠ E_OK ∧
      (suite_1.config.group (suite_1.config.connection 4).group).automatic = true ∧
      SoAd_SoCon_CheckOpen suite_1.config 4
        (SoAd_SoCon_MainFunction suite_1.config suite_1.env_bind_fails 4
          suite_1.state_init) = E_OK :=
  ⟨by decide, by decide, by decide, by decide,
    (SoAd_SoCon_MainFunction_open_failed suite_1.config suite_1.env_bind_fails 4
      suite_1.state_init (by decide) (by decide) (by decide)
      (fun h => absurd (by decide) h)).2.2.1 (by decide)⟩

/-! ## What the transmit side and the latches leave alone -/

theorem SoAd_State.link_eq_iff (s s' : SoAd_State) :
    s'.link = s.link ↔
      (∀ j, (s'.SoAd_SoConStatus j).state = (s.SoAd_SoConStatus j).state ∧
        (s'.SoAd_SoConStatus j).socket_id = (s.SoAd_SoConStatus j).socket_id ∧
        (s'.SoAd_SoConStatus j).remote = (s.SoAd_SoConStatus j).remote ∧
        (s'.SoAd_SoConStatus j).rx_route = (s.SoAd_SoConStatus j).rx_route) ∧
      s'.SoAd_SoGrpStatus = s.SoAd_SoGrpStatus := by
  unfold SoAd_State.link
  simp only [Prod.mk.injEq, funext_iff]

theorem SoAd_State.link_setCon (s : SoAd_State) (id : Nat) (status : SoAd_SoConStatusType)
    (h1 : status.state = (s.SoAd_SoConStatus id).state)
    (h2 : status.socket_id = (s.SoAd_SoConStatus id).socket_id)
    (h3 : status.remote = (s.SoAd_SoConStatus id).remote)
    (h4 : status.rx_route = (s.SoAd_SoConStatus id).rx_route) :
    (s.setCon id status).link = s.link := by
  rw [SoAd_State.link_eq_iff]
  refine ⟨fun j => ?_, rfl⟩
  by_cases hj : j = id
  · subst hj; simp [h1, h2, h3, h4]
  · simp [SoAd_State.setCon_con_ne _ _ _ _ hj]

@[simp] theorem SoAd_State.link_call (s : SoAd_State) (c : SoAd_Call) :
    (s.call c).link = s.link := rfl

theorem SoAd_SoCon_ProcessClose_link (id : Nat) (s : SoAd_State) :
    (SoAd_SoCon_ProcessClose id s).link = s.link := by
  unfold SoAd_SoCon_ProcessClose
  simp only []
  split_ifs <;> simp [SoAd_State.link_setCon]

theorem SoAd_SoCon_ProcessTransmit_link (cfg : SoAd_ConfigType) (env : SoAd_Env) (id : Nat)
    (s : SoAd_State) : (SoAd_SoCon_ProcessTransmit cfg env id s).link = s.link := by
  unfold SoAd_SoCon_ProcessTransmit
  simp only []
  cases hr : (s.SoAd_SoConStatus id).tx_route with
  | none => rfl
  | some route =>
    simp only []
    split_ifs <;> simp [SoAd_State.link_setCon]

theorem SoAd_RxIndication_SoCon_link (env : SoAd_Env) (con_id : Nat) (buf : List Nat)
    (len : Nat) (s : SoAd_State) :
    (SoAd_RxIndication_SoCon env con_id buf len s).2.link = s.link := by
  obtain ⟨h1, h2⟩ := SoAd_RxIndication_SoCon_frame env con_id buf len s
  unfold SoAd_State.link
  rw [h1, h2]

theorem SoAd_IfTransmit_link (cfg : SoAd_ConfigType) (env : SoAd_Env) (fuel pdu_id : Nat)
    (pdu_info : PduInfoType) (s : SoAd_State) (res : Std_ReturnType) (s' : SoAd_State)
    (h : SoAd_IfTransmit cfg env fuel pdu_id pdu_info s = some (res, s')) :
    s'.link = s.link := by
  unfold SoAd_IfTransmit at h
  split_ifs at h with hlt
  swap
  · simp only [Option.some.injEq, Prod.mk.injEq] at h
    rw [← h.2]; simp
  · cases hr : SoAd_GetPduRoute cfg fuel pdu_id with
    | none => simp [hr] at h
    | some v =>
      obtain ⟨r, route⟩ := v
      cases route with
      | none =>
        simp only [hr, Option.some.injEq, Prod.mk.injEq] at h
        rw [← h.2]
      | some route =>
        simp only [hr] at h
        split_ifs at h <;> simp only [Option.some.injEq, Prod.mk.injEq] at h <;>
          rw [← h.2] <;> simp

theorem SoAd_TpTransmit_link (cfg : SoAd_ConfigType) (env : SoAd_Env) (fuel pdu_id : Nat)
    (pdu_info : PduInfoType) (s : SoAd_State) (res : Std_ReturnType) (s' : SoAd_State)
    (h : SoAd_TpTransmit cfg env fuel pdu_id pdu_info s = some (res, s')) :
    s'.link = s.link := by
  unfold SoAd_TpTransmit at h
  split_ifs at h with hlt
  swap
  · simp only [Option.some.injEq, Prod.mk.injEq] at h
    rw [← h.2]; simp
  · cases hr : SoAd_GetPduRoute cfg fuel pdu_id with
    | none => simp [hr] at h
    | some v =>
      obtain ⟨r, route⟩ := v
      cases route with
      | none =>
        simp only [hr, Option.some.injEq, Prod.mk.injEq] at h
        rw [← h.2]
      | some route =>
        simp only [hr] at h
        split_ifs at h
        · simp only [Option.some.injEq, Prod.mk.injEq] at h
          rw [← h.2]
          exact SoAd_State.link_setCon _ _ _ rfl rfl rfl rfl
        · simp only [Option.some.injEq, Prod.mk.injEq] at h
          rw [← h.2]

theorem SoAd_CopyTxData_link (cfg : SoAd_ConfigType) (env : SoAd_Env) (socket_id : Nat)
    (buf : List Nat) (len : Nat) (s : SoAd_State) (res : BufReq_ReturnType) (s' : SoAd_State)
    (h : SoAd_CopyTxData cfg env socket_id buf len s = some (res, s')) : s'.link = s.link := by
  unfold SoAd_CopyTxData at h
  cases hl : SoAd_SoCon_Lookup cfg s socket_id with
  | none =>
    simp only [hl, Option.some.injEq, Prod.mk.injEq] at h
    rw [← h.2]
  | some id_con =>
    simp only [hl] at h
    cases ht : (s.SoAd_SoConStatus id_con).tx_route with
    | none => simp [ht] at h
    | some route =>
      simp only [ht] at h
      split_ifs at h <;> simp only [Option.some.injEq, Prod.mk.injEq] at h <;>
        rw [← h.2] <;> simp [SoAd_State.link_setCon]

/-- A property of the state that every operation keeps is kept by every
sequence of operations. -/
theorem SoAd_run_invariant (cfg : SoAd_ConfigType) (env : SoAd_Env) (fuel : Nat)
    (P : SoAd_State → Prop)
    (hstep : ∀ op s s', P s → SoAd_Op.run cfg env fuel op s = some s' → P s')
    (ops : List SoAd_Op) (s final : SoAd_State) (hs : P s)
    (hrun : SoAd_run cfg env fuel ops s = some final) : P final := by
  induction ops generalizing s with
  | nil =>
    simp only [SoAd_run, Option.some.injEq] at hrun
    rw [← hrun]; exact hs
  | cons op ops ih =>
    rw [SoAd_run] at hrun
    cases hop : op.run cfg env fuel s with
    | none => simp [hop] at hrun
    | some s1 =>
      rw [hop] at hrun
      exact ih s1 (hstep op s s1 hs hop) hrun

/-- A property of the state that depends only on the link part of the status
and that the tick of an OFFLINE connection keeps, is kept by
`SoAd_MainFunction`. -/
theorem SoAd_MainFunction_invariant (cfg : SoAd_ConfigType) (env : SoAd_Env)
    (P : SoAd_State → Prop)
    (hlink : ∀ s s', s'.link = s.link → P s → P s')
    (hoffline : ∀ id s, id < SOAD_CFG_CONNECTION_COUNT cfg →
      (s.SoAd_SoConStatus id).state = SOAD_SOCON_OFFLINE → P s →
        P (SoAd_SoCon_State_Offline cfg env id s))
    (s : SoAd_State) (hs : P s) : P (SoAd_MainFunction cfg env s) := by
  unfold SoAd_MainFunction
  have hfold : ∀ n, n ≤ SOAD_CFG_CONNECTION_COUNT cfg →
      P ((List.range n).foldl (fun s id => SoAd_SoCon_MainFunction cfg env id s) s) := by
    intro n
    induction n with
    | zero => intro _; exact hs
    | succ n ih =>
      intro hn
      rw [List.range_succ, List.foldl_append]
      simp only [List.foldl_cons, List.foldl_nil]
      have hprev := ih (by omega)
      generalize (List.range n).foldl (fun s id => SoAd_SoCon_MainFunction cfg env id s) s
        = t at hprev
      unfold SoAd_SoCon_MainFunction
      cases hst : (t.SoAd_SoConStatus n).state with
      | SOAD_SOCON_OFFLINE => exact hoffline n t (by omega) hst hprev
      | SOAD_SOCON_RECONNECT =>
        exact hlink t _ (SoAd_SoCon_ProcessClose_link n t) hprev
      | SOAD_SOCON_ONLINE =>
        refine hlink t _ ?_ hprev
        simp only [SoAd_SoCon_State_Online]
        rw [SoAd_SoCon_ProcessTransmit_link, SoAd_SoCon_ProcessClose_link]
  exact hfold _ le_rfl

/-- A property of the state that depends only on the link part of the status
and that the tick of an OFFLINE connection and the four callbacks of the
transport keep, is kept by every operation. -/
theorem SoAd_Op_run_invariant (cfg : SoAd_ConfigType) (env : SoAd_Env) (fuel : Nat)
    (P : SoAd_State → Prop)
    (hlink : ∀ s s', s'.link = s.link → P s → P s')
    (hoffline : ∀ id s, id < SOAD_CFG_CONNECTION_COUNT cfg →
      (s.SoAd_SoConStatus id).state = SOAD_SOCON_OFFLINE → P s →
        P (SoAd_SoCon_State_Offline cfg env id s))
    (hrx : ∀ socket_id remote buf len s, P s →
      P (SoAd_RxIndication cfg env socket_id remote buf len s))
    (haccepted : ∀ socket_id socket_id_connected remote s, P s →
      P (SoAd_TcpAccepted cfg env socket_id socket_id_connected remote s).2)
    (hconnected : ∀ socket_id s, P s → P (SoAd_TcpConnected cfg env socket_id s))
    (hevent : ∀ id_con socket_id event s, P s →
      P (SoAd_TcpIpEvent cfg env id_con socket_id event s))
    (op : SoAd_Op) (s s' : SoAd_State) (hs : P s)
    (hrun : SoAd_Op.run cfg env fuel op s = some s') : P s' := by
  cases op with
  | MainFunction =>
    simp only [SoAd_Op.run, Option.some.injEq] at hrun
    rw [← hrun]
    exact SoAd_MainFunction_invariant cfg env P hlink hoffline s hs
  | RxIndication socket_id remote buf len =>
    simp only [SoAd_Op.run, Option.some.injEq] at hrun
    rw [← hrun]; exact hrx socket_id remote buf len s hs
  | TcpAccepted socket_id socket_id_connected remote =>
    simp only [SoAd_Op.run, Option.some.injEq] at hrun
    rw [← hrun]; exact haccepted socket_id socket_id_connected remote s hs
  | TcpConnected socket_id =>
    simp only [SoAd_Op.run, Option.some.injEq] at hrun
    rw [← hrun]; exact hconnected socket_id s hs
  | TcpIpEvent id_con socket_id event =>
    simp only [SoAd_Op.run, Option.some.injEq] at hrun
    rw [← hrun]; exact hevent id_con socket_id event s hs
  | IfTransmit pdu_id pdu_info =>
    obtain ⟨res, hres⟩ := Option.map_snd_eq_some _ _ hrun
    exact hlink s s' (SoAd_IfTransmit_link cfg env fuel pdu_id pdu_info s res s' hres) hs
  | TpTransmit pdu_id pdu_info =>
    obtain ⟨res, hres⟩ := Option.map_snd_eq_some _ _ hrun
    exact hlink s s' (SoAd_TpTransmit_link cfg env fuel pdu_id pdu_info s res s' hres) hs
  | CopyTxData socket_id buf len =>
    obtain ⟨res, hres⟩ := Option.map_snd_eq_some _ _ hrun
    exact hlink s s' (SoAd_CopyTxData_link cfg env socket_id buf len s res s' hres) hs

/-- The status `SoAd_Init` leaves in a connection of the configuration. -/
theorem SoAd_Init_con (cfg : SoAd_ConfigType) (s : SoAd_State) (id : Nat)
    (hid : id < SOAD_CFG_CONNECTION_COUNT cfg) :
    (SoAd_Init cfg s).SoAd_SoConStatus id
      = { SoAd_SoConStatus_zero with
          remote :=
            match (cfg.connection id).remote with
            | some remote => SoAd_SockAddrCopy SoAd_SoConStatus_zero.remote remote
            | none => { SoAd_SoConStatus_zero.remote with domain := 0 }
          socket_id := TCPIP_SOCKETID_INVALID
          state := SOAD_SOCON_OFFLINE } := by
  have h1 := (SoAd_Init_SoCon_fold cfg (SOAD_CFG_CONNECTION_COUNT cfg) s).1 id hid
  have h2 := (SoAd_Init_SoGrp_fold cfg (SOAD_CFG_CONNECTIONGROUP_COUNT cfg)
    ((List.range (SOAD_CFG_CONNECTION_COUNT cfg)).foldl
      (fun s id => SoAd_Init_SoCon cfg id s) s)).2
  have h3 : (SoAd_Init cfg s).SoAd_SoConStatus id
      = (SoAd_Init_SoCon cfg id s).SoAd_SoConStatus id := by
    unfold SoAd_Init
    simp only [h2, h1]
  rw [h3]
  cases hr : (cfg.connection id).remote <;>
    simp [SoAd_Init_SoCon, SoAd_State.setCon, SoAd_SoConStatus_zero, hr]

/-! ## OFFLINE connections have no rx route -/

theorem SoAd_SoCon_PerformOpen_con (cfg : SoAd_ConfigType) (env : SoAd_Env) (id : Nat)
    (s : SoAd_State) (j : Nat) :
    ((SoAd_SoCon_PerformOpen cfg env id s).2.SoAd_SoConStatus j).state
        = (s.SoAd_SoConStatus j).state ∧
      ((SoAd_SoCon_PerformOpen cfg env id s).2.SoAd_SoConStatus j).remote
        = (s.SoAd_SoConStatus j).remote ∧
      ((SoAd_SoCon_PerformOpen cfg env id s).2.SoAd_SoConStatus j).rx_route
        = (s.SoAd_SoConStatus j).rx_route := by
  by_cases hj : j = id
  · subst hj
    rw [(SoAd_SoCon_PerformOpen_status cfg env j s).1]
    exact ⟨rfl, rfl, rfl⟩
  · have := ((SoAd_State.others_eq_iff s _ id (cfg.connection id).group).mp
      (SoAd_SoCon_PerformOpen_others cfg env id s)).1 j hj
    rw [this]
    exact ⟨rfl, rfl, rfl⟩

theorem SoAd_SoConStatusType.offline_unbound_congr (a b : SoAd_SoConStatusType)
    (h1 : b.state = a.state) (h2 : b.rx_route = a.rx_route) (h : a.offline_unbound) :
    b.offline_unbound := by
  unfold SoAd_SoConStatusType.offline_unbound at h ⊢
  rw [h1, h2]; exact h

theorem SoAd_SoCon_EnterState_offline_unbound (cfg : SoAd_ConfigType) (env : SoAd_Env)
    (id : Nat) (state : SoAd_SoConStateType) (s : SoAd_State) (j : Nat)
    (h : (s.SoAd_SoConStatus j).offline_unbound) :
    ((SoAd_SoCon_EnterState cfg env id state s).SoAd_SoConStatus j).offline_unbound := by
  by_cases hj : j = id
  · subst hj
    obtain ⟨rx, hst, hoff, -⟩ := SoAd_SoCon_EnterState_status cfg env j state s
    rw [hst]
    intro hstate
    exact hoff hstate
  · rw [SoAd_SoCon_EnterState_other cfg env id state s j hj]
    exact h

theorem SoAd_State.setCon_offline_unbound (s : SoAd_State) (id : Nat)
    (status : SoAd_SoConStatusType) (j : Nat)
    (h1 : status.state = (s.SoAd_SoConStatus id).state)
    (h2 : status.rx_route = (s.SoAd_SoConStatus id).rx_route)
    (h : (s.SoAd_SoConStatus j).offline_unbound) :
    ((s.setCon id status).SoAd_SoConStatus j).offline_unbound := by
  by_cases hj : j = id
  · subst hj
    rw [SoAd_State.setCon_con_same]
    exact SoAd_SoConStatusType.offline_unbound_congr _ _ h1 h2 h
  · rw [SoAd_State.setCon_con_ne _ _ _ _ hj]
    exact h

theorem SoAd_SoCon_State_Offline_offline_unbound (cfg : SoAd_ConfigType) (env : SoAd_Env)
    (id : Nat) (s : SoAd_State) (j : Nat) (h : (s.SoAd_SoConStatus j).offline_unbound) :
    ((SoAd_SoCon_State_Offline cfg env id s).SoAd_SoConStatus j).offline_unbound := by
  have hopen : ((SoAd_SoCon_PerformOpen cfg env id s).2.SoAd_SoConStatus j).offline_unbound :=
    SoAd_SoConStatusType.offline_unbound_congr _ _ (SoAd_SoCon_PerformOpen_con cfg env id s j).1
      (SoAd_SoCon_PerformOpen_con cfg env id s j).2.2 h
  unfold SoAd_SoCon_State_Offline
  simp only []
  split_ifs <;>
    first
    | exact SoAd_SoCon_EnterState_offline_unbound cfg env id _ _ j hopen
    | exact hopen
    | exact h

theorem SoAd_TcpAccepted_offline_unbound (cfg : SoAd_ConfigType) (env : SoAd_Env)
    (socket_id socket_id_connected : Nat) (remote : TcpIp_SockAddrType) (s : SoAd_State)
    (j : Nat) (h : (s.SoAd_SoConStatus j).offline_unbound) :
    ((SoAd_TcpAccepted cfg env socket_id socket_id_connected remote
      s).2.SoAd_SoConStatus j).offline_unbound := by
  unfold SoAd_TcpAccepted
  cases SoAd_SoGrp_Lookup cfg s socket_id with
  | none => exact h
  | some id_group =>
    simp only []
    split_ifs
    · cases SoAd_SoCon_Lookup_FreeSocket cfg s id_group remote with
      | none => exact h
      | some id_connected =>
        simp only []
        apply SoAd_SoCon_EnterState_offline_unbound
        apply SoAd_State.setCon_offline_unbound _ _ _ _ (by simp) (by simp)
        exact SoAd_State.setCon_offline_unbound _ _ _ _ rfl rfl h
    · exact h

theorem SoAd_TcpConnected_offline_unbound (cfg : SoAd_ConfigType) (env : SoAd_Env)
    (socket_id : Nat) (s : SoAd_State) (j : Nat)
    (h : (s.SoAd_SoConStatus j).offline_unbound) :
    ((SoAd_TcpConnected cfg env socket_id s).SoAd_SoConStatus j).offline_unbound := by
  unfold SoAd_TcpConnected
  cases SoAd_SoCon_Lookup cfg s socket_id with
  | none => exact h
  | some id =>
    simp only []
    split_ifs <;>
      first
      | exact SoAd_SoCon_EnterState_offline_unbound cfg env id _ _ j h
      | exact h

theorem SoAd_RxIndication_offline_unbound (cfg : SoAd_ConfigType) (env : SoAd_Env)
    (socket_id : Nat) (remote : TcpIp_SockAddrType) (buf : List Nat) (len : Nat)
    (s : SoAd_State) (j : Nat) (h : (s.SoAd_SoConStatus j).offline_unbound) :
    ((SoAd_RxIndication cfg env socket_id remote buf len s).SoAd_SoConStatus j).offline_unbound
      := by
  have honline : ∀ c restore,
      ((SoAd_RxIndication_RemoteOnline cfg env c remote restore
        s).1.SoAd_SoConStatus j).offline_unbound := by
    intro c restore
    rcases SoAd_RxIndication_RemoteOnline_cases cfg env c remote restore s with ⟨-, h1⟩ | h1
    · rw [h1]
      dsimp only
      apply SoAd_SoCon_EnterState_offline_unbound
      exact SoAd_State.setCon_offline_unbound _ _ _ _ rfl rfl h
    · rw [h1]; exact h
  have hrevert : ∀ c restore state (t : SoAd_State),
      (t.SoAd_SoConStatus j).offline_unbound →
        ((SoAd_RxIndication_RemoteRevert cfg env c restore state
          t).SoAd_SoConStatus j).offline_unbound := by
    intro c restore state t ht
    unfold SoAd_RxIndication_RemoteRevert
    simp only []
    split_ifs
    · apply SoAd_SoCon_EnterState_offline_unbound
      exact SoAd_State.setCon_offline_unbound _ _ _ _ rfl rfl ht
    · exact ht
  unfold SoAd_RxIndication
  cases SoAd_RxIndication_id_con cfg s socket_id remote with
  | none => exact h
  | some c =>
    simp only []
    have hdelivered : ((SoAd_RxIndication_SoCon env c buf len
        (SoAd_RxIndication_RemoteOnline cfg env c remote default
          s).1).2.SoAd_SoConStatus j).offline_unbound := by
      rw [(SoAd_RxIndication_SoCon_frame env c buf len _).1]
      exact honline c default
    split_ifs
    · exact hrevert c _ _ _ hdelivered
    · exact hdelivered

theorem SoAd_TcpIpEvent_offline_unbound (cfg : SoAd_ConfigType) (env : SoAd_Env)
    (id_con socket_id : Nat) (event : TcpIp_EventType) (s : SoAd_State) (j : Nat)
    (h : (s.SoAd_SoConStatus j).offline_unbound) :
    ((SoAd_TcpIpEvent cfg env id_con socket_id event s).SoAd_SoConStatus j).offline_unbound
      := by
  have hclose : ∀ id_grp,
      ((SoAd_SoGrp_Close cfg env id_con id_grp s).SoAd_SoConStatus j).offline_unbound := by
    intro id_grp
    unfold SoAd_SoGrp_Close
    simp only []
    apply foldl_invariant (fun t : SoAd_State => (t.SoAd_SoConStatus j).offline_unbound)
    · exact h
    · intro t c ht
      show ((if _ then _ else _ : SoAd_State).SoAd_SoConStatus j).offline_unbound
      split_ifs
      · exact SoAd_SoCon_EnterState_offline_unbound cfg env c _ t j ht
      · exact ht
  have hrest : ((match SoAd_SoGrp_Lookup cfg s socket_id with
      | some id_grp => SoAd_SoGrp_Close cfg env id_con id_grp s
      | none =>
        match SoAd_SoCon_Lookup cfg s socket_id with
        | some id_con => SoAd_SoCon_EnterState cfg env id_con SOAD_SOCON_OFFLINE s
        | none => s.call
            (SoAd_Call.Det_ReportError SOAD_API_TCPIPEVENT
              SOAD_E_INV_SOCKETID)).SoAd_SoConStatus j).offline_unbound := by
    cases SoAd_SoGrp_Lookup cfg s socket_id with
    | some id_grp => exact hclose id_grp
    | none =>
      simp only []
      cases SoAd_SoCon_Lookup cfg s socket_id with
      | some c => exact SoAd_SoCon_EnterState_offline_unbound cfg env c _ s j h
      | none => exact h
  unfold SoAd_TcpIpEvent
  cases event with
  | TCPIP_TCP_FIN_RECEIVED => exact h
  | other v => exact h
  | TCPIP_TCP_RESET => exact hrest
  | TCPIP_TCP_CLOSED => exact hrest
  | TCPIP_UDP_CLOSED => exact hrest

/-- C21.  After `SoAd_Init` every connection of the configuration is OFFLINE
with no rx route; every operation keeps, for every connection, the property
that it has no rx route bound when it is OFFLINE; hence in every state
reached from `SoAd_Init` by operations of the module, a connection of the
configuration that is OFFLINE has no rx route bound. -/
theorem SoAd_run_offline_unbound (cfg : SoAd_ConfigType) (env : SoAd_Env) (fuel : Nat) :
    (∀ s id, id < SOAD_CFG_CONNECTION_COUNT cfg →
      ((SoAd_Init cfg s).SoAd_SoConStatus id).offline_unbound) ∧
      (∀ op s s' id, (s.SoAd_SoConStatus id).offline_unbound →
        SoAd_Op.run cfg env fuel op s = some s' →
          (s'.SoAd_SoConStatus id).offline_unbound) ∧
      (∀ ops s final id, SoAd_run cfg env fuel ops (SoAd_Init cfg s) = some final →
        id < SOAD_CFG_CONNECTION_COUNT cfg →
        (final.SoAd_SoConStatus id).state = SOAD_SOCON_OFFLINE →
          (final.SoAd_SoConStatus id).rx_route = none) := by
  have hinit : ∀ s id, id < SOAD_CFG_CONNECTION_COUNT cfg →
      ((SoAd_Init cfg s).SoAd_SoConStatus id).offline_unbound := by
    intro s id hid _
    rw [SoAd_Init_con cfg s id hid]
    rfl
  have hstep : ∀ op s s' id, (s.SoAd_SoConStatus id).offline_unbound →
      SoAd_Op.run cfg env fuel op s = some s' → (s'.SoAd_SoConStatus id).offline_unbound := by
    intro op s s' id hs hrun
    refine SoAd_Op_run_invariant cfg env fuel
      (fun t => (t.SoAd_SoConStatus id).offline_unbound) ?_ ?_ ?_ ?_ ?_ ?_ op s s' hs hrun
    · intro t t' hl ht
      obtain ⟨hcon, -⟩ := (SoAd_State.link_eq_iff t t').mp hl
      exact SoAd_SoConStatusType.offline_unbound_congr _ _ (hcon id).1 (hcon id).2.2.2 ht
    · intro c t _ _ ht
      exact SoAd_SoCon_State_Offline_offline_unbound cfg env c t id ht
    · intro socket_id remote buf len t ht
      exact SoAd_RxIndication_offline_unbound cfg env socket_id remote buf len t id ht
    · intro socket_id socket_id_connected remote t ht
      exact SoAd_TcpAccepted_offline_unbound cfg env socket_id socket_id_connected remote t id ht
    · intro socket_id t ht
      exact SoAd_TcpConnected_offline_unbound cfg env socket_id t id ht
    · intro id_con socket_id event t ht
      exact SoAd_TcpIpEvent_offline_unbound cfg env id_con socket_id event t id ht
  refine ⟨hinit, hstep, fun ops s final id hrun hid hst => ?_⟩
  exact SoAd_run_invariant cfg env fuel (fun t => (t.SoAd_SoConStatus id).offline_unbound)
    (fun op t t' ht hr => hstep op t t' id ht hr) ops _ final (hinit s id hid) hrun hst

theorem SoAd_run_offline_unbound_witness :
    (SoAd_run suite_1.config suite_1.env 1 (suite_1.ops_accept_reset.take 2)
        (SoAd_Init suite_1.config suite_1.state_dirty)).map
        (fun s => ((s.SoAd_SoConStatus 0).state, (s.SoAd_SoConStatus 0).rx_route))
      = some (SOAD_SOCON_ONLINE, some suite_1.socket_route_1) ∧
      ∃ final, SoAd_run suite_1.config suite_1.env 1 suite_1.ops_accept_reset
          (SoAd_Init suite_1.config suite_1.state_dirty) = some final ∧
        (final.SoAd_SoConStatus 0).state = SOAD_SOCON_OFFLINE ∧
        (final.SoAd_SoConStatus 0).rx_route = none := by
  refine ⟨by decide, ?_⟩
  have hstate : (SoAd_run suite_1.config suite_1.env 1 suite_1.ops_accept_reset
      (SoAd_Init suite_1.config suite_1.state_dirty)).map
      (fun s => (s.SoAd_SoConStatus 0).state) = some SOAD_SOCON_OFFLINE := by decide
  cases h : SoAd_run suite_1.config suite_1.env 1 suite_1.ops_accept_reset
      (SoAd_Init suite_1.config suite_1.state_dirty) with
  | none => rw [h] at hstate; simp at hstate
  | some final =>
    rw [h] at hstate
    simp only [Option.map_some', Option.some.injEq] at hstate
    exact ⟨final, rfl, hstate,
      (SoAd_run_offline_unbound suite_1.config suite_1.env 1).2.2 suite_1.ops_accept_reset
        suite_1.state_dirty final 0 h (by decide) hstate⟩

/-! ## The family of the effective remote -/

theorem SoAd_SockAddrCopy_domain (trg : TcpIp_SockAddrStorageType) (src : TcpIp_SockAddrType) :
    (SoAd_SockAddrCopy trg src).domain = trg.domain ∨
      (SoAd_SockAddrCopy trg src).domain = TCPIP_AF_INET ∨
      (SoAd_SockAddrCopy trg src).domain = TCPIP_AF_INET6 := by
  unfold SoAd_SockAddrCopy
  split_ifs with h1 h2
  · right; left; exact h1
  · right; right; exact h2
  · left; rfl

theorem SoAd_SoConStatusType.remote_family_known_copy (a b : SoAd_SoConStatusType)
    (src : TcpIp_SockAddrType) (h : b.remote = SoAd_SockAddrCopy a.remote src)
    (ha : a.remote_family_known) : b.remote_family_known := by
  unfold SoAd_SoConStatusType.remote_family_known at ha ⊢
  rw [h]
  rcases SoAd_SockAddrCopy_domain a.remote src with h1 | h1 | h1
  · rw [h1]; exact ha
  · right; left; exact h1
  · right; right; exact h1

theorem SoAd_SoCon_EnterState_remote (cfg : SoAd_ConfigType) (env : SoAd_Env) (id : Nat)
    (state : SoAd_SoConStateType) (s : SoAd_State) (j : Nat) :
    ((SoAd_SoCon_EnterState cfg env id state s).SoAd_SoConStatus j).remote
      = (s.SoAd_SoConStatus j).remote := by
  by_cases hj : j = id
  · subst hj
    exact (SoAd_SoCon_EnterState_frame cfg env j state s).2.1
  · rw [SoAd_SoCon_EnterState_other cfg env id state s j hj]

theorem SoAd_SoCon_State_Offline_remote (cfg : SoAd_ConfigType) (env : SoAd_Env) (id : Nat)
    (s : SoAd_State) (j : Nat) :
    ((SoAd_SoCon_State_Offline cfg env id s).SoAd_SoConStatus j).remote
      = (s.SoAd_SoConStatus j).remote := by
  have hopen := (SoAd_SoCon_PerformOpen_con cfg env id s j).2.1
  unfold SoAd_SoCon_State_Offline
  simp only []
  split_ifs <;> simp only [SoAd_SoCon_EnterState_remote, hopen]

theorem SoAd_TcpConnected_remote (cfg : SoAd_ConfigType) (env : SoAd_Env)
    (socket_id : Nat) (s : SoAd_State) (j : Nat) :
    ((SoAd_TcpConnected cfg env socket_id s).SoAd_SoConStatus j).remote
      = (s.SoAd_SoConStatus j).remote := by
  unfold SoAd_TcpConnected
  cases SoAd_SoCon_Lookup cfg s socket_id with
  | none => rfl
  | some id =>
    simp only []
    split_ifs <;> simp only [SoAd_SoCon_EnterState_remote]

theorem SoAd_TcpIpEvent_remote (cfg : SoAd_ConfigType) (env : SoAd_Env)
    (id_con socket_id : Nat) (event : TcpIp_EventType) (s : SoAd_State) (j : Nat) :
    ((SoAd_TcpIpEvent cfg env id_con socket_id event s).SoAd_SoConStatus j).remote
      = (s.SoAd_SoConStatus j).remote := by
  have hclose : ∀ id_grp,
      ((SoAd_SoGrp_Close cfg env id_con id_grp s).SoAd_SoConStatus j).remote
        = (s.SoAd_SoConStatus j).remote := by
    intro id_grp
    unfold SoAd_SoGrp_Close
    simp only []
    apply foldl_invariant
      (fun t : SoAd_State => (t.SoAd_SoConStatus j).remote = (s.SoAd_SoConStatus j).remote)
    · rfl
    · intro t c ht
      show ((if _ then _ else _ : SoAd_State).SoAd_SoConStatus j).remote = _
      split_ifs
      · rw [SoAd_SoCon_EnterState_remote]; exact ht
      · exact ht
  have hrest : ((match SoAd_SoGrp_Lookup cfg s socket_id with
      | some id_grp => SoAd_SoGrp_Close cfg env id_con id_grp s
      | none =>
        match SoAd_SoCon_Lookup cfg s socket_id with
        | some id_con => SoAd_SoCon_EnterState cfg env id_con SOAD_SOCON_OFFLINE s
        | none => s.call
            (SoAd_Call.Det_ReportError SOAD_API_TCPIPEVENT
              SOAD_E_INV_SOCKETID)).SoAd_SoConStatus j).remote
        = (s.SoAd_SoConStatus j).remote := by
    cases SoAd_SoGrp_Lookup cfg s socket_id with
    | some id_grp => exact hclose id_grp
    | none =>
      simp only []
      cases SoAd_SoCon_Lookup cfg s socket_id with
      | some c => exact SoAd_SoCon_EnterState_remote cfg env c _ s j
      | none => rfl
  unfold SoAd_TcpIpEvent
  cases event with
  | TCPIP_TCP_FIN_RECEIVED => rfl
  | other v => rfl
  | TCPIP_TCP_RESET => exact hrest
  | TCPIP_TCP_CLOSED => exact hrest
  | TCPIP_UDP_CLOSED => exact hrest

theorem SoAd_State.setCon_remote_family_known (s : SoAd_State) (id : Nat)
    (status : SoAd_SoConStatusType) (j : Nat) (hstatus : status.remote_family_known)
    (h : (s.SoAd_SoConStatus j).remote_family_known) :
    ((s.setCon id status).SoAd_SoConStatus j).remote_family_known := by
  by_cases hj : j = id
  · subst hj
    rw [SoAd_State.setCon_con_same]
    exact hstatus
  · rw [SoAd_State.setCon_con_ne _ _ _ _ hj]
    exact h

theorem SoAd_SoConStatusType.remote_family_known_congr (a b : SoAd_SoConStatusType)
    (h : b.remote = a.remote) (ha : a.remote_family_known) : b.remote_family_known := by
  unfold SoAd_SoConStatusType.remote_family_known at ha ⊢
  rw [h]; exact ha

theorem SoAd_RxIndication_id_con_lt (cfg : SoAd_ConfigType) (s : SoAd_State)
    (socket_id : Nat) (remote : TcpIp_SockAddrType) (c : Nat)
    (h : SoAd_RxIndication_id_con cfg s socket_id remote = some c) :
    c < SOAD_CFG_CONNECTION_COUNT cfg := by
  unfold SoAd_RxIndication_id_con at h
  cases hc : SoAd_SoCon_Lookup cfg s socket_id with
  | some c' =>
    simp only [hc, Option.some.injEq] at h
    subst h
    exact ((SoAd_SoCon_Lookup_eq_some cfg s socket_id c').mp hc).1
  | none =>
    simp only [hc] at h
    cases hg : SoAd_SoGrp_Lookup cfg s socket_id with
    | none => simp [hg] at h
    | some g =>
      simp only [hg] at h
      exact ((SoAd_SoCon_Lookup_FreeSocket_eq_some cfg s g remote c).mp h).1

theorem SoAd_TcpAccepted_remote_family_known (cfg : SoAd_ConfigType) (env : SoAd_Env)
    (socket_id socket_id_connected : Nat) (remote : TcpIp_SockAddrType) (s : SoAd_State)
    (h : ∀ j, j < SOAD_CFG_CONNECTION_COUNT cfg → (s.SoAd_SoConStatus j).remote_family_known)
    (j : Nat) (hj : j < SOAD_CFG_CONNECTION_COUNT cfg) :
    ((SoAd_TcpAccepted cfg env socket_id socket_id_connected remote
      s).2.SoAd_SoConStatus j).remote_family_known := by
  unfold SoAd_TcpAccepted
  cases SoAd_SoGrp_Lookup cfg s socket_id with
  | none => exact h j hj
  | some id_group =>
    simp only []
    split_ifs
    · cases hf : SoAd_SoCon_Lookup_FreeSocket cfg s id_group remote with
      | none => exact h j hj
      | some c =>
        have hc := ((SoAd_SoCon_Lookup_FreeSocket_eq_some cfg s id_group remote c).mp hf).1
        simp only []
        refine SoAd_SoConStatusType.remote_family_known_congr _ _
          (SoAd_SoCon_EnterState_remote cfg env c _ _ j) ?_
        refine SoAd_State.setCon_remote_family_known _ _ _ _ ?_ ?_
        · exact SoAd_SoConStatusType.remote_family_known_copy (s.SoAd_SoConStatus c) _ remote
            (by simp) (h c hc)
        · exact SoAd_State.setCon_remote_family_known _ _ _ _
            (SoAd_SoConStatusType.remote_family_known_congr _ _ rfl (h c hc)) (h j hj)
    · exact h j hj

theorem SoAd_RxIndication_remote_family_known (cfg : SoAd_ConfigType) (env : SoAd_Env)
    (socket_id : Nat) (remote : TcpIp_SockAddrType) (buf : List Nat) (len : Nat)
    (s : SoAd_State)
    (h : ∀ j, j < SOAD_CFG_CONNECTION_COUNT cfg → (s.SoAd_SoConStatus j).remote_family_known)
    (j : Nat) (hj : j < SOAD_CFG_CONNECTION_COUNT cfg) :
    ((SoAd_RxIndication cfg env socket_id remote buf len
      s).SoAd_SoConStatus j).remote_family_known := by
  have honline : ∀ c, c < SOAD_CFG_CONNECTION_COUNT cfg →
      (∀ j, j < SOAD_CFG_CONNECTION_COUNT cfg →
        ((SoAd_RxIndication_RemoteOnline cfg env c remote default
          s).1.SoAd_SoConStatus j).remote_family_known) ∧
      ((SoAd_RxIndication_RemoteOnline cfg env c remote default s).2.1.domain = 0 ∨
        (SoAd_RxIndication_RemoteOnline cfg env c remote default s).2.1.domain
          = TCPIP_AF_INET ∨
        (SoAd_RxIndication_RemoteOnline cfg env c remote default s).2.1.domain
          = TCPIP_AF_INET6) := by
    intro c hc
    rcases SoAd_RxIndication_RemoteOnline_cases cfg env c remote default s with ⟨-, h1⟩ | h1
    · rw [h1]
      dsimp only
      refine ⟨fun j hj => ?_, h c hc⟩
      refine SoAd_SoConStatusType.remote_family_known_congr _ _
        (SoAd_SoCon_EnterState_remote cfg env c _ _ j) ?_
      exact SoAd_State.setCon_remote_family_known _ _ _ _
        (SoAd_SoConStatusType.remote_family_known_copy (s.SoAd_SoConStatus c) _ remote rfl
          (h c hc)) (h j hj)
    · rw [h1]
      exact ⟨h, Or.inl rfl⟩
  have hrevert : ∀ c (restore : TcpIp_SockAddrStorageType) state (t : SoAd_State),
      (restore.domain = 0 ∨ restore.domain = TCPIP_AF_INET ∨
        restore.domain = TCPIP_AF_INET6) →
      (t.SoAd_SoConStatus j).remote_family_known →
        ((SoAd_RxIndication_RemoteRevert cfg env c restore state
          t).SoAd_SoConStatus j).remote_family_known := by
    intro c restore state t hrestore ht
    unfold SoAd_RxIndication_RemoteRevert
    simp only []
    split_ifs
    · refine SoAd_SoConStatusType.remote_family_known_congr _ _
        (SoAd_SoCon_EnterState_remote cfg env c _ _ j) ?_
      exact SoAd_State.setCon_remote_family_known _ _ _ _ hrestore ht
    · exact ht
  unfold SoAd_RxIndication
  cases hid : SoAd_RxIndication_id_con cfg s socket_id remote with
  | none => exact h j hj
  | some c =>
    have hc := SoAd_RxIndication_id_con_lt cfg s socket_id remote c hid
    simp only []
    have hdelivered : ((SoAd_RxIndication_SoCon env c buf len
        (SoAd_RxIndication_RemoteOnline cfg env c remote default
          s).1).2.SoAd_SoConStatus j).remote_family_known := by
      rw [(SoAd_RxIndication_SoCon_frame env c buf len _).1]
      exact (honline c hc).1 j hj
    split_ifs
    · exact hrevert c _ _ _ (honline c hc).2 hdelivered
    · exact hdelivered

/-- In every state reached from `SoAd_Init`, the effective remote of a
connection of the configuration has the family 0, INET or INET6. -/
theorem SoAd_run_remote_family_known (cfg : SoAd_ConfigType) (env : SoAd_Env) (fuel : Nat)
    (ops : List SoAd_Op) (s final : SoAd_State)
    (hrun : SoAd_run cfg env fuel ops (SoAd_Init cfg s) = some final) (id : Nat)
    (hid : id < SOAD_CFG_CONNECTION_COUNT cfg) :
    (final.SoAd_SoConStatus id).remote_family_known := by
  refine SoAd_run_invariant cfg env fuel
    (fun t => ∀ j, j < SOAD_CFG_CONNECTION_COUNT cfg →
      (t.SoAd_SoConStatus j).remote_family_known) ?_ ops _ final ?_ hrun id hid
  · intro op t t' ht hr
    refine SoAd_Op_run_invariant cfg env fuel
      (fun t => ∀ j, j < SOAD_CFG_CONNECTION_COUNT cfg →
        (t.SoAd_SoConStatus j).remote_family_known) ?_ ?_ ?_ ?_ ?_ ?_ op t t' ht hr
    · intro u u' hl hu j hj
      obtain ⟨hcon, -⟩ := (SoAd_State.link_eq_iff u u').mp hl
      exact SoAd_SoConStatusType.remote_family_known_congr _ _ (hcon j).2.2.1 (hu j hj)
    · intro c u _ _ hu j hj
      exact SoAd_SoConStatusType.remote_family_known_congr _ _
        (SoAd_SoCon_State_Offline_remote cfg env c u j) (hu j hj)
    · intro socket_id remote buf len u hu j hj
      exact SoAd_RxIndication_remote_family_known cfg env socket_id remote buf len u hu j hj
    · intro socket_id socket_id_connected remote u hu j hj
      exact SoAd_TcpAccepted_remote_family_known cfg env socket_id socket_id_connected remote
        u hu j hj
    · intro socket_id u hu j hj
      exact SoAd_SoConStatusType.remote_family_known_congr _ _
        (SoAd_TcpConnected_remote cfg env socket_id u j) (hu j hj)
    · intro id_con socket_id event u hu j hj
      exact SoAd_SoConStatusType.remote_family_known_congr _ _
        (SoAd_TcpIpEvent_remote cfg env id_con socket_id event u j) (hu j hj)
  · intro j hj
    rw [SoAd_Init_con cfg s j hj]
    unfold SoAd_SoConStatusType.remote_family_known
    dsimp only
    cases (cfg.connection j).remote with
    | none => left; rfl
    | some remote =>
      dsimp only
      rcases SoAd_SockAddrCopy_domain SoAd_SoConStatus_zero.remote remote with h | h | h
      · left; rw [h]; rfl
      · right; left; exact h
      · right; right; exact h

/-- C25.  In every state reached from `SoAd_Init` by operations of the
module, for every OFFLINE connection of the configuration: the open check of
the tick succeeds, so that the tick calls `SoAd_SoCon_PerformOpen`, if and
only if the own socket id of the connection is invalid, its group is
automatic or its latch `request_open` is set, and its effective remote has
the family INET or INET6; the state after the tick is then computed from what
`SoAd_SoCon_PerformOpen` returns.  When the requirements do not hold the tick
returns the state it was given: no call is made and no status changes. -/
theorem SoAd_SoCon_MainFunction_attempts_open (cfg : SoAd_ConfigType) (env : SoAd_Env)
    (fuel : Nat) (ops : List SoAd_Op) (s final : SoAd_State)
    (hrun : SoAd_run cfg env fuel ops (SoAd_Init cfg s) = some final) (id : Nat)
    (hid : id < SOAD_CFG_CONNECTION_COUNT cfg)
    (hst : (final.SoAd_SoConStatus id).state = SOAD_SOCON_OFFLINE) :
    (SoAd_SoCon_CheckOpen cfg id final = E_OK ↔
      (final.SoAd_SoConStatus id).socket_id = TCPIP_SOCKETID_INVALID ∧
        ((cfg.group (cfg.connection id).group).automatic = true ∨
          (final.SoAd_SoConStatus id).request_open = true) ∧
        ((final.SoAd_SoConStatus id).remote.domain = TCPIP_AF_INET ∨
          (final.SoAd_SoConStatus id).remote.domain = TCPIP_AF_INET6)) ∧
      (SoAd_SoCon_CheckOpen cfg id final = E_OK →
        SoAd_SoCon_MainFunction cfg env id final
          = if (SoAd_SoCon_PerformOpen cfg env id final).1 = E_OK then
              if (cfg.group (cfg.connection id).group).protocol = TCPIP_IPPROTO_TCP then
                SoAd_SoCon_EnterState cfg env id SOAD_SOCON_RECONNECT
                  (SoAd_SoCon_PerformOpen cfg env id final).2
              else if (cfg.group (cfg.connection id).group).protocol = TCPIP_IPPROTO_UDP then
                if SoAd_SockAddrWildcard
                    ((SoAd_SoCon_PerformOpen cfg env id final).2.SoAd_SoConStatus id).remote
                    = TRUE then
                  SoAd_SoCon_EnterState cfg env id SOAD_SOCON_RECONNECT
                    (SoAd_SoCon_PerformOpen cfg env id final).2
                else
                  SoAd_SoCon_EnterState cfg env id SOAD_SOCON_ONLINE
                    (SoAd_SoCon_PerformOpen cfg env id final).2
              else (SoAd_SoCon_PerformOpen cfg env id final).2
            else (SoAd_SoCon_PerformOpen cfg env id final).2) ∧
      (SoAd_SoCon_CheckOpen cfg id final ≠ E_OK →
        SoAd_SoCon_MainFunction cfg env id final = final) := by
  have hfam := SoAd_run_remote_family_known cfg env fuel ops s final hrun id hid
  have hmain := SoAd_SoCon_MainFunction_offline cfg env id final hst
  refine ⟨?_, fun hcheck => ?_, fun hcheck => ?_⟩
  · rw [SoAd_SoCon_CheckOpen_eq_ok]
    unfold SoAd_SoConStatusType.remote_family_known at hfam
    have h4 : TCPIP_AF_INET ≠ 0 := by decide
    have h6 : TCPIP_AF_INET6 ≠ 0 := by decide
    constructor
    · rintro ⟨h1, h2, h3⟩
      refine ⟨h1, h2, ?_⟩
      rcases hfam with h | h | h
      · exact absurd h h3
      · exact Or.inl h
      · exact Or.inr h
    · rintro ⟨h1, h2, h3⟩
      refine ⟨h1, h2, ?_⟩
      rcases h3 with h | h
      · rw [h]; exact h4
      · rw [h]; exact h6
  · rw [hmain]
    unfold SoAd_SoCon_State_Offline
    simp only [hcheck, if_true]
  · rw [hmain]
    unfold SoAd_SoCon_State_Offline
    simp only [hcheck, if_false]

theorem SoAd_SoCon_MainFunction_attempts_open_witness :
    ∃ final, SoAd_run suite_1.config suite_1.env 1 suite_1.ops_accept_reset
        (SoAd_Init suite_1.config suite_1.state_dirty) = some final ∧
      (final.SoAd_SoConStatus 0).state = SOAD_SOCON_OFFLINE ∧
      (final.SoAd_SoConStatus 0).remote = suite_1.remote_1 ∧
      (SoAd_SoCon_CheckOpen suite_1.config 0 final = E_OK ↔
        (final.SoAd_SoConStatus 0).socket_id = TCPIP_SOCKETID_INVALID ∧
          ((suite_1.config.group (suite_1.config.connection 0).group).automatic = true ∨
            (final.SoAd_SoConStatus 0).request_open = true) ∧
          ((final.SoAd_SoConStatus 0).remote.domain = TCPIP_AF_INET ∨
            (final.SoAd_SoConStatus 0).remote.domain = TCPIP_AF_INET6)) := by
  have hstate : (SoAd_run suite_1.config suite_1.env 1 suite_1.ops_accept_reset
      (SoAd_Init suite_1.config suite_1.state_dirty)).map
      (fun s => ((s.SoAd_SoConStatus 0).state, (s.SoAd_SoConStatus 0).remote))
        = some (SOAD_SOCON_OFFLINE, suite_1.remote_1) := by decide
  cases h : SoAd_run suite_1.config suite_1.env 1 suite_1.ops_accept_reset
      (SoAd_Init suite_1.config suite_1.state_dirty) with
  | none => rw [h] at hstate; simp at hstate
  | some final =>
    rw [h] at hstate
    simp only [Option.map_some', Option.some.injEq, Prod.mk.injEq] at hstate
    exact ⟨final, rfl, hstate.1, hstate.2,
      (SoAd_SoCon_MainFunction_attempts_open suite_1.config suite_1.env 1
        suite_1.ops_accept_reset suite_1.state_dirty final h 0 (by decide) hstate.1).1⟩

/-! ## ONLINE connections have a socket -/

theorem SoAd_State.has_socket_congr (cfg : SoAd_ConfigType) (s s' : SoAd_State) (c : Nat)
    (h1 : (s'.SoAd_SoConStatus c).socket_id = (s.SoAd_SoConStatus c).socket_id)
    (h2 : s'.SoAd_SoGrpStatus = s.SoAd_SoGrpStatus) (h : s.has_socket cfg c) :
    s'.has_socket cfg c := by
  unfold SoAd_State.has_socket at h ⊢
  rw [h1, h2]; exact h

theorem SoAd_State.setCon_has_socket (cfg : SoAd_ConfigType) (s : SoAd_State) (id : Nat)
    (status : SoAd_SoConStatusType) (c : Nat)
    (h2 : status.socket_id = (s.SoAd_SoConStatus id).socket_id) (h : s.has_socket cfg c) :
    (s.setCon id status).has_socket cfg c := by
  refine SoAd_State.has_socket_congr cfg s _ c ?_ rfl h
  by_cases hj : c = id
  · subst hj; rw [SoAd_State.setCon_con_same, h2]
  · rw [SoAd_State.setCon_con_ne _ _ _ _ hj]

theorem SoAd_State.online_has_socket_of_link (cfg : SoAd_ConfigType) (s s' : SoAd_State)
    (hl : s'.link = s.link) (h : s.online_has_socket cfg) : s'.online_has_socket cfg := by
  obtain ⟨hcon, hgrp⟩ := (SoAd_State.link_eq_iff s s').mp hl
  intro c hc hst
  rw [(hcon c).1] at hst
  exact SoAd_State.has_socket_congr cfg s s' c (hcon c).2.1 hgrp (h c hc hst)

/-- A write to a connection that keeps its state and its own socket id keeps
the property. -/
theorem SoAd_State.setCon_online_has_socket (cfg : SoAd_ConfigType) (s : SoAd_State)
    (id : Nat) (status : SoAd_SoConStatusType)
    (h1 : status.state = (s.SoAd_SoConStatus id).state)
    (h2 : status.socket_id = (s.SoAd_SoConStatus id).socket_id)
    (h : s.online_has_socket cfg) : (s.setCon id status).online_has_socket cfg := by
  intro c hc hst
  by_cases hj : c = id
  · subst hj
    rw [SoAd_State.setCon_con_same, h1] at hst
    refine SoAd_State.has_socket_congr cfg s _ c ?_ rfl (h c hc hst)
    rw [SoAd_State.setCon_con_same, h2]
  · rw [SoAd_State.setCon_con_ne _ _ _ _ hj] at hst
    refine SoAd_State.has_socket_congr cfg s _ c ?_ rfl (h c hc hst)
    rw [SoAd_State.setCon_con_ne _ _ _ _ hj]

theorem SoAd_SoCon_EnterState_socket_id (cfg : SoAd_ConfigType) (env : SoAd_Env) (id : Nat)
    (state : SoAd_SoConStateType) (s : SoAd_State) (hstate : state ≠ SOAD_SOCON_OFFLINE)
    (j : Nat) :
    ((SoAd_SoCon_EnterState cfg env id state s).SoAd_SoConStatus j).socket_id
      = (s.SoAd_SoConStatus j).socket_id := by
  by_cases hj : j = id
  · subst hj
    obtain ⟨rx, hst, -, -⟩ := SoAd_SoCon_EnterState_status cfg env j state s
    rw [hst]
    simp [hstate]
  · rw [SoAd_SoCon_EnterState_other cfg env id state s j hj]

/-- Entering a state keeps the property, when a connection of the
configuration that enters ONLINE has a socket. -/
theorem SoAd_SoCon_EnterState_online_has_socket (cfg : SoAd_ConfigType) (env : SoAd_Env)
    (id : Nat) (state : SoAd_SoConStateType) (s : SoAd_State)
    (hsock : state = SOAD_SOCON_ONLINE → id < SOAD_CFG_CONNECTION_COUNT cfg →
      s.has_socket cfg id)
    (h : s.online_has_socket cfg) :
    (SoAd_SoCon_EnterState cfg env id state s).online_has_socket cfg := by
  intro c hc hst
  by_cases hj : c = id
  · subst hj
    have hstate : state = SOAD_SOCON_ONLINE := by
      rw [← (SoAd_SoCon_EnterState_frame cfg env c state s).1]; exact hst
    refine SoAd_State.has_socket_congr cfg s _ c ?_ (SoAd_SoCon_EnterState_grp cfg env c state s)
      (hsock hstate hc)
    exact SoAd_SoCon_EnterState_socket_id cfg env c state s (by rw [hstate]; decide) c
  · rw [SoAd_SoCon_EnterState_other cfg env id state s c hj] at hst
    refine SoAd_State.has_socket_congr cfg s _ c ?_ (SoAd_SoCon_EnterState_grp cfg env id state s)
      (h c hc hst)
    rw [SoAd_SoCon_EnterState_other cfg env id state s c hj]

theorem SoAd_TcpConnected_online_has_socket (cfg : SoAd_ConfigType) (env : SoAd_Env)
    (socket_id : Nat) (s : SoAd_State) (hvalid : socket_id ≠ TCPIP_SOCKETID_INVALID)
    (h : s.online_has_socket cfg) :
    (SoAd_TcpConnected cfg env socket_id s).online_has_socket cfg := by
  unfold SoAd_TcpConnected
  cases hl : SoAd_SoCon_Lookup cfg s socket_id with
  | none => exact h
  | some id =>
    have hown := ((SoAd_SoCon_Lookup_eq_some cfg s socket_id id).mp hl).2.1
    simp only []
    split_ifs
    · refine SoAd_SoCon_EnterState_online_has_socket cfg env id _ s (fun _ _ => ?_) h
      left; rw [hown]; exact hvalid
    · exact h
    · exact h
    · exact h

theorem SoAd_TcpAccepted_online_has_socket (cfg : SoAd_ConfigType) (env : SoAd_Env)
    (socket_id socket_id_connected : Nat) (remote : TcpIp_SockAddrType) (s : SoAd_State)
    (hvalid : socket_id ≠ TCPIP_SOCKETID_INVALID) (h : s.online_has_socket cfg) :
    (SoAd_TcpAccepted cfg env socket_id socket_id_connected remote s).2.online_has_socket cfg
      := by
  cases hg : SoAd_SoGrp_Lookup cfg s socket_id with
  | none =>
    unfold SoAd_TcpAccepted
    simp only [hg]
    exact h
  | some g =>
    have hgrp := ((SoAd_SoGrp_Lookup_eq_some cfg s socket_id g).mp hg).2.1
    by_cases hinit : (cfg.group g).initiate = false
    · cases hf : SoAd_SoCon_Lookup_FreeSocket cfg s g remote with
      | none =>
        unfold SoAd_TcpAccepted
        simp only [hg, hinit, hf, if_true]
        exact h
      | some c =>
        have hc := ((SoAd_SoCon_Lookup_FreeSocket_eq_some cfg s g remote c).mp hf).2.1.1
        rw [SoAd_TcpAccepted_found cfg env socket_id socket_id_connected remote s g c hg hinit
          hf]
        dsimp only
        have hsock : (s.setCon c
            { s.SoAd_SoConStatus c with
              socket_id := socket_id_connected
              remote := SoAd_SockAddrCopy (s.SoAd_SoConStatus c).remote remote }).has_socket
              cfg c := by
          unfold SoAd_State.has_socket
          right
          rw [SoAd_State.setCon_grp, hc, hgrp]
          exact hvalid
        refine SoAd_SoCon_EnterState_online_has_socket cfg env c _ _ (fun _ _ => hsock) ?_
        intro j hj hst
        by_cases hjc : j = c
        · subst hjc; exact hsock
        · rw [SoAd_State.setCon_con_ne _ _ _ _ hjc] at hst
          refine SoAd_State.has_socket_congr cfg s _ j ?_ rfl (h j hj hst)
          rw [SoAd_State.setCon_con_ne _ _ _ _ hjc]
    · unfold SoAd_TcpAccepted
      simp only [hg, hinit, if_false]
      exact h

theorem SoAd_RxIndication_online_has_socket (cfg : SoAd_ConfigType) (env : SoAd_Env)
    (socket_id : Nat) (remote : TcpIp_SockAddrType) (buf : List Nat) (len : Nat)
    (s : SoAd_State) (hvalid : socket_id ≠ TCPIP_SOCKETID_INVALID)
    (h : s.online_has_socket cfg) :
    (SoAd_RxIndication cfg env socket_id remote buf len s).online_has_socket cfg := by
  unfold SoAd_RxIndication
  cases hid : SoAd_RxIndication_id_con cfg s socket_id remote with
  | none =>
    exact SoAd_State.online_has_socket_of_link cfg s _ rfl h
  | some c =>
    have hsock : s.has_socket cfg c := by
      unfold SoAd_RxIndication_id_con at hid
      cases hc : SoAd_SoCon_Lookup cfg s socket_id with
      | some c' =>
        simp only [hc, Option.some.injEq] at hid
        subst hid
        left
        rw [((SoAd_SoCon_Lookup_eq_some cfg s socket_id c').mp hc).2.1]
        exact hvalid
      | none =>
        simp only [hc] at hid
        cases hg : SoAd_SoGrp_Lookup cfg s socket_id with
        | none => simp [hg] at hid
        | some g =>
          simp only [hg] at hid
          right
          rw [((SoAd_SoCon_Lookup_FreeSocket_eq_some cfg s g remote c).mp hid).2.1.1,
            ((SoAd_SoGrp_Lookup_eq_some cfg s socket_id g).mp hg).2.1]
          exact hvalid
    have honline : (SoAd_RxIndication_RemoteOnline cfg env c remote default
          s).1.online_has_socket cfg ∧
        (SoAd_RxIndication_RemoteOnline cfg env c remote default s).1.has_socket cfg c := by
      rcases SoAd_RxIndication_RemoteOnline_cases cfg env c remote default s with ⟨-, h1⟩ | h1
      · rw [h1]
        dsimp only
        have hsock' : (s.setCon c
            { s.SoAd_SoConStatus c with
              remote := SoAd_SockAddrCopy (s.SoAd_SoConStatus c).remote remote }).has_socket
              cfg c :=
          SoAd_State.setCon_has_socket cfg s c _ c rfl hsock
        refine ⟨SoAd_SoCon_EnterState_online_has_socket cfg env c _ _ (fun _ _ => hsock')
          (SoAd_State.setCon_online_has_socket cfg s c _ rfl rfl h), ?_⟩
        exact SoAd_State.has_socket_congr cfg _ _ c
          (SoAd_SoCon_EnterState_socket_id cfg env c _ _ (by decide) c)
          (SoAd_SoCon_EnterState_grp cfg env c _ _) hsock'
      · rw [h1]
        exact ⟨h, hsock⟩
    have hdelivered : (SoAd_RxIndication_SoCon env c buf len
          (SoAd_RxIndication_RemoteOnline cfg env c remote default
            s).1).2.online_has_socket cfg ∧
        (SoAd_RxIndication_SoCon env c buf len
          (SoAd_RxIndication_RemoteOnline cfg env c remote default s).1).2.has_socket cfg c := by
      obtain ⟨h1, h2⟩ := SoAd_RxIndication_SoCon_frame env c buf len
        (SoAd_RxIndication_RemoteOnline cfg env c remote default s).1
      exact ⟨SoAd_State.online_has_socket_of_link cfg _ _
          (SoAd_RxIndication_SoCon_link env c buf len _) honline.1,
        SoAd_State.has_socket_congr cfg _ _ c (by rw [h1]) h2 honline.2⟩
    simp only []
    split_ifs
    · unfold SoAd_RxIndication_RemoteRevert
      simp only []
      split_ifs
      · refine SoAd_SoCon_EnterState_online_has_socket cfg env c _ _ (fun _ _ => ?_)
          (SoAd_State.setCon_online_has_socket cfg _ c _ rfl rfl hdelivered.1)
        exact SoAd_State.setCon_has_socket cfg _ c _ c rfl hdelivered.2
      · exact hdelivered.1
    · exact hdelivered.1

theorem SoAd_SoGrp_Close_online_has_socket (cfg : SoAd_ConfigType) (env : SoAd_Env)
    (g : Nat) (s : SoAd_State) (h : s.online_has_socket cfg) :
    (SoAd_SoGrp_Close cfg env g g s).online_has_socket cfg := by
  unfold SoAd_SoGrp_Close
  simp only []
  have hfold : ∀ n, n ≤ SOAD_CFG_CONNECTION_COUNT cfg →
      ∀ j, j < SOAD_CFG_CONNECTION_COUNT cfg →
        (((List.range n).foldl
          (fun s id_con =>
            if (cfg.connection id_con).group = g
                ∧ (s.SoAd_SoConStatus id_con).socket_id = TCPIP_SOCKETID_INVALID then
              SoAd_SoCon_EnterState cfg env id_con SOAD_SOCON_OFFLINE s
            else s)
          (s.setGrp g { s.SoAd_SoGrpStatus g with
            socket_id := TCPIP_SOCKETID_INVALID })).SoAd_SoConStatus j).state
            = SOAD_SOCON_ONLINE →
          ((List.range n).foldl
            (fun s id_con =>
              if (cfg.connection id_con).group = g
                  ∧ (s.SoAd_SoConStatus id_con).socket_id = TCPIP_SOCKETID_INVALID then
                SoAd_SoCon_EnterState cfg env id_con SOAD_SOCON_OFFLINE s
              else s)
            (s.setGrp g { s.SoAd_SoGrpStatus g with
              socket_id := TCPIP_SOCKETID_INVALID })).has_socket cfg j
            ∨ ((cfg.connection j).group = g ∧ n ≤ j) := by
    intro n
    induction n with
    | zero =>
      intro _ j hj hst
      simp only [List.range_zero, List.foldl_nil, SoAd_State.setGrp_con] at hst ⊢
      rcases h j hj hst with hown | hgrp
      · left; left; exact hown
      · by_cases hjg : (cfg.connection j).group = g
        · right; exact ⟨hjg, Nat.zero_le _⟩
        · left; right
          rw [SoAd_State.setGrp_grp_ne _ _ _ _ hjg]
          exact hgrp
    | succ n ih =>
      intro hn j hj
      rw [List.range_succ, List.foldl_append]
      simp only [List.foldl_cons, List.foldl_nil]
      have hprev := ih (by omega) j hj
      generalize (List.range n).foldl
        (fun s id_con =>
          if (cfg.connection id_con).group = g
              ∧ (s.SoAd_SoConStatus id_con).socket_id = TCPIP_SOCKETID_INVALID then
            SoAd_SoCon_EnterState cfg env id_con SOAD_SOCON_OFFLINE s
          else s)
        (s.setGrp g { s.SoAd_SoGrpStatus g with socket_id := TCPIP_SOCKETID_INVALID })
        = t at hprev
      by_cases hcond : (cfg.connection n).group = g
          ∧ (t.SoAd_SoConStatus n).socket_id = TCPIP_SOCKETID_INVALID
      · rw [if_pos hcond]
        intro hst
        by_cases hjn : j = n
        · subst hjn
          rw [(SoAd_SoCon_EnterState_frame cfg env j _ t).1] at hst
          exact absurd hst (by decide)
        · rw [SoAd_SoCon_EnterState_other cfg env n _ t j hjn] at hst
          rcases hprev hst with hs | ⟨hjg, hle⟩
          · left
            refine SoAd_State.has_socket_congr cfg t _ j ?_
              (SoAd_SoCon_EnterState_grp cfg env n _ t) hs
            rw [SoAd_SoCon_EnterState_other cfg env n _ t j hjn]
          · right; exact ⟨hjg, by omega⟩
      · rw [if_neg hcond]
        intro hst
        rcases hprev hst with hs | ⟨hjg, hle⟩
        · left; exact hs
        · by_cases hjn : j = n
          · subst hjn
            left; left
            intro hinv
            exact hcond ⟨hjg, hinv⟩
          · right; exact ⟨hjg, by omega⟩
  intro j hj hst
  rcases hfold _ le_rfl j hj hst with hs | ⟨-, hle⟩
  · exact hs
  · omega

theorem SoAd_TcpIpEvent_online_has_socket (cfg : SoAd_ConfigType) (env : SoAd_Env)
    (id_con socket_id : Nat) (event : TcpIp_EventType) (s : SoAd_State)
    (hadd : ∀ g, SoAd_SoGrp_Lookup cfg s socket_id = some g → id_con = g)
    (h : s.online_has_socket cfg) :
    (SoAd_TcpIpEvent cfg env id_con socket_id event s).online_has_socket cfg := by
  have hrest : (match SoAd_SoGrp_Lookup cfg s socket_id with
      | some id_grp => SoAd_SoGrp_Close cfg env id_con id_grp s
      | none =>
        match SoAd_SoCon_Lookup cfg s socket_id with
        | some id_con => SoAd_SoCon_EnterState cfg env id_con SOAD_SOCON_OFFLINE s
        | none => s.call
            (SoAd_Call.Det_ReportError SOAD_API_TCPIPEVENT
              SOAD_E_INV_SOCKETID)).online_has_socket cfg := by
    cases hg : SoAd_SoGrp_Lookup cfg s socket_id with
    | some id_grp =>
      simp only []
      rw [hadd id_grp hg]
      exact SoAd_SoGrp_Close_online_has_socket cfg env id_grp s h
    | none =>
      simp only []
      cases SoAd_SoCon_Lookup cfg s socket_id with
      | some c =>
        exact SoAd_SoCon_EnterState_online_has_socket cfg env c _ s
          (fun hst => absurd hst (by decide)) h
      | none => exact SoAd_State.online_has_socket_of_link cfg s _ rfl h
  unfold SoAd_TcpIpEvent
  cases event with
  | TCPIP_TCP_FIN_RECEIVED => exact SoAd_State.online_has_socket_of_link cfg s _ rfl h
  | other v => exact SoAd_State.online_has_socket_of_link cfg s _ rfl h
  | TCPIP_TCP_RESET => exact hrest
  | TCPIP_TCP_CLOSED => exact hrest
  | TCPIP_UDP_CLOSED => exact hrest

theorem SoAd_SoCon_PerformOpen_grp_initiate (cfg : SoAd_ConfigType) (env : SoAd_Env)
    (id : Nat) (s : SoAd_State)
    (hi : (cfg.group (cfg.connection id).group).initiate = true) :
    (SoAd_SoCon_PerformOpen cfg env id s).2.SoAd_SoGrpStatus = s.SoAd_SoGrpStatus := by
  have hstore : ∀ v (t : SoAd_State),
      (SoAd_SoCon_PerformOpen_store cfg id v t).SoAd_SoGrpStatus = t.SoAd_SoGrpStatus := by
    intro v t
    unfold SoAd_SoCon_PerformOpen_store
    simp [hi]
  unfold SoAd_SoCon_PerformOpen
  simp only []
  split_ifs <;> simp [hstore]

/-- A `SoAd_SoCon_PerformOpen` that returns `E_OK` leaves a valid socket id in
the slot, when the transport hands out valid socket ids. -/
theorem SoAd_SoCon_PerformOpen_ok_slot (cfg : SoAd_ConfigType) (env : SoAd_Env)
    (henv : env.sockets_valid) (id : Nat) (s : SoAd_State)
    (hok : (SoAd_SoCon_PerformOpen cfg env id s).1 = E_OK) :
    SoAd_SoCon_PerformOpen_slot cfg id (SoAd_SoCon_PerformOpen cfg env id s).2
      ≠ TCPIP_SOCKETID_INVALID := by
  by_cases hslot : SoAd_SoCon_PerformOpen_slot cfg id s = TCPIP_SOCKETID_INVALID
  · obtain ⟨h1, h2, h3, h4⟩ := SoAd_SoCon_PerformOpen_acquire cfg env id s hslot _ _ _ _ _
      rfl rfl rfl rfl rfl
    by_cases hg : (env.TcpIp_SoAdGetSocket s.trace (cfg.group (cfg.connection id).group).domain
        (cfg.group (cfg.connection id).group).protocol).1 = E_OK
    · have hvalid := henv _ _ _ hg
      by_cases hb : env.TcpIp_Bind
          (s.trace ++ [SoAd_Call.TcpIp_SoAdGetSocket
            (cfg.group (cfg.connection id).group).domain
            (cfg.group (cfg.connection id).group).protocol])
          (env.TcpIp_SoAdGetSocket s.trace (cfg.group (cfg.connection id).group).domain
            (cfg.group (cfg.connection id).group).protocol).2
          (cfg.group (cfg.connection id).group).localaddr
          (cfg.group (cfg.connection id).group).localport = E_OK
      · by_cases htcp : (cfg.group (cfg.connection id).group).protocol = TCPIP_IPPROTO_TCP
        · obtain ⟨h5, -, h7⟩ := h4 hg hb htcp
          rw [h5] at hok
          rw [h7, if_pos hok]
          exact hvalid
        · rw [(h3 hg hb htcp).2.2]
          exact hvalid
      · exact absurd ((h2 hg hb).1 ▸ hok) hb
    · exact absurd ((h1 hg).1 ▸ hok) hg
  · rw [SoAd_SoCon_PerformOpen_skip cfg env id s hslot]
    dsimp only
    rw [SoAd_SoCon_PerformOpen_slot_latch]
    exact hslot

theorem SoAd_SoCon_PerformOpen_slot_has_socket (cfg : SoAd_ConfigType) (id : Nat)
    (s : SoAd_State) (h : SoAd_SoCon_PerformOpen_slot cfg id s ≠ TCPIP_SOCKETID_INVALID) :
    s.has_socket cfg id := by
  unfold SoAd_SoCon_PerformOpen_slot at h
  unfold SoAd_State.has_socket
  simp only [] at h
  split_ifs at h
  · left; exact h
  · right; exact h

theorem SoAd_SoCon_PerformOpen_online_has_socket (cfg : SoAd_ConfigType) (env : SoAd_Env)
    (id : Nat) (s : SoAd_State)
    (hst : (s.SoAd_SoConStatus id).state = SOAD_SOCON_OFFLINE)
    (h : s.online_has_socket cfg) :
    (SoAd_SoCon_PerformOpen cfg env id s).2.online_has_socket cfg := by
  obtain ⟨hcon, hgrp⟩ := (SoAd_State.others_eq_iff s _ id (cfg.connection id).group).mp
    (SoAd_SoCon_PerformOpen_others cfg env id s)
  intro j hj hon
  rw [(SoAd_SoCon_PerformOpen_con cfg env id s j).1] at hon
  have hjid : j ≠ id := by
    intro e
    rw [e, hst] at hon
    exact absurd hon (by decide)
  unfold SoAd_State.has_socket
  rw [hcon j hjid]
  rcases h j hj hon with hown | hg
  · left; exact hown
  · right
    by_cases hjg : (cfg.connection j).group = (cfg.connection id).group
    · by_cases hi : (cfg.group (cfg.connection id).group).initiate = true
      · rw [SoAd_SoCon_PerformOpen_grp_initiate cfg env id s hi]
        exact hg
      · have hslot : SoAd_SoCon_PerformOpen_slot cfg id s ≠ TCPIP_SOCKETID_INVALID := by
          unfold SoAd_SoCon_PerformOpen_slot
          simp only [hi, Bool.false_eq_true, if_false]
          rw [← hjg]
          exact hg
        rw [SoAd_SoCon_PerformOpen_skip cfg env id s hslot]
        exact hg
    · rw [hgrp _ hjg]
      exact hg

theorem SoAd_SoCon_State_Offline_online_has_socket (cfg : SoAd_ConfigType) (env : SoAd_Env)
    (henv : env.sockets_valid) (id : Nat) (s : SoAd_State)
    (hst : (s.SoAd_SoConStatus id).state = SOAD_SOCON_OFFLINE)
    (h : s.online_has_socket cfg) :
    (SoAd_SoCon_State_Offline cfg env id s).online_has_socket cfg := by
  have hopen := SoAd_SoCon_PerformOpen_online_has_socket cfg env id s hst h
  unfold SoAd_SoCon_State_Offline
  simp only []
  by_cases hcheck : SoAd_SoCon_CheckOpen cfg id s = E_OK
  · rw [if_pos hcheck]
    by_cases hok : (SoAd_SoCon_PerformOpen cfg env id s).1 = E_OK
    · rw [if_pos hok]
      have hsock := SoAd_SoCon_PerformOpen_slot_has_socket cfg id _
        (SoAd_SoCon_PerformOpen_ok_slot cfg env henv id s hok)
      split_ifs <;>
        first
        | exact SoAd_SoCon_EnterState_online_has_socket cfg env id _ _ (fun _ _ => hsock) hopen
        | exact hopen
    · rw [if_neg hok]
      exact hopen
  · rw [if_neg hcheck]
    exact h

/-- A call into the module that names a socket keeps the property, when the
transport hands out valid socket ids. -/
theorem SoAd_Op_run_online_has_socket (cfg : SoAd_ConfigType) (env : SoAd_Env) (fuel : Nat)
    (henv : env.sockets_valid) (op : SoAd_Op) (s s' : SoAd_State)
    (hadd : op.addressed cfg s = true) (h : s.online_has_socket cfg)
    (hrun : op.run cfg env fuel s = some s') : s'.online_has_socket cfg := by
  cases op with
  | MainFunction =>
    simp only [SoAd_Op.run, Option.some.injEq] at hrun
    rw [← hrun]
    exact SoAd_MainFunction_invariant cfg env (fun t => t.online_has_socket cfg)
      (fun t t' hl ht => SoAd_State.online_has_socket_of_link cfg t t' hl ht)
      (fun id t _ hst ht => SoAd_SoCon_State_Offline_online_has_socket cfg env henv id t hst ht)
      s h
  | RxIndication socket_id remote buf len =>
    simp only [SoAd_Op.run, Option.some.injEq] at hrun
    simp only [SoAd_Op.addressed, decide_eq_true_eq] at hadd
    rw [← hrun]
    exact SoAd_RxIndication_online_has_socket cfg env socket_id remote buf len s hadd h
  | TcpAccepted socket_id socket_id_connected remote =>
    simp only [SoAd_Op.run, Option.some.injEq] at hrun
    simp only [SoAd_Op.addressed, decide_eq_true_eq] at hadd
    rw [← hrun]
    exact SoAd_TcpAccepted_online_has_socket cfg env socket_id socket_id_connected remote s
      hadd h
  | TcpConnected socket_id =>
    simp only [SoAd_Op.run, Option.some.injEq] at hrun
    simp only [SoAd_Op.addressed, decide_eq_true_eq] at hadd
    rw [← hrun]
    exact SoAd_TcpConnected_online_has_socket cfg env socket_id s hadd h
  | TcpIpEvent id_con socket_id event =>
    simp only [SoAd_Op.run, Option.some.injEq] at hrun
    rw [← hrun]
    refine SoAd_TcpIpEvent_online_has_socket cfg env id_con socket_id event s (fun g hg => ?_) h
    simp only [SoAd_Op.addressed, hg, decide_eq_true_eq] at hadd
    exact hadd
  | IfTransmit pdu_id pdu_info =>
    obtain ⟨res, hres⟩ := Option.map_snd_eq_some _ _ hrun
    exact SoAd_State.online_has_socket_of_link cfg s s'
      (SoAd_IfTransmit_link cfg env fuel pdu_id pdu_info s res s' hres) h
  | TpTransmit pdu_id pdu_info =>
    obtain ⟨res, hres⟩ := Option.map_snd_eq_some _ _ hrun
    exact SoAd_State.online_has_socket_of_link cfg s s'
      (SoAd_TpTransmit_link cfg env fuel pdu_id pdu_info s res s' hres) h
  | CopyTxData socket_id buf len =>
    obtain ⟨res, hres⟩ := Option.map_snd_eq_some _ _ hrun
    exact SoAd_State.online_has_socket_of_link cfg s s'
      (SoAd_CopyTxData_link cfg env socket_id buf len s res s' hres) h

/-- C22, as stated, fails: with the connecting TCP group of the test suite
alone, right after `SoAd_Init`, `SoAd_TcpConnected(TCPIP_SOCKETID_INVALID)`
finds connection 0, whose own socket id is invalid, and moves it to ONLINE:
the connection is ONLINE, its own socket id is invalid and so is the socket
id of its group. -/
theorem SoAd_TcpConnected_invalid_socket_online :
    (SoAd_run suite_1.config_connect suite_1.env 1
        [SoAd_Op.TcpConnected TCPIP_SOCKETID_INVALID]
        (SoAd_Init suite_1.config_connect suite_1.state_dirty)).map
        (fun s => ((s.SoAd_SoConStatus 0).state, (s.SoAd_SoConStatus 0).socket_id,
          (s.SoAd_SoGrpStatus (suite_1.config_connect.connection 0).group).socket_id,
          decide (s.online_has_socket suite_1.config_connect)))
      = some (SOAD_SOCON_ONLINE, TCPIP_SOCKETID_INVALID, TCPIP_SOCKETID_INVALID, false) := by
  decide

/-- C22, amended.  In every state reached from `SoAd_Init` by operations of
the module, with a transport that hands out valid socket ids, socket ids
passed to `SoAd_RxIndication`, `SoAd_TcpAccepted` (the listen socket) and
`SoAd_TcpConnected` that are not `TCPIP_SOCKETID_INVALID`, and the group of
the socket as the value of the uninitialised index of `SoAd_SoGrp_Close`: a
connection of the configuration that is ONLINE has a valid own socket id or
its group has a valid socket id. -/
theorem SoAd_run_online_has_socket (cfg : SoAd_ConfigType) (env : SoAd_Env) (fuel : Nat)
    (henv : env.sockets_valid) (ops : List SoAd_Op) (s final : SoAd_State)
    (hrun : SoAd_run cfg env fuel ops (SoAd_Init cfg s) = some final)
    (hadd : SoAd_run_addressed cfg env fuel ops (SoAd_Init cfg s) = true) (c : Nat)
    (hc : c < SOAD_CFG_CONNECTION_COUNT cfg)
    (hst : (final.SoAd_SoConStatus c).state = SOAD_SOCON_ONLINE) :
    (final.SoAd_SoConStatus c).socket_id ≠ TCPIP_SOCKETID_INVALID ∨
      (final.SoAd_SoGrpStatus (cfg.connection c).group).socket_id
        ≠ TCPIP_SOCKETID_INVALID := by
  have hinit : (SoAd_Init cfg s).online_has_socket cfg := by
    intro j hj hon
    rw [SoAd_Init_con cfg s j hj] at hon
    simp at hon
  have hgen : ∀ (ops : List SoAd_Op) (t : SoAd_State), t.online_has_socket cfg →
      SoAd_run cfg env fuel ops t = some final →
      SoAd_run_addressed cfg env fuel ops t = true → final.online_has_socket cfg := by
    intro ops
    induction ops with
    | nil =>
      intro t ht hrun _
      simp only [SoAd_run, Option.some.injEq] at hrun
      rw [← hrun]; exact ht
    | cons op ops ih =>
      intro t ht hrun hadd
      rw [SoAd_run] at hrun
      rw [SoAd_run_addressed] at hadd
      cases hop : op.run cfg env fuel t with
      | none => simp [hop] at hrun
      | some t1 =>
        rw [hop] at hrun
        simp only [hop, Bool.and_eq_true] at hadd
        exact ih t1 (SoAd_Op_run_online_has_socket cfg env fuel henv op t t1 hadd.1 ht hop)
          hrun hadd.2
  exact hgen ops _ hinit hrun hadd c hc hst

theorem suite_1_env_sockets_valid : suite_1.env.sockets_valid := by
  intro t domain protocol _
  show 2 + _ % 98 ≠ 65535
  omega

theorem SoAd_run_online_has_socket_witness :
    SoAd_run_addressed suite_1.config suite_1.env 1 suite_1.ops_two_datagrams
        (SoAd_Init suite_1.config suite_1.state_dirty) = true ∧
      ∃ final, SoAd_run suite_1.config suite_1.env 1 suite_1.ops_two_datagrams
          (SoAd_Init suite_1.config suite_1.state_dirty) = some final ∧
        (final.SoAd_SoConStatus 2).state = SOAD_SOCON_ONLINE ∧
        (final.SoAd_SoConStatus 2).socket_id = TCPIP_SOCKETID_INVALID ∧
        ((final.SoAd_SoConStatus 2).socket_id ≠ TCPIP_SOCKETID_INVALID ∨
          (final.SoAd_SoGrpStatus (suite_1.config.connection 2).group).socket_id
            ≠ TCPIP_SOCKETID_INVALID) := by
  refine ⟨by decide, ?_⟩
  have hstate : (SoAd_run suite_1.config suite_1.env 1 suite_1.ops_two_datagrams
      (SoAd_Init suite_1.config suite_1.state_dirty)).map
      (fun s => ((s.SoAd_SoConStatus 2).state, (s.SoAd_SoConStatus 2).socket_id))
        = some (SOAD_SOCON_ONLINE, TCPIP_SOCKETID_INVALID) := by decide
  cases h : SoAd_run suite_1.config suite_1.env 1 suite_1.ops_two_datagrams
      (SoAd_Init suite_1.config suite_1.state_dirty) with
  | none => rw [h] at hstate; simp at hstate
  | some final =>
    rw [h] at hstate
    simp only [Option.map_some', Option.some.injEq, Prod.mk.injEq] at hstate
    exact ⟨final, rfl, hstate.1, hstate.2,
      SoAd_run_online_has_socket suite_1.config suite_1.env 1 suite_1_env_sockets_valid
        suite_1.ops_two_datagrams suite_1.state_dirty final h (by decide) 2 (by decide)
        hstate.1⟩

/-! ## The close latch -/

/-- What `SoAd_SoCon_ProcessClose` does: one `TcpIp_Close` of the own socket
when the latch is set and the socket id is valid, no call otherwise; the
latch is clear afterwards and nothing else is written. -/
theorem SoAd_SoCon_ProcessClose_calls (id : Nat) (s : SoAd_State) :
    (SoAd_SoCon_ProcessClose id s).trace
        = s.trace ++
          (if (s.SoAd_SoConStatus id).request_close = true ∧
              (s.SoAd_SoConStatus id).socket_id ≠ TCPIP_SOCKETID_INVALID then
            [SoAd_Call.TcpIp_Close (s.SoAd_SoConStatus id).socket_id
              (s.SoAd_SoConStatus id).request_abort]
          else []) ∧
      (SoAd_SoCon_ProcessClose id s).SoAd_SoConStatus id
        = { s.SoAd_SoConStatus id with request_close := false } ∧
      (∀ j, j ≠ id →
        (SoAd_SoCon_ProcessClose id s).SoAd_SoConStatus j = s.SoAd_SoConStatus j) ∧
      (SoAd_SoCon_ProcessClose id s).SoAd_SoGrpStatus = s.SoAd_SoGrpStatus := by
  unfold SoAd_SoCon_ProcessClose
  simp only []
  by_cases hc : (s.SoAd_SoConStatus id).request_close = true
  · by_cases hv : (s.SoAd_SoConStatus id).socket_id ≠ TCPIP_SOCKETID_INVALID
    · simp only [hc, hv, if_true, and_self, ne_eq, not_false_eq_true]
      refine ⟨rfl, by simp [SoAd_State.call], fun j hj => ?_, rfl⟩
      rw [SoAd_State.setCon_con_ne _ _ _ _ hj]; rfl
    · simp only [hc, hv, if_true, if_false, and_false, List.append_nil]
      refine ⟨rfl, by simp, fun j hj => ?_, rfl⟩
      rw [SoAd_State.setCon_con_ne _ _ _ _ hj]
  · have hf : (s.SoAd_SoConStatus id).request_close = false := by
      simpa using hc
    rw [if_neg hc, if_neg (fun h => hc h.1), List.append_nil]
    refine ⟨rfl, ?_, fun _ _ => rfl, rfl⟩
    rw [← hf]

/-- What `SoAd_SoCon_ProcessTransmit` calls: it only adds calls, none of them
a `TcpIp_Close`, at most one of them a transmit of the transport and at most
one a `tx_confirmation`; it leaves the close latch as it is. -/
theorem SoAd_SoCon_ProcessTransmit_calls (cfg : SoAd_ConfigType) (env : SoAd_Env) (id : Nat)
    (s : SoAd_State) :
    s.trace <+: (SoAd_SoCon_ProcessTransmit cfg env id s).trace ∧
      (SoAd_SoCon_ProcessTransmit cfg env id s).trace.filter SoAd_Call.closes
        = s.trace.filter SoAd_Call.closes ∧
      (SoAd_SoCon_ProcessTransmit cfg env id s).trace.countP SoAd_Call.transmits
        ≤ s.trace.countP SoAd_Call.transmits + 1 ∧
      (SoAd_SoCon_ProcessTransmit cfg env id s).trace.countP SoAd_Call.confirms
        ≤ s.trace.countP SoAd_Call.confirms + 1 ∧
      ((SoAd_SoCon_ProcessTransmit cfg env id s).SoAd_SoConStatus id).request_close
        = (s.SoAd_SoConStatus id).request_close := by
  unfold SoAd_SoCon_ProcessTransmit
  simp only []
  cases hr : (s.SoAd_SoConStatus id).tx_route with
  | none => simp
  | some route =>
    simp only []
    refine ⟨?_, ?_, ?_, ?_, ?_⟩ <;>
      split_ifs <;>
      simp [SoAd_State.setCon, SoAd_State.call, List.countP_append, List.filter_append,
        SoAd_Call.closes, SoAd_Call.transmits, SoAd_Call.confirms]

/-- The tick of connection `c` inside `SoAd_MainFunction` finds the status
of `c` as it was before `SoAd_MainFunction`, and the ticks of the other
connections leave what it wrote: the status of `c` after `SoAd_MainFunction`
is the one after the tick of `c` in a state `t` with that status of `c`. -/
theorem SoAd_MainFunction_con (cfg : SoAd_ConfigType) (env : SoAd_Env) (s : SoAd_State)
    (c : Nat) (hc : c < SOAD_CFG_CONNECTION_COUNT cfg) :
    ∃ t, t.SoAd_SoConStatus c = s.SoAd_SoConStatus c ∧
      (SoAd_MainFunction cfg env s).SoAd_SoConStatus c
        = (SoAd_SoCon_MainFunction cfg env c t).SoAd_SoConStatus c := by
  have hother : ∀ j (t : SoAd_State), j ≠ c →
      (SoAd_SoCon_MainFunction cfg env j t).SoAd_SoConStatus c = t.SoAd_SoConStatus c := by
    intro j t hj
    exact ((SoAd_State.others_eq_iff t _ j (cfg.connection j).group).mp
      (SoAd_SoCon_MainFunction_others cfg env j t)).1 c (Ne.symm hj)
  have hbefore : ∀ n, n ≤ c →
      ((List.range n).foldl
        (fun s id => SoAd_SoCon_MainFunction cfg env id s) s).SoAd_SoConStatus c
        = s.SoAd_SoConStatus c := by
    intro n
    induction n with
    | zero => intro _; rfl
    | succ n ih =>
      intro hn
      rw [List.range_succ, List.foldl_append]
      simp only [List.foldl_cons, List.foldl_nil]
      rw [hother n _ (by omega), ih (by omega)]
  have hafter : ∀ n, c < n →
      ((List.range n).foldl
          (fun s id => SoAd_SoCon_MainFunction cfg env id s) s).SoAd_SoConStatus c
        = (SoAd_SoCon_MainFunction cfg env c
            ((List.range c).foldl
              (fun s id => SoAd_SoCon_MainFunction cfg env id s) s)).SoAd_SoConStatus c := by
    intro n
    induction n with
    | zero => intro h; omega
    | succ n ih =>
      intro hn
      rw [List.range_succ, List.foldl_append]
      simp only [List.foldl_cons, List.foldl_nil]
      rcases Nat.lt_or_ge c n with h | h
      · rw [hother n _ (by omega), ih h]
      · have : n = c := by omega
        subst this
        rfl
  exact ⟨_, hbefore c le_rfl, hafter _ hc⟩

/-- C32.  The tick of a connection that is in RECONNECT or ONLINE.  After it
the latch `request_close` is clear.  The calls made before are still there,
and the `TcpIp_Close` calls among the calls of the tick are: the one call
`TcpIp_Close(socket_id, request_abort)` with the own socket id and the abort
latch of the connection when `request_close` was set and the own socket id
was valid, none when it was set and the own socket id was invalid, none when
it was not set.  For a connection in RECONNECT that is all the tick calls,
so it issues no `TcpIp_UdpTransmit` and no `TcpIp_TcpTransmit`.  The latch
of a connection of the configuration is also clear after the
`SoAd_MainFunction` that ticks every connection. -/
theorem SoAd_SoCon_MainFunction_honors_close (cfg : SoAd_ConfigType) (env : SoAd_Env)
    (id : Nat) (s : SoAd_State)
    (hst : (s.SoAd_SoConStatus id).state = SOAD_SOCON_RECONNECT ∨
      (s.SoAd_SoConStatus id).state = SOAD_SOCON_ONLINE) :
    ((SoAd_SoCon_MainFunction cfg env id s).SoAd_SoConStatus id).request_close = false ∧
      s.trace <+: (SoAd_SoCon_MainFunction cfg env id s).trace ∧
      ((s.SoAd_SoConStatus id).request_close = true →
        (s.SoAd_SoConStatus id).socket_id ≠ TCPIP_SOCKETID_INVALID →
          (SoAd_SoCon_MainFunction cfg env id s).trace.filter SoAd_Call.closes
            = s.trace.filter SoAd_Call.closes ++
              [SoAd_Call.TcpIp_Close (s.SoAd_SoConStatus id).socket_id
                (s.SoAd_SoConStatus id).request_abort]) ∧
      ((s.SoAd_SoConStatus id).request_close = true →
        (s.SoAd_SoConStatus id).socket_id = TCPIP_SOCKETID_INVALID →
          (SoAd_SoCon_MainFunction cfg env id s).trace.filter SoAd_Call.closes
            = s.trace.filter SoAd_Call.closes) ∧
      ((s.SoAd_SoConStatus id).request_close = false →
        (SoAd_SoCon_MainFunction cfg env id s).trace.filter SoAd_Call.closes
          = s.trace.filter SoAd_Call.closes) ∧
      ((s.SoAd_SoConStatus id).state = SOAD_SOCON_RECONNECT →
        (SoAd_SoCon_MainFunction cfg env id s).trace
            = s.trace ++
              (if (s.SoAd_SoConStatus id).request_close = true ∧
                  (s.SoAd_SoConStatus id).socket_id ≠ TCPIP_SOCKETID_INVALID then
                [SoAd_Call.TcpIp_Close (s.SoAd_SoConStatus id).socket_id
                  (s.SoAd_SoConStatus id).request_abort]
              else []) ∧
          (SoAd_SoCon_MainFunction cfg env id s).trace.countP SoAd_Call.transmits
            = s.trace.countP SoAd_Call.transmits) ∧
      (id < SOAD_CFG_CONNECTION_COUNT cfg →
        ((SoAd_MainFunction cfg env s).SoAd_SoConStatus id).request_close = false) := by
  have hlatch : ∀ t : SoAd_State,
      (t.SoAd_SoConStatus id).state = SOAD_SOCON_RECONNECT ∨
        (t.SoAd_SoConStatus id).state = SOAD_SOCON_ONLINE →
      ((SoAd_SoCon_MainFunction cfg env id t).SoAd_SoConStatus id).request_close = false := by
    intro t ht
    obtain ⟨-, hcs, -, -⟩ := SoAd_SoCon_ProcessClose_calls id t
    obtain ⟨-, -, -, -, htl⟩ :=
      SoAd_SoCon_ProcessTransmit_calls cfg env id (SoAd_SoCon_ProcessClose id t)
    rcases ht with h | h
    · simp only [SoAd_SoCon_MainFunction, h, SoAd_SoCon_State_Reconnect]
      rw [hcs]
    · simp only [SoAd_SoCon_MainFunction, h, SoAd_SoCon_State_Online]
      rw [htl, hcs]
  obtain ⟨hct, hcs, -, -⟩ := SoAd_SoCon_ProcessClose_calls id s
  obtain ⟨htp, htf, -, -, htl⟩ :=
    SoAd_SoCon_ProcessTransmit_calls cfg env id (SoAd_SoCon_ProcessClose id s)
  have hclosed : (SoAd_SoCon_ProcessClose id s).trace.filter SoAd_Call.closes
      = s.trace.filter SoAd_Call.closes ++
          (if (s.SoAd_SoConStatus id).request_close = true ∧
              (s.SoAd_SoConStatus id).socket_id ≠ TCPIP_SOCKETID_INVALID then
            [SoAd_Call.TcpIp_Close (s.SoAd_SoConStatus id).socket_id
              (s.SoAd_SoConStatus id).request_abort]
          else []) := by
    rw [hct, List.filter_append]
    split_ifs <;> simp [SoAd_Call.closes]
  have hfront : s.trace <+: (SoAd_SoCon_ProcessClose id s).trace := by
    rw [hct]; exact List.prefix_append _ _
  have hfilter : (SoAd_SoCon_MainFunction cfg env id s).trace.filter SoAd_Call.closes
      = (SoAd_SoCon_ProcessClose id s).trace.filter SoAd_Call.closes := by
    rcases hst with h | h
    · simp only [SoAd_SoCon_MainFunction, h, SoAd_SoCon_State_Reconnect]
    · simp only [SoAd_SoCon_MainFunction, h, SoAd_SoCon_State_Online]
      exact htf
  refine ⟨hlatch s hst, ?_, fun h1 h2 => ?_, fun h1 h2 => ?_, fun h1 => ?_, fun h => ?_,
    fun hid => ?_⟩
  rotate_right
  · obtain ⟨t, ht, hmain⟩ := SoAd_MainFunction_con cfg env s id hid
    rw [hmain]
    exact hlatch t (by rw [ht]; exact hst)
  · rcases hst with h | h
    · simp only [SoAd_SoCon_MainFunction, h, SoAd_SoCon_State_Reconnect]
      exact hfront
    · simp only [SoAd_SoCon_MainFunction, h, SoAd_SoCon_State_Online]
      exact hfront.trans htp
  · rw [hfilter, hclosed, if_pos ⟨h1, h2⟩]
  · rw [hfilter, hclosed, if_neg (fun h => h.2 h2), List.append_nil]
  · rw [hfilter, hclosed, if_neg (fun h => by simp [h1] at h), List.append_nil]
  · simp only [SoAd_SoCon_MainFunction, h, SoAd_SoCon_State_Reconnect]
    refine ⟨hct, ?_⟩
    rw [hct, List.countP_append]
    split_ifs <;> simp [SoAd_Call.transmits]

theorem SoAd_SoCon_MainFunction_honors_close_witness :
    (suite_1.state_closing.SoAd_SoConStatus 0).state = SOAD_SOCON_ONLINE ∧
      (suite_1.state_closing.SoAd_SoConStatus 0).request_close = true ∧
      (suite_1.state_closing.SoAd_SoConStatus 0).socket_id = 42 ∧
      ((SoAd_SoCon_MainFunction suite_1.config suite_1.env 0
        suite_1.state_closing).SoAd_SoConStatus 0).request_close = false ∧
      (SoAd_SoCon_MainFunction suite_1.config suite_1.env 0
          suite_1.state_closing).trace.filter SoAd_Call.closes
        = suite_1.state_closing.trace.filter SoAd_Call.closes
          ++ [SoAd_Call.TcpIp_Close 42 true] ∧
      (suite_1.state_closing_reconnect.SoAd_SoConStatus 0).state = SOAD_SOCON_RECONNECT ∧
      (SoAd_SoCon_MainFunction suite_1.config suite_1.env 0
          suite_1.state_closing_reconnect).trace = [] :=
  ⟨by decide, by decide, by decide,
    (SoAd_SoCon_MainFunction_honors_close suite_1.config suite_1.env 0
      suite_1.state_closing (Or.inr (by decide))).1,
    (SoAd_SoCon_MainFunction_honors_close suite_1.config suite_1.env 0
      suite_1.state_closing (Or.inr (by decide))).2.2.1 (by decide) (by decide),
    by decide,
    ((SoAd_SoCon_MainFunction_honors_close suite_1.config suite_1.env 0
      suite_1.state_closing_reconnect (Or.inl (by decide))).2.2.2.2.2.1 (by decide)).1⟩

/-! ## The pump on a session with nothing left to send -/

theorem SoAd_SoCon_MainFunction_online (cfg : SoAd_ConfigType) (env : SoAd_Env) (id : Nat)
    (s : SoAd_State) (hst : (s.SoAd_SoConStatus id).state = SOAD_SOCON_ONLINE) :
    SoAd_SoCon_MainFunction cfg env id s
      = SoAd_SoCon_ProcessTransmit cfg env id (SoAd_SoCon_ProcessClose id s) := by
  simp only [SoAd_SoCon_MainFunction, hst, SoAd_SoCon_State_Online]

/-- The calls of `SoAd_SoCon_ProcessClose` are neither transmits of the
transport nor `tx_confirmation` calls. -/
theorem SoAd_SoCon_ProcessClose_counts (id : Nat) (s : SoAd_State) :
    s.trace <+: (SoAd_SoCon_ProcessClose id s).trace ∧
      (SoAd_SoCon_ProcessClose id s).trace.countP SoAd_Call.transmits
        = s.trace.countP SoAd_Call.transmits ∧
      (SoAd_SoCon_ProcessClose id s).trace.countP SoAd_Call.confirms
        = s.trace.countP SoAd_Call.confirms := by
  rw [(SoAd_SoCon_ProcessClose_calls id s).1]
  refine ⟨List.prefix_append _ _, ?_, ?_⟩ <;>
    rw [List.countP_append] <;> split_ifs <;>
    simp [SoAd_Call.transmits, SoAd_Call.confirms]

/-- The tick of an ONLINE connection whose `tx_route` is `route` and whose
`tx_remain` is 0 ends the session: `tx_route` is unbound, the last call of
the tick is the `tx_confirmation` of the route, it is the only
`tx_confirmation` of the tick, and the tick hands data to the transport at
most once. -/
theorem SoAd_SoCon_MainFunction_ends_at_zero (cfg : SoAd_ConfigType) (env : SoAd_Env)
    (id : Nat) (s : SoAd_State) (route : SoAd_PduRouteType)
    (hst : (s.SoAd_SoConStatus id).state = SOAD_SOCON_ONLINE)
    (hroute : (s.SoAd_SoConStatus id).tx_route = some route)
    (hremain : (s.SoAd_SoConStatus id).tx_remain = 0) :
    ((SoAd_SoCon_MainFunction cfg env id s).SoAd_SoConStatus id).tx_route = none ∧
      s.trace <+: (SoAd_SoCon_MainFunction cfg env id s).trace ∧
      (∃ res, (SoAd_SoCon_MainFunction cfg env id s).trace.getLast?
        = some (SoAd_Call.tx_confirmation route.upper route.pdu_id res)) ∧
      (SoAd_SoCon_MainFunction cfg env id s).trace.countP SoAd_Call.confirms
        = s.trace.countP SoAd_Call.confirms + 1 ∧
      (SoAd_SoCon_MainFunction cfg env id s).trace.countP SoAd_Call.transmits
        ≤ s.trace.countP SoAd_Call.transmits + 1 := by
  obtain ⟨-, hcs, -, -⟩ := SoAd_SoCon_ProcessClose_calls id s
  obtain ⟨hcp, hct, hcc⟩ := SoAd_SoCon_ProcessClose_counts id s
  obtain ⟨htp, -, htt, -, -⟩ :=
    SoAd_SoCon_ProcessTransmit_calls cfg env id (SoAd_SoCon_ProcessClose id s)
  have hroute0 : ((SoAd_SoCon_ProcessClose id s).SoAd_SoConStatus id).tx_route = some route := by
    rw [hcs]; exact hroute
  have hremain0 : ((SoAd_SoCon_ProcessClose id s).SoAd_SoConStatus id).tx_remain = 0 := by
    rw [hcs]; exact hremain
  obtain ⟨⟨available, hcon⟩, -, -, hcount⟩ :=
    SoAd_SoCon_ProcessTransmit_step_frame cfg env id route (SoAd_SoCon_ProcessClose id s)
  have hend : ((SoAd_SoCon_ProcessTransmit_step cfg env id route
        (SoAd_SoCon_ProcessClose id s)).2.SoAd_SoConStatus id).tx_remain = 0
      ∨ (SoAd_SoCon_ProcessTransmit_step cfg env id route
        (SoAd_SoCon_ProcessClose id s)).1 ≠ E_OK := by
    left
    rw [hcon]
    simpa using hremain0
  have heq := SoAd_SoCon_ProcessTransmit_eq_step cfg env id (SoAd_SoCon_ProcessClose id s)
    route hroute0
  rw [if_pos hend] at heq
  rw [SoAd_SoCon_MainFunction_online cfg env id s hst]
  refine ⟨?_, hcp.trans htp, ?_, ?_, ?_⟩
  · rw [heq]; simp
  · rw [heq]
    exact ⟨(SoAd_SoCon_ProcessTransmit_step cfg env id route
      (SoAd_SoCon_ProcessClose id s)).1, by simp [SoAd_State.call]⟩
  · rw [heq]
    simp only [SoAd_State.call, SoAd_State.setCon, List.countP_append, List.countP_cons,
      List.countP_nil, SoAd_Call.confirms, if_true, hcount, hcc]
  · rw [← hct]; exact htt

/-- C31, as stated, fails: in the test suite with an upper layer whose
`copy_tx_data` answers `BUFREQ_E_BUSY`, after `SoAd_Init`, the first tick, an
accepted connection and `SoAd_TpTransmit` for PDU 0, connection 0 is ONLINE
with the route of PDU 0 bound, `tx_available` 0 and `tx_remain` 0, and the
query of the next tick is answered `BUFREQ_E_BUSY`; the tick of connection 0
then unbinds `tx_route` and calls `tx_confirmation` for PDU 0 with `E_OK`. -/
theorem SoAd_run_busy_session_confirmed :
    (SoAd_run suite_1.config suite_1.env_busy 1 suite_1.ops_armed
        (SoAd_Init suite_1.config suite_1.state_dirty)).map
      (fun s => ((s.SoAd_SoConStatus 0).state, (s.SoAd_SoConStatus 0).tx_route,
        (s.SoAd_SoConStatus 0).tx_available, (s.SoAd_SoConStatus 0).tx_remain))
      = some (SOAD_SOCON_ONLINE, some suite_1.pdu_route_1, 0, 0) ∧
    (SoAd_run suite_1.config suite_1.env_busy 1 suite_1.ops_armed
        (SoAd_Init suite_1.config suite_1.state_dirty)).map
      (fun s => (suite_1.env_busy.copy_tx_data s.trace 0 0 none 0 0).1)
      = some BUFREQ_E_BUSY ∧
    (SoAd_run suite_1.config suite_1.env_busy 1 suite_1.ops_armed
        (SoAd_Init suite_1.config suite_1.state_dirty)).map
      (fun s => ((SoAd_SoCon_MainFunction suite_1.config suite_1.env_busy 0
        s).SoAd_SoConStatus 0).tx_route)
      = some none ∧
    (SoAd_run suite_1.config suite_1.env_busy 1 suite_1.ops_armed
        (SoAd_Init suite_1.config suite_1.state_dirty)).map
      (fun s => (SoAd_SoCon_MainFunction suite_1.config suite_1.env_busy 0 s).trace.drop
        s.trace.length)
      = some [SoAd_Call.copy_tx_data 0 0 none 0, SoAd_Call.tx_confirmation 0 0 E_OK] := by
  refine ⟨by decide, by decide, by decide, by decide⟩

/-- C31, amended.  The tick of an ONLINE connection whose `tx_route` is
`route`, whose `tx_available` is 0 and whose query `copy_tx_data` is answered
`BUFREQ_E_BUSY`.  When `tx_remain` is not 0: after what the close latch calls,
the query is the only call of the tick, so no transmit is handed to the
transport and no `tx_confirmation` is called; `tx_route` and `tx_remain` are
unchanged, and the status of the connection differs from the one before the
tick only in the close latch (cleared) and in `tx_available` (what the upper
layer left behind the pointer).  When `tx_remain` is 0: no transmit is handed
to the transport either, but the session ends: `tx_route` is unbound and the
call after the query is `tx_confirmation(route.pdu_id, E_OK)`. -/
theorem SoAd_SoCon_MainFunction_busy (cfg : SoAd_ConfigType) (env : SoAd_Env) (id : Nat)
    (s : SoAd_State) (route : SoAd_PduRouteType)
    (hst : (s.SoAd_SoConStatus id).state = SOAD_SOCON_ONLINE)
    (hroute : (s.SoAd_SoConStatus id).tx_route = some route)
    (havailable : (s.SoAd_SoConStatus id).tx_available = 0)
    (hbusy : (env.copy_tx_data (SoAd_SoCon_ProcessClose id s).trace route.upper route.pdu_id
      none 0 0).1 = BUFREQ_E_BUSY) :
    ((s.SoAd_SoConStatus id).tx_remain ≠ 0 →
        (SoAd_SoCon_MainFunction cfg env id s).trace
            = (SoAd_SoCon_ProcessClose id s).trace
              ++ [SoAd_Call.copy_tx_data route.upper route.pdu_id none 0] ∧
          (SoAd_SoCon_MainFunction cfg env id s).trace.countP SoAd_Call.transmits
            = s.trace.countP SoAd_Call.transmits ∧
          (SoAd_SoCon_MainFunction cfg env id s).trace.countP SoAd_Call.confirms
            = s.trace.countP SoAd_Call.confirms ∧
          ((SoAd_SoCon_MainFunction cfg env id s).SoAd_SoConStatus id).tx_route
            = some route ∧
          ((SoAd_SoCon_MainFunction cfg env id s).SoAd_SoConStatus id).tx_remain
            = (s.SoAd_SoConStatus id).tx_remain ∧
          (SoAd_SoCon_MainFunction cfg env id s).SoAd_SoConStatus id
            = { s.SoAd_SoConStatus id with
                request_close := false
                tx_available := (env.copy_tx_data (SoAd_SoCon_ProcessClose id s).trace
                  route.upper route.pdu_id none 0 0).2 }) ∧
      ((s.SoAd_SoConStatus id).tx_remain = 0 →
        (SoAd_SoCon_MainFunction cfg env id s).trace
            = (SoAd_SoCon_ProcessClose id s).trace
              ++ [SoAd_Call.copy_tx_data route.upper route.pdu_id none 0,
                SoAd_Call.tx_confirmation route.upper route.pdu_id E_OK] ∧
          (SoAd_SoCon_MainFunction cfg env id s).trace.countP SoAd_Call.transmits
            = s.trace.countP SoAd_Call.transmits ∧
          ((SoAd_SoCon_MainFunction cfg env id s).SoAd_SoConStatus id).tx_route = none) := by
  obtain ⟨-, hcs, -, -⟩ := SoAd_SoCon_ProcessClose_calls id s
  obtain ⟨-, hct, hcc⟩ := SoAd_SoCon_ProcessClose_counts id s
  have hroute0 : ((SoAd_SoCon_ProcessClose id s).SoAd_SoConStatus id).tx_route = some route := by
    rw [hcs]; exact hroute
  have havailable0 : ((SoAd_SoCon_ProcessClose id s).SoAd_SoConStatus id).tx_available = 0 := by
    rw [hcs]; exact havailable
  have hne : BUFREQ_E_BUSY ≠ BUFREQ_OK := by decide
  have hstep : SoAd_SoCon_ProcessTransmit_step cfg env id route (SoAd_SoCon_ProcessClose id s)
      = (E_OK,
          ((SoAd_SoCon_ProcessClose id s).call
            (SoAd_Call.copy_tx_data route.upper route.pdu_id none 0)).setCon id
            { (SoAd_SoCon_ProcessClose id s).SoAd_SoConStatus id with
              tx_available := (env.copy_tx_data (SoAd_SoCon_ProcessClose id s).trace
                route.upper route.pdu_id none 0 0).2 }) := by
    have hq : SoAd_SoCon_ProcessTransmit_query env id route (SoAd_SoCon_ProcessClose id s)
        = (BUFREQ_E_BUSY,
            ((SoAd_SoCon_ProcessClose id s).call
              (SoAd_Call.copy_tx_data route.upper route.pdu_id none 0)).setCon id
              { (SoAd_SoCon_ProcessClose id s).SoAd_SoConStatus id with
                tx_available := (env.copy_tx_data (SoAd_SoCon_ProcessClose id s).trace
                  route.upper route.pdu_id none 0 0).2 }) := by
      unfold SoAd_SoCon_ProcessTransmit_query
      simp only [havailable0, if_true, hbusy]
      rfl
    unfold SoAd_SoCon_ProcessTransmit_step
    rw [hq]
    unfold SoAd_SoCon_ProcessTransmit_send
    simp only [hne, if_false, if_true]
  have heq := SoAd_SoCon_ProcessTransmit_eq_step cfg env id (SoAd_SoCon_ProcessClose id s)
    route hroute0
  rw [hstep] at heq
  simp only [] at heq
  have hrem0 : ((((SoAd_SoCon_ProcessClose id s).call
        (SoAd_Call.copy_tx_data route.upper route.pdu_id none 0)).setCon id
        { (SoAd_SoCon_ProcessClose id s).SoAd_SoConStatus id with
          tx_available := (env.copy_tx_data (SoAd_SoCon_ProcessClose id s).trace
            route.upper route.pdu_id none 0 0).2 }).SoAd_SoConStatus id).tx_remain
      = (s.SoAd_SoConStatus id).tx_remain := by
    simp [hcs]
  rw [hrem0] at heq
  rw [SoAd_SoCon_MainFunction_online cfg env id s hst]
  refine ⟨fun hr => ?_, fun hr => ?_⟩
  · rw [if_neg (by simp [hr])] at heq
    rw [heq]
    refine ⟨rfl, ?_, ?_, ?_, ?_, ?_⟩
    · simp [SoAd_State.call, SoAd_State.setCon, List.countP_append, SoAd_Call.transmits, hct]
    · simp [SoAd_State.call, SoAd_State.setCon, List.countP_append, SoAd_Call.confirms, hcc]
    · simpa using hroute0
    · simp [hcs]
    · simp [hcs]
  · rw [if_pos (Or.inl hr)] at heq
    rw [heq]
    refine ⟨?_, ?_, ?_⟩
    · simp [SoAd_State.call, SoAd_State.setCon]
    · simp [SoAd_State.call, SoAd_State.setCon, List.countP_append, SoAd_Call.transmits, hct]
    · simp

theorem SoAd_SoCon_MainFunction_busy_witness :
    (suite_1.state_armed_remaining.SoAd_SoConStatus 0).state = SOAD_SOCON_ONLINE ∧
      (suite_1.state_armed_remaining.SoAd_SoConStatus 0).tx_route
        = some suite_1.pdu_route_1 ∧
      (suite_1.state_armed_remaining.SoAd_SoConStatus 0).tx_remain = 65526 ∧
      ((SoAd_SoCon_MainFunction suite_1.config suite_1.env_busy 0
        suite_1.state_armed_remaining).SoAd_SoConStatus 0).tx_route
          = some suite_1.pdu_route_1 ∧
      (SoAd_SoCon_MainFunction suite_1.config suite_1.env_busy 0
        suite_1.state_armed_remaining).trace.countP SoAd_Call.confirms
          = suite_1.state_armed_remaining.trace.countP SoAd_Call.confirms ∧
      ((SoAd_SoCon_MainFunction suite_1.config suite_1.env_busy 0
        suite_1.state_armed).SoAd_SoConStatus 0).tx_route = none := by
  have h1 := (SoAd_SoCon_MainFunction_busy suite_1.config suite_1.env_busy 0
    suite_1.state_armed_remaining suite_1.pdu_route_1 (by decide) (by decide) (by decide)
    (by decide)).1 (by decide)
  have h2 := (SoAd_SoCon_MainFunction_busy suite_1.config suite_1.env_busy 0
    suite_1.state_armed suite_1.pdu_route_1 (by decide) (by decide) (by decide)
    (by decide)).2 (by decide)
  exact ⟨by decide, by decide, by decide, h1.2.2.2.1, h1.2.2.1, h2.2.2⟩

/-! ## The socket route of a connection -/

/-- C33.  `SoAd_GetSocketRoute` for connection `con_id` and any header id,
when no socket route id of a group is above the sentinel
`SOAD_SOCKETROUTEID_INVALID` (the sentinel is the greatest value of the id
type): the result is `E_OK` with the `socket_route_id` of the connection
configuration when that is not the sentinel; otherwise `E_OK` with the
`socket_route_id` of the group of the connection when that is not the
sentinel; otherwise `E_NOT_OK`.  The result is the same for every header
id. -/
theorem SoAd_GetSocketRoute_prefers_connection (cfg : SoAd_ConfigType)
    (con_id header_id : Nat)
    (htyped : (cfg.group (cfg.connection con_id).group).socket_route_id
      ≤ SOAD_SOCKETROUTEID_INVALID) :
    ((cfg.connection con_id).socket_route_id ≠ SOAD_SOCKETROUTEID_INVALID →
        SoAd_GetSocketRoute cfg con_id header_id
          = some (cfg.connection con_id).socket_route_id) ∧
      ((cfg.connection con_id).socket_route_id = SOAD_SOCKETROUTEID_INVALID →
        (cfg.group (cfg.connection con_id).group).socket_route_id
            ≠ SOAD_SOCKETROUTEID_INVALID →
          SoAd_GetSocketRoute cfg con_id header_id
            = some (cfg.group (cfg.connection con_id).group).socket_route_id) ∧
      ((cfg.connection con_id).socket_route_id = SOAD_SOCKETROUTEID_INVALID →
        (cfg.group (cfg.connection con_id).group).socket_route_id
            = SOAD_SOCKETROUTEID_INVALID →
          SoAd_GetSocketRoute cfg con_id header_id = none) ∧
      (∀ other_header_id,
        SoAd_GetSocketRoute cfg con_id other_header_id
          = SoAd_GetSocketRoute cfg con_id header_id) := by
  refine ⟨fun h => ?_, fun h1 h2 => ?_, fun h1 h2 => ?_, fun _ => rfl⟩
  · unfold SoAd_GetSocketRoute
    simp only [h, ne_eq, not_false_eq_true, if_true]
  · have hlt : (cfg.group (cfg.connection con_id).group).socket_route_id
        < SOAD_SOCKETROUTEID_INVALID := lt_of_le_of_ne htyped h2
    unfold SoAd_GetSocketRoute
    simp only [h1, ne_eq, not_true_eq_false, if_false, hlt, if_true]
  · unfold SoAd_GetSocketRoute
    simp only [h1, h2, ne_eq, not_true_eq_false, if_false, lt_irrefl]

theorem SoAd_GetSocketRoute_prefers_connection_witness :
    (suite_1.config.group (suite_1.config.connection 2).group).socket_route_id
        ≤ SOAD_SOCKETROUTEID_INVALID ∧
      (suite_1.config.connection 2).socket_route_id = 1 ∧
      SoAd_GetSocketRoute suite_1.config 2 SOAD_PDUHEADERID_INVALID = some 1 ∧
      SoAd_GetSocketRoute suite_1.config 2 77 = some 1 :=
  ⟨by decide, by decide,
    (SoAd_GetSocketRoute_prefers_connection suite_1.config 2 SOAD_PDUHEADERID_INVALID
      (by decide)).1 (by decide),
    (SoAd_GetSocketRoute_prefers_connection suite_1.config 2 77 (by decide)).1 (by decide)⟩

/-! ## A table with one PDU route -/

/-- C37.  For a PDU route table with exactly one entry: the loop condition
`low < high` of `SoAd_GetPduRoute` is false on entry, so the loop is left at
`low = 0` without a round, whatever the id; `SoAd_GetPduRoute` returns, with
`E_OK` and the entry when `id` is the `pdu_id` of the entry and with
`E_NOT_OK` when it is not; so the result is `E_OK` exactly when `id` is the
`pdu_id` of the entry. -/
theorem SoAd_GetPduRoute_single_entry (cfg : SoAd_ConfigType) (fuel id : Nat)
    (hcount : SOAD_CFG_PDUROUTE_COUNT cfg = 1) :
    cfg.pdu_routes = [cfg.pdu_route 0] ∧
      ¬ (0 < SOAD_CFG_PDUROUTE_COUNT cfg - 1) ∧
      SoAd_GetPduRoute_loop cfg id (SOAD_CFG_PDUROUTE_COUNT cfg - 1) (fuel + 1) 0 = some 0 ∧
      ((cfg.pdu_route 0).pdu_id = id →
        SoAd_GetPduRoute cfg (fuel + 1) id = some (E_OK, some (cfg.pdu_route 0))) ∧
      ((cfg.pdu_route 0).pdu_id ≠ id →
        SoAd_GetPduRoute cfg (fuel + 1) id = some (E_NOT_OK, none)) ∧
      ((SoAd_GetPduRoute cfg (fuel + 1) id).map Prod.fst = some E_OK ↔
        (cfg.pdu_route 0).pdu_id = id) := by
  have hloop : SoAd_GetPduRoute_loop cfg id (SOAD_CFG_PDUROUTE_COUNT cfg - 1) (fuel + 1) 0
      = some 0 := by
    rw [SoAd_GetPduRoute_loop, if_neg (by omega)]
  have hyes : (cfg.pdu_route 0).pdu_id = id →
      SoAd_GetPduRoute cfg (fuel + 1) id = some (E_OK, some (cfg.pdu_route 0)) := by
    intro h
    unfold SoAd_GetPduRoute
    simp only [hloop, h, if_true]
  have hno : (cfg.pdu_route 0).pdu_id ≠ id →
      SoAd_GetPduRoute cfg (fuel + 1) id = some (E_NOT_OK, none) := by
    intro h
    unfold SoAd_GetPduRoute
    simp only [hloop, h, if_false]
  refine ⟨?_, by omega, hloop, hyes, hno, ?_⟩
  · unfold SOAD_CFG_PDUROUTE_COUNT at hcount
    unfold SoAd_ConfigType.pdu_route
    match hr : cfg.pdu_routes, hcount with
    | [r], _ => simp
  · by_cases h : (cfg.pdu_route 0).pdu_id = id
    · simp [hyes h, h]
    · simp [hno h, h, E_OK, E_NOT_OK]

theorem SoAd_GetPduRoute_single_entry_witness :
    SOAD_CFG_PDUROUTE_COUNT suite_1.config = 1 ∧
      suite_1.config.pdu_routes = [suite_1.pdu_route_1] ∧
      SoAd_GetPduRoute suite_1.config 1 0 = some (E_OK, some suite_1.pdu_route_1) ∧
      SoAd_GetPduRoute suite_1.config 1 5 = some (E_NOT_OK, none) :=
  ⟨by decide, by decide,
    (SoAd_GetPduRoute_single_entry suite_1.config 0 0 (by decide)).2.2.2.1 (by decide),
    (SoAd_GetPduRoute_single_entry suite_1.config 0 5 (by decide)).2.2.2.2.1 (by decide)⟩

/-! ## OFFLINE connections hold no socket of their own -/

theorem SoAd_SoConStatusType.offline_released_congr (a b : SoAd_SoConStatusType)
    (h1 : b.state = a.state) (h2 : b.socket_id = a.socket_id) (h : a.offline_released) :
    b.offline_released := by
  unfold SoAd_SoConStatusType.offline_released at h ⊢
  rw [h1, h2]; exact h

/-- After `SoAd_SoCon_EnterState` the connection that entered holds no
socket of its own when it is OFFLINE, whatever it held before; the other
connections are as before. -/
theorem SoAd_SoCon_EnterState_offline_released (cfg : SoAd_ConfigType) (env : SoAd_Env)
    (id : Nat) (state : SoAd_SoConStateType) (s : SoAd_State) (j : Nat)
    (h : j ≠ id → (s.SoAd_SoConStatus j).offline_released) :
    ((SoAd_SoCon_EnterState cfg env id state s).SoAd_SoConStatus j).offline_released := by
  by_cases hj : j = id
  · subst hj
    obtain ⟨rx, hst, -, -⟩ := SoAd_SoCon_EnterState_status cfg env j state s
    rw [hst]
    intro hstate
    have hoff : state = SOAD_SOCON_OFFLINE := hstate
    simp [hoff]
  · rw [SoAd_SoCon_EnterState_other cfg env id state s j hj]
    exact h hj

theorem SoAd_State.setCon_offline_released (s : SoAd_State) (id : Nat)
    (status : SoAd_SoConStatusType) (j : Nat) (hj : j ≠ id)
    (h : (s.SoAd_SoConStatus j).offline_released) :
    ((s.setCon id status).SoAd_SoConStatus j).offline_released := by
  rw [SoAd_State.setCon_con_ne _ _ _ _ hj]
  exact h

theorem SoAd_TcpAccepted_offline_released (cfg : SoAd_ConfigType) (env : SoAd_Env)
    (socket_id socket_id_connected : Nat) (remote : TcpIp_SockAddrType) (s : SoAd_State)
    (j : Nat) (h : (s.SoAd_SoConStatus j).offline_released) :
    ((SoAd_TcpAccepted cfg env socket_id socket_id_connected remote
      s).2.SoAd_SoConStatus j).offline_released := by
  unfold SoAd_TcpAccepted
  cases SoAd_SoGrp_Lookup cfg s socket_id with
  | none => exact h
  | some id_group =>
    simp only []
    split_ifs
    · cases SoAd_SoCon_Lookup_FreeSocket cfg s id_group remote with
      | none => exact h
      | some id_connected =>
        simp only []
        apply SoAd_SoCon_EnterState_offline_released
        intro hj
        apply SoAd_State.setCon_offline_released _ _ _ _ hj
        exact SoAd_State.setCon_offline_released _ _ _ _ hj h
    · exact h

theorem SoAd_TcpConnected_offline_released (cfg : SoAd_ConfigType) (env : SoAd_Env)
    (socket_id : Nat) (s : SoAd_State) (j : Nat)
    (h : (s.SoAd_SoConStatus j).offline_released) :
    ((SoAd_TcpConnected cfg env socket_id s).SoAd_SoConStatus j).offline_released := by
  unfold SoAd_TcpConnected
  cases SoAd_SoCon_Lookup cfg s socket_id with
  | none => exact h
  | some id =>
    simp only []
    split_ifs <;>
      first
      | exact SoAd_SoCon_EnterState_offline_released cfg env id _ _ j (fun _ => h)
      | exact h

theorem SoAd_RxIndication_offline_released (cfg : SoAd_ConfigType) (env : SoAd_Env)
    (socket_id : Nat) (remote : TcpIp_SockAddrType) (buf : List Nat) (len : Nat)
    (s : SoAd_State) (j : Nat) (h : (s.SoAd_SoConStatus j).offline_released) :
    ((SoAd_RxIndication cfg env socket_id remote buf len s).SoAd_SoConStatus j).offline_released
      := by
  have honline : ∀ c restore,
      ((SoAd_RxIndication_RemoteOnline cfg env c remote restore
        s).1.SoAd_SoConStatus j).offline_released := by
    intro c restore
    rcases SoAd_RxIndication_RemoteOnline_cases cfg env c remote restore s with ⟨-, h1⟩ | h1
    · rw [h1]
      dsimp only
      apply SoAd_SoCon_EnterState_offline_released
      intro hj
      exact SoAd_State.setCon_offline_released _ _ _ _ hj h
    · rw [h1]; exact h
  have hrevert : ∀ c restore state (t : SoAd_State),
      (t.SoAd_SoConStatus j).offline_released →
        ((SoAd_RxIndication_RemoteRevert cfg env c restore state
          t).SoAd_SoConStatus j).offline_released := by
    intro c restore state t ht
    unfold SoAd_RxIndication_RemoteRevert
    simp only []
    split_ifs
    · apply SoAd_SoCon_EnterState_offline_released
      intro hj
      exact SoAd_State.setCon_offline_released _ _ _ _ hj ht
    · exact ht
  unfold SoAd_RxIndication
  cases SoAd_RxIndication_id_con cfg s socket_id remote with
  | none => exact h
  | some c =>
    simp only []
    have hdelivered : ((SoAd_RxIndication_SoCon env c buf len
        (SoAd_RxIndication_RemoteOnline cfg env c remote default
          s).1).2.SoAd_SoConStatus j).offline_released := by
      rw [(SoAd_RxIndication_SoCon_frame env c buf len _).1]
      exact honline c default
    split_ifs
    · exact hrevert c _ _ _ hdelivered
    · exact hdelivered

theorem SoAd_TcpIpEvent_offline_released (cfg : SoAd_ConfigType) (env : SoAd_Env)
    (id_con socket_id : Nat) (event : TcpIp_EventType) (s : SoAd_State) (j : Nat)
    (h : (s.SoAd_SoConStatus j).offline_released) :
    ((SoAd_TcpIpEvent cfg env id_con socket_id event s).SoAd_SoConStatus j).offline_released
      := by
  have hclose : ∀ id_grp,
      ((SoAd_SoGrp_Close cfg env id_con id_grp s).SoAd_SoConStatus j).offline_released := by
    intro id_grp
    unfold SoAd_SoGrp_Close
    simp only []
    apply foldl_invariant (fun t : SoAd_State => (t.SoAd_SoConStatus j).offline_released)
    · exact h
    · intro t c ht
      show ((if _ then _ else _ : SoAd_State).SoAd_SoConStatus j).offline_released
      split_ifs
      · exact SoAd_SoCon_EnterState_offline_released cfg env c _ t j (fun _ => ht)
      · exact ht
  have hrest : ((match SoAd_SoGrp_Lookup cfg s socket_id with
      | some id_grp => SoAd_SoGrp_Close cfg env id_con id_grp s
      | none =>
        match SoAd_SoCon_Lookup cfg s socket_id with
        | some id_con => SoAd_SoCon_EnterState cfg env id_con SOAD_SOCON_OFFLINE s
        | none => s.call
            (SoAd_Call.Det_ReportError SOAD_API_TCPIPEVENT
              SOAD_E_INV_SOCKETID)).SoAd_SoConStatus j).offline_released := by
    cases SoAd_SoGrp_Lookup cfg s socket_id with
    | some id_grp => exact hclose id_grp
    | none =>
      simp only []
      cases SoAd_SoCon_Lookup cfg s socket_id with
      | some c => exact SoAd_SoCon_EnterState_offline_released cfg env c _ s j (fun _ => h)
      | none => exact h
  unfold SoAd_TcpIpEvent
  cases event with
  | TCPIP_TCP_FIN_RECEIVED => exact h
  | other v => exact h
  | TCPIP_TCP_RESET => exact hrest
  | TCPIP_TCP_CLOSED => exact hrest
  | TCPIP_UDP_CLOSED => exact hrest

/-- The tick of an OFFLINE connection `id` of a TCP or UDP group keeps the
property for every connection: a successful open moves `id` out of OFFLINE,
and a failed one leaves `id` without a socket of its own when the transport
writes a socket id only on success. -/
theorem SoAd_SoCon_State_Offline_offline_released (cfg : SoAd_ConfigType) (env : SoAd_Env)
    (henv : env.sockets_on_success) (id : Nat) (s : SoAd_State)
    (hproto : (cfg.group (cfg.connection id).group).protocol = TCPIP_IPPROTO_TCP ∨
      (cfg.group (cfg.connection id).group).protocol = TCPIP_IPPROTO_UDP)
    (j : Nat) (h : (s.SoAd_SoConStatus j).offline_released) :
    ((SoAd_SoCon_State_Offline cfg env id s).SoAd_SoConStatus j).offline_released := by
  have hother : j ≠ id →
      ((SoAd_SoCon_PerformOpen cfg env id s).2.SoAd_SoConStatus j).offline_released := by
    intro hj
    have := ((SoAd_State.others_eq_iff s _ id (cfg.connection id).group).mp
      (SoAd_SoCon_PerformOpen_others cfg env id s)).1 j hj
    rw [this]
    exact h
  by_cases hcheck : SoAd_SoCon_CheckOpen cfg id s = E_OK
  swap
  · unfold SoAd_SoCon_State_Offline
    simp only [hcheck, if_false]
    exact h
  by_cases hok : (SoAd_SoCon_PerformOpen cfg env id s).1 = E_OK
  · unfold SoAd_SoCon_State_Offline
    simp only [hcheck, hok, if_true]
    rcases hproto with hp | hp
    · simp only [hp, if_true]
      exact SoAd_SoCon_EnterState_offline_released cfg env id _ _ j hother
    · have hne : TCPIP_IPPROTO_UDP ≠ TCPIP_IPPROTO_TCP := by decide
      simp only [hp, hne, if_false, if_true]
      split_ifs <;> exact SoAd_SoCon_EnterState_offline_released cfg env id _ _ j hother
  · have hstate : SoAd_SoCon_State_Offline cfg env id s
        = (SoAd_SoCon_PerformOpen cfg env id s).2 := by
      unfold SoAd_SoCon_State_Offline
      simp only [hcheck, hok, if_true, if_false]
    rw [hstate]
    by_cases hj : j = id
    swap
    · exact hother hj
    subst hj
    intro _
    obtain ⟨-, hpassive, hactive⟩ := SoAd_SoCon_PerformOpen_status cfg env j s
    by_cases hi : (cfg.group (cfg.connection j).group).initiate = true
    · rw [hactive hi]
      exact (SoAd_SoCon_PerformOpen_failed_slot cfg env j s hok (henv _ _ _)).2
    · rw [hpassive (by simpa using hi)]
      exact ((SoAd_SoCon_CheckOpen_eq_ok cfg j s).mp hcheck).1

/-- C34, as stated, fails: in the test suite, whose groups are all TCP or
UDP, with a transport whose `TcpIp_SoAdGetSocket` writes the id 7 behind its
pointer and fails, the first `SoAd_MainFunction` after `SoAd_Init` leaves
connection 4 OFFLINE with the own socket id 7, and the open check on it does
not pass any more. -/
theorem SoAd_run_failed_get_socket_keeps_id :
    suite_1.config.groups_tcp_or_udp ∧
      (SoAd_run suite_1.config suite_1.env_get_socket_writes 1 [SoAd_Op.MainFunction]
          (SoAd_Init suite_1.config suite_1.state_dirty)).map
        (fun s => ((s.SoAd_SoConStatus 4).state, (s.SoAd_SoConStatus 4).socket_id,
          SoAd_SoCon_CheckOpen suite_1.config 4 s))
        = some (SOAD_SOCON_OFFLINE, 7, E_NOT_OK) := by
  refine ⟨by decide, by decide⟩

/-- C34, amended.  For a configuration whose groups are all TCP or UDP, and a
transport that writes a socket id only when `TcpIp_SoAdGetSocket` succeeds.
After `SoAd_Init` every connection of the configuration is OFFLINE with the
own socket id `TCPIP_SOCKETID_INVALID`; every operation keeps, for every
connection, the property that its own socket id is `TCPIP_SOCKETID_INVALID`
when it is OFFLINE (in `SoAd_MainFunction`, for the ticks of connections of
the configuration); hence in every state reached from `SoAd_Init` by
operations of the module, a connection of the configuration that is OFFLINE
has the own socket id `TCPIP_SOCKETID_INVALID`, and the open check on it
passes exactly when its group is automatic or its `request_open` latch is
set, and its effective remote has a family: no socket id stands in the way. -/
theorem SoAd_run_offline_released (cfg : SoAd_ConfigType) (env : SoAd_Env) (fuel : Nat)
    (hgroups : cfg.groups_tcp_or_udp) (henv : env.sockets_on_success) :
    (∀ s id, id < SOAD_CFG_CONNECTION_COUNT cfg →
      ((SoAd_Init cfg s).SoAd_SoConStatus id).state = SOAD_SOCON_OFFLINE ∧
        ((SoAd_Init cfg s).SoAd_SoConStatus id).socket_id = TCPIP_SOCKETID_INVALID) ∧
      (∀ op s s' id, (s.SoAd_SoConStatus id).offline_released →
        SoAd_Op.run cfg env fuel op s = some s' →
          (s'.SoAd_SoConStatus id).offline_released) ∧
      (∀ ops s final id, SoAd_run cfg env fuel ops (SoAd_Init cfg s) = some final →
        id < SOAD_CFG_CONNECTION_COUNT cfg →
        (final.SoAd_SoConStatus id).state = SOAD_SOCON_OFFLINE →
          (final.SoAd_SoConStatus id).socket_id = TCPIP_SOCKETID_INVALID ∧
            (SoAd_SoCon_CheckOpen cfg id final = E_OK ↔
              ((cfg.group (cfg.connection id).group).automatic = true ∨
                (final.SoAd_SoConStatus id).request_open = true) ∧
              (final.SoAd_SoConStatus id).remote.domain ≠ 0)) := by
  have hinit : ∀ s id, id < SOAD_CFG_CONNECTION_COUNT cfg →
      ((SoAd_Init cfg s).SoAd_SoConStatus id).state = SOAD_SOCON_OFFLINE ∧
        ((SoAd_Init cfg s).SoAd_SoConStatus id).socket_id = TCPIP_SOCKETID_INVALID := by
    intro s id hid
    rw [SoAd_Init_con cfg s id hid]
    exact ⟨rfl, rfl⟩
  have hstep : ∀ op s s' id, (s.SoAd_SoConStatus id).offline_released →
      SoAd_Op.run cfg env fuel op s = some s' → (s'.SoAd_SoConStatus id).offline_released := by
    intro op s s' id hs hrun
    refine SoAd_Op_run_invariant cfg env fuel
      (fun t => (t.SoAd_SoConStatus id).offline_released) ?_ ?_ ?_ ?_ ?_ ?_ op s s' hs hrun
    · intro t t' hl ht
      obtain ⟨hcon, -⟩ := (SoAd_State.link_eq_iff t t').mp hl
      exact SoAd_SoConStatusType.offline_released_congr _ _ (hcon id).1 (hcon id).2.1 ht
    · intro c t hc _ ht
      exact SoAd_SoCon_State_Offline_offline_released cfg env henv c t
        (hgroups.1 _ (hgroups.2 c hc)) id ht
    · intro socket_id remote buf len t ht
      exact SoAd_RxIndication_offline_released cfg env socket_id remote buf len t id ht
    · intro socket_id socket_id_connected remote t ht
      exact SoAd_TcpAccepted_offline_released cfg env socket_id socket_id_connected remote t id ht
    · intro socket_id t ht
      exact SoAd_TcpConnected_offline_released cfg env socket_id t id ht
    · intro id_con socket_id event t ht
      exact SoAd_TcpIpEvent_offline_released cfg env id_con socket_id event t id ht
  refine ⟨hinit, hstep, fun ops s final id hrun hid hst => ?_⟩
  have hfinal : (final.SoAd_SoConStatus id).socket_id = TCPIP_SOCKETID_INVALID :=
    SoAd_run_invariant cfg env fuel (fun t => (t.SoAd_SoConStatus id).offline_released)
      (fun op t t' ht hr => hstep op t t' id ht hr) ops _ final
      (fun _ => (hinit s id hid).2) hrun hst
  refine ⟨hfinal, ?_⟩
  rw [SoAd_SoCon_CheckOpen_eq_ok]
  simp [hfinal]

theorem suite_1_env_sockets_on_success : suite_1.env.sockets_on_success := by
  intro t domain protocol h
  exact absurd rfl h

theorem SoAd_run_offline_released_witness :
    suite_1.config.groups_tcp_or_udp ∧ suite_1.env.sockets_on_success ∧
      (SoAd_run suite_1.config suite_1.env 1 (suite_1.ops_accept_reset.take 2)
        (SoAd_Init suite_1.config suite_1.state_dirty)).map
        (fun s => ((s.SoAd_SoConStatus 0).state, (s.SoAd_SoConStatus 0).socket_id))
      = some (SOAD_SOCON_ONLINE, 42) ∧
      ∃ final, SoAd_run suite_1.config suite_1.env 1 suite_1.ops_accept_reset
          (SoAd_Init suite_1.config suite_1.state_dirty) = some final ∧
        (final.SoAd_SoConStatus 0).state = SOAD_SOCON_OFFLINE ∧
        (final.SoAd_SoConStatus 0).socket_id = TCPIP_SOCKETID_INVALID := by
  refine ⟨by decide, suite_1_env_sockets_on_success, by decide, ?_⟩
  have hstate : (SoAd_run suite_1.config suite_1.env 1 suite_1.ops_accept_reset
      (SoAd_Init suite_1.config suite_1.state_dirty)).map
      (fun s => (s.SoAd_SoConStatus 0).state) = some SOAD_SOCON_OFFLINE := by decide
  cases h : SoAd_run suite_1.config suite_1.env 1 suite_1.ops_accept_reset
      (SoAd_Init suite_1.config suite_1.state_dirty) with
  | none => rw [h] at hstate; simp at hstate
  | some final =>
    rw [h] at hstate
    simp only [Option.map_some', Option.some.injEq] at hstate
    exact ⟨final, rfl, hstate,
      ((SoAd_run_offline_released suite_1.config suite_1.env 1 (by decide)
        suite_1_env_sockets_on_success).2.2 suite_1.ops_accept_reset
        suite_1.state_dirty final 0 h (by decide) hstate).1⟩

/-! ## A session armed with `tx_remain` 0 -/

/-- C35.  `SoAd_Init` leaves `tx_remain` 0 in every connection of the
configuration, and `SoAd_TpTransmit` leaves the `tx_remain` of every
connection as it is, whatever `pdu_info` is.  When `SoAd_TpTransmit` finds
route `route` and the connection the route names is ONLINE with `tx_remain`
0: `SoAd_TpTransmit` returns `E_OK` with the route bound, and the next tick
of that connection ends the session: `tx_route` is unbound, the last call of
the tick is the `tx_confirmation` for the PDU of the route, no other
`tx_confirmation` is called in the tick and data is handed to the transport
at most once.  The session is also ended after the `SoAd_MainFunction` that
follows `SoAd_TpTransmit`. -/
theorem SoAd_SoCon_MainFunction_session_one_tick (cfg : SoAd_ConfigType) (env : SoAd_Env)
    (fuel : Nat) :
    (∀ s id, id < SOAD_CFG_CONNECTION_COUNT cfg →
      ((SoAd_Init cfg s).SoAd_SoConStatus id).tx_remain = 0) ∧
      (∀ pdu_id pdu_info s res s',
        SoAd_TpTransmit cfg env fuel pdu_id pdu_info s = some (res, s') →
          ∀ j, (s'.SoAd_SoConStatus j).tx_remain = (s.SoAd_SoConStatus j).tx_remain) ∧
      (∀ pdu_id pdu_info (s : SoAd_State) route,
        pdu_id < SOAD_CFG_PDUROUTE_COUNT cfg →
        SoAd_GetPduRoute cfg fuel pdu_id = some (E_OK, some route) →
        (s.SoAd_SoConStatus route.destination.connection).state = SOAD_SOCON_ONLINE →
        (s.SoAd_SoConStatus route.destination.connection).tx_remain = 0 →
          ∃ s', SoAd_TpTransmit cfg env fuel pdu_id pdu_info s = some (E_OK, s') ∧
            (s'.SoAd_SoConStatus route.destination.connection).tx_route = some route ∧
            ((SoAd_SoCon_MainFunction cfg env route.destination.connection
              s').SoAd_SoConStatus route.destination.connection).tx_route = none ∧
            s'.trace <+: (SoAd_SoCon_MainFunction cfg env route.destination.connection
              s').trace ∧
            (∃ result, (SoAd_SoCon_MainFunction cfg env route.destination.connection
                s').trace.getLast?
              = some (SoAd_Call.tx_confirmation route.upper route.pdu_id result)) ∧
            (SoAd_SoCon_MainFunction cfg env route.destination.connection
                s').trace.countP SoAd_Call.confirms
              = s'.trace.countP SoAd_Call.confirms + 1 ∧
            (SoAd_SoCon_MainFunction cfg env route.destination.connection
                s').trace.countP SoAd_Call.transmits
              ≤ s'.trace.countP SoAd_Call.transmits + 1 ∧
            (route.destination.connection < SOAD_CFG_CONNECTION_COUNT cfg →
              ((SoAd_MainFunction cfg env s').SoAd_SoConStatus
                route.destination.connection).tx_route = none)) := by
  refine ⟨fun s id hid => ?_, fun pdu_id pdu_info s res s' h j => ?_,
    fun pdu_id pdu_info s route hid hroute hst hremain => ?_⟩
  · rw [SoAd_Init_con cfg s id hid]
    rfl
  · unfold SoAd_TpTransmit at h
    split_ifs at h with hlt
    swap
    · simp only [Option.some.injEq, Prod.mk.injEq] at h
      rw [← h.2]; rfl
    · cases hr : SoAd_GetPduRoute cfg fuel pdu_id with
      | none => simp [hr] at h
      | some v =>
        obtain ⟨r, route⟩ := v
        cases route with
        | none =>
          simp only [hr, Option.some.injEq, Prod.mk.injEq] at h
          rw [← h.2]
        | some route =>
          simp only [hr] at h
          split_ifs at h
          · simp only [Option.some.injEq, Prod.mk.injEq] at h
            rw [← h.2]
            by_cases hj : j = route.destination.connection
            · subst hj; simp
            · rw [SoAd_State.setCon_con_ne _ _ _ _ hj]
          · simp only [Option.some.injEq, Prod.mk.injEq] at h
            rw [← h.2]
  · have harmed : SoAd_TpTransmit cfg env fuel pdu_id pdu_info s
        = some (E_OK, s.setCon route.destination.connection
            { s.SoAd_SoConStatus route.destination.connection with tx_route := some route }) := by
      unfold SoAd_TpTransmit
      simp only [hid, not_true_eq_false, if_false, hroute, if_true]
    have hst' : ((s.setCon route.destination.connection
        { s.SoAd_SoConStatus route.destination.connection with
          tx_route := some route }).SoAd_SoConStatus route.destination.connection).state
        = SOAD_SOCON_ONLINE := by
      simpa using hst
    have hroute' : ((s.setCon route.destination.connection
        { s.SoAd_SoConStatus route.destination.connection with
          tx_route := some route }).SoAd_SoConStatus route.destination.connection).tx_route
        = some route := by
      simp
    have hremain' : ((s.setCon route.destination.connection
        { s.SoAd_SoConStatus route.destination.connection with
          tx_route := some route }).SoAd_SoConStatus route.destination.connection).tx_remain
        = 0 := by
      simpa using hremain
    obtain ⟨h1, h2, h3, h4, h5⟩ := SoAd_SoCon_MainFunction_ends_at_zero cfg env
      route.destination.connection _ route hst' hroute' hremain'
    refine ⟨_, harmed, hroute', h1, h2, h3, h4, h5, fun hc => ?_⟩
    obtain ⟨t, ht, hmain⟩ := SoAd_MainFunction_con cfg env
      (s.setCon route.destination.connection
        { s.SoAd_SoConStatus route.destination.connection with tx_route := some route })
      route.destination.connection hc
    rw [hmain]
    exact (SoAd_SoCon_MainFunction_ends_at_zero cfg env route.destination.connection t route
      (by rw [ht]; exact hst') (by rw [ht]; exact hroute') (by rw [ht]; exact hremain')).1

theorem SoAd_SoCon_MainFunction_session_one_tick_witness :
    SoAd_GetPduRoute suite_1.config 1 0 = some (E_OK, some suite_1.pdu_route_1) ∧
      (suite_1.state_accepted.SoAd_SoConStatus 0).state = SOAD_SOCON_ONLINE ∧
      (suite_1.state_accepted.SoAd_SoConStatus 0).tx_remain = 0 ∧
      ∃ s', SoAd_TpTransmit suite_1.config suite_1.env 1 0 ⟨none, 8⟩ suite_1.state_accepted
          = some (E_OK, s') ∧
        (s'.SoAd_SoConStatus 0).tx_route = some suite_1.pdu_route_1 ∧
        ((SoAd_SoCon_MainFunction suite_1.config suite_1.env 0 s').SoAd_SoConStatus
          0).tx_route = none ∧
        (SoAd_SoCon_MainFunction suite_1.config suite_1.env 0 s').trace.countP
            SoAd_Call.confirms
          = s'.trace.countP SoAd_Call.confirms + 1 ∧
        ((SoAd_MainFunction suite_1.config suite_1.env s').SoAd_SoConStatus 0).tx_route
          = none := by
  obtain ⟨s', h1, h2, h3, -, -, h6, -, h8⟩ :=
    (SoAd_SoCon_MainFunction_session_one_tick suite_1.config suite_1.env 1).2.2 0 ⟨none, 8⟩
      suite_1.state_accepted suite_1.pdu_route_1 (by decide) (by decide) (by decide)
      (by decide)
  exact ⟨by decide, by decide, by decide, s', h1, h2, h3, h6, h8 (by decide)⟩

/-! ## Reception on a connection without an rx route -/

/-- C36.  For a connection with no rx route bound, `SoAd_RxIndication_SoCon`
returns `E_OK` and leaves the state as it is, the calls made included: no
function of a sink is called.  Hence, when `SoAd_RxIndication` settles on a
connection `c` without an rx route and promotes it (`c` is not ONLINE, its
group is UDP and not listen-only, its effective remote is a wildcard) and
entering ONLINE binds no route (no socket route resolves, or the
`start_of_reception` of the route that resolves is not answered
`BUFREQ_OK`): after the call `c` is ONLINE with the refined remote and still
no rx route, and nothing else in its status, no other connection and no group
has changed; the only call made is the `start_of_reception` of the route
that resolved, if one did: no `copy_rx_data`, no `rx_indication`. -/
theorem SoAd_RxIndication_unbound_not_delivered (cfg : SoAd_ConfigType) (env : SoAd_Env) :
    (∀ con_id buf len (t : SoAd_State), (t.SoAd_SoConStatus con_id).rx_route = none →
      SoAd_RxIndication_SoCon env con_id buf len t = (E_OK, t)) ∧
      (∀ socket_id remote buf len (s : SoAd_State) c,
        SoAd_RxIndication_id_con cfg s socket_id remote = some c →
        (s.SoAd_SoConStatus c).rx_route = none →
        (s.SoAd_SoConStatus c).state ≠ SOAD_SOCON_ONLINE →
        (cfg.group (cfg.connection c).group).protocol = TCPIP_IPPROTO_UDP →
        (cfg.group (cfg.connection c).group).listen_only = false →
        SoAd_SockAddrWildcard (s.SoAd_SoConStatus c).remote = TRUE →
        (∀ route_id, SoAd_GetSocketRoute cfg c SOAD_PDUHEADERID_INVALID = some route_id →
          (env.start_of_reception s.trace (cfg.socket_route route_id).destination.upper
            (cfg.socket_route route_id).destination.pdu).1 ≠ BUFREQ_OK) →
          (SoAd_RxIndication cfg env socket_id remote buf len s).SoAd_SoConStatus c
              = { s.SoAd_SoConStatus c with
                  remote := SoAd_SockAddrCopy (s.SoAd_SoConStatus c).remote remote
                  state := SOAD_SOCON_ONLINE } ∧
            ((SoAd_RxIndication cfg env socket_id remote buf len s).SoAd_SoConStatus
              c).rx_route = none ∧
            (∀ j, j ≠ c →
              (SoAd_RxIndication cfg env socket_id remote buf len s).SoAd_SoConStatus j
                = s.SoAd_SoConStatus j) ∧
            (SoAd_RxIndication cfg env socket_id remote buf len s).SoAd_SoGrpStatus
              = s.SoAd_SoGrpStatus ∧
            (SoAd_RxIndication cfg env socket_id remote buf len s).trace
              = s.trace ++
                (match SoAd_GetSocketRoute cfg c SOAD_PDUHEADERID_INVALID with
                  | some route_id =>
                    [SoAd_Call.start_of_reception
                      (cfg.socket_route route_id).destination.upper
                      (cfg.socket_route route_id).destination.pdu 0 0]
                  | none => [])) := by
  have hsocon : ∀ con_id buf len (t : SoAd_State), (t.SoAd_SoConStatus con_id).rx_route = none →
      SoAd_RxIndication_SoCon env con_id buf len t = (E_OK, t) := by
    intro con_id buf len t h
    unfold SoAd_RxIndication_SoCon
    simp only [h]
  refine ⟨hsocon, ?_⟩
  intro socket_id remote buf len s c hid hun hstate hudp hlisten hwild hnone
  have honline : (SoAd_RxIndication_RemoteOnline cfg env c remote default s).1
      = SoAd_SoCon_EnterState cfg env c SOAD_SOCON_ONLINE
          (s.setCon c
            { s.SoAd_SoConStatus c with
              remote := SoAd_SockAddrCopy (s.SoAd_SoConStatus c).remote remote }) := by
    unfold SoAd_RxIndication_RemoteOnline
    simp only [hstate, hudp, hlisten, hwild, ne_eq, not_false_eq_true, if_true]
  have henter : SoAd_SoCon_EnterState cfg env c SOAD_SOCON_ONLINE
        (s.setCon c
          { s.SoAd_SoConStatus c with
            remote := SoAd_SockAddrCopy (s.SoAd_SoConStatus c).remote remote })
      = { SoAd_SoConStatus := Function.update s.SoAd_SoConStatus c
            { s.SoAd_SoConStatus c with
              remote := SoAd_SockAddrCopy (s.SoAd_SoConStatus c).remote remote
              state := SOAD_SOCON_ONLINE }
          SoAd_SoGrpStatus := s.SoAd_SoGrpStatus
          trace := s.trace ++
            (match SoAd_GetSocketRoute cfg c SOAD_PDUHEADERID_INVALID with
              | some route_id =>
                [SoAd_Call.start_of_reception
                  (cfg.socket_route route_id).destination.upper
                  (cfg.socket_route route_id).destination.pdu 0 0]
              | none => []) } := by
    unfold SoAd_SoCon_EnterState
    cases hr : SoAd_GetSocketRoute cfg c SOAD_PDUHEADERID_INVALID with
    | none => simp [SoAd_State.setCon]
    | some route_id =>
      have := hnone route_id hr
      simp only []
      rw [if_neg (by simpa [SoAd_State.setCon] using this)]
      simp [SoAd_State.setCon, SoAd_State.call]
  have hrx : SoAd_RxIndication cfg env socket_id remote buf len s
      = SoAd_SoCon_EnterState cfg env c SOAD_SOCON_ONLINE
          (s.setCon c
            { s.SoAd_SoConStatus c with
              remote := SoAd_SockAddrCopy (s.SoAd_SoConStatus c).remote remote }) := by
    have hroute : ((SoAd_SoCon_EnterState cfg env c SOAD_SOCON_ONLINE
        (s.setCon c
          { s.SoAd_SoConStatus c with
            remote := SoAd_SockAddrCopy (s.SoAd_SoConStatus c).remote remote
              })).SoAd_SoConStatus c).rx_route = none := by
      rw [henter]; simpa using hun
    unfold SoAd_RxIndication
    simp only [hid, honline, hsocon _ _ _ _ hroute, ne_eq, not_true_eq_false, if_false]
  rw [hrx, henter]
  refine ⟨by simp, by simpa using hun, fun j hj => by simp [Function.update_noteq hj], rfl, rfl⟩

theorem SoAd_RxIndication_unbound_not_delivered_witness :
    SoAd_RxIndication_id_con suite_1.config suite_1.state_open 3 suite_1.remote_2 = some 2 ∧
      (suite_1.state_open.SoAd_SoConStatus 2).state = SOAD_SOCON_RECONNECT ∧
      (suite_1.state_open.SoAd_SoConStatus 2).rx_route = none ∧
      ((SoAd_RxIndication suite_1.config suite_1.env_reception_refused 3 suite_1.remote_2
        suite_1.data_100 100 suite_1.state_open).SoAd_SoConStatus 2).state
          = SOAD_SOCON_ONLINE ∧
      ((SoAd_RxIndication suite_1.config suite_1.env_reception_refused 3 suite_1.remote_2
        suite_1.data_100 100 suite_1.state_open).SoAd_SoConStatus 2).remote
          = suite_1.remote_2 ∧
      (SoAd_RxIndication suite_1.config suite_1.env_reception_refused 3 suite_1.remote_2
        suite_1.data_100 100 suite_1.state_open).trace
          = [SoAd_Call.start_of_reception 1 1 0 0] := by
  have h := (SoAd_RxIndication_unbound_not_delivered suite_1.config
    suite_1.env_reception_refused).2 3 suite_1.remote_2 suite_1.data_100 100
    suite_1.state_open 2 (by decide) (by decide) (by decide) (by decide) (by decide)
    (by decide) (by decide)
  refine ⟨by decide, by decide, by decide, ?_, ?_, ?_⟩
  · rw [h.1]
  · rw [h.1]; decide
  · rw [h.2.2.2.2]; decide

end SoAd
